import Mathlib

/-!
# MONICA crop-growth engine: a shallow embedding of `src/core/crop-module.cpp`

Conventions of the embedding.

* A C++ `double` is an exact rational number (`ℚ`): rounding, NaN and infinities are not
  modelled. Every definition is computable.
* A quotient of `ℚ` by zero is 0, which no C++ quotient is. Where a theorem ranges over inputs
  on which a divisor of the source is zero, the quotient is a partial operation (`checkedDiv`,
  the definitions named `_checked`, the assimilation rate); otherwise the theorem assumes that
  the divisor is not 0.
* A `std::vector<double>` is a `List ℚ`. `v[i]` is `vget v i`, `v[i] = x` is `List.set`,
  `v[i] += x` is `vadd v i x`. Reading or writing past the end is undefined in C++; the
  theorems carry the length facts that exclude it.
* `size_t` values are natural numbers; where the source subtracts on `size_t` the wrap
  around `2 ^ 64` is written out (`sizeSub`).
* The C library (`exp`, `log`, `pow`, `sqrt`, `sin`) is not part of the repository: the
  functions that call it take a `Libm` record as their first argument, and the theorems
  hold for every such record.
-/

namespace Monica

/-! ## Primitive helpers -/

/-- The C library functions called by the crop module. -/
structure Libm where
  exp : ℚ → ℚ
  log : ℚ → ℚ
  pow : ℚ → ℚ → ℚ
  sqrt : ℚ → ℚ
  sin : ℚ → ℚ

/-- A rational stand-in for the C library, used only to run the model on concrete inputs:
`pow` is exact for integer exponents, `log x = x - 1` and `exp x = 1 + x` are the first-order
expansions (exact at `1` and `0`), `sqrt` is exact on `0` and `1`. -/
def libmQ : Libm where
  exp := fun x => 1 + x
  log := fun x => x - 1
  pow := fun x y => if y.den = 1 then x ^ y.num else 1
  sqrt := fun x => x
  sin := fun x => x

/-- The value of `v[i]` for a `std::vector<double>`. -/
def vget (v : List ℚ) (i : Nat) : ℚ := v.getD i 0

/-- The statement `v[i] += x`. -/
def vadd (v : List ℚ) (i : Nat) (x : ℚ) : List ℚ := v.set i (vget v i + x)

/-- The value of `m[i][j]` for a `std::vector<std::vector<double>>`. -/
def mget (m : List (List ℚ)) (i j : Nat) : ℚ := vget (m.getD i []) j

/-- The value of `b[i]` for a `std::vector<bool>`. -/
def bget (b : List Bool) (i : Nat) : Bool := b.getD i false

/-- The number of values of a `size_t`, `2 ^ 64`. -/
def sizeRange : Nat := 18446744073709551616

/-- Subtraction on `size_t`, wrapping modulo `2 ^ 64`. -/
def sizeSub (a b : Nat) : Nat := (a + sizeRange - b % sizeRange) % sizeRange

/-- The C++ `fabs`. -/
def fabs (x : ℚ) : ℚ := if x < 0 then -x else x

/-- The quotient `a / b` of two `double` values as a partial operation: no value when `b` is
zero, where the C++ quotient is infinite or not a number. A computation that uses such a
quotient is given no value either: nothing is stated about what the C++ computes from an
infinite or not-a-number intermediate. -/
def checkedDiv (a b : ℚ) : Option ℚ := if b = 0 then none else some (a / b)

/-! ## Phenology: `WangEngelTemperatureResponse` and `fc_CropDevelopmentalStage` -/

/-- `WangEngelTemperatureResponse` (crop-module.cpp, 753-764). -/
def WangEngelTemperatureResponse (lm : Libm) (t tmin topt tmax betacoeff : ℚ) : ℚ :=
  if t < tmin ∨ t > tmax then 0
  else
    let alfa := lm.log 2 / lm.log ((tmax - tmin) / (topt - tmin))
    let numerator := 2 * lm.pow (t - tmin) alfa * lm.pow (topt - tmin) alfa
      - lm.pow (t - tmin) (2 * alfa)
    let denominator := lm.pow (topt - tmin) (2 * alfa)
    lm.pow (numerator / denominator) betacoeff

/-- `WangEngelTemperatureResponse` (crop-module.cpp, 753-764) with its three quotients as
partial operations: no value when one of the divisors is zero. -/
def WangEngelTemperatureResponse_checked (lm : Libm) (t tmin topt tmax betacoeff : ℚ) :
    Option ℚ :=
  if t < tmin ∨ t > tmax then some 0
  else do
    let ratio ← checkedDiv (tmax - tmin) (topt - tmin)
    let alfa ← checkedDiv (lm.log 2) (lm.log ratio)
    let numerator := 2 * lm.pow (t - tmin) alfa * lm.pow (topt - tmin) alfa
      - lm.pow (t - tmin) (2 * alfa)
    let denominator := lm.pow (topt - tmin) (2 * alfa)
    let quotient ← checkedDiv numerator denominator
    pure (lm.pow quotient betacoeff)

/-- The members of `CropModule` and of the soil column that `fc_CropDevelopmentalStage`
reads and does not write. -/
structure DevEnv where
  vc_SoilTemperature : ℚ
  vs_SurfaceWaterStorage : ℚ
  pc_EmergenceMoistureControlOn : Bool
  pc_EmergenceFloodingControlOn : Bool
  pc_DevelopmentAccelerationByNitrogenStress : Int
  pc_AssimilatePartitioningCoeff : List (List ℚ)
  vc_StorageOrgan : Nat
  pc_DroughtStressThreshold : List ℚ
  vc_TranspirationDeficit : ℚ
  vc_OxygenDeficit : ℚ
  vc_CuttingDelayDays : Int
  enable_Phenology_WangEngelTemperatureResponse : Bool
  pc_MinTempDev_WE : ℚ
  pc_OptTempDev_WE : ℚ
  pc_MaxTempDev_WE : ℚ

/-- The by-value arguments of `fc_CropDevelopmentalStage` (crop-module.cpp, 798-811). -/
structure DevArgs where
  vw_MeanAirTemperature : ℚ
  pc_BaseTemperature : List ℚ
  pc_OptimumTemperature : List ℚ
  pc_StageTemperatureSum : List ℚ
  pc_Perennial : Bool
  vc_GrowthCycleEnded : Bool
  vc_TimeStep : ℚ
  d_SoilMoisture_m3 : ℚ
  d_FieldCapacity : ℚ
  d_PermanentWiltingPoint : ℚ
  pc_NumberOfDevelopmentalStages : Nat
  vc_VernalisationFactor : ℚ
  vc_DaylengthFactor : ℚ
  vc_CropNRedux : ℚ

/-- The members of `CropModule` that `fc_CropDevelopmentalStage` writes. -/
structure DevState where
  vc_DevelopmentalStage : Nat
  vc_CurrentTemperatureSum : List ℚ
  vc_CurrentTotalTemperatureSum : ℚ
  vc_ErrorStatus : Bool
  vc_ErrorMessage : String

/-- The loop `for (i_Stage = 0; i_Stage < n; i_Stage++) vc_CurrentTemperatureSum[i_Stage] = 0.0`
(crop-module.cpp, 1065-1068). -/
def zeroStages : Nat → List ℚ → List ℚ
  | 0, v => v
  | n + 1, v => (zeroStages n v).set n 0

/-- `vc_DevelopmentAccelerationByStress` (crop-module.cpp, 932-968). -/
def developmentAccelerationByStress (e : DevEnv) (a : DevArgs) (stage : Nat) : ℚ :=
  let byNitrogen : ℚ :=
    if e.pc_DevelopmentAccelerationByNitrogenStress = 1
        ∧ mget e.pc_AssimilatePartitioningCoeff stage e.vc_StorageOrgan > 0.9 then
      1 + (1 - a.vc_CropNRedux) * (1 - a.vc_CropNRedux)
    else 1
  let byWater : ℚ :=
    if e.vc_TranspirationDeficit < vget e.pc_DroughtStressThreshold stage
        ∧ mget e.pc_AssimilatePartitioningCoeff stage e.vc_StorageOrgan > 0.9 then
      if e.vc_OxygenDeficit < 1 then 1
      else 1 + (1 - e.vc_TranspirationDeficit) * (1 - e.vc_TranspirationDeficit)
    else 1
  max byNitrogen byWater

/-- The thermal increment of a stage `> 0` (crop-module.cpp, 977-1009 and, with the same
text, 1013-1043): the amount added to both the stage accumulator and the total sum. -/
def stageThermalIncrement (lm : Libm) (e : DevEnv) (a : DevArgs) (stage : Nat) : ℚ :=
  let accel := developmentAccelerationByStress e a stage
  if e.enable_Phenology_WangEngelTemperatureResponse then
    let devTresponse := max 0 (WangEngelTemperatureResponse lm a.vw_MeanAirTemperature
      e.pc_MinTempDev_WE e.pc_OptTempDev_WE e.pc_MaxTempDev_WE 1)
    devTresponse * a.vw_MeanAirTemperature * a.vc_VernalisationFactor * a.vc_DaylengthFactor
      * accel * a.vc_TimeStep
  else if a.vw_MeanAirTemperature > vget a.pc_BaseTemperature stage then
    let t := if a.vw_MeanAirTemperature > vget a.pc_OptimumTemperature stage
      then vget a.pc_OptimumTemperature stage else a.vw_MeanAirTemperature
    (t - vget a.pc_BaseTemperature stage) * a.vc_VernalisationFactor * a.vc_DaylengthFactor
      * accel * a.vc_TimeStep
  else 0

/-- The state of a crop at a stage `> 0` after the day's thermal increment and before the
stage-transition test (crop-module.cpp, 932-1045). Both branches of
`if (vc_CuttingDelayDays > 0)` run the same statements. -/
def afterThermalIncrement (lm : Libm) (e : DevEnv) (a : DevArgs) (s : DevState) : DevState :=
  let stage := s.vc_DevelopmentalStage
  let inc := stageThermalIncrement lm e a stage
  if e.vc_CuttingDelayDays > 0 then
    { s with
      vc_CurrentTemperatureSum := vadd s.vc_CurrentTemperatureSum stage inc
      vc_CurrentTotalTemperatureSum := s.vc_CurrentTotalTemperatureSum + inc }
  else
    { s with
      vc_CurrentTemperatureSum := vadd s.vc_CurrentTemperatureSum stage inc
      vc_CurrentTotalTemperatureSum := s.vc_CurrentTotalTemperatureSum + inc }

/-- The stage-transition test of a stage `> 0` (crop-module.cpp, 1047-1073).
`fc_UpdateCropParametersForPerennial` only assigns `pc_` members, none of which is part of
`DevState`; the assignment `vc_GrowthCycleEnded = false` writes the by-value argument. -/
def stageTransition (a : DevArgs) (s : DevState) : DevState :=
  let stage := s.vc_DevelopmentalStage
  if vget s.vc_CurrentTemperatureSum stage ≥ vget a.pc_StageTemperatureSum stage then
    let vc_StageExcessTemperatureSum :=
      vget s.vc_CurrentTemperatureSum stage - vget a.pc_StageTemperatureSum stage
    if stage < sizeSub a.pc_NumberOfDevelopmentalStages 1 then
      { s with
        vc_DevelopmentalStage := stage + 1
        vc_CurrentTemperatureSum :=
          vadd s.vc_CurrentTemperatureSum (stage + 1) vc_StageExcessTemperatureSum }
    else if stage = sizeSub a.pc_NumberOfDevelopmentalStages 1 then
      if a.pc_Perennial ∧ a.vc_GrowthCycleEnded then
        { s with
          vc_DevelopmentalStage := 0
          vc_CurrentTemperatureSum :=
            zeroStages a.pc_NumberOfDevelopmentalStages s.vc_CurrentTemperatureSum
          vc_CurrentTotalTemperatureSum := 0 }
      else s
    else s
  else s

/-- Stage 0 of a perennial crop (crop-module.cpp, 822-847). -/
def germinationPerennial (a : DevArgs) (s : DevState) : DevState :=
  let s1 : DevState :=
    if a.vw_MeanAirTemperature > vget a.pc_BaseTemperature 0 then
      let t := if a.vw_MeanAirTemperature > vget a.pc_OptimumTemperature 0
        then vget a.pc_OptimumTemperature 0 else a.vw_MeanAirTemperature
      let inc := (t - vget a.pc_BaseTemperature 0) * a.vc_VernalisationFactor
        * a.vc_DaylengthFactor * a.vc_TimeStep
      { s with
        vc_CurrentTemperatureSum := vadd s.vc_CurrentTemperatureSum 0 inc
        vc_CurrentTotalTemperatureSum := s.vc_CurrentTotalTemperatureSum + inc }
    else s
  if vget s1.vc_CurrentTemperatureSum 0 ≥ vget a.pc_StageTemperatureSum 0 then
    if 0 < sizeSub a.pc_NumberOfDevelopmentalStages 1 then
      { s1 with vc_DevelopmentalStage := 1 }
    else s1
  else s1

/-- Stage 0 of a non-perennial crop (crop-module.cpp, 848-927): the four combinations of
the emergence moisture and flooding controls, in the order of the source. -/
def germinationAnnual (e : DevEnv) (a : DevArgs) (s : DevState) : DevState :=
  if e.vc_SoilTemperature > vget a.pc_BaseTemperature 0 then
    let vc_CapillaryWater := a.d_FieldCapacity - a.d_PermanentWiltingPoint
    let inc := (e.vc_SoilTemperature - vget a.pc_BaseTemperature 0) * a.vc_TimeStep
    let cur := vadd s.vc_CurrentTemperatureSum 0 inc
    if e.pc_EmergenceMoistureControlOn = true ∧ e.pc_EmergenceFloodingControlOn = true then
      if a.d_SoilMoisture_m3 > 0.2 * vc_CapillaryWater + a.d_PermanentWiltingPoint
          ∧ e.vs_SurfaceWaterStorage < 0.001 then
        if vget cur 0 ≥ vget a.pc_StageTemperatureSum 0 then
          let vc_StageExcessTemperatureSum := vget cur 0 - vget a.pc_StageTemperatureSum 0
          { s with
            vc_DevelopmentalStage := 1
            vc_CurrentTemperatureSum := vadd cur 1 vc_StageExcessTemperatureSum }
        else { s with vc_CurrentTemperatureSum := cur }
      else s
    else if e.pc_EmergenceMoistureControlOn = true
        ∧ e.pc_EmergenceFloodingControlOn = false then
      if a.d_SoilMoisture_m3 > 0.2 * vc_CapillaryWater + a.d_PermanentWiltingPoint then
        if vget cur 0 ≥ vget a.pc_StageTemperatureSum 0 then
          { s with vc_DevelopmentalStage := 1, vc_CurrentTemperatureSum := cur }
        else { s with vc_CurrentTemperatureSum := cur }
      else s
    else if e.pc_EmergenceMoistureControlOn = false
        ∧ e.pc_EmergenceFloodingControlOn = true then
      if e.vs_SurfaceWaterStorage < 0.001 then
        if vget cur 0 ≥ vget a.pc_StageTemperatureSum 0 then
          { s with vc_DevelopmentalStage := 1, vc_CurrentTemperatureSum := cur }
        else { s with vc_CurrentTemperatureSum := cur }
      else s
    else
      if vget cur 0 ≥ vget a.pc_StageTemperatureSum 0 then
        { s with vc_DevelopmentalStage := 1, vc_CurrentTemperatureSum := cur }
      else { s with vc_CurrentTemperatureSum := cur }
  else s

/-- `CropModule::fc_CropDevelopmentalStage` (crop-module.cpp, 798-1085). -/
def fc_CropDevelopmentalStage (lm : Libm) (e : DevEnv) (a : DevArgs) (s : DevState) :
    DevState :=
  if s.vc_DevelopmentalStage = 0 then
    if a.pc_Perennial then germinationPerennial a s else germinationAnnual e a s
  else if s.vc_DevelopmentalStage > 0 then
    stageTransition a (afterThermalIncrement lm e a s)
  else
    { s with vc_ErrorStatus := true, vc_ErrorMessage := "irregular developmental stage" }

/-- The path condition of the perennial reset inside `fc_CropDevelopmentalStage`
(crop-module.cpp, 1061-1071): the tests of the branches that enclose it. -/
def perennialResetFires (lm : Libm) (e : DevEnv) (a : DevArgs) (s : DevState) : Prop :=
  s.vc_DevelopmentalStage > 0
  ∧ vget (afterThermalIncrement lm e a s).vc_CurrentTemperatureSum s.vc_DevelopmentalStage
      ≥ vget a.pc_StageTemperatureSum s.vc_DevelopmentalStage
  ∧ ¬ s.vc_DevelopmentalStage < sizeSub a.pc_NumberOfDevelopmentalStages 1
  ∧ s.vc_DevelopmentalStage = sizeSub a.pc_NumberOfDevelopmentalStages 1
  ∧ a.pc_Perennial = true ∧ a.vc_GrowthCycleEnded = true

instance instDecidablePerennialResetFires (lm : Libm) (e : DevEnv) (a : DevArgs)
    (s : DevState) :
    Decidable (perennialResetFires lm e a s) := by
  unfold perennialResetFires
  infer_instance

/-! ### Concrete phenology inputs -/

/-- A three-stage annual crop on a moist, unflooded soil, both emergence controls on, no
stress acceleration, clipped-linear temperature response. -/
def exampleEnv : DevEnv where
  vc_SoilTemperature := 10
  vs_SurfaceWaterStorage := 0
  pc_EmergenceMoistureControlOn := true
  pc_EmergenceFloodingControlOn := true
  pc_DevelopmentAccelerationByNitrogenStress := 0
  pc_AssimilatePartitioningCoeff := [[1/2, 1/2, 0], [1/2, 1/2, 0], [1/2, 1/2, 0]]
  vc_StorageOrgan := 2
  pc_DroughtStressThreshold := [1, 1, 1]
  vc_TranspirationDeficit := 1
  vc_OxygenDeficit := 1
  vc_CuttingDelayDays := 0
  enable_Phenology_WangEngelTemperatureResponse := false
  pc_MinTempDev_WE := 0
  pc_OptTempDev_WE := 20
  pc_MaxTempDev_WE := 40

/-- A day with mean air temperature 10 for a crop with stage targets 50, 100 and 200: the
daily increment of a stage `≥ 1` is 10. -/
def exampleArgs : DevArgs where
  vw_MeanAirTemperature := 10
  pc_BaseTemperature := [0, 0, 0]
  pc_OptimumTemperature := [30, 30, 30]
  pc_StageTemperatureSum := [50, 100, 200]
  pc_Perennial := false
  vc_GrowthCycleEnded := false
  vc_TimeStep := 1
  d_SoilMoisture_m3 := 0.3
  d_FieldCapacity := 0.4
  d_PermanentWiltingPoint := 0.1
  pc_NumberOfDevelopmentalStages := 3
  vc_VernalisationFactor := 1
  vc_DaylengthFactor := 1
  vc_CropNRedux := 1

/-- A crop at stage 1 with 95 of the 100 degree-days of the stage accumulated. -/
def exampleState : DevState where
  vc_DevelopmentalStage := 1
  vc_CurrentTemperatureSum := [50, 95, 0]
  vc_CurrentTotalTemperatureSum := 95
  vc_ErrorStatus := false
  vc_ErrorMessage := ""

/-- A seed at stage 0 with 45 degree-days accumulated. -/
def seedState : DevState where
  vc_DevelopmentalStage := 0
  vc_CurrentTemperatureSum := [45, 0, 0]
  vc_CurrentTotalTemperatureSum := 0
  vc_ErrorStatus := false
  vc_ErrorMessage := ""

/-- A warm day on a dry top layer: moisture 0.12 is below `0.2 * (0.4 - 0.1) + 0.1 = 0.16`. -/
def dryArgs : DevArgs := { exampleArgs with d_SoilMoisture_m3 := 0.12 }

/-- The soil of `exampleEnv` at 25 degrees. -/
def warmEnv : DevEnv := { exampleEnv with vc_SoilTemperature := 25 }

/-- A perennial crop whose growth cycle has ended. -/
def perennialArgs : DevArgs :=
  { exampleArgs with pc_Perennial := true, vc_GrowthCycleEnded := true }

/-- A crop at the final stage 2 with 195 of the 200 degree-days of the stage accumulated. -/
def finalStageState : DevState where
  vc_DevelopmentalStage := 2
  vc_CurrentTemperatureSum := [50, 100, 195]
  vc_CurrentTotalTemperatureSum := 295
  vc_ErrorStatus := false
  vc_ErrorMessage := ""

/-- A perennial crop with a single developmental stage whose growth cycle has ended. -/
def oneStageArgs : DevArgs :=
  { perennialArgs with
    pc_BaseTemperature := [0]
    pc_OptimumTemperature := [30]
    pc_StageTemperatureSum := [100]
    pc_NumberOfDevelopmentalStages := 1 }

/-- The single-stage crop at its only stage with 120 degree-days accumulated, above the
target 100. -/
def oneStageState : DevState where
  vc_DevelopmentalStage := 0
  vc_CurrentTemperatureSum := [120]
  vc_CurrentTotalTemperatureSum := 120
  vc_ErrorStatus := false
  vc_ErrorMessage := ""

/-- The perennial crop of `perennialArgs` with optimum temperature 3 below the base
temperature 5. -/
def lowOptimumPerennialArgs : DevArgs :=
  { perennialArgs with pc_BaseTemperature := [5, 5, 5], pc_OptimumTemperature := [3, 3, 3] }

/-- A crop at the final stage 2 whose accumulator equals the target 200. -/
def reachedFinalState : DevState where
  vc_DevelopmentalStage := 2
  vc_CurrentTemperatureSum := [50, 100, 200]
  vc_CurrentTotalTemperatureSum := 300
  vc_ErrorStatus := false
  vc_ErrorMessage := ""

/-- A parameter set whose optimum temperature 3 lies below the base temperature 5. -/
def lowOptimumArgs : DevArgs :=
  { exampleArgs with pc_BaseTemperature := [5, 5, 5], pc_OptimumTemperature := [3, 3, 3] }

/-- The Wang-Engel response switched on with cardinal temperatures -4, 4 and 12. -/
def wangEngelEnv : DevEnv :=
  { exampleEnv with
    enable_Phenology_WangEngelTemperatureResponse := true
    pc_MinTempDev_WE := -4
    pc_OptTempDev_WE := 4
    pc_MaxTempDev_WE := 12 }

/-- A frosty day with mean air temperature -2. -/
def frostArgs : DevArgs := { exampleArgs with vw_MeanAirTemperature := -2 }

/-! ## Allocation: the organ loop of `fc_CropDryMatter` -/

/-- The members and parameters that the organ loop of `fc_CropDryMatter` reads and does not
write. `LEAF` and `SHOOT` are the organ constants of a header that is not part of the
sources at hand; the constructor reads the leaf biomass at index 1. -/
structure DryMatterEnv where
  pc_NumberOfOrgans : Nat
  pc_AssimilatePartitioningCoeff : List (List ℚ)
  pc_OrganSenescenceRate : List (List ℚ)
  pc_StorageOrgan : List Bool
  pc_AbovegroundOrgan : List Bool
  vc_StorageOrgan : Nat
  pc_AssimilateReallocation : ℚ
  pc_StageMobilFromStorageCoeff : List ℚ
  vc_KTkc : ℚ
  vc_CropHeatRedux : ℚ
  vc_DroughtImpactOnFertility : ℚ
  vc_CurrentTemperatureSum : List ℚ
  pc_StageTemperatureSum : List ℚ
  pc_Perennial : Bool
  vc_CropNRedux : ℚ
  vc_TimeStep : ℚ
  vc_NConcentrationRoot : ℚ
  LEAF : Nat
  SHOOT : Nat

/-- The members that the organ loop of `fc_CropDryMatter` writes, together with its local
vector `dailyDeadBiomassIncrement`. -/
structure OrganState where
  vc_OrganBiomass : List ℚ
  vc_OrganDeadBiomass : List ℚ
  vc_OrganGreenBiomass : List ℚ
  vc_OrganGrowthIncrement : List ℚ
  vc_OrganSenescenceIncrement : List ℚ
  dailyDeadBiomassIncrement : List ℚ
  vc_AbovegroundBiomass : ℚ
  vc_BelowgroundBiomass : ℚ
  vc_TotalBiomass : ℚ
  vc_TotalBiomassNContent : ℚ
  vc_GrowthCycleEnded : Bool

/-- The relative thermal progress of the stage,
`vc_CurrentTemperatureSum[stage] / pc_StageTemperatureSum[stage]`, for a target
`pc_StageTemperatureSum[stage]` other than 0. With a target of 0 the C++ quotient is infinite
or not a number, while the quotient of `ℚ` is 0: the theorems about the organ loop assume a
target other than 0, and `stageProgress_checked` is the quotient as a partial operation. -/
def stageProgress (env : DryMatterEnv) (stage : Nat) : ℚ :=
  vget env.vc_CurrentTemperatureSum stage / vget env.pc_StageTemperatureSum stage

/-- The stage-interpolated partitioning coefficient of organ `i`, with the heat and drought
reduction of a storage organ (crop-module.cpp, 2783-2792 and 2893-2895). -/
def interpolatedPartitioningCoeff (env : DryMatterEnv) (stage i : Nat) : ℚ :=
  let old0 := mget env.pc_AssimilatePartitioningCoeff (sizeSub stage 1) i
  let new0 := mget env.pc_AssimilatePartitioningCoeff stage i
  let vc_AssimilatePartitioningCoeffOld :=
    if bget env.pc_StorageOrgan i
      then old0 * env.vc_CropHeatRedux * env.vc_DroughtImpactOnFertility else old0
  let vc_AssimilatePartitioningCoeff :=
    if bget env.pc_StorageOrgan i
      then new0 * env.vc_CropHeatRedux * env.vc_DroughtImpactOnFertility else new0
  vc_AssimilatePartitioningCoeffOld
    + (vc_AssimilatePartitioningCoeff - vc_AssimilatePartitioningCoeffOld)
      * stageProgress env stage

/-- The growth increment of organ `i` when the stage is not completed
(crop-module.cpp, 2809-2914). -/
def organGrowthIncrement (env : DryMatterEnv) (stage : Nat) (vc_NetPhotosynthesis : ℚ)
    (mobilization_from_storage : ℚ) (i : Nat) (st : OrganState) : ℚ :=
  let assimilate_partition_leaf : ℚ := 0.05
  if vc_NetPhotosynthesis < 0 then
    if i = env.LEAF then
      let incr := assimilate_partition_leaf * vc_NetPhotosynthesis
      if fabs incr ≤ vget st.vc_OrganBiomass i then incr else (-1) * vget st.vc_OrganBiomass i
    else if i = env.SHOOT then
      let incr := assimilate_partition_leaf * vc_NetPhotosynthesis
      if fabs incr ≤ vget st.vc_OrganBiomass i then incr else (-1) * vget st.vc_OrganBiomass i
    else 0
  else
    let g := vc_NetPhotosynthesis * interpolatedPartitioningCoeff env stage i
      * env.vc_CropNRedux
    if i ≠ env.vc_StorageOrgan then
      g + mobilization_from_storage * interpolatedPartitioningCoeff env stage i
        * env.vc_CropNRedux
    else
      g - mobilization_from_storage * env.vc_CropNRedux
        + mobilization_from_storage * interpolatedPartitioningCoeff env stage i
          * env.vc_CropNRedux

/-- The stage-interpolated senescence rate of organ `i` (crop-module.cpp, 2918-2920). -/
def interpolatedSenescenceRate (env : DryMatterEnv) (stage i : Nat) : ℚ :=
  mget env.pc_OrganSenescenceRate (sizeSub stage 1) i
    + (mget env.pc_OrganSenescenceRate stage i
        - mget env.pc_OrganSenescenceRate (sizeSub stage 1) i)
      * stageProgress env stage

/-- The senescence increment of organ `i` when the stage is not completed
(crop-module.cpp, 2916-2920). -/
def organSenescenceIncrement (env : DryMatterEnv) (stage i : Nat) (st : OrganState) : ℚ :=
  vget st.vc_OrganGreenBiomass i * interpolatedSenescenceRate env stage i

/-- First part of the body of the organ loop (crop-module.cpp, 2794-2922): the growth and
senescence increments of organ `i`. -/
def organIncrements (env : DryMatterEnv) (stage : Nat) (vc_NetPhotosynthesis : ℚ)
    (mobilization_from_storage : ℚ) (i : Nat) (st : OrganState) : OrganState :=
  if stageProgress env stage > 1 then
    { st with
      vc_OrganGrowthIncrement := st.vc_OrganGrowthIncrement.set i 0
      vc_OrganSenescenceIncrement := st.vc_OrganSenescenceIncrement.set i 0
      vc_GrowthCycleEnded := if env.pc_Perennial then true else st.vc_GrowthCycleEnded }
  else
    { st with
      vc_OrganGrowthIncrement := st.vc_OrganGrowthIncrement.set i
        (organGrowthIncrement env stage vc_NetPhotosynthesis mobilization_from_storage i st)
      vc_OrganSenescenceIncrement := st.vc_OrganSenescenceIncrement.set i
        (organSenescenceIncrement env stage i st) }

/-- Second part of the body of the organ loop (crop-module.cpp, 2924-2946): the biomass and
dead biomass of organ `i`, and the reallocation into the storage organ. -/
def organBiomassUpdate (env : DryMatterEnv) (i : Nat) (st : OrganState) : OrganState :=
  if i ≠ env.vc_StorageOrgan then
    let b1 := vadd st.vc_OrganBiomass i (vget st.vc_OrganGrowthIncrement i * env.vc_TimeStep)
    let reallocationRate :=
      env.pc_AssimilateReallocation * vget st.vc_OrganSenescenceIncrement i * env.vc_TimeStep
    let b2 := vadd b1 i (-reallocationRate)
    let dd := st.dailyDeadBiomassIncrement.set i
      (vget st.vc_OrganSenescenceIncrement i - reallocationRate)
    let d1 := vadd st.vc_OrganDeadBiomass i (vget dd i)
    let b3 := vadd b2 env.vc_StorageOrgan reallocationRate
    if i = 0 then
      { st with
        vc_OrganBiomass := vadd b3 0 (-vget dd 0)
        vc_OrganDeadBiomass := vadd d1 0 (-vget dd 0)
        dailyDeadBiomassIncrement := dd
        vc_TotalBiomassNContent :=
          st.vc_TotalBiomassNContent - vget dd 0 * env.vc_NConcentrationRoot }
    else
      { st with
        vc_OrganBiomass := b3
        vc_OrganDeadBiomass := d1
        dailyDeadBiomassIncrement := dd }
  else
    { st with
      vc_OrganBiomass :=
        vadd st.vc_OrganBiomass i (vget st.vc_OrganGrowthIncrement i * env.vc_TimeStep)
      vc_OrganDeadBiomass :=
        vadd st.vc_OrganDeadBiomass i (vget st.vc_OrganSenescenceIncrement i * env.vc_TimeStep) }

/-- Third part of the body of the organ loop (crop-module.cpp, 2948-2953): the green biomass
of organ `i`, with the clamp of a negative value. -/
def organGreenUpdate (i : Nat) (st : OrganState) : OrganState :=
  let g := vget st.vc_OrganBiomass i - vget st.vc_OrganDeadBiomass i
  if g < 0 then
    { st with
      vc_OrganDeadBiomass := st.vc_OrganDeadBiomass.set i (vget st.vc_OrganBiomass i)
      vc_OrganGreenBiomass := st.vc_OrganGreenBiomass.set i 0 }
  else
    { st with vc_OrganGreenBiomass := st.vc_OrganGreenBiomass.set i g }

/-- Last part of the body of the organ loop (crop-module.cpp, 2955-2960): the biomass
totals. -/
def organTotalsUpdate (env : DryMatterEnv) (i : Nat) (st : OrganState) : OrganState :=
  let st1 : OrganState :=
    if bget env.pc_AbovegroundOrgan i then
      { st with vc_AbovegroundBiomass := st.vc_AbovegroundBiomass + vget st.vc_OrganBiomass i }
    else if (!bget env.pc_AbovegroundOrgan i) ∧ i > 0 then
      { st with vc_BelowgroundBiomass := st.vc_BelowgroundBiomass + vget st.vc_OrganBiomass i }
    else st
  { st1 with vc_TotalBiomass := st1.vc_TotalBiomass + vget st1.vc_OrganBiomass i }

/-- The body of the organ loop of `fc_CropDryMatter` for organ `i`
(crop-module.cpp, 2782-2962). -/
def organStep (env : DryMatterEnv) (stage : Nat) (vc_NetPhotosynthesis : ℚ)
    (mobilization_from_storage : ℚ) (i : Nat) (st : OrganState) : OrganState :=
  organTotalsUpdate env i (organGreenUpdate i (organBiomassUpdate env i
    (organIncrements env stage vc_NetPhotosynthesis mobilization_from_storage i st)))

/-- The loop `for (i_Organ = 0; i_Organ < n; i_Organ++)` over the body `organStep`. -/
def organLoop (env : DryMatterEnv) (stage : Nat) (vc_NetPhotosynthesis : ℚ)
    (mobilization_from_storage : ℚ) : Nat → OrganState → OrganState
  | 0, st => st
  | n + 1, st => organStep env stage vc_NetPhotosynthesis mobilization_from_storage n
      (organLoop env stage vc_NetPhotosynthesis mobilization_from_storage n st)

/-- The dry-matter production of `fc_CropDryMatter` (crop-module.cpp, 2758-2962): the
mobilisation from storage, the reset of the totals and of the local vector, and the organ
loop. `vc_Assimilates` is the argument assigned to `vc_NetPhotosynthesis`. -/
def fc_CropDryMatter_organs (env : DryMatterEnv) (vc_DevelopmentalStage : Nat)
    (vc_Assimilates : ℚ) (st : OrganState) : OrganState :=
  let mobilization_from_storage := vget st.vc_OrganBiomass env.vc_StorageOrgan
    * vget env.pc_StageMobilFromStorageCoeff vc_DevelopmentalStage * env.vc_KTkc
  organLoop env vc_DevelopmentalStage vc_Assimilates mobilization_from_storage
    env.pc_NumberOfOrgans
    { st with
      vc_AbovegroundBiomass := 0
      vc_BelowgroundBiomass := 0
      vc_TotalBiomass := 0
      dailyDeadBiomassIncrement := List.replicate env.pc_NumberOfOrgans 0 }

/-- The value of `vc_OrganGrowthIncrement[i]` set by the body of the organ loop. -/
def stepGrowth (env : DryMatterEnv) (stage : Nat) (np mob : ℚ) (i : Nat) (st : OrganState) :
    ℚ :=
  if stageProgress env stage > 1 then 0 else organGrowthIncrement env stage np mob i st

/-- The value of `vc_OrganSenescenceIncrement[i]` set by the body of the organ loop. -/
def stepSenescence (env : DryMatterEnv) (stage : Nat) (i : Nat) (st : OrganState) : ℚ :=
  if stageProgress env stage > 1 then 0 else organSenescenceIncrement env stage i st

/-- The three biomass vectors of an `OrganState` all have `n` entries. -/
def OrganState.sized (st : OrganState) (n : Nat) : Prop :=
  st.vc_OrganBiomass.length = n ∧ st.vc_OrganDeadBiomass.length = n
    ∧ st.vc_OrganGreenBiomass.length = n

/-- All six vectors of an `OrganState`, the local `dailyDeadBiomassIncrement` included, have
`n` entries. -/
def OrganState.fullySized (st : OrganState) (n : Nat) : Prop :=
  st.vc_OrganBiomass.length = n ∧ st.vc_OrganDeadBiomass.length = n
    ∧ st.vc_OrganGreenBiomass.length = n ∧ st.vc_OrganGrowthIncrement.length = n
    ∧ st.vc_OrganSenescenceIncrement.length = n ∧ st.dailyDeadBiomassIncrement.length = n

/-- Organ `i` satisfies the green-biomass identity in the state `st`. -/
def greenIdentity (st : OrganState) (i : Nat) : Prop :=
  vget st.vc_OrganGreenBiomass i
    = max 0 (vget st.vc_OrganBiomass i - vget st.vc_OrganDeadBiomass i)

/-! ### Concrete allocation inputs -/

/-- A crop with five organs, root, leaf, shoot, storage organ and a fifth organ behind the
storage organ, half-way through stage 1. Leaf and fifth organ senesce at 10 % per day, half
of the senesced mass is reallocated, nothing is mobilised from storage. -/
def fiveOrganEnv : DryMatterEnv where
  pc_NumberOfOrgans := 5
  pc_AssimilatePartitioningCoeff := [[1/2, 1/2, 0, 0, 0], [1/5, 1/5, 1/5, 1/5, 1/5]]
  pc_OrganSenescenceRate := [[0, 1/10, 0, 0, 1/10], [0, 1/10, 0, 0, 1/10]]
  pc_StorageOrgan := [false, false, false, true, false]
  pc_AbovegroundOrgan := [false, true, true, true, true]
  vc_StorageOrgan := 3
  pc_AssimilateReallocation := 1/2
  pc_StageMobilFromStorageCoeff := [0, 0]
  vc_KTkc := 1
  vc_CropHeatRedux := 1
  vc_DroughtImpactOnFertility := 1
  vc_CurrentTemperatureSum := [50, 50]
  pc_StageTemperatureSum := [50, 100]
  pc_Perennial := false
  vc_CropNRedux := 1
  vc_TimeStep := 1
  vc_NConcentrationRoot := 1/100
  LEAF := 1
  SHOOT := 2

/-- Organ biomasses 100, 10, 100, 50 and 20 with no dead biomass: every organ has
non-negative biomass and green biomass equal to biomass minus dead biomass. -/
def fiveOrganState : OrganState where
  vc_OrganBiomass := [100, 10, 100, 50, 20]
  vc_OrganDeadBiomass := [0, 0, 0, 0, 0]
  vc_OrganGreenBiomass := [100, 10, 100, 50, 20]
  vc_OrganGrowthIncrement := [0, 0, 0, 0, 0]
  vc_OrganSenescenceIncrement := [0, 0, 0, 0, 0]
  dailyDeadBiomassIncrement := []
  vc_AbovegroundBiomass := 180
  vc_BelowgroundBiomass := 0
  vc_TotalBiomass := 280
  vc_TotalBiomassNContent := 5
  vc_GrowthCycleEnded := false

/-! ## Leaf area: the constructor, `fc_CropGreenArea` and `applyCutting` -/

/-- The initial leaf area index set by the constructor (crop-module.cpp, 181-203):
`vc_OrganBiomass` is filled from `pc_InitialOrganBiomass` for the organs below
`pc_NumberOfOrgans`, all other entries are 0. -/
def constructorLeafAreaIndex (pc_NumberOfOrgans : Nat) (pc_InitialOrganBiomass : List ℚ)
    (pc_SpecificLeafArea : List ℚ) (vc_DevelopmentalStage : Nat) : ℚ :=
  let vc_OrganBiomass1 : ℚ := if 1 < pc_NumberOfOrgans then vget pc_InitialOrganBiomass 1 else 0
  let vc_LeafAreaIndex := vc_OrganBiomass1 * vget pc_SpecificLeafArea vc_DevelopmentalStage
  if vc_LeafAreaIndex ≤ 0 then 0.001 else vc_LeafAreaIndex

/-- The parameters read by `fc_CropGreenArea`. `PI` is a constant of a header that is not
part of the sources at hand; the declared type of `pc_TransitionStageLeafExp` is not in the
sources either and is taken to be `int` (the source comments give -1 as a value). -/
structure GreenAreaEnv where
  enable_T_response_leaf_expansion : Bool
  pc_TransitionStageLeafExp : Int
  pc_EarlyRefLeafExp : ℚ
  pc_RefLeafExp : ℚ
  PI : ℚ

/-- The arguments of `fc_CropGreenArea` (crop-module.cpp, 1222-1234). -/
structure GreenAreaArgs where
  vw_MeanAirTemperature : ℚ
  vc_DevelopmentalStage : Nat
  d_LeafBiomassIncrement : ℚ
  d_LeafBiomassDecrement : ℚ
  vc_CropHeight : ℚ
  vc_CropDiameter : ℚ
  d_SpecificLeafAreaStart : ℚ
  d_SpecificLeafAreaEnd : ℚ
  d_SpecificLeafAreaEarly : ℚ
  d_StageTemperatureSum : ℚ
  d_CurrentTemperatureSum : ℚ
  pc_PlantDensity : ℚ
  vc_TimeStep : ℚ

/-- The temperature response of leaf expansion in `fc_CropGreenArea`
(crop-module.cpp, 1236-1255). The test `vc_DevelopmentalStage + 1 <= pc_TransitionStageLeafExp`
compares a `size_t` with an `int`, which is converted to `size_t`: a negative value wraps
around `2 ^ 64`, so the value -1 makes the test true for every stage. -/
def TempResponseExpansion (lm : Libm) (env : GreenAreaEnv) (a : GreenAreaArgs) : ℚ :=
  if env.enable_T_response_leaf_expansion then
    if (a.vc_DevelopmentalStage + 1) % sizeRange
        ≤ (env.pc_TransitionStageLeafExp % (sizeRange : Int)).toNat then
      let referenceTempResponseExpansion :=
        223.9 * lm.exp (-5.03 * lm.exp (-0.0653 * env.pc_EarlyRefLeafExp))
      min (223.9 * lm.exp (-5.03 * lm.exp (-0.0653 * a.vw_MeanAirTemperature))
        / referenceTempResponseExpansion) 1.3
    else
      let referenceTempResponseExpansion :=
        37.7 * lm.exp (-7.23 * lm.exp (-0.1462 * env.pc_RefLeafExp))
      min (37.7 * lm.exp (-7.23 * lm.exp (-0.1462 * a.vw_MeanAirTemperature))
        / referenceTempResponseExpansion) 1.3
  else 1

/-- `CropModule::fc_CropGreenArea` (crop-module.cpp, 1222-1267): the new values of
`vc_LeafAreaIndex` and `vc_GreenAreaIndex`, from the current `vc_LeafAreaIndex`, for a target
`d_StageTemperatureSum` other than 0. With a target of 0 the C++ quotient of line 1257 is
infinite or not a number, while the quotient of `ℚ` is 0: the theorems about this function
assume a target other than 0, and `fc_CropGreenArea_checked` has the quotient as a partial
operation. -/
def fc_CropGreenArea (lm : Libm) (env : GreenAreaEnv) (a : GreenAreaArgs)
    (vc_LeafAreaIndex : ℚ) : ℚ × ℚ :=
  let lai1 := vc_LeafAreaIndex
    + ((a.d_LeafBiomassIncrement * TempResponseExpansion lm env a
        * (a.d_SpecificLeafAreaStart + (a.d_CurrentTemperatureSum / a.d_StageTemperatureSum
          * (a.d_SpecificLeafAreaEnd - a.d_SpecificLeafAreaStart))) * a.vc_TimeStep)
      - (a.d_LeafBiomassDecrement * a.d_SpecificLeafAreaEarly * a.vc_TimeStep))
  let lai2 := if lai1 ≤ 0 then 0.001 else lai1
  (lai2, lai2 + (a.vc_CropHeight * env.PI * a.vc_CropDiameter * a.pc_PlantDensity))

/-- The unit of a `Cutting::Value`. The type is declared in a header that is not part of the
sources at hand; `applyCutting` compares against these three names. -/
inductive CuttingUnit where
  | percentage
  | biomass
  | LAI
  deriving DecidableEq, Repr

/-- The mode of a `Cutting::Value`. `applyCutting` compares against `cut` and `left`; the
constructor `none` stands for every other value of the undeclared enumeration. -/
inductive CutOrLeft where
  | cut
  | left
  | none
  deriving DecidableEq, Repr

/-- A `Cutting::Value`. -/
structure CuttingValue where
  value : ℚ
  unit : CuttingUnit
  cut_or_left : CutOrLeft

/-- Assignment `m[k] = v` on a `std::map<int, T>`, kept as a list of pairs in increasing key
order. -/
def mapInsert {α : Type} (k : Int) (v : α) : List (Int × α) → List (Int × α)
  | [] => [(k, v)]
  | (k', v') :: t =>
    if k < k' then (k, v) :: (k', v') :: t
    else if k = k' then (k, v) :: t
    else (k', v') :: mapInsert k v t

/-- The value of `exports[k]` on a `std::map<int, double>`: 0 for a key that is absent. -/
def mapFind (m : List (Int × ℚ)) (k : Int) : ℚ :=
  match m.find? (fun p => p.1 = k) with
  | some p => p.2
  | Option.none => 0

/-- `v.at(i)` on a `std::vector<double>`: the exception `std::out_of_range` is `none`. -/
def vat (v : List ℚ) (i : Int) : Option ℚ :=
  if 0 ≤ i ∧ i.toNat < v.length then some (vget v i.toNat) else Option.none

/-- The members that `applyCutting` writes, with its local sums `sumCutBiomass` and
`sumResidueBiomass`. -/
structure CutState where
  vc_OrganBiomass : List ℚ
  vc_OrganDeadBiomass : List ℚ
  vc_OrganGreenBiomass : List ℚ
  vc_AbovegroundBiomass : ℚ
  vc_LeafAreaIndex : ℚ
  sumCutBiomass : ℚ
  sumResidueBiomass : ℚ
  vc_exportedCutBiomass : ℚ
  vc_sumExportedCutBiomass : ℚ
  vc_residueCutBiomass : ℚ
  vc_sumResidueCutBiomass : ℚ
  vc_DevelopmentalStage : Nat
  vc_CurrentTemperatureSum : List ℚ
  vc_CurrentTotalTemperatureSum : ℚ
  vc_CuttingDelayDays : Int
  pc_MaxAssimilationRate : ℚ

/-- The members that `applyCutting` reads and does not write. `defaultUnit` and
`defaultCutOrLeft` are the member initialisers of `Cutting::Value`, declared in a header that
is not part of the sources at hand. -/
structure CutEnv where
  pc_OrganIdsForCutting : List (Int × ℚ)
  defaultUnit : CuttingUnit
  defaultCutOrLeft : CutOrLeft
  pc_StageAfterCut : Int
  pc_CuttingDelayDays : Int
  pc_NumberOfDevelopmentalStages : Nat

/-- The new dead biomass of a cut organ in the `biomass` and `percentage` modes
(crop-module.cpp, 4702-4707 and 4721-4726). -/
def cutDeadBiomass (oldOrganBiomass oldOrganDeadBiomass newOrganBiomass : ℚ) : ℚ :=
  if oldOrganBiomass = 0 then 0
  else newOrganBiomass * min (oldOrganDeadBiomass / oldOrganBiomass) 1

/-- The values `newOrganBiomass`, `cutOrganBiomass` and the new `vc_OrganDeadBiomass[organId]`
computed for one organ by `applyCutting` (crop-module.cpp, 4682-4742). -/
def cutOrgan (organSpec : CuttingValue) (oldOrganBiomass oldOrganDeadBiomass : ℚ)
    (currentLAI currentSLA : ℚ) : ℚ × ℚ × ℚ :=
  let oldOrganGreenBiomass := oldOrganBiomass - oldOrganDeadBiomass
  match organSpec.unit with
  | CuttingUnit.biomass =>
    let r : ℚ × ℚ :=
      match organSpec.cut_or_left with
      | CutOrLeft.cut =>
        (oldOrganBiomass - min organSpec.value oldOrganBiomass,
          min organSpec.value oldOrganBiomass)
      | CutOrLeft.left =>
        (min organSpec.value oldOrganBiomass,
          oldOrganBiomass - min organSpec.value oldOrganBiomass)
      | CutOrLeft.none => (0, 0)
    (r.1, r.2, cutDeadBiomass oldOrganBiomass oldOrganDeadBiomass r.1)
  | CuttingUnit.percentage =>
    let r : ℚ × ℚ :=
      match organSpec.cut_or_left with
      | CutOrLeft.cut =>
        (oldOrganBiomass - organSpec.value * oldOrganBiomass,
          organSpec.value * oldOrganBiomass)
      | CutOrLeft.left =>
        (organSpec.value * oldOrganBiomass,
          oldOrganBiomass - organSpec.value * oldOrganBiomass)
      | CutOrLeft.none => (0, 0)
    (r.1, r.2, cutDeadBiomass oldOrganBiomass oldOrganDeadBiomass r.1)
  | CuttingUnit.LAI =>
    if organSpec.value > currentLAI then (oldOrganGreenBiomass, oldOrganDeadBiomass, 0)
    else
      (min (organSpec.value / currentSLA) oldOrganGreenBiomass,
        oldOrganBiomass - min (organSpec.value / currentSLA) oldOrganGreenBiomass, 0)

/-- The body of the organ loop of `applyCutting` (crop-module.cpp, 4677-4767) for the entry
`(organId, organSpec)` of the map `organs`. -/
def cutStep (exports : List (Int × ℚ)) (currentSLA : ℚ) (st : CutState)
    (p : Int × CuttingValue) : Option CutState :=
  match vat st.vc_OrganBiomass p.1, vat st.vc_OrganDeadBiomass p.1 with
  | some oldOrganBiomass, some oldOrganDeadBiomass =>
    let r := cutOrgan p.2 oldOrganBiomass oldOrganDeadBiomass st.vc_LeafAreaIndex currentSLA
    let newOrganBiomass := r.1
    let cutOrganBiomass := r.2.1
    let dead := st.vc_OrganDeadBiomass.set p.1.toNat r.2.2
    let exportBiomass := cutOrganBiomass * mapFind exports p.1
    some { st with
      vc_OrganDeadBiomass := dead
      vc_AbovegroundBiomass := st.vc_AbovegroundBiomass - cutOrganBiomass
      sumCutBiomass := st.sumCutBiomass + cutOrganBiomass
      sumResidueBiomass := st.sumResidueBiomass + (cutOrganBiomass - exportBiomass)
      vc_OrganBiomass := st.vc_OrganBiomass.set p.1.toNat newOrganBiomass
      vc_OrganGreenBiomass :=
        st.vc_OrganGreenBiomass.set p.1.toNat (newOrganBiomass - vget dead p.1.toNat) }
  | _, _ => Option.none

/-- The loop of `setStage` (crop-module.cpp, 5017-5022) over the stages below `n`: the new
total sum and the new accumulators. -/
def setStageLoop (newStage : Nat) : Nat → ℚ × List ℚ → ℚ × List ℚ
  | 0, r => r
  | n + 1, r =>
    let r' := setStageLoop newStage n r
    if n < newStage then (r'.1 + vget r'.2 n, r'.2) else (r'.1, r'.2.set n 0)

/-- The map `organs` that the loop of `applyCutting` runs over: the argument, or the entries
built from `pc_OrganIdsForCutting` when the argument is empty (crop-module.cpp, 4668-4674). -/
def cutOrgans (env : CutEnv) (organs : List (Int × CuttingValue)) :
    List (Int × CuttingValue) :=
  if organs.isEmpty then
    env.pc_OrganIdsForCutting.foldl
      (fun m yc => mapInsert (yc.1 - 1)
        { value := yc.2, unit := env.defaultUnit, cut_or_left := env.defaultCutOrLeft } m) []
  else organs

/-- `CropModule::applyCutting` (crop-module.cpp, 4658-4803); `none` when a `vector::at`
throws. The call of `_addOrganicMatter` writes no member of the crop module. -/
def applyCutting (env : CutEnv) (organs : List (Int × CuttingValue))
    (exports : List (Int × ℚ)) (cutMaxAssimilationFraction : ℚ) (st : CutState) :
    Option CutState :=
  let currentSLA := st.vc_LeafAreaIndex / vget st.vc_OrganGreenBiomass 1
  match (cutOrgans env organs).foldlM (cutStep exports currentSLA)
      { st with sumCutBiomass := 0, sumResidueBiomass := 0 } with
  | Option.none => Option.none
  | some s1 =>
    let exported := s1.sumCutBiomass - s1.sumResidueBiomass
    let lai := if vget s1.vc_OrganGreenBiomass 1 > 0
      then vget s1.vc_OrganGreenBiomass 1 * currentSLA else s1.vc_LeafAreaIndex
    let newStage := (env.pc_StageAfterCut % sizeRange).toNat
    let r := setStageLoop newStage env.pc_NumberOfDevelopmentalStages
      (0, s1.vc_CurrentTemperatureSum)
    some { s1 with
      vc_exportedCutBiomass := exported
      vc_sumExportedCutBiomass := s1.vc_sumExportedCutBiomass + exported
      vc_residueCutBiomass := s1.sumResidueBiomass
      vc_sumResidueCutBiomass := s1.vc_sumResidueCutBiomass + s1.sumResidueBiomass
      vc_LeafAreaIndex := lai
      vc_CurrentTotalTemperatureSum := r.1
      vc_CurrentTemperatureSum := r.2
      vc_DevelopmentalStage := newStage
      vc_CuttingDelayDays := env.pc_CuttingDelayDays
      pc_MaxAssimilationRate := st.pc_MaxAssimilationRate * cutMaxAssimilationFraction }

/-! ### Concrete leaf-area inputs -/

/-- No temperature response of leaf expansion. -/
def plainGreenAreaEnv : GreenAreaEnv where
  enable_T_response_leaf_expansion := false
  pc_TransitionStageLeafExp := -1
  pc_EarlyRefLeafExp := 12
  pc_RefLeafExp := 20
  PI := 3.14159265358979

/-- A day on which the leaf gains nothing and loses 0.75 kg/ha of senesced mass, at a
specific leaf area of 0.002 ha/kg. -/
def senescingLeafArgs : GreenAreaArgs where
  vw_MeanAirTemperature := 10
  vc_DevelopmentalStage := 1
  d_LeafBiomassIncrement := 0
  d_LeafBiomassDecrement := 0.75
  vc_CropHeight := 0
  vc_CropDiameter := 0
  d_SpecificLeafAreaStart := 0.002
  d_SpecificLeafAreaEnd := 0.002
  d_SpecificLeafAreaEarly := 0.002
  d_StageTemperatureSum := 100
  d_CurrentTemperatureSum := 50
  pc_PlantDensity := 100
  vc_TimeStep := 1

/-- A cutting configuration that resets the crop to stage 1 of 3. -/
def exampleCutEnv : CutEnv where
  pc_OrganIdsForCutting := []
  defaultUnit := CuttingUnit.percentage
  defaultCutOrLeft := CutOrLeft.cut
  pc_StageAfterCut := 1
  pc_CuttingDelayDays := 5
  pc_NumberOfDevelopmentalStages := 3

/-- A small stand before a cut: 10 kg/ha of green leaf with leaf area index 0.005. -/
def smallStand : CutState where
  vc_OrganBiomass := [100, 10, 100]
  vc_OrganDeadBiomass := [0, 0, 0]
  vc_OrganGreenBiomass := [100, 10, 100]
  vc_AbovegroundBiomass := 110
  vc_LeafAreaIndex := 0.005
  sumCutBiomass := 0
  sumResidueBiomass := 0
  vc_exportedCutBiomass := 0
  vc_sumExportedCutBiomass := 0
  vc_residueCutBiomass := 0
  vc_sumResidueCutBiomass := 0
  vc_DevelopmentalStage := 2
  vc_CurrentTemperatureSum := [50, 100, 20]
  vc_CurrentTotalTemperatureSum := 120
  vc_CuttingDelayDays := 0
  pc_MaxAssimilationRate := 30

/-! ## Photosynthesis: the assimilation rate of `fc_CropPhotosynthesis` -/

/-- The members and parameters that the assimilation-rate part of `fc_CropPhotosynthesis`
reads. `D_IN_K`, `TK25` and `RGAS` are constants of headers that are not part of the sources
at hand. -/
structure PhotoEnv where
  pc_CarboxylationPathway : Int
  pc_CO2Method : Int
  enable_Photosynthesis_WangEngelTemperatureResponse : Bool
  AEKC : ℚ
  AEKO : ℚ
  AEVC : ℚ
  KC25 : ℚ
  KO25 : ℚ
  pc_ReferenceMaxAssimilationRate : ℚ
  vc_CuttingDelayDays : Int
  D_IN_K : ℚ
  TK25 : ℚ
  RGAS : ℚ

/-- The arguments of `fc_CropPhotosynthesis` read by its assimilation-rate part
(crop-module.cpp, 1431-1449). -/
structure PhotoArgs where
  vw_MeanAirTemperature : ℚ
  vc_GlobalRadiation : ℚ
  vw_AtmosphericCO2Concentration : ℚ
  pc_MaxAssimilationRate : ℚ
  pc_MinimumTemperatureForAssimilation : ℚ
  pc_OptimumTemperatureForAssimilation : ℚ
  pc_MaximumTemperatureForAssimilation : ℚ

/-- The value of `vc_AssimilationRate` computed by CO2 method 3, Long (1991) and Mitchell et
al. (1995) (crop-module.cpp, 1553-1624). The quotients by a computed divisor are partial
operations: the rate has no value when one of these divisors is zero, where the C++ computes
with an infinite or not-a-number intermediate (the quotients by the constants 34.668,
0.026934 and 0.73547 are plain). The assignment of 0 below the minimum temperature replaces
whatever was computed. -/
def assimilationRateMethod3 (lm : Libm) (env : PhotoEnv) (a : PhotoArgs) : Option ℚ :=
  let t := a.vw_MeanAirTemperature
  let tempK := t + env.D_IN_K
  let rate : Option ℚ := do
    let term1 ← checkedDiv (tempK - env.TK25) (env.TK25 * tempK * env.RGAS)
    let ratio ← checkedDiv tempK env.TK25
    let term2 := lm.sqrt ratio
    let vc_KTkc := lm.exp (env.AEKC * term1) * term2
    let vc_KTko := lm.exp (env.AEKO * term1) * term2
    let Mkc := env.KC25 * vc_KTkc
    let Mko := env.KO25 * vc_KTko
    let KTvmax ←
      (if env.enable_Photosynthesis_WangEngelTemperatureResponse then
        (WangEngelTemperatureResponse_checked lm t a.pc_MinimumTemperatureForAssimilation
          a.pc_OptimumTemperatureForAssimilation a.pc_MaximumTemperatureForAssimilation
          1).map (fun r => max 0.00001 r)
      else some (lm.exp (env.AEVC * term1) * term2) : Option ℚ)
    let vc_AmaxFactor := a.pc_MaxAssimilationRate / 34.668
    let vc_Vcmax := 98 * vc_AmaxFactor * KTvmax
    let Oi := 210 * (0.047 - 0.0013087 * t + 0.000025603 * (t * t)
      - 0.00000021441 * (t * t * t)) / 0.026934
    let Ci := a.vw_AtmosphericCO2Concentration * 0.7
      * (1.674 - 0.061294 * t + 0.0011688 * (t * t) - 0.0000088741 * (t * t * t)) / 0.73547
    let vc_CO2CompensationPoint ←
      checkedDiv (0.5 * 0.21 * vc_Vcmax * Mkc * Oi) (vc_Vcmax * Mko)
    let oxygenRatio ← checkedDiv Oi Mko
    let quotient ← checkedDiv ((Ci - vc_CO2CompensationPoint) * vc_Vcmax)
      (Ci + Mkc * (1 + oxygenRatio))
    pure (quotient * 1.656)
  if t < a.pc_MinimumTemperatureForAssimilation then some 0 else rate

/-- The value of `vc_AssimilationRate` computed by CO2 method 2, Hoffmann (1995)
(crop-module.cpp, 1634-1690), with the quotients by a computed divisor as partial
operations. -/
def assimilationRateMethod2 (lm : Libm) (a : PhotoArgs) : Option ℚ := do
  let t_response ← WangEngelTemperatureResponse_checked lm a.vw_MeanAirTemperature
    a.pc_MinimumTemperatureForAssimilation a.pc_OptimumTemperatureForAssimilation
    a.pc_MaximumTemperatureForAssimilation 1
  let rate := a.pc_MaxAssimilationRate * t_response
  let vc_HoffmannK1 := 220 + 0.158 * (a.vc_GlobalRadiation * 86400 / 1000000)
  let vc_HoffmannC0 := 80 - 0.036 * (a.vc_GlobalRadiation * 86400 / 1000000)
  let upper ← checkedDiv (a.vw_AtmosphericCO2Concentration - vc_HoffmannC0)
    (vc_HoffmannK1 + a.vw_AtmosphericCO2Concentration - vc_HoffmannC0)
  let lower ← checkedDiv (350 - vc_HoffmannC0) (vc_HoffmannK1 + 350 - vc_HoffmannC0)
  let vc_HoffmannKCO2 ← checkedDiv upper lower
  pure (rate * vc_HoffmannKCO2)

/-- The value of the member `vc_AssimilationRate` after the temperature and CO2 response of
`fc_CropPhotosynthesis` (crop-module.cpp, 1533-1791); no value when a quotient on the path
taken has a zero divisor. With pathway 1 and a CO2 method other than 2 and 3 no branch
assigns the member, which keeps the value `previous` of the last call. -/
def assimilationRateResponse (lm : Libm) (env : PhotoEnv) (a : PhotoArgs) (previous : ℚ) :
    Option ℚ :=
  if env.pc_CarboxylationPathway = 1 then
    if env.pc_CO2Method = 3 then assimilationRateMethod3 lm env a
    else if env.pc_CO2Method = 2 then assimilationRateMethod2 lm a
    else some previous
  else
    (WangEngelTemperatureResponse_checked lm a.vw_MeanAirTemperature
      a.pc_MinimumTemperatureForAssimilation a.pc_OptimumTemperatureForAssimilation
      a.pc_MaximumTemperatureForAssimilation 1).map
      (fun t_response => a.pc_MaxAssimilationRate * t_response)

/-- The value of `vc_AssimilationRate` after the cutting-delay override and the floor
(crop-module.cpp, 1793-1859). The override assigns 0.1 whatever the response was; the test
`vc_AssimilationRate < 0.1` of the floor is false for a value that is not a number, which the
floor therefore keeps. The light-interception integral that follows (crop-module.cpp,
1870-1950) reads this value, and nothing after the floor assigns the member. -/
def fc_CropPhotosynthesis_assimilationRate (lm : Libm) (env : PhotoEnv) (a : PhotoArgs)
    (previous : ℚ) : Option ℚ :=
  let r0 := assimilationRateResponse lm env a previous
  let r1 : Option ℚ := if env.vc_CuttingDelayDays > 0 then some 0.1 else r0
  r1.map (fun r => if r < 0.1 then 0.1 else r)

/-! ### Concrete photosynthesis inputs -/

/-- A C4 crop (pathway 2), outside a cutting delay. -/
def c4Env : PhotoEnv where
  pc_CarboxylationPathway := 2
  pc_CO2Method := 3
  enable_Photosynthesis_WangEngelTemperatureResponse := false
  AEKC := 65800
  AEKO := 1400
  AEVC := 68800
  KC25 := 460
  KO25 := 330
  pc_ReferenceMaxAssimilationRate := 30
  vc_CuttingDelayDays := 0
  D_IN_K := 273.15
  TK25 := 298.15
  RGAS := 8.314

/-- A day at 2 degrees for a crop with minimum assimilation temperature 6. -/
def coldDay : PhotoArgs where
  vw_MeanAirTemperature := 2
  vc_GlobalRadiation := 5
  vw_AtmosphericCO2Concentration := 400
  pc_MaxAssimilationRate := 60
  pc_MinimumTemperatureForAssimilation := 6
  pc_OptimumTemperatureForAssimilation := 30
  pc_MaximumTemperatureForAssimilation := 42

/-- Conversion of an `int` to `size_t`: a negative value wraps around `2 ^ 64`. -/
def sizeOfInt (z : Int) : Nat := if z < 0 then (z + sizeRange).toNat else z.toNat

/-- The layer counts `vc_RootingDepth` and `vc_RootingZone` computed by `fc_CropDryMatter`
from the rooting depth in metres (crop-module.cpp, 3103-3109). `int(std::floor(x))` is the
exact integer part: the conversion is defined in C++ only for values in the range of `int`. -/
def fc_CropDryMatter_rootingLayers (vc_RootingDepth_m layerThickness : ℚ) (nols : Nat) :
    Nat × Nat :=
  let d0 := sizeOfInt ⌊0.5 + (vc_RootingDepth_m / layerThickness)⌋
  let vc_RootingDepth := if d0 > nols then nols else d0
  let z0 := sizeOfInt ⌊0.5 + ((1.3 * vc_RootingDepth_m) / layerThickness)⌋
  let vc_RootingZone := if z0 > nols then nols else z0
  (vc_RootingDepth, vc_RootingZone)

/-- The members and soil-column values read by `calcRootDensityFactorAndSum`. -/
structure RootEnv where
  nols : Nat
  layerThickness : ℚ
  vc_RootingDepth : Nat
  vc_RootingZone : Nat
  pc_RootFormFactor : ℚ

/-- The entry `vc_RootDensityFactor[i_Layer]` set by the first loop of
`calcRootDensityFactorAndSum` (crop-module.cpp, 3242-3252). The quotient
`(i_Layer - vc_RootingDepth) / (vc_RootingZone - vc_RootingDepth)` is a division of unsigned
integers; in its branch `vc_RootingDepth ≤ i_Layer < vc_RootingZone`, so neither
subtraction wraps. -/
def rootDensityFactor (lm : Libm) (env : RootEnv) (i_Layer : Nat) : ℚ :=
  if i_Layer < env.vc_RootingDepth then
    lm.exp (-env.pc_RootFormFactor * (i_Layer * env.layerThickness))
  else if i_Layer < env.vc_RootingZone then
    lm.exp (-env.pc_RootFormFactor * (i_Layer * env.layerThickness))
      * (1 - (((i_Layer - env.vc_RootingDepth) / (env.vc_RootingZone - env.vc_RootingDepth)
          : Nat) : ℚ))
  else 0

/-- The loop `for (i = 0; i < n; i++) sum += v[i]` (crop-module.cpp, 3255-3256), from
`sum = 0`. -/
def sumLayers (v : List ℚ) : Nat → ℚ
  | 0 => 0
  | n + 1 => sumLayers v n + vget v n

/-- `CropModule::calcRootDensityFactorAndSum` (crop-module.cpp, 3235-3259). -/
def calcRootDensityFactorAndSum (lm : Libm) (env : RootEnv) : List ℚ × ℚ :=
  let vc_RootDensityFactor := (List.range env.nols).map (rootDensityFactor lm env)
  (vc_RootDensityFactor, sumLayers vc_RootDensityFactor env.vc_RootingZone)

/-- The loop of `fc_CropDryMatter` that assigns `vc_RootDensity[i_Layer]` for the layers
below `n` (crop-module.cpp, 3124-3125). -/
def rootDensityLoop (vc_RootDensityFactor : List ℚ) (vc_RootDensityFactorSum : ℚ)
    (vc_TotalRootLength : ℚ) : Nat → List ℚ → List ℚ
  | 0, vc_RootDensity => vc_RootDensity
  | n + 1, vc_RootDensity =>
    (rootDensityLoop vc_RootDensityFactor vc_RootDensityFactorSum vc_TotalRootLength n
      vc_RootDensity).set n
      ((vget vc_RootDensityFactor n / vc_RootDensityFactorSum) * vc_TotalRootLength)

/-- The root densities assigned by `fc_CropDryMatter` (crop-module.cpp, 3113-3125): the call
of `calcRootDensityFactorAndSum` and the loop over the rooting zone. -/
def fc_CropDryMatter_rootDensity (lm : Libm) (env : RootEnv) (vc_TotalRootLength : ℚ)
    (vc_RootDensity : List ℚ) : List ℚ :=
  let r := calcRootDensityFactorAndSum lm env
  rootDensityLoop r.1 r.2 vc_TotalRootLength env.vc_RootingZone vc_RootDensity

/-! ### Concrete root inputs -/

/-- Ten layers of 0.1 m with rooting depth 3 layers and rooting zone 4 layers; the root form
factor 0 makes every factor inside the rooting depth `exp 0`. -/
def exampleRootEnv : RootEnv where
  nols := 10
  layerThickness := 0.1
  vc_RootingDepth := 3
  vc_RootingZone := 4
  pc_RootFormFactor := 0

/-! ## Ozone impact: `O3-impact.cpp` -/

/-- Read of `a[i]` on a C array of `double` with an `int` index; an index outside the array
is undefined in C++ and reads 0 here. -/
def aget (a : List ℚ) (i : Int) : ℚ := if 0 ≤ i then vget a i.toNat else 0

/-- The statement `a[i] = x` on a C array of `double` with an `int` index. -/
def aset (a : List ℚ) (i : Int) (x : ℚ) : List ℚ := if 0 ≤ i then a.set i.toNat x else a

/-- `O3_uptake` (O3-impact.cpp, 25-30). -/
def O3_uptake (O3a gsc f_WS : ℚ) : ℚ :=
  let fDO3 : ℚ := 0.93
  O3a * gsc * f_WS * fDO3

/-- `hourly_O3_reduction_Ac` (O3-impact.cpp, 32-47). -/
def hourly_O3_reduction_Ac (O3_up gamma1 gamma2 : ℚ) : ℚ :=
  if O3_up > gamma1 / gamma2 ∧ O3_up < (1 + gamma1) / gamma2 then
    1 + gamma1 - gamma2 * O3_up
  else if O3_up > (1 + gamma1) / gamma2 then 0
  else 1

/-- `cumulative_O3_reduction_Ac` (O3-impact.cpp, 49-63). -/
def cumulative_O3_reduction_Ac (fO3s_h_arr : List ℚ) (rO3s : ℚ) (h : Int) : ℚ :=
  if h = 0 then aget fO3s_h_arr h * rO3s
  else aget fO3s_h_arr h * aget fO3s_h_arr (h - 1)

/-- `O3_damage_recovery` (O3-impact.cpp, 65-69). -/
def O3_damage_recovery (fO3s_d fLA : ℚ) : ℚ := fO3s_d + (1 - fO3s_d) * fLA

/-- `O3_recovery_factor_leaf_age` (O3-impact.cpp, 71-82). -/
def O3_recovery_factor_leaf_age (reldev : ℚ) : ℚ :=
  let crit_reldev : ℚ := 0.2
  if reldev > crit_reldev then max 0 (1 - (reldev - crit_reldev) / (1 - crit_reldev))
  else 1

/-- `O3_senescence_factor` (O3-impact.cpp, 84-89). -/
def O3_senescence_factor (gamma3 O3_tot_up : ℚ) : ℚ := max 0.5 (1 - gamma3 * O3_tot_up)

/-- `leaf_senescence_reduction_Ac` (O3-impact.cpp, 91-103). -/
def leaf_senescence_reduction_Ac (fO3l reldev GDD_flowering GDD_maturity : ℚ) : ℚ :=
  let crit_reldev := GDD_flowering / GDD_maturity * fO3l
  if reldev > crit_reldev then max 0 (1 - (reldev - crit_reldev) / (fO3l - crit_reldev))
  else 1

/-- `water_stress_stomatal_closure` (O3-impact.cpp, 105-150). `log10` is `std::log10` of the
C library, passed next to the `Libm` record. -/
def water_stress_stomatal_closure (lm : Libm) (log10 : ℚ → ℚ)
    (upper_thr lower_thr Fshape FC WP SWC ET0 : ℚ) : ℚ :=
  let adj0 := upper_thr + (0.04 * (5 - ET0)) * log10 (10 - 9 * upper_thr)
  let upper_threshold_adj := if adj0 < 0 then 0 else if adj0 > 1 then 1 else adj0
  let WHC_adj := lower_thr - upper_threshold_adj
  let SW_depletion_f :=
    if SWC ≥ FC then 0 else if SWC ≤ WP then 1 else 1 - (SWC - WP) / (FC - WP)
  let Drel :=
    if SW_depletion_f ≤ upper_threshold_adj then 0
    else if SW_depletion_f ≥ lower_thr then 1
    else (SW_depletion_f - upper_threshold_adj) / WHC_adj
  1 - (lm.exp (Drel * Fshape) - 1) / (lm.exp Fshape - 1)

/-- The input record `O3_impact_in` of the hourly ozone step. The type is declared in
`O3-impact.h`, which is not part of the sources at hand; the fields are those that
`FvCB_canopy_hourly` reads. -/
structure O3_impact_in where
  h : Int
  reldev : ℚ
  FC : ℚ
  WP : ℚ
  SWC : ℚ
  ET0 : ℚ
  O3a : ℚ
  gs : ℚ
  GDD_flo : ℚ
  GDD_mat : ℚ

/-- The parameter record `O3_impact_params`, with the fields that `FvCB_canopy_hourly`
reads. -/
structure O3_impact_params where
  upper_thr_stomatal : ℚ
  lower_thr_stomatal : ℚ
  Fshape_stomatal : ℚ
  gamma1 : ℚ
  gamma2 : ℚ
  gamma3 : ℚ

/-- The output record `O3_impact_out`, with the fields that `FvCB_canopy_hourly` writes. -/
structure O3_impact_out where
  cum_O3_up : ℚ
  fO3s_d : ℚ
  fLS : ℚ

/-- The file-scope variables of O3-impact.cpp (lines 155-161), which `FvCB_canopy_hourly`
reads and writes. -/
structure O3Globals where
  fO3s_h : List ℚ
  fO3s_d : ℚ
  rO3s : ℚ
  WS_st_clos : ℚ
  fLA : ℚ
  cum_O3_up : ℚ

/-- The initial values of the file-scope variables: `fO3s_h` is a zero-initialised array of
24 entries. -/
def O3Globals.initial : O3Globals where
  fO3s_h := List.replicate 24 0
  fO3s_d := 1
  rO3s := 1
  WS_st_clos := 1
  fLA := 1
  cum_O3_up := 0

/-- `FvCB_canopy_hourly` (O3-impact.cpp, 163-188): the returned record and the file-scope
variables after the call, from the arguments and the file-scope variables before it. -/
def FvCB_canopy_hourly (lm : Libm) (log10 : ℚ → ℚ) (inp : O3_impact_in)
    (par : O3_impact_params) (g : O3Globals) : O3_impact_out × O3Globals :=
  let g1 : O3Globals :=
    if inp.h = 0 then
      { g with
        fLA := O3_recovery_factor_leaf_age inp.reldev
        rO3s := O3_damage_recovery g.fO3s_d (O3_recovery_factor_leaf_age inp.reldev)
        WS_st_clos := water_stress_stomatal_closure lm log10 par.upper_thr_stomatal
          par.lower_thr_stomatal par.Fshape_stomatal inp.FC inp.WP inp.SWC inp.ET0 }
    else g
  let inst_O3_up := O3_uptake inp.O3a inp.gs g1.WS_st_clos
  let cum := g1.cum_O3_up + inst_O3_up * 3.6
  let arr := aset g1.fO3s_h inp.h (hourly_O3_reduction_Ac inst_O3_up par.gamma1 par.gamma2)
  let fd := cumulative_O3_reduction_Ac arr g1.rO3s inp.h
  let fO3l := O3_senescence_factor par.gamma3 cum
  ({ cum_O3_up := cum
     fO3s_d := fd
     fLS := leaf_senescence_reduction_Ac fO3l inp.reldev inp.GDD_flo inp.GDD_mat },
   { g1 with fO3s_h := arr, fO3s_d := fd, cum_O3_up := cum })

/-! ## Stress: `fc_OxygenDeficiency` and `fc_CropNitrogen` -/

/-- Conversion of a `double` to `int`: truncation towards zero, exact for values in the range
of `int`. -/
def intOfDouble (x : ℚ) : Int := if 0 ≤ x then ⌊x⌋ else ⌈x⌉

/-- The soil values and members read by `fc_OxygenDeficiency`: saturation and moisture of the
three top layers, and the time step. -/
structure OxygenEnv where
  vs_Saturation0 : ℚ
  vs_Saturation1 : ℚ
  vs_Saturation2 : ℚ
  vs_SoilMoisture0 : ℚ
  vs_SoilMoisture1 : ℚ
  vs_SoilMoisture2 : ℚ
  vc_TimeStep : ℚ

/-- `CropModule::fc_OxygenDeficiency` (crop-module.cpp, 723-751): the new values of the
members `vc_TimeUnderAnoxia` and `vc_OxygenDeficit`; the second is the returned value. The
quotient `vc_TimeUnderAnoxia / 4` is a division of `int`, truncating towards zero. -/
def fc_OxygenDeficiency (env : OxygenEnv) (d_CriticalOxygenContent : ℚ)
    (vc_TimeUnderAnoxia : Int) : Int × ℚ :=
  let afpv0 := ((env.vs_Saturation0 + env.vs_Saturation1 + env.vs_Saturation2)
    - (env.vs_SoilMoisture0 + env.vs_SoilMoisture1 + env.vs_SoilMoisture2)) / 3
  let r : Int × ℚ :=
    if afpv0 < d_CriticalOxygenContent then
      let t1 := vc_TimeUnderAnoxia + intOfDouble env.vc_TimeStep
      let t2 := if t1 > 4 then 4 else t1
      let vc_AirFilledPoreVolume := if afpv0 < 0 then 0 else afpv0
      let vc_MaxOxygenDeficit := vc_AirFilledPoreVolume / d_CriticalOxygenContent
      (t2, 1 - ((Int.tdiv t2 4 : Int) : ℚ) * (1 - vc_MaxOxygenDeficit))
    else (0, 1)
  (r.1, if r.2 > 1 then 1 else r.2)

/-- The members and parameters read by `fc_CropNitrogen`. -/
structure NitrogenEnv where
  pc_NConcentrationPN : ℚ
  pc_NConcentrationB0 : ℚ
  pc_LuxuryNCoeff : ℚ
  pc_MinimumNConcentration : ℚ
  pc_NitrogenResponseOn : Bool
  vc_AbovegroundBiomass : ℚ
  vc_BelowgroundBiomass : ℚ
  vc_NConcentrationAbovegroundBiomass : ℚ
  vc_NConcentrationRoot : ℚ

/-- The members written by `fc_CropNitrogen`. -/
structure NitrogenState where
  vc_CriticalNConcentration : ℚ
  vc_TargetNConcentration : ℚ
  vc_NConcentrationAbovegroundBiomassOld : ℚ
  vc_NConcentrationRootOld : ℚ
  vc_CropNRedux : ℚ

/-- The local `vc_RootNRedux` of `fc_CropNitrogen` (crop-module.cpp, 2654-2672); the function
computes it and does not use it. -/
def rootNRedux (lm : Libm) (vc_NConcentrationRoot : ℚ) : ℚ :=
  if vc_NConcentrationRoot < 0.01 then
    if vc_NConcentrationRoot ≤ 0.005 then 0
    else
      let vc_RootNReduxHelper := (vc_NConcentrationRoot - 0.005) / 0.005
      1 - lm.sqrt (1 - vc_RootNReduxHelper * vc_RootNReduxHelper)
  else 1

/-- `CropModule::fc_CropNitrogen` (crop-module.cpp, 2639-2706). -/
def fc_CropNitrogen (lm : Libm) (env : NitrogenEnv) : NitrogenState :=
  let vc_CriticalNConcentration := env.pc_NConcentrationPN
    * (1 + (env.pc_NConcentrationB0
        * lm.exp (-0.26 * (env.vc_AbovegroundBiomass + env.vc_BelowgroundBiomass) / 1000)))
    / 100
  let redux0 : ℚ :=
    if env.vc_NConcentrationAbovegroundBiomass < vc_CriticalNConcentration then
      if env.vc_NConcentrationAbovegroundBiomass ≤ env.pc_MinimumNConcentration then 0
      else
        let vc_CropNReduxHelper :=
          (env.vc_NConcentrationAbovegroundBiomass - env.pc_MinimumNConcentration)
            / (vc_CriticalNConcentration - env.pc_MinimumNConcentration)
        1 - lm.exp (env.pc_MinimumNConcentration - (5 * vc_CropNReduxHelper))
    else 1
  { vc_CriticalNConcentration := vc_CriticalNConcentration
    vc_TargetNConcentration := vc_CriticalNConcentration * env.pc_LuxuryNCoeff
    vc_NConcentrationAbovegroundBiomassOld := env.vc_NConcentrationAbovegroundBiomass
    vc_NConcentrationRootOld := env.vc_NConcentrationRoot
    vc_CropNRedux := if env.pc_NitrogenResponseOn = false then 1 else redux0 }

/-- Example soil: saturation 0.45 and moisture 0.44 in the three top layers, daily step. -/
def wetSoil : OxygenEnv where
  vs_Saturation0 := 0.45
  vs_Saturation1 := 0.45
  vs_Saturation2 := 0.45
  vs_SoilMoisture0 := 0.44
  vs_SoilMoisture1 := 0.44
  vs_SoilMoisture2 := 0.44
  vc_TimeStep := 1


/-- Rational stand-in for `std::log10` in the examples. -/
def log10Q (x : ℚ) : ℚ := x - 1

/-- Example ozone parameters. -/
def exampleO3Params : O3_impact_params where
  upper_thr_stomatal := 0.4
  lower_thr_stomatal := 0.9
  Fshape_stomatal := 2
  gamma1 := 0.06
  gamma2 := 0.0045
  gamma3 := 0.0001

/-- Example input of the hourly ozone step: hour 1 with an ozone concentration of 100 and a
stomatal conductance of 2. -/
def exampleO3Input : O3_impact_in where
  h := 1
  reldev := 0.5
  FC := 0.4
  WP := 0.1
  SWC := 0.3
  ET0 := 3
  O3a := 100
  gs := 2
  GDD_flo := 800
  GDD_mat := 1600

/-- File-scope variables that differ from the initial ones in `fLA` and `rO3s` only. -/
def otherO3Globals : O3Globals where
  fO3s_h := List.replicate 24 0
  fO3s_d := 1
  rO3s := 0.5
  WS_st_clos := 1
  fLA := 0.25
  cum_O3_up := 0

/-- A crop just above the minimum nitrogen concentration: the critical concentration is
`5 * (1 + 0) / 100 = 0.05`, the minimum 0.005 and the concentration of the aboveground
biomass 0.00501. -/
def lowNitrogenEnv : NitrogenEnv where
  pc_NConcentrationPN := 5
  pc_NConcentrationB0 := 0
  pc_LuxuryNCoeff := 1.3
  pc_MinimumNConcentration := 0.005
  pc_NitrogenResponseOn := true
  vc_AbovegroundBiomass := 1000
  vc_BelowgroundBiomass := 200
  vc_NConcentrationAbovegroundBiomass := 0.00501
  vc_NConcentrationRoot := 0.02

/-- The soil of `warmEnv` with both emergence controls switched off. -/
def uncontrolledEnv : DevEnv :=
  { warmEnv with
    pc_EmergenceMoistureControlOn := false
    pc_EmergenceFloodingControlOn := false }

/-- The crop of `exampleArgs` as a perennial crop. -/
def perennialSeedArgs : DevArgs := { exampleArgs with pc_Perennial := true }

/-- Parameters with four entries per stage array and three declared stages, so that the
reads at index 3 stay inside the arrays. -/
def overrunArgs : DevArgs :=
  { exampleArgs with
    pc_BaseTemperature := [0, 0, 0, 0]
    pc_OptimumTemperature := [30, 30, 30, 30]
    pc_StageTemperatureSum := [50, 100, 200, 300] }

/-- The environment of `exampleEnv` with four rows per stage table. -/
def overrunEnv : DevEnv :=
  { exampleEnv with
    pc_AssimilatePartitioningCoeff := [[1/2, 1/2, 0], [1/2, 1/2, 0], [1/2, 1/2, 0], [1/2, 1/2, 0]]
    pc_DroughtStressThreshold := [1, 1, 1, 1] }

/-- A state whose stage index 3 equals the number of stages. -/
def overrunState : DevState where
  vc_DevelopmentalStage := 3
  vc_CurrentTemperatureSum := [50, 100, 200, 0]
  vc_CurrentTotalTemperatureSum := 300
  vc_ErrorStatus := false
  vc_ErrorMessage := ""

/-! ## State transfer: `serialize` and `deserialize` -/

/-- `CropModule::serialize` (crop-module.cpp, 246-248): the body is empty, the message behind
the builder stays as it was. `Msg` stands for the message type `CropModuleState`, whose
schema is not part of the sources at hand; `State` for the members of the module. -/
def serialize {State Msg : Type} (_self : State) (builder : Msg) : Msg := builder

/-- `CropModule::deserialize` (crop-module.cpp, 242-244): the body is empty, the members of
the receiving module stay as they were. -/
def deserialize {State Msg : Type} (self : State) (_reader : Msg) : State := self

/-- The value of `vc_DevelopmentalStage` after `CropModule::step` (crop-module.cpp, 267-477):
`step` assigns the member only inside its call of `fc_CropDevelopmentalStage` (lines
293-306). `e` holds the soil values and the members as they are at that call. -/
def step_DevelopmentalStage (lm : Libm) (e : DevEnv) (a : DevArgs) (s : DevState) : Nat :=
  (fc_CropDevelopmentalStage lm e a s).vc_DevelopmentalStage

/-! ## The constructor -/

/-- The crop parameters that the body of the constructor reads (crop-module.cpp, 168-203).
The two numbers are the values of `speciesParams.pc_NumberOfDevelopmentalStages()` and
`speciesParams.pc_NumberOfOrgans()`; the parameter classes are declared in headers that are
not part of the sources at hand. -/
structure CropParameterSet where
  pc_NumberOfDevelopmentalStages : Nat
  pc_NumberOfOrgans : Nat
  pc_StageTemperatureSum : List ℚ
  pc_InitialOrganBiomass : List ℚ
  pc_AbovegroundOrgan : List Bool
  pc_StorageOrgan : List Bool
  pc_SpecificLeafArea : List ℚ

/-- The members of `CropModule` that the constructor sets in lines 78-203. -/
structure CropModuleMembers where
  vc_CurrentTemperatureSum : List ℚ
  vc_OrganBiomass : List ℚ
  vc_OrganDeadBiomass : List ℚ
  vc_OrganGreenBiomass : List ℚ
  vc_TotalTemperatureSum : ℚ
  vc_TemperatureSumToFlowering : ℚ
  vc_FinalDevelopmentalStage : Nat
  vc_AbovegroundBiomass : ℚ
  vc_TotalBiomass : ℚ
  vc_StorageOrgan : Nat
  vc_RootBiomass : ℚ
  vc_LeafAreaIndex : ℚ
  vc_DevelopmentalStage : Nat

/-- The body of the loop over the stages in the constructor (crop-module.cpp, 171-176). -/
def constructorStageStep (p : CropParameterSet) (i_Stage : Nat) (m : CropModuleMembers) :
    CropModuleMembers :=
  { m with
    vc_TotalTemperatureSum := m.vc_TotalTemperatureSum + vget p.pc_StageTemperatureSum i_Stage
    vc_TemperatureSumToFlowering :=
      if i_Stage < sizeSub p.pc_NumberOfDevelopmentalStages 3 then
        m.vc_TemperatureSumToFlowering + vget p.pc_StageTemperatureSum i_Stage
      else m.vc_TemperatureSumToFlowering }

/-- The first `k` rounds of the loop `for (i_Stage = 1; ...; i_Stage++)`: the indices
`1, ..., k`. -/
def constructorStageLoop (p : CropParameterSet) : Nat → CropModuleMembers → CropModuleMembers
  | 0, m => m
  | k + 1, m => constructorStageStep p (k + 1) (constructorStageLoop p k m)

/-- The body of the loop over the organs in the constructor (crop-module.cpp, 181-193). -/
def constructorOrganStep (p : CropParameterSet) (i_Organ : Nat) (m : CropModuleMembers) :
    CropModuleMembers :=
  { m with
    vc_OrganBiomass := m.vc_OrganBiomass.set i_Organ (vget p.pc_InitialOrganBiomass i_Organ)
    vc_AbovegroundBiomass :=
      if bget p.pc_AbovegroundOrgan i_Organ = true then
        m.vc_AbovegroundBiomass + vget p.pc_InitialOrganBiomass i_Organ
      else m.vc_AbovegroundBiomass
    vc_TotalBiomass := m.vc_TotalBiomass + vget p.pc_InitialOrganBiomass i_Organ
    vc_StorageOrgan :=
      if bget p.pc_StorageOrgan i_Organ = true then i_Organ else m.vc_StorageOrgan }

/-- The loop `for (i_Organ = 0; i_Organ < n; i_Organ++)` of the constructor. -/
def constructorOrganLoop (p : CropParameterSet) : Nat → CropModuleMembers → CropModuleMembers
  | 0, m => m
  | n + 1, m => constructorOrganStep p n (constructorOrganLoop p n m)

/-- The member initialiser list of the constructor (crop-module.cpp, 78, 122-124): the sizes
of the vectors. `init` holds the values that the default member initialisers of the class
declaration (in a header that is not part of the sources at hand) give to the scalar
members. -/
def constructorInitialisers (p : CropParameterSet) (init : CropModuleMembers) :
    CropModuleMembers :=
  { init with
    vc_CurrentTemperatureSum := List.replicate p.pc_NumberOfDevelopmentalStages 0
    vc_OrganBiomass := List.replicate p.pc_NumberOfOrgans 0
    vc_OrganDeadBiomass := List.replicate p.pc_NumberOfOrgans 0
    vc_OrganGreenBiomass := List.replicate p.pc_NumberOfOrgans 0 }

/-- The body of the constructor up to the initial root biomass (crop-module.cpp, 168-203).
The statements after line 203 assign scalars from scalars. -/
def constructorBody (p : CropParameterSet) (m0 : CropModuleMembers) : CropModuleMembers :=
  let m1 := constructorStageLoop p (sizeSub p.pc_NumberOfDevelopmentalStages 1 - 1) m0
  let m2 : CropModuleMembers :=
    { m1 with vc_FinalDevelopmentalStage := sizeSub p.pc_NumberOfDevelopmentalStages 1 }
  let m3 := constructorOrganLoop p p.pc_NumberOfOrgans m2
  let vc_LeafAreaIndex := vget m3.vc_OrganBiomass 1
    * vget p.pc_SpecificLeafArea m3.vc_DevelopmentalStage
  { m3 with
    vc_OrganGreenBiomass := m3.vc_OrganBiomass
    vc_LeafAreaIndex := if vc_LeafAreaIndex ≤ 0 then 0.001 else vc_LeafAreaIndex
    vc_RootBiomass := vget m3.vc_OrganBiomass 0 }

/-- `CropModule::CropModule` (crop-module.cpp, 51-203), for the members of
`CropModuleMembers`. The constructor has no `throw` and reads the parameter arrays with
`operator[]`, so every run ends in `Except.ok`. -/
def CropModule_constructor (p : CropParameterSet) (init : CropModuleMembers) :
    Except String CropModuleMembers :=
  Except.ok (constructorBody p (constructorInitialisers p init))

/-- Default values of the scalar members: all zero. -/
def zeroMembers : CropModuleMembers where
  vc_CurrentTemperatureSum := []
  vc_OrganBiomass := []
  vc_OrganDeadBiomass := []
  vc_OrganGreenBiomass := []
  vc_TotalTemperatureSum := 0
  vc_TemperatureSumToFlowering := 0
  vc_FinalDevelopmentalStage := 0
  vc_AbovegroundBiomass := 0
  vc_TotalBiomass := 0
  vc_StorageOrgan := 0
  vc_RootBiomass := 0
  vc_LeafAreaIndex := 0
  vc_DevelopmentalStage := 0

/-- A parameter set that declares three organs and three stages and whose arrays
`pc_InitialOrganBiomass` and `pc_StageTemperatureSum` have four entries. -/
def longArrayParameters : CropParameterSet where
  pc_NumberOfDevelopmentalStages := 3
  pc_NumberOfOrgans := 3
  pc_StageTemperatureSum := [50, 100, 200, 300]
  pc_InitialOrganBiomass := [10, 20, 30, 40]
  pc_AbovegroundOrgan := [false, true, true]
  pc_StorageOrgan := [false, false, true]
  pc_SpecificLeafArea := [0.002, 0.002, 0.002]

/-- A parameter set whose arrays all have the declared three entries. -/
def consistentParameters : CropParameterSet :=
  { longArrayParameters with
    pc_StageTemperatureSum := [50, 100, 200]
    pc_InitialOrganBiomass := [10, 20, 30] }

/-! ## Water uptake: `fc_CropWaterUptake` -/

/-- Addition of `size_t` values, which wraps around at `2 ^ 64`. -/
def sizeAdd (a b : Nat) : Nat := (a + b) % sizeRange

/-- Conversion `(int)` of a `size_t` value to a 32-bit `int`. -/
def intOfSize (n : Nat) : Int :=
  if n % 4294967296 < 2147483648 then ((n % 4294967296 : Nat) : Int)
  else ((n % 4294967296 : Nat) : Int) - 4294967296

/-- The soil values, members and parameters that `fc_CropWaterUptake` reads and does not
write. The three soil lists hold field capacity, permanent wilting point and moisture of the
layers. -/
structure WaterEnv where
  nols : Nat
  layerThickness : ℚ
  vs_FieldCapacity : List ℚ
  vs_PermanentWiltingPoint : List ℚ
  vs_SoilMoisture_m3 : List ℚ
  vc_CropHeight : ℚ
  vc_KcFactor : ℚ
  vc_RootDensity : List ℚ
  vc_OxygenDeficit : ℚ
  vs_MaxEffectiveRootingDepth : ℚ
  vc_DevelopmentalStage : Nat
  vc_FinalDevelopmentalStage : Nat
  vc_RootingDepth : Nat
  pc_WaterDeficitResponseOn : Bool

/-- The members that `fc_CropWaterUptake` writes. -/
structure WaterState where
  vc_Transpiration : List ℚ
  vc_TranspirationRedux : List ℚ
  vc_RootEffectivity : List ℚ
  vc_PotentialTranspiration : ℚ
  vc_ActualTranspiration : ℚ
  vc_RemainingEvapotranspiration : ℚ
  vc_InterceptionStorage : ℚ
  vc_NetPrecipitation : ℚ
  vc_EvaporatedFromIntercept : ℚ
  vc_TranspirationDeficit : ℚ

/-- The loop `for (i_Layer = 0; i_Layer < n; i_Layer++) v[i_Layer] = 0.0`
(crop-module.cpp, 3445-3450), for one of the three vectors. -/
def zeroLayers : Nat → List ℚ → List ℚ
  | 0, v => v
  | n + 1, v => (zeroLayers n v).set n 0

/-- The value that the first layer loop gives to `vc_TranspirationRedux[i_Layer]`
(crop-module.cpp, 3528-3559), from the available water of the layer. -/
def layerTranspirationRedux (env : WaterEnv) (i_Layer : Nat) : ℚ :=
  let vc_AvailableWater := vget env.vs_FieldCapacity i_Layer
    - vget env.vs_PermanentWiltingPoint i_Layer
  let awp0 := (vget env.vs_SoilMoisture_m3 i_Layer
    - vget env.vs_PermanentWiltingPoint i_Layer) / vc_AvailableWater
  let vc_AvailableWaterPercentage := if awp0 < 0 then 0 else awp0
  let r : ℚ :=
    if vc_AvailableWaterPercentage < 0.15 then vc_AvailableWaterPercentage * 3
    else if vc_AvailableWaterPercentage < 0.3 then
      0.45 + (0.25 * (vc_AvailableWaterPercentage - 0.15) / 0.15)
    else if vc_AvailableWaterPercentage < 0.5 then
      0.7 + (0.275 * (vc_AvailableWaterPercentage - 0.3) / 0.2)
    else if vc_AvailableWaterPercentage < 0.75 then
      0.975 + (0.025 * (vc_AvailableWaterPercentage - 0.5) / 0.25)
    else 1
  if r < 0 then 0 else r

/-- The value that the first layer loop gives to `vc_RootEffectivity[i_Layer]`
(crop-module.cpp, 3528-3574). -/
def layerRootEffectivity (env : WaterEnv) (vc_GroundwaterTable i_Layer : Nat) : ℚ :=
  let vc_AvailableWater := vget env.vs_FieldCapacity i_Layer
    - vget env.vs_PermanentWiltingPoint i_Layer
  let awp0 := (vget env.vs_SoilMoisture_m3 i_Layer
    - vget env.vs_PermanentWiltingPoint i_Layer) / vc_AvailableWater
  let vc_AvailableWaterPercentage := if awp0 < 0 then 0 else awp0
  let e0 : ℚ :=
    if vc_AvailableWaterPercentage < 0.15 then 0.15 + 0.45 * vc_AvailableWaterPercentage / 0.15
    else if vc_AvailableWaterPercentage < 0.3 then
      0.6 + (0.2 * (vc_AvailableWaterPercentage - 0.15) / 0.15)
    else if vc_AvailableWaterPercentage < 0.5 then
      0.8 + (0.2 * (vc_AvailableWaterPercentage - 0.3) / 0.2)
    else 1
  let e1 := if e0 < 0 then 0 else e0
  let e2 := if i_Layer = vc_GroundwaterTable then 0.5 else e1
  let e3 := if i_Layer > vc_GroundwaterTable then 0 else e2
  if ((i_Layer + 1 : Nat) : ℚ) * env.layerThickness ≥ env.vs_MaxEffectiveRootingDepth then 0
  else e3

/-- The vectors and the local `vc_TotalRootEffectivity` of the first layer loop. -/
structure EffectivityState where
  vc_TranspirationRedux : List ℚ
  vc_RootEffectivity : List ℚ
  vc_TotalRootEffectivity : ℚ

/-- The body of the first layer loop (crop-module.cpp, 3526-3578). -/
def effectivityStep (env : WaterEnv) (vc_GroundwaterTable i_Layer : Nat)
    (s : EffectivityState) : EffectivityState :=
  let eff := s.vc_RootEffectivity.set i_Layer
    (layerRootEffectivity env vc_GroundwaterTable i_Layer)
  { vc_TranspirationRedux := s.vc_TranspirationRedux.set i_Layer
      (layerTranspirationRedux env i_Layer)
    vc_RootEffectivity := eff
    vc_TotalRootEffectivity := s.vc_TotalRootEffectivity
      + vget eff i_Layer * vget env.vc_RootDensity i_Layer }

/-- The loop `for (i_Layer = 0; i_Layer < vc_RootingZone; i_Layer++)` over `effectivityStep`.
The local `vc_RemainingTotalRootEffectivity` is a copy of `vc_TotalRootEffectivity` after
each round. -/
def effectivityLoop (env : WaterEnv) (vc_GroundwaterTable : Nat) :
    Nat → EffectivityState → EffectivityState
  | 0, s => s
  | n + 1, s => effectivityStep env vc_GroundwaterTable n
      (effectivityLoop env vc_GroundwaterTable n s)

/-- The value that the second layer loop gives to `vc_Transpiration[i_Layer]`
(crop-module.cpp, 3585-3602); `limit` is `min(vc_RootingZone, vc_GroundwaterTable + 1)`. -/
def layerDemand (env : WaterEnv) (eff : List ℚ) (vc_TotalRootEffectivity
    vc_PotentialTranspiration : ℚ) (limit i_Layer : Nat) : ℚ :=
  if i_Layer > limit then 0
  else if vc_TotalRootEffectivity ≠ 0 then
    vc_PotentialTranspiration
      * ((vget eff i_Layer * vget env.vc_RootDensity i_Layer) / vc_TotalRootEffectivity)
      * env.vc_OxygenDeficit
  else 0

/-- The loop `for (i_Layer = 0; i_Layer < nols; i_Layer++)` that sets the demand of the
layers. -/
def demandLoop (env : WaterEnv) (eff : List ℚ) (vc_TotalRootEffectivity
    vc_PotentialTranspiration : ℚ) (limit : Nat) : Nat → List ℚ → List ℚ
  | 0, v => v
  | n + 1, v => (demandLoop env eff vc_TotalRootEffectivity vc_PotentialTranspiration limit n
      v).set n (layerDemand env eff vc_TotalRootEffectivity vc_PotentialTranspiration limit n)

/-- The inner loop `for (i_Layer2 = start; i_Layer2 < limit; i_Layer2++)` of the third layer
loop (crop-module.cpp, 3639-3644), after `count` rounds: the deficit of a layer is handed to
the layers below it. -/
def redistributeLoop (env : WaterEnv) (eff : List ℚ) (vc_ActualTranspirationDeficit
    vc_RemainingTotalRootEffectivity : ℚ) (start : Nat) : Nat → List ℚ → List ℚ
  | 0, v => v
  | count + 1, v =>
    vadd (redistributeLoop env eff vc_ActualTranspirationDeficit
        vc_RemainingTotalRootEffectivity start count v) (start + count)
      (vc_ActualTranspirationDeficit
        * (vget eff (start + count) * vget env.vc_RootDensity (start + count)
          / vc_RemainingTotalRootEffectivity))

/-- The vector and the scalars that the third layer loop changes. -/
structure UptakeState where
  vc_Transpiration : List ℚ
  vc_RemainingTotalRootEffectivity : ℚ
  vc_ActualTranspiration : ℚ

/-- The local `vc_PotentialTranspirationDeficit` of the third layer loop (crop-module.cpp,
3612-3631), from the demand `t` of the layer. -/
def potentialTranspirationDeficit (env : WaterEnv) (i_Layer : Nat) (t : ℚ) : ℚ :=
  let available := vget env.vs_SoilMoisture_m3 i_Layer
    - vget env.vs_PermanentWiltingPoint i_Layer
  if (t / 1000) / env.layerThickness > available then
    let d0 := (((t / 1000) / env.layerThickness) - available) * env.layerThickness * 1000
    let d1 := if d0 < 0 then 0 else d0
    if d1 > t then t else d1
  else 0

/-- The local `vc_ActualTranspirationDeficit` of the third layer loop (crop-module.cpp,
3632-3635). -/
def actualTranspirationDeficit (env : WaterEnv) (redux : List ℚ) (i_Layer : Nat) (t : ℚ) : ℚ :=
  max (t * (1 - vget redux i_Layer)) (potentialTranspirationDeficit env i_Layer t)

/-- The update of the local `vc_RemainingTotalRootEffectivity` at the start of a round of the
third layer loop (crop-module.cpp, 3608-3611). -/
def remainingRootEffectivity (env : WaterEnv) (eff : List ℚ) (i_Layer : Nat)
    (vc_RemainingTotalRootEffectivity : ℚ) : ℚ :=
  let rem0 := vc_RemainingTotalRootEffectivity
    - vget eff i_Layer * vget env.vc_RootDensity i_Layer
  if rem0 ≤ 0 then 0.00001 else rem0

/-- The guarded inner loop of the third layer loop (crop-module.cpp, 3636-3646). -/
def handOver (env : WaterEnv) (eff : List ℚ) (limit i_Layer : Nat)
    (vc_ActualTranspirationDeficit vc_RemainingTotalRootEffectivity : ℚ) (v : List ℚ) :
    List ℚ :=
  if vc_ActualTranspirationDeficit > 0 then
    if i_Layer < limit then
      redistributeLoop env eff vc_ActualTranspirationDeficit vc_RemainingTotalRootEffectivity
        (i_Layer + 1) (limit - (i_Layer + 1)) v
    else v
  else v

/-- The statements `v[i] = v[i] - deficit; if (v[i] < 0.0) v[i] = 0.0` of the third layer
loop (crop-module.cpp, 3647-3649). -/
def reducedDemand (v : List ℚ) (i_Layer : Nat) (vc_ActualTranspirationDeficit : ℚ) : List ℚ :=
  let t := v.set i_Layer (vget v i_Layer - vc_ActualTranspirationDeficit)
  if vget t i_Layer < 0 then t.set i_Layer 0 else t

/-- The body of the third layer loop (crop-module.cpp, 3604-3655). The local
`vc_CropWaterUptakeFromGroundwater`, which the function sets and does not read, is left
out. -/
def uptakeStep (env : WaterEnv) (redux eff : List ℚ) (limit i_Layer : Nat)
    (s : UptakeState) : UptakeState :=
  let rem := remainingRootEffectivity env eff i_Layer s.vc_RemainingTotalRootEffectivity
  let deficit := actualTranspirationDeficit env redux i_Layer (vget s.vc_Transpiration i_Layer)
  let t := reducedDemand (handOver env eff limit i_Layer deficit rem s.vc_Transpiration)
    i_Layer deficit
  { vc_Transpiration := t
    vc_RemainingTotalRootEffectivity := rem
    vc_ActualTranspiration := s.vc_ActualTranspiration + vget t i_Layer }

/-- The loop `for (i_Layer = 0; i_Layer < limit; i_Layer++)` over `uptakeStep`, after `n`
rounds. -/
def uptakeLoop (env : WaterEnv) (redux eff : List ℚ) (limit : Nat) :
    Nat → UptakeState → UptakeState
  | 0, s => s
  | n + 1, s => uptakeStep env redux eff limit n (uptakeLoop env redux eff limit n s)

/-- The interception part of `fc_CropWaterUptake` (crop-module.cpp, 3456-3513): the new values
of `vc_InterceptionStorage`, `vc_NetPrecipitation`, `vc_RemainingEvapotranspiration` and
`vc_EvaporatedFromIntercept`, in this order. -/
def interception (env : WaterEnv) (vc_SoilCoverage vc_ReferenceEvapotranspiration
    vw_GrossPrecipitation vc_InterceptionStorage : ℚ) : ℚ × ℚ × ℚ × ℚ :=
  let vc_InterceptionStorageOld := vc_InterceptionStorage
  let i0 := (2.5 * env.vc_CropHeight * vc_SoilCoverage) - vc_InterceptionStorage
  let i1 := if i0 < 0 then 0 else i0
  let i2 := if vw_GrossPrecipitation ≤ 0 then 0 else i1
  let vc_Interception := if vw_GrossPrecipitation ≤ i2 then vw_GrossPrecipitation else i2
  let vc_NetPrecipitation :=
    if vw_GrossPrecipitation ≤ i2 then 0 else vw_GrossPrecipitation - i2
  let storage := vc_InterceptionStorageOld + vc_Interception
  let pet0 := vc_ReferenceEvapotranspiration * env.vc_KcFactor
  let vc_PotentialEvapotranspiration := if pet0 > 6.5 then 6.5 else pet0
  if storage > 0 then
    if vc_PotentialEvapotranspiration ≥ storage then
      (0, vc_NetPrecipitation, vc_PotentialEvapotranspiration - storage, storage)
    else
      (storage - vc_PotentialEvapotranspiration, vc_NetPrecipitation, 0,
        vc_PotentialEvapotranspiration)
  else (storage, vc_NetPrecipitation, vc_PotentialEvapotranspiration, 0)

/-- `CropModule::fc_CropWaterUptake` (crop-module.cpp, 3423-3679). -/
def fc_CropWaterUptake (env : WaterEnv) (vc_SoilCoverage : ℚ)
    (vc_RootingZone vc_GroundwaterTable : Nat)
    (vc_ReferenceEvapotranspiration vw_GrossPrecipitation : ℚ) (s : WaterState) :
    WaterState :=
  let ic := interception env vc_SoilCoverage vc_ReferenceEvapotranspiration
    vw_GrossPrecipitation s.vc_InterceptionStorage
  let s0 : WaterState :=
    { s with
      vc_Transpiration := zeroLayers env.nols s.vc_Transpiration
      vc_TranspirationRedux := zeroLayers env.nols s.vc_TranspirationRedux
      vc_RootEffectivity := zeroLayers env.nols s.vc_RootEffectivity
      vc_PotentialTranspiration := 0
      vc_ActualTranspiration := 0
      vc_InterceptionStorage := ic.1
      vc_NetPrecipitation := ic.2.1
      vc_RemainingEvapotranspiration := ic.2.2.1
      vc_EvaporatedFromIntercept := ic.2.2.2 }
  if env.vc_DevelopmentalStage < env.vc_FinalDevelopmentalStage then
    let vc_PotentialTranspiration := s0.vc_RemainingEvapotranspiration * vc_SoilCoverage
    let limit := min vc_RootingZone (sizeAdd vc_GroundwaterTable 1)
    let l1 := effectivityLoop env vc_GroundwaterTable vc_RootingZone
      { vc_TranspirationRedux := s0.vc_TranspirationRedux
        vc_RootEffectivity := s0.vc_RootEffectivity
        vc_TotalRootEffectivity := 0 }
    let demand := demandLoop env l1.vc_RootEffectivity l1.vc_TotalRootEffectivity
      vc_PotentialTranspiration limit env.nols s0.vc_Transpiration
    let l3 := uptakeLoop env l1.vc_TranspirationRedux l1.vc_RootEffectivity limit limit
      { vc_Transpiration := demand
        vc_RemainingTotalRootEffectivity := l1.vc_TotalRootEffectivity
        vc_ActualTranspiration := 0 }
    let deficit0 :=
      if vc_PotentialTranspiration > 0 then l3.vc_ActualTranspiration / vc_PotentialTranspiration
      else 1
    let vm_GroundwaterDistance := intOfSize vc_GroundwaterTable - intOfSize env.vc_RootingDepth
    let deficit1 := if vm_GroundwaterDistance ≤ 1 then 1 else deficit0
    { s0 with
      vc_Transpiration := l3.vc_Transpiration
      vc_TranspirationRedux := l1.vc_TranspirationRedux
      vc_RootEffectivity := l1.vc_RootEffectivity
      vc_PotentialTranspiration := vc_PotentialTranspiration
      vc_ActualTranspiration := l3.vc_ActualTranspiration
      vc_TranspirationDeficit :=
        if env.pc_WaterDeficitResponseOn = false then 1 else deficit1 }
  else s0

/-- Example soil of four layers of 0.1 m with a dry second layer, for a crop of height 0.5
with roots in the three upper layers. -/
def exampleWaterEnv : WaterEnv where
  nols := 4
  layerThickness := 0.1
  vs_FieldCapacity := [0.4, 0.4, 0.4, 0.4]
  vs_PermanentWiltingPoint := [0.1, 0.1, 0.1, 0.1]
  vs_SoilMoisture_m3 := [0.3, 0.12, 0.25, 0.3]
  vc_CropHeight := 0.5
  vc_KcFactor := 1
  vc_RootDensity := [4, 2, 1, 0]
  vc_OxygenDeficit := 1
  vs_MaxEffectiveRootingDepth := 2
  vc_DevelopmentalStage := 2
  vc_FinalDevelopmentalStage := 5
  vc_RootingDepth := 2
  pc_WaterDeficitResponseOn := true

/-- State before the example day: the vectors hold the values of the day before. -/
def exampleWaterState : WaterState where
  vc_Transpiration := [1, 1, 1, 0]
  vc_TranspirationRedux := [1, 1, 1, 0]
  vc_RootEffectivity := [1, 1, 1, 0]
  vc_PotentialTranspiration := 3
  vc_ActualTranspiration := 3
  vc_RemainingEvapotranspiration := 3
  vc_InterceptionStorage := 0
  vc_NetPrecipitation := 0
  vc_EvaporatedFromIntercept := 0
  vc_TranspirationDeficit := 1

/-! ## Vernalisation: `fc_VernalisationFactor` -/

/-- The local `vc_EffectiveVernalisation` of `fc_VernalisationFactor` (crop-module.cpp,
654-688), from the mean air temperature. -/
def effectiveVernalisation (vw_MeanAirTemperature : ℚ) : ℚ :=
  if vw_MeanAirTemperature > -4 ∧ vw_MeanAirTemperature ≤ 0 then
    (vw_MeanAirTemperature + 4) / 4
  else if vw_MeanAirTemperature > 0 ∧ vw_MeanAirTemperature ≤ 3 then 1
  else if vw_MeanAirTemperature > 3 ∧ vw_MeanAirTemperature ≤ 7 then
    1 - (0.2 * (vw_MeanAirTemperature - 3) / 4)
  else if vw_MeanAirTemperature > 7 ∧ vw_MeanAirTemperature ≤ 9 then
    0.8 - (0.4 * (vw_MeanAirTemperature - 7) / 2)
  else if vw_MeanAirTemperature > 9 ∧ vw_MeanAirTemperature ≤ 18 then
    0.4 - (0.4 * (vw_MeanAirTemperature - 9) / 9)
  else if vw_MeanAirTemperature ≤ -4 ∨ vw_MeanAirTemperature > 18 then 0
  else 1

/-- `CropModule::fc_VernalisationFactor` (crop-module.cpp, 641-714): the returned pair, the new
`vc_VernalisationFactor` and the new number of vernalisation days. -/
def fc_VernalisationFactor (vw_MeanAirTemperature vc_TimeStep d_VernalisationRequirement
    d_VernalisationDays : ℚ) : ℚ × ℚ :=
  if d_VernalisationRequirement = 0 then (1, d_VernalisationDays)
  else
    let days := d_VernalisationDays
      + effectiveVernalisation vw_MeanAirTemperature * vc_TimeStep
    let vc_VernalisationThreshold := min d_VernalisationRequirement 9 - 1
    if vc_VernalisationThreshold ≥ 1 then
      let f := (days - vc_VernalisationThreshold)
        / (d_VernalisationRequirement - vc_VernalisationThreshold)
      (if f < 0 then 0 else f, days)
    else (1, days)

/-! ## Management: `setStage` and `applyFruitHarvest` -/

/-- `CropModule::setStage` (crop-module.cpp, 5015-5025). -/
def setStage (pc_NumberOfDevelopmentalStages newStage : Nat) (s : DevState) : DevState :=
  let r := setStageLoop newStage pc_NumberOfDevelopmentalStages (0, s.vc_CurrentTemperatureSum)
  { s with
    vc_CurrentTotalTemperatureSum := r.1
    vc_CurrentTemperatureSum := r.2
    vc_DevelopmentalStage := newStage }

/-- The members that `applyFruitHarvest` reads and writes. -/
structure HarvestState where
  vc_OrganBiomass : List ℚ
  vc_AbovegroundBiomass : ℚ
  vc_TotalBiomassNContent : ℚ
  vc_CurrentTemperatureSum : List ℚ
  vc_CurrentTotalTemperatureSum : ℚ
  vc_DevelopmentalStage : Nat
  pc_MaxAssimilationRate : ℚ

/-- `CropModule::applyFruitHarvest` (crop-module.cpp, 4810-4847). The local vector
`new_OrganBiomass` receives the harvested fruit biomass as its only entry and is then
assigned to `vc_OrganBiomass`; the exception of `vc_OrganBiomass.at(3)` is `none`. -/
def applyFruitHarvest (pc_NumberOfDevelopmentalStages : Nat) (yieldPercentage : ℚ)
    (s : HarvestState) : Option HarvestState := do
  let old_above_biomass := s.vc_AbovegroundBiomass
  let fruit ← vat s.vc_OrganBiomass 3
  let fruitBiomass := fruit * yieldPercentage
  let removing_biomass := 0 + fruitBiomass
  let new_OrganBiomass : List ℚ := [fruitBiomass]
  pure
    { vc_OrganBiomass := new_OrganBiomass
      vc_AbovegroundBiomass := s.vc_AbovegroundBiomass - fruitBiomass
      vc_TotalBiomassNContent :=
        (removing_biomass / old_above_biomass) * s.vc_TotalBiomassNContent
      vc_CurrentTemperatureSum :=
        zeroStages pc_NumberOfDevelopmentalStages s.vc_CurrentTemperatureSum
      vc_CurrentTotalTemperatureSum := 0
      vc_DevelopmentalStage := 0
      pc_MaxAssimilationRate := s.pc_MaxAssimilationRate * 0.9 }

/-- A crop with four organs before fruit harvest: root 10, leaf 20, shoot 30, fruit 40. -/
def fruitCrop : HarvestState where
  vc_OrganBiomass := [10, 20, 30, 40]
  vc_AbovegroundBiomass := 90
  vc_TotalBiomassNContent := 3
  vc_CurrentTemperatureSum := [50, 100, 150]
  vc_CurrentTotalTemperatureSum := 300
  vc_DevelopmentalStage := 2
  pc_MaxAssimilationRate := 30

/-- A crop at the final stage 2 with all three accumulators filled. -/
def lateState : DevState where
  vc_DevelopmentalStage := 2
  vc_CurrentTemperatureSum := [50, 100, 150]
  vc_CurrentTotalTemperatureSum := 300
  vc_ErrorStatus := false
  vc_ErrorMessage := ""

/-! ## The formulas of the specification for phenology and roots

These three definitions follow the words of the specification; the theorems compare them
with the definitions taken from the source. -/

/-- The daily thermal increment in the words of the specification:
`max(0, min(T, Topt) - Tbase) * vernFactor * daylenFactor * accelerationFactor * dt`, with the
acceleration factor of the source. -/
def specThermalIncrement (e : DevEnv) (a : DevArgs) (stage : Nat) : ℚ :=
  max 0 (min a.vw_MeanAirTemperature (vget a.pc_OptimumTemperature stage)
      - vget a.pc_BaseTemperature stage)
    * a.vc_VernalisationFactor * a.vc_DaylengthFactor
    * developmentAccelerationByStress e a stage * a.vc_TimeStep

/-- The acceleration factor in the words of the specification:
`max(1 + (1 - nConc)^2, 1 + (1 - transpDeficit)^2)` when the partitioning coefficient of the
storage organ exceeds 0.9, and 1 otherwise. -/
def specAccelerationFactor (e : DevEnv) (a : DevArgs) (stage : Nat) : ℚ :=
  if mget e.pc_AssimilatePartitioningCoeff stage e.vc_StorageOrgan > 0.9 then
    max (1 + (1 - a.vc_CropNRedux) ^ 2) (1 + (1 - e.vc_TranspirationDeficit) ^ 2)
  else 1

/-- The root-density factor of a layer between rooting depth and rooting zone in the words
of the specification: the exponential value times a linear taper, with real-valued
division. -/
def specRootDensityFactor (lm : Libm) (env : RootEnv) (i_Layer : Nat) : ℚ :=
  lm.exp (-env.pc_RootFormFactor * (i_Layer * env.layerThickness))
    * (1 - ((i_Layer : ℚ) - env.vc_RootingDepth) / ((env.vc_RootingZone : ℚ) - env.vc_RootingDepth))

/-- An environment in which the storage organ takes the whole assimilate at every stage, with
the acceleration by nitrogen stress switched off and no water stress. -/
def storageEnv : DevEnv :=
  { exampleEnv with pc_AssimilatePartitioningCoeff := [[0, 0, 1], [0, 0, 1], [0, 0, 1]] }

/-- The day of `exampleArgs` for a crop under nitrogen stress, `vc_CropNRedux = 1/2`. -/
def nitrogenStressArgs : DevArgs := { exampleArgs with vc_CropNRedux := 1 / 2 }

/-- The environment of `storageEnv` with the acceleration by nitrogen stress switched on and
a transpiration deficit of 1/2 below the drought threshold 1. -/
def stressedStorageEnv : DevEnv :=
  { storageEnv with
    pc_DevelopmentAccelerationByNitrogenStress := 1
    vc_TranspirationDeficit := 1 / 2 }

/-- Ten layers of 0.1 m with rooting depth 2 layers and rooting zone 4 layers, root form
factor 0. -/
def taperRootEnv : RootEnv where
  nols := 10
  layerThickness := 0.1
  vc_RootingDepth := 2
  vc_RootingZone := 4
  pc_RootFormFactor := 0

/-! ## Division by the thermal-sum target of the stage

In the definitions of this section the division by the thermal-sum target is the partial
operation `checkedDiv`, without a value when the target is zero. `fc_CropGreenArea` and
`stageProgress` use the total division of `ℚ` and stand for the code only where the target is
not zero. -/

/-- `CropModule::fc_KcFactor` (crop-module.cpp, 1101-1134), with the division as a partial
operation. -/
def fc_KcFactor (vc_DevelopmentalStage : Nat) (d_StageTemperatureSum d_CurrentTemperatureSum
    pc_InitialKcFactor d_StageKcFactor d_EarlierStageKcFactor : ℚ) : Option ℚ := do
  let rel0 ←
    if d_StageTemperatureSum = 0 then some 0
    else checkedDiv d_CurrentTemperatureSum d_StageTemperatureSum
  let vc_RelativeDevelopment : ℚ := if rel0 > 1 then 1 else rel0
  if vc_DevelopmentalStage = 0 then
    pure (pc_InitialKcFactor + (d_StageKcFactor - pc_InitialKcFactor) * vc_RelativeDevelopment)
  else
    pure (d_EarlierStageKcFactor
      + ((d_StageKcFactor - d_EarlierStageKcFactor) * vc_RelativeDevelopment))

/-- `CropModule::fc_CropGreenArea` (crop-module.cpp, 1222-1267) with the division by
`d_StageTemperatureSum` (line 1258) as a partial operation. -/
def fc_CropGreenArea_checked (lm : Libm) (env : GreenAreaEnv) (a : GreenAreaArgs)
    (vc_LeafAreaIndex : ℚ) : Option (ℚ × ℚ) := do
  let progress ← checkedDiv a.d_CurrentTemperatureSum a.d_StageTemperatureSum
  let lai1 := vc_LeafAreaIndex
    + ((a.d_LeafBiomassIncrement * TempResponseExpansion lm env a
        * (a.d_SpecificLeafAreaStart
          + (progress * (a.d_SpecificLeafAreaEnd - a.d_SpecificLeafAreaStart))) * a.vc_TimeStep)
      - (a.d_LeafBiomassDecrement * a.d_SpecificLeafAreaEarly * a.vc_TimeStep))
  let lai2 : ℚ := if lai1 ≤ 0 then 0.001 else lai1
  pure (lai2, lai2 + (a.vc_CropHeight * env.PI * a.vc_CropDiameter * a.pc_PlantDensity))

/-- The quotient `vc_CurrentTemperatureSum[stage] / pc_StageTemperatureSum[stage]` that the
organ loop of `fc_CropDryMatter` computes first for every organ (crop-module.cpp, 2794), as
a partial operation. -/
def stageProgress_checked (env : DryMatterEnv) (stage : Nat) : Option ℚ :=
  checkedDiv (vget env.vc_CurrentTemperatureSum stage) (vget env.pc_StageTemperatureSum stage)

/-! ## Growth respiration in `fc_CropPhotosynthesis` -/

/-- The members, parameters and locals that the growth-respiration part of
`fc_CropPhotosynthesis` reads (crop-module.cpp, 2332-2382). -/
structure RespirationEnv where
  pc_NumberOfOrgans : Nat
  pc_AssimilatePartitioningCoeff : List (List ℚ)
  vc_DevelopmentalStage : Nat
  pc_OrganGrowthRespiration : List ℚ
  pc_GrowthRespirationParameter_1 : ℚ
  pc_GrowthRespirationParameter_2 : ℚ
  vc_PhotoTemperature : ℚ
  vc_NormalisedDayLength : ℚ

/-- The loop that sums the growth respiration of the organs (crop-module.cpp, 2336-2342),
from 0. -/
def growthRespirationSumLoop (env : RespirationEnv) (vc_Assimilates : ℚ) : Nat → ℚ
  | 0 => 0
  | n + 1 => growthRespirationSumLoop env vc_Assimilates n
      + mget env.pc_AssimilatePartitioningCoeff env.vc_DevelopmentalStage n
        * vc_Assimilates * vget env.pc_OrganGrowthRespiration n

/-- The result of the growth-respiration part of `fc_CropPhotosynthesis`: the assimilate
pool after it and the two locals `vc_PhotoGrowthRespiration` and
`vc_DarkGrowthRespiration`. -/
structure RespirationResult where
  vc_Assimilates : ℚ
  vc_PhotoGrowthRespiration : ℚ
  vc_DarkGrowthRespiration : ℚ

/-- The growth-respiration part of `fc_CropPhotosynthesis` (crop-module.cpp, 2332-2380), from
the assimilate pool after maintenance respiration. The two respiration locals start at 0
(lines 1513-1514). -/
def fc_CropPhotosynthesis_growthRespiration (lm : Libm) (env : RespirationEnv)
    (vc_Assimilates : ℚ) : RespirationResult :=
  let vc_GrowthRespirationSum : ℚ :=
    if vc_Assimilates > 0 then growthRespirationSumLoop env vc_Assimilates env.pc_NumberOfOrgans
    else 0
  let r1 : RespirationResult :=
    if vc_Assimilates > 0 then
      let photo := vc_GrowthRespirationSum
        * lm.pow 2 (env.pc_GrowthRespirationParameter_1
          * (env.vc_PhotoTemperature - env.pc_GrowthRespirationParameter_2))
        * (2 - env.vc_NormalisedDayLength)
      if vc_Assimilates > photo then
        { vc_Assimilates := vc_Assimilates - photo
          vc_PhotoGrowthRespiration := photo
          vc_DarkGrowthRespiration := 0 }
      else
        { vc_Assimilates := 0
          vc_PhotoGrowthRespiration := vc_Assimilates
          vc_DarkGrowthRespiration := 0 }
    else
      { vc_Assimilates := vc_Assimilates
        vc_PhotoGrowthRespiration := 0
        vc_DarkGrowthRespiration := 0 }
  if r1.vc_Assimilates > 0 then
    let dark := vc_GrowthRespirationSum
      * lm.pow 2 (env.pc_GrowthRespirationParameter_1
        * (env.vc_PhotoTemperature - env.pc_GrowthRespirationParameter_2))
      * env.vc_NormalisedDayLength
    if r1.vc_Assimilates > dark then
      { r1 with vc_Assimilates := r1.vc_Assimilates - dark, vc_DarkGrowthRespiration := dark }
    else
      { r1 with vc_Assimilates := 0, vc_DarkGrowthRespiration := r1.vc_Assimilates }
  else r1

/-- The member `vc_GrowthRespirationAS` set after the growth-respiration part
(crop-module.cpp, 2382). -/
def vc_GrowthRespirationAS (r : RespirationResult) : ℚ :=
  r.vc_PhotoGrowthRespiration + r.vc_DarkGrowthRespiration

/-- Arguments of `fc_CropGreenArea` for a crop at a stage whose thermal-sum target is 0. -/
def zeroTargetGreenArgs : GreenAreaArgs where
  vw_MeanAirTemperature := 15
  vc_DevelopmentalStage := 1
  d_LeafBiomassIncrement := 10
  d_LeafBiomassDecrement := 1
  vc_CropHeight := 0.5
  vc_CropDiameter := 0.01
  d_SpecificLeafAreaStart := 0.002
  d_SpecificLeafAreaEnd := 0.003
  d_SpecificLeafAreaEarly := 0.002
  d_StageTemperatureSum := 0
  d_CurrentTemperatureSum := 10
  pc_PlantDensity := 200
  vc_TimeStep := 1

/-- Example respiration parameters for three organs at stage 1, with a growth respiration of
0.3 per unit of assimilate for the root and the leaf and 0.4 for the shoot. -/
def exampleRespirationEnv : RespirationEnv where
  pc_NumberOfOrgans := 3
  pc_AssimilatePartitioningCoeff := [[1/2, 1/2, 0], [1/4, 1/4, 1/2], [0, 0, 1]]
  vc_DevelopmentalStage := 1
  pc_OrganGrowthRespiration := [0.3, 0.3, 0.4]
  pc_GrowthRespirationParameter_1 := 0
  pc_GrowthRespirationParameter_2 := 38
  vc_PhotoTemperature := 20
  vc_NormalisedDayLength := 1

/-- The crop of `fiveOrganEnv` at stage 1 with a thermal-sum target of 0 for that stage. -/
def zeroTargetDryMatterEnv : DryMatterEnv :=
  { fiveOrganEnv with pc_StageTemperatureSum := [50, 0], vc_CurrentTemperatureSum := [50, 10] }

/-! ## Response curves: water availability, anoxia, stomatal closure -/

/-- The value that the first layer loop of `fc_CropWaterUptake` gives to
`vc_TranspirationRedux[i_Layer]` (crop-module.cpp, 3531-3557), as a function of the quotient
`a` assigned to `vc_AvailableWaterPercentage` in line 3529. -/
def transpirationReduxOfWater (a : ℚ) : ℚ :=
  let vc_AvailableWaterPercentage := if a < 0 then 0 else a
  let r : ℚ :=
    if vc_AvailableWaterPercentage < 0.15 then vc_AvailableWaterPercentage * 3
    else if vc_AvailableWaterPercentage < 0.3 then
      0.45 + (0.25 * (vc_AvailableWaterPercentage - 0.15) / 0.15)
    else if vc_AvailableWaterPercentage < 0.5 then
      0.7 + (0.275 * (vc_AvailableWaterPercentage - 0.3) / 0.2)
    else if vc_AvailableWaterPercentage < 0.75 then
      0.975 + (0.025 * (vc_AvailableWaterPercentage - 0.5) / 0.25)
    else 1
  if r < 0 then 0 else r

/-- The value that the first layer loop of `fc_CropWaterUptake` gives to
`vc_RootEffectivity[i_Layer]` before the tests of the groundwater table and of the maximum
effective rooting depth (crop-module.cpp, 3531-3559), as a function of the quotient `a`
assigned to `vc_AvailableWaterPercentage` in line 3529. -/
def rootEffectivityOfWater (a : ℚ) : ℚ :=
  let vc_AvailableWaterPercentage := if a < 0 then 0 else a
  let e0 : ℚ :=
    if vc_AvailableWaterPercentage < 0.15 then 0.15 + 0.45 * vc_AvailableWaterPercentage / 0.15
    else if vc_AvailableWaterPercentage < 0.3 then
      0.6 + (0.2 * (vc_AvailableWaterPercentage - 0.15) / 0.15)
    else if vc_AvailableWaterPercentage < 0.5 then
      0.8 + (0.2 * (vc_AvailableWaterPercentage - 0.3) / 0.2)
    else 1
  if e0 < 0 then 0 else e0

/-- The quotient assigned to `vc_AvailableWaterPercentage` for layer `i_Layer`
(crop-module.cpp, 3528-3530). -/
def availableWaterQuotient (env : WaterEnv) (i_Layer : Nat) : ℚ :=
  (vget env.vs_SoilMoisture_m3 i_Layer - vget env.vs_PermanentWiltingPoint i_Layer)
    / (vget env.vs_FieldCapacity i_Layer - vget env.vs_PermanentWiltingPoint i_Layer)

/-- The air-filled pore volume of the three top layers computed by `fc_OxygenDeficiency`
(crop-module.cpp, 729-731). -/
def airFilledPoreVolume (env : OxygenEnv) : ℚ :=
  ((env.vs_Saturation0 + env.vs_Saturation1 + env.vs_Saturation2)
    - (env.vs_SoilMoisture0 + env.vs_SoilMoisture1 + env.vs_SoilMoisture2)) / 3

/-- The member `vc_TimeUnderAnoxia` and the returned value after `n` consecutive calls of
`fc_OxygenDeficiency` on the same soil, the counter being `t` before the first call; with no
call the value is given as 1. -/
def oxygenDeficiencyDays (env : OxygenEnv) (d_CriticalOxygenContent : ℚ) :
    Nat → Int → Int × ℚ
  | 0, t => (t, 1)
  | n + 1, t =>
    fc_OxygenDeficiency env d_CriticalOxygenContent
      (oxygenDeficiencyDays env d_CriticalOxygenContent n t).1

/-- The loop `for (i = 0; i < root_depth; i++)` of `fc_CropPhotosynthesis` that adds up field
capacity, wilting point and moisture of the rooted layers (crop-module.cpp, 2089-2095), from
`FC = 0, WP = 0, SWC = 0`. -/
def rootedZoneSums (vs_FieldCapacity vs_PermanentWiltingPoint vs_SoilMoisture_m3 : List ℚ) :
    Nat → ℚ × ℚ × ℚ
  | 0 => (0, 0, 0)
  | n + 1 =>
    let s := rootedZoneSums vs_FieldCapacity vs_PermanentWiltingPoint vs_SoilMoisture_m3 n
    (s.1 + vget vs_FieldCapacity n, s.2.1 + vget vs_PermanentWiltingPoint n,
      s.2.2 + vget vs_SoilMoisture_m3 n)

/-- The values assigned to `O3_in.FC`, `O3_in.WP` and `O3_in.SWC` by `fc_CropPhotosynthesis`
(crop-module.cpp, 2106-2108): the sums of the rooted zone divided by `root_depth + 1`. -/
def rootedZoneInputs (vs_FieldCapacity vs_PermanentWiltingPoint vs_SoilMoisture_m3 : List ℚ)
    (root_depth : Nat) : ℚ × ℚ × ℚ :=
  let s := rootedZoneSums vs_FieldCapacity vs_PermanentWiltingPoint vs_SoilMoisture_m3
    root_depth
  (s.1 / ((root_depth : ℚ) + 1), s.2.1 / ((root_depth : ℚ) + 1),
    s.2.2 / ((root_depth : ℚ) + 1))

/-! ## The growth-cycle flag across `step` -/

/-- The value of the parameter `vc_GrowthCycleEnded` of `fc_CropDevelopmentalStage` when the
function returns. The parameter is declared `bool vc_GrowthCycleEnded` (crop-module.cpp, 803),
a copy of the argument; its only assignment is `vc_GrowthCycleEnded = false` in the
perennial reset (line 1070). -/
def fc_CropDevelopmentalStage_parameterGrowthCycleEnded (lm : Libm) (e : DevEnv) (a : DevArgs)
    (s : DevState) : Bool :=
  if perennialResetFires lm e a s then false else a.vc_GrowthCycleEnded

/-- The member `vc_GrowthCycleEnded` after `CropModule::step` (crop-module.cpp, 267-477), from
its value `member` before the call. `step` passes the member by value to
`fc_CropDevelopmentalStage` (line 298); inside that function the name denotes the parameter
(line 803), so no statement of it writes the member. The only statement that writes the
member is `vc_GrowthCycleEnded = true` in the organ loop of `fc_CropDryMatter` (line 2801),
which `step` calls when the stage is `> 0` after the development step. `denv`,
`vc_Assimilates` and `ost` are the values of the members at that call. -/
def step_GrowthCycleEnded (lm : Libm) (e : DevEnv) (a : DevArgs) (s : DevState)
    (member : Bool) (denv : DryMatterEnv) (vc_Assimilates : ℚ) (ost : OrganState) : Bool :=
  let s1 := fc_CropDevelopmentalStage lm e { a with vc_GrowthCycleEnded := member } s
  if s1.vc_DevelopmentalStage > 0 then
    (fc_CropDryMatter_organs denv s1.vc_DevelopmentalStage vc_Assimilates
      { ost with vc_GrowthCycleEnded := member }).vc_GrowthCycleEnded
  else member

/-- The value of the local `cutOrganBiomass` in the round of the organ loop of
`applyCutting` for the entry `p` of the map `organs` (crop-module.cpp, 4682-4742), when the
biomass vectors are those of `st`. -/
def cutOrganBiomass (currentSLA : ℚ) (st : CutState) (p : Int × CuttingValue) : ℚ :=
  (cutOrgan p.2 (vget st.vc_OrganBiomass p.1.toNat) (vget st.vc_OrganDeadBiomass p.1.toNat)
    st.vc_LeafAreaIndex currentSLA).2.1

/-- A cut of 90 % of the leaf (organ 1) and a cut of the third organ down to 30 kg/ha. -/
def exampleCutMap : List (Int × CuttingValue) :=
  [(1, { value := 0.9, unit := CuttingUnit.percentage, cut_or_left := CutOrLeft.cut }),
   (2, { value := 30, unit := CuttingUnit.biomass, cut_or_left := CutOrLeft.left })]

/-! ## Rooting depth of `fc_CropDryMatter` -/

/-- The parameters, soil values and members that the rooting-depth part of `fc_CropDryMatter`
reads and does not write (crop-module.cpp, 3022-3109). `vs_SoilClayContent` holds the clay
content of the layers of the soil column; `vc_DevelopmentalStage` and `vw_MeanAirTemperature`
are arguments of the function. -/
structure RootingEnv where
  nols : Nat
  layerThickness : ℚ
  vc_TranspirationDeficit : ℚ
  pc_DroughtStressThreshold : List ℚ
  vc_DevelopmentalStage : Nat
  pc_NumberOfDevelopmentalStages : Nat
  vs_ImpenetrableLayerDepth : ℚ
  pc_MinimumTemperatureRootGrowth : ℚ
  vw_MeanAirTemperature : ℚ
  vs_SoilClayContent : List ℚ
  pc_RootPenetrationRate : ℚ
  pc_RootGrowthLag : ℚ
  pc_InitialRootingDepth : ℚ
  vs_MaxEffectiveRootingDepth : ℚ

/-- The members that the rooting-depth part of `fc_CropDryMatter` writes. -/
structure RootingState where
  vc_MaxRootingDepth : ℚ
  vc_CurrentTotalTemperatureSumRoot : ℚ
  vc_RootingDepth_m : ℚ
  vc_RootingDepth : Nat
  vc_RootingZone : Nat

/-- The rooting-depth part of `fc_CropDryMatter` (crop-module.cpp, 3022-3109): the maximum
rooting depth with its limits, the temperature sum of the root, the penetration rate from the
clay content of the layer `vc_RootingDepth` of the previous call, the rooting depth in metres
with its limits, and the two layer counts. -/
def fc_CropDryMatter_rootingDepth (env : RootingEnv) (s : RootingState) : RootingState :=
  let max1 :=
    if env.vc_TranspirationDeficit
          < 0.95 * vget env.pc_DroughtStressThreshold env.vc_DevelopmentalStage
        ∧ s.vc_RootingDepth_m > 0.95 * s.vc_MaxRootingDepth
        ∧ env.vc_DevelopmentalStage < sizeSub env.pc_NumberOfDevelopmentalStages 1 then
      s.vc_MaxRootingDepth + 0.005
    else s.vc_MaxRootingDepth
  let max2 :=
    if max1 > ((sizeSub env.nols 1 : Nat) : ℚ) * env.layerThickness then
      ((sizeSub env.nols 1 : Nat) : ℚ) * env.layerThickness
    else max1
  let vc_MaxRootingDepth :=
    if env.vs_ImpenetrableLayerDepth > 0 then min max2 env.vs_ImpenetrableLayerDepth else max2
  let pc_MaximumTemperatureRootGrowth := env.pc_MinimumTemperatureRootGrowth + 20
  let daily0 :=
    if env.vw_MeanAirTemperature ≥ pc_MaximumTemperatureRootGrowth then
      pc_MaximumTemperatureRootGrowth - env.pc_MinimumTemperatureRootGrowth
    else env.vw_MeanAirTemperature - env.pc_MinimumTemperatureRootGrowth
  let vc_DailyTemperatureRoot := if daily0 < 0 then 0 else daily0
  let vc_CurrentTotalTemperatureSumRoot :=
    s.vc_CurrentTotalTemperatureSumRoot + vc_DailyTemperatureRoot
  let clay := vget env.vs_SoilClayContent s.vc_RootingDepth
  let vc_RootPenetrationRate :=
    if clay ≤ 0.02 then 0.5 * env.pc_RootPenetrationRate
    else if clay ≤ 0.08 then ((1 / 3) + (0.5 / 0.06 * clay)) * env.pc_RootPenetrationRate
    else env.pc_RootPenetrationRate
  let m1 :=
    if vc_CurrentTotalTemperatureSumRoot ≤ env.pc_RootGrowthLag then
      env.pc_InitialRootingDepth
    else s.vc_RootingDepth_m + (vc_DailyTemperatureRoot * vc_RootPenetrationRate)
  let m2 := if m1 ≤ env.pc_InitialRootingDepth then env.pc_InitialRootingDepth else m1
  let m3 := if m2 > vc_MaxRootingDepth then vc_MaxRootingDepth else m2
  let vc_RootingDepth_m :=
    if m3 > env.vs_MaxEffectiveRootingDepth then env.vs_MaxEffectiveRootingDepth else m3
  let layers := fc_CropDryMatter_rootingLayers vc_RootingDepth_m env.layerThickness env.nols
  { vc_MaxRootingDepth := vc_MaxRootingDepth
    vc_CurrentTotalTemperatureSumRoot := vc_CurrentTotalTemperatureSumRoot
    vc_RootingDepth_m := vc_RootingDepth_m
    vc_RootingDepth := layers.1
    vc_RootingZone := layers.2 }

/-- A soil of 20 layers of 0.1 m with 5 % clay and a crop in stage 2 of 6 on a day of 15
degrees. -/
def exampleRootingEnv : RootingEnv where
  nols := 20
  layerThickness := 0.1
  vc_TranspirationDeficit := 1
  pc_DroughtStressThreshold := [1, 0.9, 0.9, 0.8, 0.8, 0.8]
  vc_DevelopmentalStage := 2
  pc_NumberOfDevelopmentalStages := 6
  vs_ImpenetrableLayerDepth := -1
  pc_MinimumTemperatureRootGrowth := 0
  vw_MeanAirTemperature := 15
  vs_SoilClayContent := List.replicate 20 0.05
  pc_RootPenetrationRate := 0.0012
  pc_RootGrowthLag := -30
  pc_InitialRootingDepth := 0.1
  vs_MaxEffectiveRootingDepth := 2

/-- Roots that have reached the maximum rooting depth of 1.9 m. -/
def deepRootState : RootingState where
  vc_MaxRootingDepth := 2.5
  vc_CurrentTotalTemperatureSumRoot := 1500
  vc_RootingDepth_m := 1.9
  vc_RootingDepth := 19
  vc_RootingZone := 20

/-! ## Yield and nitrogen content of yield and residues -/

/-- A `Monica::YieldComponent`. The type is declared in a header that is not part of the
sources at hand; the fields are those read by `calculateCropYield` and
`calculateCropFreshMatterYield`. -/
structure YieldComponent where
  organId : Int
  yieldPercentage : ℚ
  yieldDryMatter : ℚ

/-- `calculateCropYield` (crop-module.cpp, 4426-4432); `none` when `bmv.at` throws. -/
def calculateCropYield (ycs : List YieldComponent) (bmv : List ℚ) : Option ℚ :=
  ycs.foldlM (fun yield yc =>
    match vat bmv (yc.organId - 1) with
    | some b => some (yield + b * yc.yieldPercentage)
    | Option.none => Option.none) 0

/-- The members read by the yield getters. -/
structure YieldEnv where
  vc_OrganBiomass : List ℚ
  pc_OrganIdsForPrimaryYield : List YieldComponent
  pc_OrganIdsForSecondaryYield : List YieldComponent
  vc_TotalBiomass : ℚ
  vc_TotalBiomassNContent : ℚ
  vc_NConcentrationRoot : ℚ
  pc_ResidueNRatio : ℚ

/-- `CropModule::get_PrimaryCropYield` (crop-module.cpp, 4453-4456). -/
def get_PrimaryCropYield (m : YieldEnv) : Option ℚ :=
  calculateCropYield m.pc_OrganIdsForPrimaryYield m.vc_OrganBiomass

/-- `CropModule::get_SecondaryCropYield` (crop-module.cpp, 4462-4465). -/
def get_SecondaryCropYield (m : YieldEnv) : Option ℚ :=
  calculateCropYield m.pc_OrganIdsForSecondaryYield m.vc_OrganBiomass

/-- `CropModule::get_OrganBiomass` (crop-module.cpp, 4253-4256). -/
def get_OrganBiomass (m : YieldEnv) (i_Organ : Int) : ℚ := vget m.vc_OrganBiomass i_Organ.toNat

/-- `CropModule::get_RootNConcentration` (crop-module.cpp, 4347-4350). -/
def get_RootNConcentration (m : YieldEnv) : ℚ := m.vc_NConcentrationRoot

/-- `CropModule::get_ResidueBiomass` (crop-module.cpp, 4507-4511). -/
def get_ResidueBiomass (m : YieldEnv) (useSecondaryCropYields : Bool) : Option ℚ :=
  match get_PrimaryCropYield m,
      (if useSecondaryCropYields then get_SecondaryCropYield m else some 0) with
  | some y, some s => some (m.vc_TotalBiomass - get_OrganBiomass m 0 - y - s)
  | _, _ => Option.none

/-- `CropModule::get_ResiduesNConcentration` (crop-module.cpp, 4517-4523). -/
def get_ResiduesNConcentration (m : YieldEnv) : Option ℚ :=
  match get_PrimaryCropYield m with
  | some y =>
    some ((m.vc_TotalBiomassNContent - (get_OrganBiomass m 0 * get_RootNConcentration m))
      / ((y / m.pc_ResidueNRatio) + (m.vc_TotalBiomass - get_OrganBiomass m 0 - y)))
  | Option.none => Option.none

/-- `CropModule::get_PrimaryYieldNConcentration` (crop-module.cpp, 4529-4535). -/
def get_PrimaryYieldNConcentration (m : YieldEnv) : Option ℚ :=
  match get_PrimaryCropYield m with
  | some y =>
    some ((m.vc_TotalBiomassNContent - (get_OrganBiomass m 0 * get_RootNConcentration m))
      / (y + (m.pc_ResidueNRatio * (m.vc_TotalBiomass - get_OrganBiomass m 0 - y))))
  | Option.none => Option.none

/-- `CropModule::get_ResiduesNContent` (crop-module.cpp, 4537-4540). -/
def get_ResiduesNContent (m : YieldEnv) (useSecondaryCropYields : Bool) : Option ℚ :=
  match get_ResidueBiomass m useSecondaryCropYields, get_ResiduesNConcentration m with
  | some b, some c => some (b * c)
  | _, _ => Option.none

/-- `CropModule::get_PrimaryYieldNContent` (crop-module.cpp, 4542-4545). -/
def get_PrimaryYieldNContent (m : YieldEnv) : Option ℚ :=
  match get_PrimaryCropYield m, get_PrimaryYieldNConcentration m with
  | some y, some c => some (y * c)
  | _, _ => Option.none

/-- A crop of 10 t/ha with 2 t/ha of roots and 4 t/ha in the storage organ, of which 80 % is
primary yield. -/
def exampleYieldEnv : YieldEnv where
  vc_OrganBiomass := [2000, 1000, 3000, 4000]
  pc_OrganIdsForPrimaryYield := [{ organId := 4, yieldPercentage := 0.8, yieldDryMatter := 0.86 }]
  pc_OrganIdsForSecondaryYield := []
  vc_TotalBiomass := 10000
  vc_TotalBiomassNContent := 150
  vc_NConcentrationRoot := 0.01
  pc_ResidueNRatio := 0.5

/-! ## Nitrogen uptake and biological fixation -/

/-- The soil values, members and parameters that the uptake part of `fc_CropNUptake` reads
(crop-module.cpp, 3690-3824). The lists hold one value per soil layer. `PI` is a constant of
a header that is not part of the sources at hand. -/
structure NUptakeEnv where
  layerThickness : ℚ
  vs_SoilNO3 : List ℚ
  vs_SoilMoisture_m3 : List ℚ
  vc_Transpiration : List ℚ
  vc_RootDiameter : List ℚ
  vc_RootDensity : List ℚ
  vs_Tortuosity : ℚ
  vc_TimeStep : ℚ
  vc_CropNDemand : ℚ
  pc_MinimumAvailableN : ℚ
  pc_MaxCropNDemand : ℚ
  pc_PartBiologicalNFixation : ℚ
  vc_DevelopmentalStage : Nat
  vc_FinalDevelopmentalStage : Nat
  PI : ℚ

/-- The entry `vc_ConvectiveNUptakeFromLayer[i_Layer]` set by the first layer loop of
`fc_CropNUptake` (crop-module.cpp, 3729-3732). -/
def convectiveNUptakeFromLayer (env : NUptakeEnv) (i_Layer : Nat) : ℚ :=
  (vget env.vc_Transpiration i_Layer / 1000)
    * (vget env.vs_SoilNO3 i_Layer / vget env.vs_SoilMoisture_m3 i_Layer)
    * env.vc_TimeStep

/-- The entry `vc_DiffusiveNUptakeFromLayer[i_Layer]` set by the first layer loop of
`fc_CropNUptake` (crop-module.cpp, 3738-3753), a negative value being replaced by 0. -/
def diffusiveNUptakeFromLayer (lm : Libm) (env : NUptakeEnv) (i_Layer : Nat) : ℚ :=
  let vc_DiffusionCoeff := 0.000214
    * (env.vs_Tortuosity * lm.exp (vget env.vs_SoilMoisture_m3 i_Layer * 10))
    / vget env.vs_SoilMoisture_m3 i_Layer
  let d := (vc_DiffusionCoeff * vget env.vs_SoilMoisture_m3 i_Layer * 2 * env.PI
      * vget env.vc_RootDiameter i_Layer
      * (vget env.vs_SoilNO3 i_Layer / 1000 / vget env.vs_SoilMoisture_m3 i_Layer - 0.000014)
      * lm.sqrt (env.PI * vget env.vc_RootDensity i_Layer))
    * vget env.vc_RootDensity i_Layer * 1000 * env.vc_TimeStep
  if d < 0 then 0 else d

/-- A loop `for (i_Layer = 0; i_Layer < n; i_Layer++) sum += f(i_Layer)` from `sum = 0`. -/
def layerSum (f : Nat → ℚ) : Nat → ℚ
  | 0 => 0
  | n + 1 => layerSum f n + f n

/-- The entry `vc_NUptakeFromLayer[i_Layer]` set by the second layer loop of `fc_CropNUptake`
(crop-module.cpp, 3757-3801), from the two sums of the first loop. -/
def layerNUptake (lm : Libm) (env : NUptakeEnv)
    (vc_ConvectiveNUptake vc_DiffusiveNUptake : ℚ) (i_Layer : Nat) : ℚ :=
  if env.vc_CropNDemand > 0 then
    let u0 :=
      if vc_ConvectiveNUptake ≥ env.vc_CropNDemand then
        env.vc_CropNDemand * convectiveNUptakeFromLayer env i_Layer / vc_ConvectiveNUptake
      else if (env.vc_CropNDemand - vc_ConvectiveNUptake) < vc_DiffusiveNUptake then
        convectiveNUptakeFromLayer env i_Layer
          + ((env.vc_CropNDemand - vc_ConvectiveNUptake)
            * diffusiveNUptakeFromLayer lm env i_Layer / vc_DiffusiveNUptake)
      else convectiveNUptakeFromLayer env i_Layer + diffusiveNUptakeFromLayer lm env i_Layer
    let u1 :=
      if u0 > (vget env.vs_SoilNO3 i_Layer * env.layerThickness) - env.pc_MinimumAvailableN
      then (vget env.vs_SoilNO3 i_Layer * env.layerThickness) - env.pc_MinimumAvailableN
      else u0
    let u2 :=
      if u1 > env.pc_MaxCropNDemand / 10000 * 0.75 then env.pc_MaxCropNDemand / 10000 * 0.75
      else u1
    if u2 < 0 then 0 else u2
  else 0

/-- The members `vc_TotalNUptake`, `vc_FixedN` and `vc_TotalNInput` set by `fc_CropNUptake`
(crop-module.cpp, 3710-3824): zero for a matured crop, otherwise the uptake of the layers
above `min(vc_RootingZone, vc_GroundwaterTable)` and the biological fixation. -/
def fc_CropNUptake_totals (lm : Libm) (env : NUptakeEnv)
    (vc_RootingZone vc_GroundwaterTable : Nat) : ℚ × ℚ × ℚ :=
  if env.vc_DevelopmentalStage < env.vc_FinalDevelopmentalStage then
    let n := min vc_RootingZone vc_GroundwaterTable
    let vc_ConvectiveNUptake := layerSum (convectiveNUptakeFromLayer env) n
    let vc_DiffusiveNUptake := layerSum (diffusiveNUptakeFromLayer lm env) n
    let vc_TotalNUptake := layerSum
      (fun i => layerNUptake lm env vc_ConvectiveNUptake vc_DiffusiveNUptake i * 10000) n
    let vc_FixedN := env.pc_PartBiologicalNFixation * env.vc_CropNDemand * 10000
    if ((env.vc_CropNDemand * 10000) - vc_TotalNUptake) < vc_FixedN then
      (vc_TotalNUptake, (env.vc_CropNDemand * 10000) - vc_TotalNUptake,
        env.vc_CropNDemand * 10000)
    else (vc_TotalNUptake, vc_FixedN, vc_TotalNUptake + vc_FixedN)
  else (0, 0, 0)

/-- A legume with a demand of 10 kg N/ha that fixes up to half of its demand, rooted in one
layer without fine roots: 2 mm of transpiration carry `0.002 * 0.05 / 0.25 = 0.0004` kg N/m2,
that is 4 kg N/ha, to the root. -/
def legumeEnv : NUptakeEnv where
  layerThickness := 0.1
  vs_SoilNO3 := [0.05]
  vs_SoilMoisture_m3 := [0.25]
  vc_Transpiration := [2]
  vc_RootDiameter := [0.0001]
  vc_RootDensity := [0]
  vs_Tortuosity := 0.002
  vc_TimeStep := 1
  vc_CropNDemand := 0.001
  pc_MinimumAvailableN := 0
  pc_MaxCropNDemand := 6
  pc_PartBiologicalNFixation := 0.5
  vc_DevelopmentalStage := 2
  vc_FinalDevelopmentalStage := 5
  PI := 3.14159265358979323846

/-! ## Theorems -/

/-- Reading back the entry written by `v[i] += x`. -/
theorem vget_vadd_self (v : List ℚ) (i : Nat) (x : ℚ) (h : i < v.length) :
    vget (vadd v i x) i = vget v i + x := by
  simp [vget, vadd, List.getD_eq_getElem?_getD, List.getElem?_set, h]

theorem vget_vadd_of_ne (v : List ℚ) (i j : Nat) (x : ℚ) (h : i ≠ j) :
    vget (vadd v i x) j = vget v j := by
  simp [vget, vadd, List.getD_eq_getElem?_getD, List.getElem?_set, h]

theorem length_vadd (v : List ℚ) (i : Nat) (x : ℚ) : (vadd v i x).length = v.length := by
  simp [vadd]

theorem length_zeroStages (n : Nat) (v : List ℚ) : (zeroStages n v).length = v.length := by
  induction n with
  | zero => rfl
  | succ k ih => simp [zeroStages, ih]

theorem vget_zeroStages (n : Nat) (v : List ℚ) (i : Nat) (h : i < n) :
    vget (zeroStages n v) i = 0 := by
  induction n with
  | zero => omega
  | succ k ih =>
    by_cases hik : i = k
    · subst hik
      by_cases hl : i < (zeroStages i v).length
      · simp [zeroStages, vget, List.getD_eq_getElem?_getD, List.getElem?_set, hl]
      · simp [zeroStages, vget, List.getD_eq_getElem?_getD, List.getElem?_set, hl]
    · have : i < k := by omega
      have h2 := ih this
      simp only [zeroStages, vget, List.getD_eq_getElem?_getD] at h2 ⊢
      rw [List.getElem?_set_ne (Ne.symm hik)]
      exact h2

theorem zeroStages_eq_replicate (v : List ℚ) :
    zeroStages v.length v = List.replicate v.length 0 := by
  apply List.ext_getElem
  · simp [length_zeroStages]
  · intro i h1 h2
    have hi : i < v.length := by simpa [length_zeroStages] using h1
    have := vget_zeroStages v.length v i hi
    simp only [vget, List.getD_eq_getElem?_getD] at this
    rw [List.getElem?_eq_getElem h1] at this
    simpa using this

theorem sizeSub_one (n : Nat) (h1 : 1 ≤ n) (h2 : n < sizeRange) : sizeSub n 1 = n - 1 := by
  unfold sizeSub sizeRange at *
  omega

theorem sizeSub_zero_one : sizeSub 0 1 = sizeRange - 1 := by
  unfold sizeSub sizeRange
  omega

theorem afterThermalIncrement_stage (lm : Libm) (e : DevEnv) (a : DevArgs) (s : DevState) :
    (afterThermalIncrement lm e a s).vc_DevelopmentalStage = s.vc_DevelopmentalStage := by
  unfold afterThermalIncrement
  split <;> rfl

theorem afterThermalIncrement_sum (lm : Libm) (e : DevEnv) (a : DevArgs) (s : DevState) :
    (afterThermalIncrement lm e a s).vc_CurrentTemperatureSum =
      vadd s.vc_CurrentTemperatureSum s.vc_DevelopmentalStage
        (stageThermalIncrement lm e a s.vc_DevelopmentalStage) := by
  unfold afterThermalIncrement
  split <;> rfl

theorem afterThermalIncrement_total (lm : Libm) (e : DevEnv) (a : DevArgs) (s : DevState) :
    (afterThermalIncrement lm e a s).vc_CurrentTotalTemperatureSum =
      s.vc_CurrentTotalTemperatureSum + stageThermalIncrement lm e a s.vc_DevelopmentalStage := by
  unfold afterThermalIncrement
  split <;> rfl

/-- Claim C1 (stage carry-over). For a crop at stage `s` with `1 ≤ s` and
`s + 1 < numStages`, if after the day's thermal increment the accumulator of stage `s` has
reached `pc_StageTemperatureSum[s]`, one call of `fc_CropDevelopmentalStage` ends at stage
`s + 1` and has added exactly the excess, accumulator minus target, to the accumulator of
stage `s + 1`. -/
theorem stage_carry_over (lm : Libm) (e : DevEnv) (a : DevArgs) (s : DevState)
    (hs1 : 1 ≤ s.vc_DevelopmentalStage)
    (hs2 : s.vc_DevelopmentalStage + 1 < a.pc_NumberOfDevelopmentalStages)
    (hsize : a.pc_NumberOfDevelopmentalStages < sizeRange)
    (hlen : s.vc_CurrentTemperatureSum.length = a.pc_NumberOfDevelopmentalStages)
    (hreach : vget (afterThermalIncrement lm e a s).vc_CurrentTemperatureSum
        s.vc_DevelopmentalStage ≥ vget a.pc_StageTemperatureSum s.vc_DevelopmentalStage) :
    (fc_CropDevelopmentalStage lm e a s).vc_DevelopmentalStage = s.vc_DevelopmentalStage + 1
    ∧ vget (fc_CropDevelopmentalStage lm e a s).vc_CurrentTemperatureSum
        (s.vc_DevelopmentalStage + 1)
      = vget s.vc_CurrentTemperatureSum (s.vc_DevelopmentalStage + 1)
        + (vget (afterThermalIncrement lm e a s).vc_CurrentTemperatureSum
            s.vc_DevelopmentalStage
          - vget a.pc_StageTemperatureSum s.vc_DevelopmentalStage) := by
  have hne : s.vc_DevelopmentalStage ≠ 0 := by omega
  have hpos : s.vc_DevelopmentalStage > 0 := by omega
  have hlt : s.vc_DevelopmentalStage < sizeSub a.pc_NumberOfDevelopmentalStages 1 := by
    rw [sizeSub_one _ (by omega) hsize]; omega
  have hst := afterThermalIncrement_stage lm e a s
  have hsum := afterThermalIncrement_sum lm e a s
  unfold fc_CropDevelopmentalStage
  rw [if_neg hne, if_pos hpos]
  unfold stageTransition
  simp only [hst]
  rw [if_pos hreach, if_pos hlt]
  refine ⟨rfl, ?_⟩
  show vget (vadd _ _ _) _ = _
  rw [vget_vadd_self _ _ _ (by rw [hsum, length_vadd]; omega)]
  rw [hsum, vget_vadd_of_ne _ _ _ _ (by omega)]

theorem stageTransition_stage_bounds (a : DevArgs) (s : DevState)
    (hp : a.pc_Perennial = false)
    (hn : 1 ≤ a.pc_NumberOfDevelopmentalStages)
    (hsize : a.pc_NumberOfDevelopmentalStages < sizeRange)
    (hs : s.vc_DevelopmentalStage ≤ a.pc_NumberOfDevelopmentalStages - 1) :
    s.vc_DevelopmentalStage ≤ (stageTransition a s).vc_DevelopmentalStage
    ∧ (stageTransition a s).vc_DevelopmentalStage ≤ a.pc_NumberOfDevelopmentalStages - 1 := by
  unfold stageTransition
  simp only [hp, sizeSub_one _ hn hsize]
  split
  · split
    · constructor
      · show s.vc_DevelopmentalStage ≤ s.vc_DevelopmentalStage + 1
        omega
      · show s.vc_DevelopmentalStage + 1 ≤ _
        omega
    · split
      · simp
        exact hs
      · exact ⟨le_refl _, hs⟩
  · exact ⟨le_refl _, hs⟩

theorem germinationAnnual_stage (e : DevEnv) (a : DevArgs) (s : DevState)
    (hs : s.vc_DevelopmentalStage = 0) :
    (germinationAnnual e a s).vc_DevelopmentalStage = 0
    ∨ (germinationAnnual e a s).vc_DevelopmentalStage = 1 := by
  simp only [germinationAnnual]
  split_ifs <;> simp [hs]

/-- Claim C2 (stage monotonicity). For a non-perennial crop with at least two stages and a
current stage `s ≤ numStages - 1`, every call of `fc_CropDevelopmentalStage` leaves a stage
`s'` with `s ≤ s' ≤ numStages - 1`; a crop at the final stage stays at the final stage, for
every weather and soil input. -/
theorem stage_monotone_non_perennial (lm : Libm) (e : DevEnv) (a : DevArgs) (s : DevState)
    (hp : a.pc_Perennial = false)
    (hn : 2 ≤ a.pc_NumberOfDevelopmentalStages)
    (hsize : a.pc_NumberOfDevelopmentalStages < sizeRange)
    (hs : s.vc_DevelopmentalStage ≤ a.pc_NumberOfDevelopmentalStages - 1) :
    s.vc_DevelopmentalStage ≤ (fc_CropDevelopmentalStage lm e a s).vc_DevelopmentalStage
    ∧ (fc_CropDevelopmentalStage lm e a s).vc_DevelopmentalStage
        ≤ a.pc_NumberOfDevelopmentalStages - 1
    ∧ (s.vc_DevelopmentalStage = a.pc_NumberOfDevelopmentalStages - 1 →
        (fc_CropDevelopmentalStage lm e a s).vc_DevelopmentalStage
          = a.pc_NumberOfDevelopmentalStages - 1) := by
  have key : s.vc_DevelopmentalStage ≤ (fc_CropDevelopmentalStage lm e a s).vc_DevelopmentalStage
      ∧ (fc_CropDevelopmentalStage lm e a s).vc_DevelopmentalStage
        ≤ a.pc_NumberOfDevelopmentalStages - 1 := by
    unfold fc_CropDevelopmentalStage
    by_cases h0 : s.vc_DevelopmentalStage = 0
    · rw [if_pos h0]
      simp only [hp, Bool.false_eq_true, if_false]
      rcases germinationAnnual_stage e a s h0 with h | h
      · rw [h, h0]; omega
      · rw [h, h0]; omega
    · rw [if_neg h0, if_pos (Nat.pos_of_ne_zero h0)]
      have hb := stageTransition_stage_bounds a (afterThermalIncrement lm e a s) hp
        (by omega) hsize (by rw [afterThermalIncrement_stage]; exact hs)
      rw [afterThermalIncrement_stage] at hb
      exact hb
  exact ⟨key.1, key.2, fun h => le_antisymm key.2 (h ▸ key.1)⟩

/-- Claim C5 as amended (perennial reset). For a perennial crop with at least two stages
that is at its final stage `numStages - 1 ≥ 1` and whose final-stage accumulator, after the
day's thermal increment, has reached its target, a call of `fc_CropDevelopmentalStage` with
`growthCycleEnded = true` leaves stage 0, every entry of `vc_CurrentTemperatureSum` equal to
0 and `vc_CurrentTotalTemperatureSum` equal to 0. -/
theorem perennial_reset (lm : Libm) (e : DevEnv) (a : DevArgs) (s : DevState)
    (hp : a.pc_Perennial = true) (hg : a.vc_GrowthCycleEnded = true)
    (hs1 : 1 ≤ s.vc_DevelopmentalStage)
    (hfinal : s.vc_DevelopmentalStage = a.pc_NumberOfDevelopmentalStages - 1)
    (hsize : a.pc_NumberOfDevelopmentalStages < sizeRange)
    (hlen : s.vc_CurrentTemperatureSum.length = a.pc_NumberOfDevelopmentalStages)
    (hreach : vget (afterThermalIncrement lm e a s).vc_CurrentTemperatureSum
        s.vc_DevelopmentalStage ≥ vget a.pc_StageTemperatureSum s.vc_DevelopmentalStage) :
    (fc_CropDevelopmentalStage lm e a s).vc_DevelopmentalStage = 0
    ∧ (fc_CropDevelopmentalStage lm e a s).vc_CurrentTemperatureSum
        = List.replicate a.pc_NumberOfDevelopmentalStages 0
    ∧ (fc_CropDevelopmentalStage lm e a s).vc_CurrentTotalTemperatureSum = 0 := by
  have hne : s.vc_DevelopmentalStage ≠ 0 := by omega
  have hpos : s.vc_DevelopmentalStage > 0 := by omega
  have hsub : sizeSub a.pc_NumberOfDevelopmentalStages 1
      = a.pc_NumberOfDevelopmentalStages - 1 := sizeSub_one _ (by omega) hsize
  have hst := afterThermalIncrement_stage lm e a s
  have hsum := afterThermalIncrement_sum lm e a s
  have hlen2 : (afterThermalIncrement lm e a s).vc_CurrentTemperatureSum.length
      = a.pc_NumberOfDevelopmentalStages := by rw [hsum, length_vadd, hlen]
  unfold fc_CropDevelopmentalStage
  rw [if_neg hne, if_pos hpos]
  unfold stageTransition
  simp only [hst]
  rw [if_pos hreach, if_neg (by rw [hsub]; omega), if_pos (by rw [hsub]; exact hfinal),
    if_pos ⟨hp, hg⟩]
  refine ⟨rfl, ?_, rfl⟩
  show zeroStages _ _ = _
  have := zeroStages_eq_replicate (afterThermalIncrement lm e a s).vc_CurrentTemperatureSum
  rw [hlen2] at this
  exact this

/-- Claim C6 (germination gating). For a non-perennial crop at stage 0, one call of
`fc_CropDevelopmentalStage` adds exactly `(soilTemperature - baseTemperature[0]) * timeStep`
to the stage-0 thermal sum when the soil is warmer than the base temperature, the moisture
control is off or the top-layer moisture exceeds `0.2 * (FC - WP) + WP`, and the flooding
control is off or the surface water storage is below `0.001`; in every other case the
stage-0 sum and the stage are unchanged. In particular, with the moisture control on and the
moisture not above the threshold the sum does not change, however warm the soil is. -/
theorem germination_gating (lm : Libm) (e : DevEnv) (a : DevArgs) (s : DevState)
    (hp : a.pc_Perennial = false) (hs : s.vc_DevelopmentalStage = 0)
    (hlen : 0 < s.vc_CurrentTemperatureSum.length) :
    ((e.vc_SoilTemperature > vget a.pc_BaseTemperature 0
        ∧ (e.pc_EmergenceMoistureControlOn = false
            ∨ a.d_SoilMoisture_m3
                > 0.2 * (a.d_FieldCapacity - a.d_PermanentWiltingPoint)
                  + a.d_PermanentWiltingPoint)
        ∧ (e.pc_EmergenceFloodingControlOn = false ∨ e.vs_SurfaceWaterStorage < 0.001)) →
      vget (fc_CropDevelopmentalStage lm e a s).vc_CurrentTemperatureSum 0
        = vget s.vc_CurrentTemperatureSum 0
          + (e.vc_SoilTemperature - vget a.pc_BaseTemperature 0) * a.vc_TimeStep)
    ∧ (¬ (e.vc_SoilTemperature > vget a.pc_BaseTemperature 0
        ∧ (e.pc_EmergenceMoistureControlOn = false
            ∨ a.d_SoilMoisture_m3
                > 0.2 * (a.d_FieldCapacity - a.d_PermanentWiltingPoint)
                  + a.d_PermanentWiltingPoint)
        ∧ (e.pc_EmergenceFloodingControlOn = false ∨ e.vs_SurfaceWaterStorage < 0.001)) →
      vget (fc_CropDevelopmentalStage lm e a s).vc_CurrentTemperatureSum 0
        = vget s.vc_CurrentTemperatureSum 0
      ∧ (fc_CropDevelopmentalStage lm e a s).vc_DevelopmentalStage
        = s.vc_DevelopmentalStage)
    ∧ ((e.pc_EmergenceMoistureControlOn = true
        ∧ a.d_SoilMoisture_m3
            ≤ 0.2 * (a.d_FieldCapacity - a.d_PermanentWiltingPoint)
              + a.d_PermanentWiltingPoint) →
      vget (fc_CropDevelopmentalStage lm e a s).vc_CurrentTemperatureSum 0
        = vget s.vc_CurrentTemperatureSum 0) := by
  have h1 : ∀ x : ℚ, vget (vadd (vadd s.vc_CurrentTemperatureSum 0 x) 1
      (vget (vadd s.vc_CurrentTemperatureSum 0 x) 0 - vget a.pc_StageTemperatureSum 0)) 0
      = vget s.vc_CurrentTemperatureSum 0 + x := by
    intro x
    rw [vget_vadd_of_ne _ _ _ _ (by decide), vget_vadd_self _ _ _ hlen]
  have h2 : ∀ x : ℚ, vget (vadd s.vc_CurrentTemperatureSum 0 x) 0
      = vget s.vc_CurrentTemperatureSum 0 + x := fun x => vget_vadd_self _ _ _ hlen
  have hfc : fc_CropDevelopmentalStage lm e a s = germinationAnnual e a s := by
    unfold fc_CropDevelopmentalStage
    rw [if_pos hs]
    simp [hp]
  rw [hfc]
  simp only [germinationAnnual]
  refine ⟨?_, ?_, ?_⟩
  · rintro ⟨ht, hm, hf⟩
    rw [if_pos ht]
    cases hmc : e.pc_EmergenceMoistureControlOn <;> cases hfc2 : e.pc_EmergenceFloodingControlOn
      <;> simp only [hmc, hfc2] at hm hf ⊢ <;> simp at hm hf ⊢
    · split_ifs <;> simp [h2]
    · simp only [hf]; split_ifs <;> simp [h2]
    · simp only [hm]; split_ifs <;> simp [h2]
    · simp only [hm, hf]
      split_ifs
      · simp [h1]
      · simp [h2]
      · simp at *
  · intro hgate
    by_cases ht : e.vc_SoilTemperature > vget a.pc_BaseTemperature 0
    · rw [if_pos ht]
      have hgate2 : ¬ ((e.pc_EmergenceMoistureControlOn = false
            ∨ a.d_SoilMoisture_m3
                > 0.2 * (a.d_FieldCapacity - a.d_PermanentWiltingPoint)
                  + a.d_PermanentWiltingPoint)
          ∧ (e.pc_EmergenceFloodingControlOn = false ∨ e.vs_SurfaceWaterStorage < 0.001)) :=
        fun h => hgate ⟨ht, h⟩
      cases hmc : e.pc_EmergenceMoistureControlOn <;>
        cases hfc2 : e.pc_EmergenceFloodingControlOn <;>
        simp only [hmc, hfc2] at hgate2 ⊢ <;> simp at hgate2 ⊢
      · simp [not_lt.mpr hgate2]
      · simp [not_lt.mpr hgate2]
      · have : ¬ (0.2 * (a.d_FieldCapacity - a.d_PermanentWiltingPoint)
            + a.d_PermanentWiltingPoint < a.d_SoilMoisture_m3
            ∧ e.vs_SurfaceWaterStorage < 0.001) := by
          rintro ⟨hA, hB⟩
          exact absurd hB (not_lt.mpr (hgate2 hA))
        simp [this]
    · rw [if_neg ht]
      exact ⟨rfl, rfl⟩
  · rintro ⟨hmc, hm⟩
    split_ifs <;> simp_all
    all_goals linarith

theorem one_le_developmentAccelerationByStress (e : DevEnv) (a : DevArgs) (stage : Nat) :
    1 ≤ developmentAccelerationByStress e a stage := by
  simp only [developmentAccelerationByStress]
  apply le_max_of_le_left
  split_ifs
  · nlinarith [mul_self_nonneg (1 - a.vc_CropNRedux)]
  · exact le_refl _

theorem perennialResetFires_resets (lm : Libm) (e : DevEnv) (a : DevArgs) (s : DevState)
    (h : perennialResetFires lm e a s) :
    fc_CropDevelopmentalStage lm e a s =
      { afterThermalIncrement lm e a s with
        vc_DevelopmentalStage := 0
        vc_CurrentTemperatureSum := zeroStages a.pc_NumberOfDevelopmentalStages
          (afterThermalIncrement lm e a s).vc_CurrentTemperatureSum
        vc_CurrentTotalTemperatureSum := 0 } := by
  obtain ⟨h1, h2, h3, h4, h5, h6⟩ := h
  have hst := afterThermalIncrement_stage lm e a s
  unfold fc_CropDevelopmentalStage
  rw [if_neg (by omega), if_pos h1]
  unfold stageTransition
  simp only [hst]
  rw [if_pos h2, if_neg h3, if_pos h4, if_pos ⟨h5, h6⟩]

theorem stageThermalIncrement_nonneg (lm : Libm) (e : DevEnv) (a : DevArgs) (stage : Nat)
    (hv : 0 ≤ a.vc_VernalisationFactor) (hd : 0 ≤ a.vc_DaylengthFactor)
    (ht : 0 ≤ a.vc_TimeStep)
    (hopt : e.enable_Phenology_WangEngelTemperatureResponse = false →
      vget a.pc_BaseTemperature stage ≤ vget a.pc_OptimumTemperature stage)
    (hwe : e.enable_Phenology_WangEngelTemperatureResponse = true →
      (0 ≤ a.vw_MeanAirTemperature ∨ 0 ≤ e.pc_MinTempDev_WE)) :
    0 ≤ stageThermalIncrement lm e a stage := by
  have hacc : 0 ≤ developmentAccelerationByStress e a stage :=
    le_trans zero_le_one (one_le_developmentAccelerationByStress e a stage)
  simp only [stageThermalIncrement]
  split_ifs with hWE hT hO
  · have hdev : 0 ≤ max 0 (WangEngelTemperatureResponse lm a.vw_MeanAirTemperature
        e.pc_MinTempDev_WE e.pc_OptTempDev_WE e.pc_MaxTempDev_WE 1) := le_max_left _ _
    have hprod : 0 ≤ max 0 (WangEngelTemperatureResponse lm a.vw_MeanAirTemperature
        e.pc_MinTempDev_WE e.pc_OptTempDev_WE e.pc_MaxTempDev_WE 1) * a.vw_MeanAirTemperature := by
      rcases hwe hWE with h | h
      · exact mul_nonneg hdev h
      · by_cases hneg : a.vw_MeanAirTemperature < 0
        · have : WangEngelTemperatureResponse lm a.vw_MeanAirTemperature
              e.pc_MinTempDev_WE e.pc_OptTempDev_WE e.pc_MaxTempDev_WE 1 = 0 := by
            unfold WangEngelTemperatureResponse
            rw [if_pos (Or.inl (lt_of_lt_of_le hneg h))]
          rw [this]; simp
        · exact mul_nonneg hdev (not_lt.mp hneg)
    exact mul_nonneg (mul_nonneg (mul_nonneg (mul_nonneg hprod hv) hd) hacc) ht
  · have hb := hopt (by simpa using hWE)
    exact mul_nonneg (mul_nonneg (mul_nonneg (mul_nonneg (sub_nonneg.mpr hb) hv) hd) hacc) ht
  · exact mul_nonneg (mul_nonneg (mul_nonneg (mul_nonneg
      (sub_nonneg.mpr (le_of_lt hT)) hv) hd) hacc) ht
  · exact le_refl _

theorem stageTransition_total (a : DevArgs) (s : DevState)
    (h : ¬ (vget s.vc_CurrentTemperatureSum s.vc_DevelopmentalStage
          ≥ vget a.pc_StageTemperatureSum s.vc_DevelopmentalStage
        ∧ ¬ s.vc_DevelopmentalStage < sizeSub a.pc_NumberOfDevelopmentalStages 1
        ∧ s.vc_DevelopmentalStage = sizeSub a.pc_NumberOfDevelopmentalStages 1
        ∧ a.pc_Perennial = true ∧ a.vc_GrowthCycleEnded = true)) :
    (stageTransition a s).vc_CurrentTotalTemperatureSum = s.vc_CurrentTotalTemperatureSum := by
  simp only [stageTransition]
  split_ifs with h1 h2 h3 h4
  · rfl
  · exact absurd ⟨h1, h2, h3, h4.1, h4.2⟩ h
  · rfl
  · rfl
  · rfl

/-- Claim C8 as amended (thermal-time monotonicity). For every call of
`fc_CropDevelopmentalStage` that does not perform the perennial reset, with vernalisation
factor, daylength factor and time step `≥ 0`, `vc_CurrentTotalTemperatureSum` does not
decrease, provided that the optimum temperature of the current stage is not below its base
temperature where the clipped-linear increment is used (stage 0, or Wang-Engel off), and
that the mean air temperature or `pc_MinTempDev_WE` is `≥ 0` where the Wang-Engel response
is used (stage `≥ 1`, Wang-Engel on). -/
theorem total_temperature_sum_monotone (lm : Libm) (e : DevEnv) (a : DevArgs) (s : DevState)
    (hno : ¬ perennialResetFires lm e a s)
    (hv : 0 ≤ a.vc_VernalisationFactor) (hd : 0 ≤ a.vc_DaylengthFactor)
    (ht : 0 ≤ a.vc_TimeStep)
    (hopt : (s.vc_DevelopmentalStage = 0
        ∨ e.enable_Phenology_WangEngelTemperatureResponse = false) →
      vget a.pc_BaseTemperature s.vc_DevelopmentalStage
        ≤ vget a.pc_OptimumTemperature s.vc_DevelopmentalStage)
    (hwe : (s.vc_DevelopmentalStage ≠ 0
        ∧ e.enable_Phenology_WangEngelTemperatureResponse = true) →
      (0 ≤ a.vw_MeanAirTemperature ∨ 0 ≤ e.pc_MinTempDev_WE)) :
    s.vc_CurrentTotalTemperatureSum
      ≤ (fc_CropDevelopmentalStage lm e a s).vc_CurrentTotalTemperatureSum := by
  unfold fc_CropDevelopmentalStage
  by_cases h0 : s.vc_DevelopmentalStage = 0
  · rw [if_pos h0]
    have hb := hopt (Or.inl h0)
    rw [h0] at hb
    cases hp : a.pc_Perennial
    · simp only [Bool.false_eq_true, if_false, germinationAnnual]
      split_ifs <;> exact le_refl _
    · simp only [if_true, germinationPerennial]
      split_ifs with hT hO <;> first
        | exact le_refl _
        | exact le_add_of_nonneg_right
            (mul_nonneg (mul_nonneg (mul_nonneg (sub_nonneg.mpr hb) hv) hd) ht)
        | exact le_add_of_nonneg_right
            (mul_nonneg (mul_nonneg (mul_nonneg (sub_nonneg.mpr (le_of_lt hT)) hv) hd) ht)
  · rw [if_neg h0, if_pos (Nat.pos_of_ne_zero h0)]
    have hst := afterThermalIncrement_stage lm e a s
    rw [stageTransition_total, afterThermalIncrement_total]
    · apply le_add_of_nonneg_right
      apply stageThermalIncrement_nonneg lm e a _ hv hd ht
      · intro h; exact hopt (Or.inr h)
      · intro h; exact hwe ⟨h0, h⟩
    · rw [hst]
      intro h
      exact hno ⟨Nat.pos_of_ne_zero h0, h.1, h.2.1, h.2.2.1, h.2.2.2.1, h.2.2.2.2⟩

/-- Witness of C1: the scenario of the specification, target 100, accumulator 95 and a daily
increment of 10 at stage 1. -/
theorem stage_carry_over_witness :
    (fc_CropDevelopmentalStage libmQ exampleEnv exampleArgs exampleState).vc_DevelopmentalStage
        = exampleState.vc_DevelopmentalStage + 1
    ∧ vget (fc_CropDevelopmentalStage libmQ exampleEnv exampleArgs
          exampleState).vc_CurrentTemperatureSum (exampleState.vc_DevelopmentalStage + 1)
      = vget exampleState.vc_CurrentTemperatureSum (exampleState.vc_DevelopmentalStage + 1)
        + (vget (afterThermalIncrement libmQ exampleEnv exampleArgs
              exampleState).vc_CurrentTemperatureSum exampleState.vc_DevelopmentalStage
          - vget exampleArgs.pc_StageTemperatureSum exampleState.vc_DevelopmentalStage) :=
  stage_carry_over libmQ exampleEnv exampleArgs exampleState (by decide) (by decide)
    (by decide) (by decide)
    (by norm_num [afterThermalIncrement, stageThermalIncrement,
      developmentAccelerationByStress, exampleEnv, exampleArgs, exampleState, vget, vadd, mget])

/-- The scenario of the specification evaluated: the crop ends at stage 2 with 5 degree-days
in the accumulator of stage 2. -/
theorem stage_carry_over_scenario :
    (fc_CropDevelopmentalStage libmQ exampleEnv exampleArgs exampleState).vc_DevelopmentalStage
        = 2
    ∧ (fc_CropDevelopmentalStage libmQ exampleEnv exampleArgs
          exampleState).vc_CurrentTemperatureSum = [50, 105, 5] := by
  norm_num [fc_CropDevelopmentalStage, stageTransition, afterThermalIncrement,
    stageThermalIncrement, developmentAccelerationByStress, exampleEnv, exampleArgs,
    exampleState, vget, vadd, mget, sizeSub, sizeRange]
/-- Witness of C2: the annual three-stage crop at stage 1. -/
theorem stage_monotone_non_perennial_witness :
    exampleState.vc_DevelopmentalStage
      ≤ (fc_CropDevelopmentalStage libmQ exampleEnv exampleArgs
          exampleState).vc_DevelopmentalStage
    ∧ (fc_CropDevelopmentalStage libmQ exampleEnv exampleArgs
          exampleState).vc_DevelopmentalStage
        ≤ exampleArgs.pc_NumberOfDevelopmentalStages - 1
    ∧ (exampleState.vc_DevelopmentalStage = exampleArgs.pc_NumberOfDevelopmentalStages - 1 →
        (fc_CropDevelopmentalStage libmQ exampleEnv exampleArgs
            exampleState).vc_DevelopmentalStage
          = exampleArgs.pc_NumberOfDevelopmentalStages - 1) :=
  stage_monotone_non_perennial libmQ exampleEnv exampleArgs exampleState rfl (by decide)
    (by decide) (by decide)

/-- Counterexample to C5 as stated, at two inputs. First, a perennial crop with a single
stage is at its final stage 0 with the accumulator (120, and 130 after the day's increment)
above the target 100 and the growth cycle ended; the call takes the stage-0 branch, which has
no reset, and leaves the accumulator at 130 and the total sum at 130. Second, a perennial
three-stage crop is at its final stage 2 with the accumulator at the target 200 before the
call; the optimum temperature 3 below the base temperature 5 makes the day's increment -2,
the accumulator is 198 at the transition test and the crop stays at stage 2. -/
theorem perennial_reset_counterexample :
    ((oneStageArgs.pc_Perennial = true ∧ oneStageArgs.vc_GrowthCycleEnded = true
        ∧ oneStageState.vc_DevelopmentalStage
            = oneStageArgs.pc_NumberOfDevelopmentalStages - 1
        ∧ vget oneStageState.vc_CurrentTemperatureSum 0
            ≥ vget oneStageArgs.pc_StageTemperatureSum 0)
      ∧ (fc_CropDevelopmentalStage libmQ exampleEnv oneStageArgs
            oneStageState).vc_CurrentTemperatureSum = [130]
      ∧ (fc_CropDevelopmentalStage libmQ exampleEnv oneStageArgs
            oneStageState).vc_CurrentTotalTemperatureSum = 130
      ∧ ¬ ((fc_CropDevelopmentalStage libmQ exampleEnv oneStageArgs
              oneStageState).vc_DevelopmentalStage = 0
          ∧ (∀ x ∈ (fc_CropDevelopmentalStage libmQ exampleEnv oneStageArgs
              oneStageState).vc_CurrentTemperatureSum, x = 0)
          ∧ (fc_CropDevelopmentalStage libmQ exampleEnv oneStageArgs
              oneStageState).vc_CurrentTotalTemperatureSum = 0))
    ∧ ((lowOptimumPerennialArgs.pc_Perennial = true
        ∧ lowOptimumPerennialArgs.vc_GrowthCycleEnded = true
        ∧ reachedFinalState.vc_DevelopmentalStage
            = lowOptimumPerennialArgs.pc_NumberOfDevelopmentalStages - 1
        ∧ vget reachedFinalState.vc_CurrentTemperatureSum 2
            ≥ vget lowOptimumPerennialArgs.pc_StageTemperatureSum 2)
      ∧ (fc_CropDevelopmentalStage libmQ exampleEnv lowOptimumPerennialArgs
            reachedFinalState).vc_DevelopmentalStage = 2
      ∧ (fc_CropDevelopmentalStage libmQ exampleEnv lowOptimumPerennialArgs
            reachedFinalState).vc_CurrentTemperatureSum = [50, 100, 198]) := by
  refine ⟨⟨?_, ?_, ?_, ?_⟩, ⟨?_, ?_, ?_⟩⟩
  all_goals
    norm_num [fc_CropDevelopmentalStage, germinationPerennial, stageTransition,
      afterThermalIncrement, stageThermalIncrement, developmentAccelerationByStress,
      oneStageArgs, lowOptimumPerennialArgs, perennialArgs, exampleArgs, exampleEnv,
      oneStageState, reachedFinalState, vget, vadd, mget, sizeSub, sizeRange]

/-- Witness of C5 as amended: the perennial three-stage crop at its final stage 2 with
accumulator 195, daily increment 10 and target 200. -/
theorem perennial_reset_witness :
    (fc_CropDevelopmentalStage libmQ exampleEnv perennialArgs
        finalStageState).vc_DevelopmentalStage = 0
    ∧ (fc_CropDevelopmentalStage libmQ exampleEnv perennialArgs
        finalStageState).vc_CurrentTemperatureSum
        = List.replicate perennialArgs.pc_NumberOfDevelopmentalStages 0
    ∧ (fc_CropDevelopmentalStage libmQ exampleEnv perennialArgs
        finalStageState).vc_CurrentTotalTemperatureSum = 0 :=
  perennial_reset libmQ exampleEnv perennialArgs finalStageState rfl rfl (by decide)
    (by decide) (by decide) (by decide)
    (by norm_num [afterThermalIncrement, stageThermalIncrement,
      developmentAccelerationByStress, exampleEnv, perennialArgs, exampleArgs,
      finalStageState, vget, vadd, mget])

/-- Witness of C6: scenario 1 of the specification. With the moisture control on, top-layer
moisture 0.12 below the threshold 0.16 and soil at 25 degrees above the base temperature 0,
the stage-0 thermal sum of the seed does not change. -/
theorem germination_gating_witness :
    vget (fc_CropDevelopmentalStage libmQ warmEnv dryArgs seedState).vc_CurrentTemperatureSum 0
      = vget seedState.vc_CurrentTemperatureSum 0 :=
  (germination_gating libmQ warmEnv dryArgs seedState rfl rfl (by decide)).2.2
    ⟨rfl, by norm_num [dryArgs, exampleArgs]⟩

/-- With the same warm soil and the top layer at moisture 0.3, above the threshold, the
stage-0 sum of the seed grows by 25 and reaches 70, and the seed emerges. -/
theorem germination_gating_moist_scenario :
    (fc_CropDevelopmentalStage libmQ warmEnv exampleArgs seedState).vc_CurrentTemperatureSum
        = [70, 20, 0]
    ∧ (fc_CropDevelopmentalStage libmQ warmEnv exampleArgs seedState).vc_DevelopmentalStage
        = 1 := by
  norm_num [fc_CropDevelopmentalStage, germinationAnnual, warmEnv, exampleEnv, exampleArgs,
    seedState, vget, vadd]

/-- Counterexample to C8 as stated. Neither call performs the perennial reset, and the
vernalisation factor, daylength factor and time step are 1. With the Wang-Engel response
off and the optimum temperature 3 below the base temperature 5, a day at 10 degrees adds
`3 - 5 = -2` and the total sum falls from 95 to 93. With the Wang-Engel response on and
cardinal temperatures -4, 4, 12, a day at -2 degrees has response `7/16` and adds
`7/16 * (-2)`: the total sum falls from 95 to `753/8`. -/
theorem total_temperature_sum_decreases_counterexample :
    (¬ perennialResetFires libmQ exampleEnv lowOptimumArgs exampleState
      ∧ 0 ≤ lowOptimumArgs.vc_VernalisationFactor
      ∧ 0 ≤ lowOptimumArgs.vc_DaylengthFactor ∧ lowOptimumArgs.vc_DaylengthFactor ≤ 1
      ∧ 0 ≤ lowOptimumArgs.vc_TimeStep
      ∧ exampleState.vc_CurrentTotalTemperatureSum = 95
      ∧ (fc_CropDevelopmentalStage libmQ exampleEnv lowOptimumArgs
          exampleState).vc_CurrentTotalTemperatureSum = 93)
    ∧ (¬ perennialResetFires libmQ wangEngelEnv frostArgs exampleState
      ∧ 0 ≤ frostArgs.vc_VernalisationFactor
      ∧ 0 ≤ frostArgs.vc_DaylengthFactor ∧ frostArgs.vc_DaylengthFactor ≤ 1
      ∧ 0 ≤ frostArgs.vc_TimeStep
      ∧ (fc_CropDevelopmentalStage libmQ wangEngelEnv frostArgs
          exampleState).vc_CurrentTotalTemperatureSum = 753 / 8) := by
  refine ⟨⟨?_, ?_, ?_, ?_, ?_, ?_, ?_⟩, ⟨?_, ?_, ?_, ?_, ?_, ?_⟩⟩
  all_goals
    norm_num [perennialResetFires, fc_CropDevelopmentalStage, stageTransition,
      afterThermalIncrement, stageThermalIncrement, developmentAccelerationByStress,
      WangEngelTemperatureResponse, libmQ, wangEngelEnv, frostArgs, lowOptimumArgs,
      exampleEnv, exampleArgs, exampleState, vget, vadd, mget, sizeSub, sizeRange]

/-- The Wang-Engel value `7/16` used in the counterexample to C8 does not depend on the
stand-in `libmQ`: it is the value for every C library whose `pow` is exact at the exponents
1 and 2 and whose `log 2` is not zero. -/
theorem wangEngel_response_at_frost (lm : Libm) (hlog : lm.log 2 ≠ 0)
    (hpow1 : ∀ x, lm.pow x 1 = x) (hpow2 : ∀ x, lm.pow x 2 = x * x) :
    WangEngelTemperatureResponse lm (-2) (-4) 4 12 1 = 7 / 16 := by
  have h2 : ((12 : ℚ) - -4) / (4 - -4) = 2 := by norm_num
  have halfa : lm.log 2 / lm.log 2 = 1 := div_self hlog
  simp only [WangEngelTemperatureResponse]
  rw [if_neg (by norm_num), h2, halfa]
  norm_num [hpow1, hpow2]

/-- Witness of C8 as amended: the annual three-stage crop at stage 1 on a day at 10
degrees. -/
theorem total_temperature_sum_monotone_witness :
    exampleState.vc_CurrentTotalTemperatureSum
      ≤ (fc_CropDevelopmentalStage libmQ exampleEnv exampleArgs
          exampleState).vc_CurrentTotalTemperatureSum :=
  total_temperature_sum_monotone libmQ exampleEnv exampleArgs exampleState
    (by norm_num [perennialResetFires, exampleArgs])
    (by norm_num [exampleArgs]) (by norm_num [exampleArgs]) (by norm_num [exampleArgs])
    (by norm_num [exampleArgs, exampleState, vget])
    (by norm_num [exampleEnv])

theorem vget_set_self (v : List ℚ) (i : Nat) (x : ℚ) (h : i < v.length) :
    vget (v.set i x) i = x := by
  simp [vget, List.getD_eq_getElem?_getD, List.getElem?_set, h]

theorem vget_set_of_ne (v : List ℚ) (i j : Nat) (x : ℚ) (h : i ≠ j) :
    vget (v.set i x) j = vget v j := by
  simp [vget, List.getD_eq_getElem?_getD, List.getElem?_set, h]

theorem organIncrements_vectors (env : DryMatterEnv) (stage : Nat) (np mob : ℚ) (i : Nat)
    (st : OrganState) :
    (organIncrements env stage np mob i st).vc_OrganBiomass = st.vc_OrganBiomass
    ∧ (organIncrements env stage np mob i st).vc_OrganDeadBiomass = st.vc_OrganDeadBiomass
    ∧ (organIncrements env stage np mob i st).vc_OrganGreenBiomass
        = st.vc_OrganGreenBiomass := by
  simp only [organIncrements]
  split_ifs <;> exact ⟨rfl, rfl, rfl⟩

theorem organBiomassUpdate_sized (env : DryMatterEnv) (i n : Nat) (st : OrganState)
    (h : st.sized n) : (organBiomassUpdate env i st).sized n := by
  obtain ⟨h1, h2, h3⟩ := h
  simp only [organBiomassUpdate, OrganState.sized]
  split_ifs <;> simp [length_vadd, h1, h2, h3]

theorem organGreenUpdate_sized (i n : Nat) (st : OrganState)
    (h : st.sized n) : (organGreenUpdate i st).sized n := by
  obtain ⟨h1, h2, h3⟩ := h
  simp only [organGreenUpdate, OrganState.sized]
  split_ifs <;> simp [h1, h2, h3]

theorem organTotalsUpdate_vectors (env : DryMatterEnv) (i : Nat) (st : OrganState) :
    (organTotalsUpdate env i st).vc_OrganBiomass = st.vc_OrganBiomass
    ∧ (organTotalsUpdate env i st).vc_OrganDeadBiomass = st.vc_OrganDeadBiomass
    ∧ (organTotalsUpdate env i st).vc_OrganGreenBiomass = st.vc_OrganGreenBiomass := by
  simp only [organTotalsUpdate]
  split_ifs <;> exact ⟨rfl, rfl, rfl⟩

theorem organStep_sized (env : DryMatterEnv) (stage : Nat) (np mob : ℚ) (i n : Nat)
    (st : OrganState) (h : st.sized n) : (organStep env stage np mob i st).sized n := by
  have h0 : (organIncrements env stage np mob i st).sized n := by
    obtain ⟨e1, e2, e3⟩ := organIncrements_vectors env stage np mob i st
    unfold OrganState.sized at h ⊢
    rw [e1, e2, e3]; exact h
  have h2 := organGreenUpdate_sized i n _ (organBiomassUpdate_sized env i n _ h0)
  obtain ⟨e1, e2, e3⟩ := organTotalsUpdate_vectors env i
    (organGreenUpdate i (organBiomassUpdate env i (organIncrements env stage np mob i st)))
  unfold organStep
  unfold OrganState.sized at h2 ⊢
  rw [e1, e2, e3]; exact h2

theorem organLoop_sized (env : DryMatterEnv) (stage : Nat) (np mob : ℚ) (k n : Nat)
    (st : OrganState) (h : st.sized n) : (organLoop env stage np mob k st).sized n := by
  induction k with
  | zero => exact h
  | succ k ih => exact organStep_sized env stage np mob k n _ ih

theorem organGreenUpdate_identity (i n : Nat) (st : OrganState) (h : st.sized n)
    (hi : i < n) : greenIdentity (organGreenUpdate i st) i := by
  obtain ⟨h1, h2, h3⟩ := h
  simp only [organGreenUpdate, greenIdentity]
  split_ifs with hneg
  · simp only []
    rw [vget_set_self _ _ _ (by omega), vget_set_self _ _ _ (by omega)]
    simp
  · simp only []
    rw [vget_set_self _ _ _ (by omega)]
    exact (max_eq_right (not_lt.mp hneg)).symm

theorem organStep_identity (env : DryMatterEnv) (stage : Nat) (np mob : ℚ) (i n : Nat)
    (st : OrganState) (h : st.sized n) (hi : i < n) :
    greenIdentity (organStep env stage np mob i st) i := by
  have h0 : (organIncrements env stage np mob i st).sized n := by
    obtain ⟨e1, e2, e3⟩ := organIncrements_vectors env stage np mob i st
    unfold OrganState.sized at h ⊢
    rw [e1, e2, e3]; exact h
  have := organGreenUpdate_identity i n _ (organBiomassUpdate_sized env i n _ h0) hi
  obtain ⟨e1, e2, e3⟩ := organTotalsUpdate_vectors env i
    (organGreenUpdate i (organBiomassUpdate env i (organIncrements env stage np mob i st)))
  unfold organStep
  unfold greenIdentity at this ⊢
  rw [e1, e2, e3]; exact this

theorem organBiomassUpdate_frame (env : DryMatterEnv) (i j : Nat) (st : OrganState)
    (hij : i ≠ j) (hj : j ≠ env.vc_StorageOrgan) :
    vget (organBiomassUpdate env i st).vc_OrganBiomass j = vget st.vc_OrganBiomass j
    ∧ vget (organBiomassUpdate env i st).vc_OrganDeadBiomass j = vget st.vc_OrganDeadBiomass j
    ∧ (organBiomassUpdate env i st).vc_OrganGreenBiomass = st.vc_OrganGreenBiomass := by
  have hsj : env.vc_StorageOrgan ≠ j := Ne.symm hj
  simp only [organBiomassUpdate]
  split_ifs with h1 h2
  · subst h2
    refine ⟨?_, ?_, rfl⟩
    · show vget (vadd (vadd (vadd (vadd _ _ _) _ _) _ _) _ _) _ = _
      rw [vget_vadd_of_ne _ _ _ _ hij, vget_vadd_of_ne _ _ _ _ hsj,
        vget_vadd_of_ne _ _ _ _ hij, vget_vadd_of_ne _ _ _ _ hij]
    · show vget (vadd (vadd _ _ _) _ _) _ = _
      rw [vget_vadd_of_ne _ _ _ _ hij, vget_vadd_of_ne _ _ _ _ hij]
  · refine ⟨?_, ?_, rfl⟩
    · show vget (vadd (vadd (vadd _ _ _) _ _) _ _) _ = _
      rw [vget_vadd_of_ne _ _ _ _ hsj,
        vget_vadd_of_ne _ _ _ _ hij, vget_vadd_of_ne _ _ _ _ hij]
    · show vget (vadd _ _ _) _ = _
      rw [vget_vadd_of_ne _ _ _ _ hij]
  · refine ⟨?_, ?_, rfl⟩
    · show vget (vadd _ _ _) _ = _
      rw [vget_vadd_of_ne _ _ _ _ hij]
    · show vget (vadd _ _ _) _ = _
      rw [vget_vadd_of_ne _ _ _ _ hij]

theorem organGreenUpdate_frame (i j : Nat) (st : OrganState) (hij : i ≠ j) :
    (organGreenUpdate i st).vc_OrganBiomass = st.vc_OrganBiomass
    ∧ vget (organGreenUpdate i st).vc_OrganDeadBiomass j = vget st.vc_OrganDeadBiomass j
    ∧ vget (organGreenUpdate i st).vc_OrganGreenBiomass j
        = vget st.vc_OrganGreenBiomass j := by
  simp only [organGreenUpdate]
  split_ifs
  · exact ⟨rfl, vget_set_of_ne _ _ _ _ hij, vget_set_of_ne _ _ _ _ hij⟩
  · exact ⟨rfl, rfl, vget_set_of_ne _ _ _ _ hij⟩

theorem organStep_frame (env : DryMatterEnv) (stage : Nat) (np mob : ℚ) (i j : Nat)
    (st : OrganState) (hij : i ≠ j) (hj : j ≠ env.vc_StorageOrgan) :
    vget (organStep env stage np mob i st).vc_OrganBiomass j = vget st.vc_OrganBiomass j
    ∧ vget (organStep env stage np mob i st).vc_OrganDeadBiomass j
        = vget st.vc_OrganDeadBiomass j
    ∧ vget (organStep env stage np mob i st).vc_OrganGreenBiomass j
        = vget st.vc_OrganGreenBiomass j := by
  obtain ⟨a1, a2, a3⟩ := organIncrements_vectors env stage np mob i st
  obtain ⟨b1, b2, b3⟩ := organBiomassUpdate_frame env i j
    (organIncrements env stage np mob i st) hij hj
  obtain ⟨c1, c2, c3⟩ := organGreenUpdate_frame i j
    (organBiomassUpdate env i (organIncrements env stage np mob i st)) hij
  obtain ⟨d1, d2, d3⟩ := organTotalsUpdate_vectors env i
    (organGreenUpdate i (organBiomassUpdate env i (organIncrements env stage np mob i st)))
  unfold organStep
  rw [d1, d2, d3, c1, c2, c3, b1, b2, b3, a1, a2, a3]
  exact ⟨rfl, rfl, rfl⟩

theorem organLoop_identity (env : DryMatterEnv) (stage : Nat) (np mob : ℚ) (n k : Nat)
    (st : OrganState) (h : st.sized n) (hk : k ≤ n) :
    ∀ j, j < k → j ≠ env.vc_StorageOrgan →
      greenIdentity (organLoop env stage np mob k st) j := by
  induction k with
  | zero => intro j hj; omega
  | succ k ih =>
    intro j hj hjs
    have hsz := organLoop_sized env stage np mob k n st h
    by_cases hjk : j = k
    · subst hjk
      exact organStep_identity env stage np mob j n _ hsz (by omega)
    · have hprev := ih (by omega) j (by omega) hjs
      obtain ⟨f1, f2, f3⟩ := organStep_frame env stage np mob k j
        (organLoop env stage np mob k st) (Ne.symm hjk) hjs
      simp only [greenIdentity, organLoop] at hprev ⊢
      rw [f1, f2, f3]
      exact hprev

theorem organIncrements_values (env : DryMatterEnv) (stage : Nat) (np mob : ℚ) (i n : Nat)
    (st : OrganState) (h : st.fullySized n) (hi : i < n) :
    (organIncrements env stage np mob i st).fullySized n
    ∧ vget (organIncrements env stage np mob i st).vc_OrganGrowthIncrement i
        = stepGrowth env stage np mob i st
    ∧ vget (organIncrements env stage np mob i st).vc_OrganSenescenceIncrement i
        = stepSenescence env stage i st := by
  obtain ⟨h1, h2, h3, h4, h5, h6⟩ := h
  unfold organIncrements stepGrowth stepSenescence OrganState.fullySized
  by_cases hp : stageProgress env stage > 1
  · rw [if_pos hp, if_pos hp, if_pos hp]
    refine ⟨⟨h1, h2, h3, ?_, ?_, h6⟩, ?_, ?_⟩
    · show (List.set _ _ _).length = n
      rw [List.length_set]; exact h4
    · show (List.set _ _ _).length = n
      rw [List.length_set]; exact h5
    · exact vget_set_self _ _ _ (by omega)
    · exact vget_set_self _ _ _ (by omega)
  · rw [if_neg hp, if_neg hp, if_neg hp]
    refine ⟨⟨h1, h2, h3, ?_, ?_, h6⟩, ?_, ?_⟩
    · show (List.set _ _ _).length = n
      rw [List.length_set]; exact h4
    · show (List.set _ _ _).length = n
      rw [List.length_set]; exact h5
    · exact vget_set_self _ _ _ (by omega)
    · exact vget_set_self _ _ _ (by omega)

theorem organBiomassUpdate_fullySized (env : DryMatterEnv) (i n : Nat) (st : OrganState)
    (h : st.fullySized n) : (organBiomassUpdate env i st).fullySized n := by
  obtain ⟨h1, h2, h3, h4, h5, h6⟩ := h
  simp only [organBiomassUpdate, OrganState.fullySized]
  split_ifs <;> simp [length_vadd, h1, h2, h3, h4, h5, h6]

theorem organGreenUpdate_fullySized (i n : Nat) (st : OrganState)
    (h : st.fullySized n) : (organGreenUpdate i st).fullySized n := by
  obtain ⟨h1, h2, h3, h4, h5, h6⟩ := h
  simp only [organGreenUpdate, OrganState.fullySized]
  split_ifs <;> simp [h1, h2, h3, h4, h5, h6]

theorem organTotalsUpdate_fullySized (env : DryMatterEnv) (i n : Nat) (st : OrganState)
    (h : st.fullySized n) : (organTotalsUpdate env i st).fullySized n := by
  simp only [organTotalsUpdate, OrganState.fullySized]
  split_ifs <;> exact h

theorem organStep_fullySized (env : DryMatterEnv) (stage : Nat) (np mob : ℚ) (i n : Nat)
    (st : OrganState) (h : st.fullySized n) (hi : i < n) :
    (organStep env stage np mob i st).fullySized n :=
  organTotalsUpdate_fullySized env i n _ (organGreenUpdate_fullySized i n _
    (organBiomassUpdate_fullySized env i n _
      (organIncrements_values env stage np mob i n st h hi).1))

theorem organBiomassUpdate_biomass (env : DryMatterEnv) (i n : Nat) (st : OrganState)
    (h : st.fullySized n) (hi : i < n) (hs : env.vc_StorageOrgan < n) :
    (i ≠ env.vc_StorageOrgan →
      vget (organBiomassUpdate env i st).vc_OrganBiomass i
        = vget st.vc_OrganBiomass i + vget st.vc_OrganGrowthIncrement i * env.vc_TimeStep
          - env.pc_AssimilateReallocation * vget st.vc_OrganSenescenceIncrement i
              * env.vc_TimeStep
          - (if i = 0 then vget st.vc_OrganSenescenceIncrement i
              - env.pc_AssimilateReallocation * vget st.vc_OrganSenescenceIncrement i
                * env.vc_TimeStep else 0)
      ∧ vget (organBiomassUpdate env i st).vc_OrganBiomass env.vc_StorageOrgan
        = vget st.vc_OrganBiomass env.vc_StorageOrgan
          + env.pc_AssimilateReallocation * vget st.vc_OrganSenescenceIncrement i
              * env.vc_TimeStep)
    ∧ (i = env.vc_StorageOrgan →
      vget (organBiomassUpdate env i st).vc_OrganBiomass i
        = vget st.vc_OrganBiomass i + vget st.vc_OrganGrowthIncrement i * env.vc_TimeStep) := by
  obtain ⟨h1, h2, h3, h4, h5, h6⟩ := h
  constructor
  · intro his
    have hsi : env.vc_StorageOrgan ≠ i := Ne.symm his
    simp only [organBiomassUpdate]
    rw [if_pos his]
    by_cases h0 : i = 0
    · rw [if_pos h0, if_pos h0]
      subst h0
      have hs0 : env.vc_StorageOrgan ≠ 0 := hsi
      constructor
      · show vget (vadd (vadd (vadd (vadd _ _ _) _ _) _ _) _ _) _ = _
        rw [vget_vadd_self _ _ _ (by simp [length_vadd]; omega),
          vget_vadd_of_ne _ _ _ _ hs0,
          vget_vadd_self _ _ _ (by simp [length_vadd]; omega),
          vget_vadd_self _ _ _ (by omega),
          vget_set_self _ _ _ (by omega)]
        ring
      · show vget (vadd (vadd (vadd (vadd _ _ _) _ _) _ _) _ _) _ = _
        rw [vget_vadd_of_ne _ _ _ _ (Ne.symm hs0),
          vget_vadd_self _ _ _ (by simp [length_vadd]; omega),
          vget_vadd_of_ne _ _ _ _ (Ne.symm hs0), vget_vadd_of_ne _ _ _ _ (Ne.symm hs0)]
    · rw [if_neg h0, if_neg h0]
      constructor
      · show vget (vadd (vadd (vadd _ _ _) _ _) _ _) _ = _
        rw [vget_vadd_of_ne _ _ _ _ hsi,
          vget_vadd_self _ _ _ (by simp [length_vadd]; omega),
          vget_vadd_self _ _ _ (by omega)]
        ring
      · show vget (vadd (vadd (vadd _ _ _) _ _) _ _) _ = _
        rw [vget_vadd_self _ _ _ (by simp [length_vadd]; omega),
          vget_vadd_of_ne _ _ _ _ his, vget_vadd_of_ne _ _ _ _ his]
  · intro his
    simp only [organBiomassUpdate]
    rw [if_neg (by simpa using his)]
    show vget (vadd _ _ _) _ = _
    rw [vget_vadd_self _ _ _ (by omega)]

theorem organStep_biomass_eq (env : DryMatterEnv) (stage : Nat) (np mob : ℚ) (i : Nat)
    (st : OrganState) :
    (organStep env stage np mob i st).vc_OrganBiomass
      = (organBiomassUpdate env i (organIncrements env stage np mob i st)).vc_OrganBiomass := by
  unfold organStep
  rw [(organTotalsUpdate_vectors env i _).1]
  simp only [organGreenUpdate]
  split_ifs <;> rfl

theorem organStep_biomass (env : DryMatterEnv) (stage : Nat) (np mob : ℚ) (i n : Nat)
    (st : OrganState) (h : st.fullySized n) (hi : i < n) (hs : env.vc_StorageOrgan < n) :
    (i ≠ env.vc_StorageOrgan →
      vget (organStep env stage np mob i st).vc_OrganBiomass i
        = vget st.vc_OrganBiomass i + stepGrowth env stage np mob i st * env.vc_TimeStep
          - env.pc_AssimilateReallocation * stepSenescence env stage i st * env.vc_TimeStep
          - (if i = 0 then stepSenescence env stage i st
              - env.pc_AssimilateReallocation * stepSenescence env stage i st
                * env.vc_TimeStep else 0)
      ∧ vget (organStep env stage np mob i st).vc_OrganBiomass env.vc_StorageOrgan
        = vget st.vc_OrganBiomass env.vc_StorageOrgan
          + env.pc_AssimilateReallocation * stepSenescence env stage i st * env.vc_TimeStep)
    ∧ (i = env.vc_StorageOrgan →
      vget (organStep env stage np mob i st).vc_OrganBiomass i
        = vget st.vc_OrganBiomass i + stepGrowth env stage np mob i st * env.vc_TimeStep) := by
  obtain ⟨hsz, hg, hsen⟩ := organIncrements_values env stage np mob i n st h hi
  have hb := (organIncrements_vectors env stage np mob i st).1
  have key := organBiomassUpdate_biomass env i n _ hsz hi hs
  rw [organStep_biomass_eq]
  rw [hg, hsen, hb] at key
  exact key

theorem stepSenescence_bounds (env : DryMatterEnv) (stage i : Nat) (st : OrganState)
    (hr0 : 0 ≤ interpolatedSenescenceRate env stage i)
    (hr1 : interpolatedSenescenceRate env stage i ≤ 1)
    (hg : 0 ≤ vget st.vc_OrganGreenBiomass i) :
    0 ≤ stepSenescence env stage i st
    ∧ stepSenescence env stage i st ≤ vget st.vc_OrganGreenBiomass i := by
  unfold stepSenescence organSenescenceIncrement
  split_ifs
  · exact ⟨le_refl _, hg⟩
  · exact ⟨mul_nonneg hg hr0, by nlinarith⟩

theorem stepGrowth_nonneg (env : DryMatterEnv) (stage : Nat) (np mob : ℚ) (i : Nat)
    (st : OrganState) (hnp : 0 ≤ np) (hmob : 0 ≤ mob)
    (hc : 0 ≤ interpolatedPartitioningCoeff env stage i) (hN : 0 ≤ env.vc_CropNRedux)
    (his : i ≠ env.vc_StorageOrgan) :
    0 ≤ stepGrowth env stage np mob i st := by
  unfold stepGrowth organGrowthIncrement
  simp only []
  rw [if_neg (not_lt.mpr hnp), if_pos his]
  split_ifs
  · exact le_refl _
  · exact add_nonneg (mul_nonneg (mul_nonneg hnp hc) hN) (mul_nonneg (mul_nonneg hmob hc) hN)

theorem stepGrowth_storage (env : DryMatterEnv) (stage : Nat) (np mob : ℚ) (i : Nat)
    (st : OrganState) (hnp : 0 ≤ np) (hmob : 0 ≤ mob)
    (hc : 0 ≤ interpolatedPartitioningCoeff env stage i) (hN : 0 ≤ env.vc_CropNRedux)
    (his : i = env.vc_StorageOrgan) :
    -(mob * env.vc_CropNRedux) ≤ stepGrowth env stage np mob i st := by
  unfold stepGrowth organGrowthIncrement
  simp only []
  rw [if_neg (not_lt.mpr hnp),
    if_neg (show ¬ i ≠ env.vc_StorageOrgan from fun h => h his)]
  split_ifs
  · have := mul_nonneg hmob hN
    linarith
  · have h1 := mul_nonneg (mul_nonneg hnp hc) hN
    have h2 := mul_nonneg (mul_nonneg hmob hc) hN
    linarith

theorem organStep_green_frame (env : DryMatterEnv) (stage : Nat) (np mob : ℚ) (i j : Nat)
    (st : OrganState) (hij : i ≠ j) :
    vget (organStep env stage np mob i st).vc_OrganGreenBiomass j
      = vget st.vc_OrganGreenBiomass j := by
  unfold organStep
  rw [(organTotalsUpdate_vectors env i _).2.2, (organGreenUpdate_frame i j _ hij).2.2]
  have h1 : (organBiomassUpdate env i (organIncrements env stage np mob i st)).vc_OrganGreenBiomass
      = (organIncrements env stage np mob i st).vc_OrganGreenBiomass := by
    simp only [organBiomassUpdate]
    split_ifs <;> rfl
  rw [h1, (organIncrements_vectors env stage np mob i st).2.2]

/-- The invariant of the organ loop behind the lower bound on the organ biomass: organs not
yet visited keep biomass and green biomass, visited organs have biomass `≥ 0`, and the
storage organ does not fall below its initial biomass before its own iteration. -/
theorem organLoop_biomass_invariant (env : DryMatterEnv) (stage : Nat) (np : ℚ) (n : Nat)
    (st : OrganState) (hsz : st.fullySized n) (hs : env.vc_StorageOrgan < n)
    (hnp : 0 ≤ np) (ht0 : 0 ≤ env.vc_TimeStep) (ht1 : env.vc_TimeStep ≤ 1)
    (hN0 : 0 ≤ env.vc_CropNRedux) (hN1 : env.vc_CropNRedux ≤ 1)
    (hr0 : 0 ≤ env.pc_AssimilateReallocation) (hr1 : env.pc_AssimilateReallocation ≤ 1)
    (f : ℚ) (hf0 : 0 ≤ f) (hf1 : f ≤ 1)
    (hc : ∀ i, i < n → 0 ≤ interpolatedPartitioningCoeff env stage i)
    (hsr : ∀ i, i < n → 0 ≤ interpolatedSenescenceRate env stage i
      ∧ interpolatedSenescenceRate env stage i ≤ 1)
    (hb : ∀ i, i < n → 0 ≤ vget st.vc_OrganBiomass i)
    (hg : ∀ i, i < n → 0 ≤ vget st.vc_OrganGreenBiomass i
      ∧ vget st.vc_OrganGreenBiomass i ≤ vget st.vc_OrganBiomass i)
    (k : Nat) (hk : k ≤ n) :
    (organLoop env stage np (vget st.vc_OrganBiomass env.vc_StorageOrgan * f) k st).fullySized n
    ∧ (∀ j, k ≤ j → j < n → j ≠ env.vc_StorageOrgan →
        vget (organLoop env stage np (vget st.vc_OrganBiomass env.vc_StorageOrgan * f) k
            st).vc_OrganBiomass j = vget st.vc_OrganBiomass j)
    ∧ (∀ j, k ≤ j → j < n →
        vget (organLoop env stage np (vget st.vc_OrganBiomass env.vc_StorageOrgan * f) k
            st).vc_OrganGreenBiomass j = vget st.vc_OrganGreenBiomass j)
    ∧ (∀ j, j < k →
        0 ≤ vget (organLoop env stage np (vget st.vc_OrganBiomass env.vc_StorageOrgan * f) k
            st).vc_OrganBiomass j)
    ∧ (k ≤ env.vc_StorageOrgan →
        vget st.vc_OrganBiomass env.vc_StorageOrgan
          ≤ vget (organLoop env stage np (vget st.vc_OrganBiomass env.vc_StorageOrgan * f) k
              st).vc_OrganBiomass env.vc_StorageOrgan) := by
  induction k with
  | zero =>
    refine ⟨hsz, fun j _ _ _ => rfl, fun j _ _ => rfl, fun j hj => by omega, fun _ => le_refl _⟩
  | succ k ih =>
    obtain ⟨i1, i2, i3, i4, i5⟩ := ih (by omega)
    have hkn : k < n := by omega
    have hbs := hb _ hs
    have hmob : 0 ≤ vget st.vc_OrganBiomass env.vc_StorageOrgan * f := mul_nonneg hbs hf0
    set mob := vget st.vc_OrganBiomass env.vc_StorageOrgan * f with hmobdef
    set L := organLoop env stage np mob k st with hL
    have hstep := organStep_biomass env stage np mob k n L i1 hkn hs
    have hgk : vget L.vc_OrganGreenBiomass k = vget st.vc_OrganGreenBiomass k :=
      i3 k (le_refl _) hkn
    have hsen := stepSenescence_bounds env stage k L (hsr k hkn).1 (hsr k hkn).2
      (by rw [hgk]; exact (hg k hkn).1)
    rw [hgk] at hsen
    have hrealloc : 0 ≤ env.pc_AssimilateReallocation * stepSenescence env stage k L
        * env.vc_TimeStep := mul_nonneg (mul_nonneg hr0 hsen.1) ht0
    have hrealloc_le : env.pc_AssimilateReallocation * stepSenescence env stage k L
        * env.vc_TimeStep ≤ stepSenescence env stage k L := by
      have h1 : env.pc_AssimilateReallocation * env.vc_TimeStep ≤ 1 := by nlinarith
      nlinarith [hsen.1]
    refine ⟨organStep_fullySized env stage np mob k n L i1 hkn, ?_, ?_, ?_, ?_⟩
    · intro j hj hjn hjs
      rw [organLoop, (organStep_frame env stage np mob k j L (by omega) hjs).1]
      exact i2 j (by omega) hjn hjs
    · intro j hj hjn
      rw [organLoop, organStep_green_frame env stage np mob k j L (by omega)]
      exact i3 j (by omega) hjn
    · intro j hj
      rw [organLoop]
      by_cases hks : k = env.vc_StorageOrgan
      · -- the storage organ is visited
        by_cases hjk : j = k
        · subst hjk
          rw [hstep.2 hks]
          have hG := stepGrowth_storage env stage np mob j L hnp hmob (hc j hkn) hN0 hks
          have hB := i5 (le_of_eq hks)
          rw [← hks] at hB hbs hmobdef
          have hNt : env.vc_CropNRedux * env.vc_TimeStep ≤ 1 := by nlinarith
          have hmobN : mob * env.vc_CropNRedux * env.vc_TimeStep
              ≤ vget st.vc_OrganBiomass j := by
            have hm1 : mob ≤ vget st.vc_OrganBiomass j := by
              rw [hmobdef]; nlinarith
            have hNt0 : 0 ≤ env.vc_CropNRedux * env.vc_TimeStep := mul_nonneg hN0 ht0
            nlinarith
          nlinarith
        · have hjs : j ≠ env.vc_StorageOrgan := by rw [← hks]; exact hjk
          rw [(organStep_frame env stage np mob k j L (Ne.symm hjk) hjs).1]
          exact i4 j (by omega)
      · obtain ⟨e1, e2⟩ := hstep.1 hks
        by_cases hjk : j = k
        · subst hjk
          rw [e1, i2 j (le_refl _) hkn hks]
          have hG := stepGrowth_nonneg env stage np mob j L hnp hmob (hc j hkn) hN0 hks
          have hGt := mul_nonneg hG ht0
          have hgb := (hg j hkn).2
          split_ifs
          · linarith [hsen.2]
          · linarith [hsen.2]
        · by_cases hjs : j = env.vc_StorageOrgan
          · rw [hjs, e2]
            have := i4 j (by omega)
            rw [hjs] at this
            linarith
          · rw [(organStep_frame env stage np mob k j L (Ne.symm hjk) hjs).1]
            exact i4 j (by omega)
    · intro hks
      have hks2 : k ≠ env.vc_StorageOrgan := by omega
      rw [organLoop, (hstep.1 hks2).2]
      have := i5 (by omega)
      linarith

/-- Where the invariant of C3 holds. Start from a state whose biomass vectors have one entry
per organ, at a stage with a temperature-sum target other than 0. After the organ loop of
`fc_CropDryMatter` every organ other than the storage organ has green biomass
`max(0, biomass - dead biomass)`, and so has the storage organ when it is the last organ.
Every organ biomass is `≥ 0` when the start state has biomass `≥ 0`, dead biomass `≥ 0` and
the green-biomass identity for every organ, the net assimilate is `≥ 0`, the time step, the
nitrogen reduction factor, the reallocation fraction and the mobilised fraction
`pc_StageMobilFromStorageCoeff[stage] * vc_KTkc` lie in `[0, 1]`, the stage-interpolated
partitioning coefficients are `≥ 0` and the stage-interpolated senescence rates lie in
`[0, 1]`. -/
theorem organ_biomass_invariant (env : DryMatterEnv) (stage : Nat) (vc_Assimilates : ℚ)
    (st : OrganState) (htarget : vget env.pc_StageTemperatureSum stage ≠ 0)
    (hsized : st.sized env.pc_NumberOfOrgans) (i : Nat)
    (hi : i < env.pc_NumberOfOrgans) :
    ((i ≠ env.vc_StorageOrgan ∨ env.vc_StorageOrgan + 1 = env.pc_NumberOfOrgans) →
      vget (fc_CropDryMatter_organs env stage vc_Assimilates st).vc_OrganGreenBiomass i
        = max 0 (vget (fc_CropDryMatter_organs env stage vc_Assimilates st).vc_OrganBiomass i
          - vget (fc_CropDryMatter_organs env stage vc_Assimilates st).vc_OrganDeadBiomass i))
    ∧ ((st.vc_OrganGrowthIncrement.length = env.pc_NumberOfOrgans
        ∧ st.vc_OrganSenescenceIncrement.length = env.pc_NumberOfOrgans
        ∧ env.vc_StorageOrgan < env.pc_NumberOfOrgans
        ∧ 0 ≤ vc_Assimilates
        ∧ 0 ≤ env.vc_TimeStep ∧ env.vc_TimeStep ≤ 1
        ∧ 0 ≤ env.vc_CropNRedux ∧ env.vc_CropNRedux ≤ 1
        ∧ 0 ≤ env.pc_AssimilateReallocation ∧ env.pc_AssimilateReallocation ≤ 1
        ∧ 0 ≤ vget env.pc_StageMobilFromStorageCoeff stage * env.vc_KTkc
        ∧ vget env.pc_StageMobilFromStorageCoeff stage * env.vc_KTkc ≤ 1
        ∧ (∀ j, j < env.pc_NumberOfOrgans → 0 ≤ interpolatedPartitioningCoeff env stage j)
        ∧ (∀ j, j < env.pc_NumberOfOrgans → 0 ≤ interpolatedSenescenceRate env stage j
            ∧ interpolatedSenescenceRate env stage j ≤ 1)
        ∧ (∀ j, j < env.pc_NumberOfOrgans → 0 ≤ vget st.vc_OrganBiomass j
            ∧ 0 ≤ vget st.vc_OrganDeadBiomass j ∧ greenIdentity st j)) →
      0 ≤ vget (fc_CropDryMatter_organs env stage vc_Assimilates st).vc_OrganBiomass i) := by
  have _ := htarget
  have hsz0 : OrganState.sized { st with
      vc_AbovegroundBiomass := 0
      vc_BelowgroundBiomass := 0
      vc_TotalBiomass := 0
      dailyDeadBiomassIncrement := List.replicate env.pc_NumberOfOrgans 0 }
      env.pc_NumberOfOrgans := hsized
  constructor
  · intro hst
    by_cases his : i = env.vc_StorageOrgan
    · have hlast : env.vc_StorageOrgan + 1 = env.pc_NumberOfOrgans := by
        rcases hst with h | h
        · exact absurd his h
        · exact h
      have : greenIdentity (fc_CropDryMatter_organs env stage vc_Assimilates st) i := by
        simp only [fc_CropDryMatter_organs]
        rw [← hlast, organLoop, ← his]
        exact organStep_identity env stage _ _ i env.pc_NumberOfOrgans _
          (organLoop_sized env stage _ _ i _ _ hsz0) hi
      exact this
    · exact organLoop_identity env stage _ _ env.pc_NumberOfOrgans env.pc_NumberOfOrgans _
        hsz0 (le_refl _) i hi his
  · rintro ⟨hl1, hl2, hs, hnp, ht0, ht1, hN0, hN1, hr0, hr1, hf0, hf1, hc, hsr, hstart⟩
    obtain ⟨hb1, hb2, hb3⟩ := hsized
    have hfull : OrganState.fullySized { st with
        vc_AbovegroundBiomass := 0
        vc_BelowgroundBiomass := 0
        vc_TotalBiomass := 0
        dailyDeadBiomassIncrement := List.replicate env.pc_NumberOfOrgans 0 }
        env.pc_NumberOfOrgans :=
      ⟨hb1, hb2, hb3, hl1, hl2, List.length_replicate _ _⟩
    have hgreen : ∀ j, j < env.pc_NumberOfOrgans → 0 ≤ vget st.vc_OrganGreenBiomass j
        ∧ vget st.vc_OrganGreenBiomass j ≤ vget st.vc_OrganBiomass j := by
      intro j hj
      obtain ⟨g1, g2, g3⟩ := hstart j hj
      unfold greenIdentity at g3
      rw [g3]
      exact ⟨le_max_left _ _, max_le g1 (by linarith)⟩
    have key := organLoop_biomass_invariant env stage vc_Assimilates env.pc_NumberOfOrgans
      { st with
        vc_AbovegroundBiomass := 0
        vc_BelowgroundBiomass := 0
        vc_TotalBiomass := 0
        dailyDeadBiomassIncrement := List.replicate env.pc_NumberOfOrgans 0 }
      hfull hs hnp ht0 ht1 hN0 hN1 hr0 hr1
      (vget env.pc_StageMobilFromStorageCoeff stage * env.vc_KTkc) hf0 hf1 hc hsr
      (fun j hj => (hstart j hj).1) hgreen env.pc_NumberOfOrgans (le_refl _)
    have := key.2.2.2.1 i hi
    simp only [fc_CropDryMatter_organs]
    rw [mul_assoc]
    exact this

/-- The organ loop evaluated on the five-organ crop with net assimilate -1000. -/
theorem fiveOrgan_step :
    (fc_CropDryMatter_organs fiveOrganEnv 1 (-1000) fiveOrganState).vc_OrganBiomass
        = [100, -1/2, 50, 103/2, 19]
    ∧ (fc_CropDryMatter_organs fiveOrganEnv 1 (-1000) fiveOrganState).vc_OrganDeadBiomass
        = [0, -1/2, 0, 0, 1]
    ∧ (fc_CropDryMatter_organs fiveOrganEnv 1 (-1000) fiveOrganState).vc_OrganGreenBiomass
        = [100, 0, 50, 101/2, 18] := by
  simp only [fc_CropDryMatter_organs, organLoop, fiveOrganEnv]
  norm_num [organStep, organIncrements, organGrowthIncrement, organSenescenceIncrement,
    organBiomassUpdate, organGreenUpdate, organTotalsUpdate, interpolatedPartitioningCoeff,
    interpolatedSenescenceRate, stageProgress, fiveOrganState, vget, vadd, mget, bget, fabs, sizeSub, sizeRange]
/-- Claim C3 (biomass invariant) does not hold for the code. The five-organ crop, half-way
through stage 1 with a target of 100, starts with every organ biomass `≥ 0` and green biomass
equal to `max(0, biomass - dead)`, the senescence rates are `≥ 0` and the reallocation
fraction is `1/2`. After one step with net assimilate -1000 the leaf biomass is `-1/2`: the
negative-assimilate branch removes the whole leaf biomass 10, all that is available, and
the reallocation of the senesced mass is subtracted after it. The storage
organ, at index 3 of 5, has green biomass `101/2` and biomass minus dead biomass `103/2`:
the fifth organ adds its reallocation to the storage biomass after the storage organ's green
biomass was set. -/
theorem biomass_invariant_broken_by_step :
    (∀ i, i < 5 →
      0 ≤ vget fiveOrganState.vc_OrganBiomass i ∧ greenIdentity fiveOrganState i)
    ∧ (∀ row ∈ fiveOrganEnv.pc_OrganSenescenceRate, ∀ r ∈ row, (0 : ℚ) ≤ r)
    ∧ 0 ≤ fiveOrganEnv.pc_AssimilateReallocation
    ∧ fiveOrganEnv.pc_AssimilateReallocation ≤ 1
    ∧ vget (fc_CropDryMatter_organs fiveOrganEnv 1 (-1000) fiveOrganState).vc_OrganBiomass 1
        < 0
    ∧ ¬ greenIdentity (fc_CropDryMatter_organs fiveOrganEnv 1 (-1000) fiveOrganState) 3 := by
  obtain ⟨hb, hd, hg⟩ := fiveOrgan_step
  refine ⟨?_, ?_, ?_, ?_, ?_, ?_⟩
  · intro i hi
    interval_cases i <;> norm_num [greenIdentity, fiveOrganState, vget]
  · intro row hrow r hr
    simp only [fiveOrganEnv, List.mem_cons, List.mem_singleton, List.not_mem_nil,
      or_false] at hrow
    rcases hrow with h | h <;>
    · subst h
      simp only [List.mem_cons, List.mem_singleton, List.not_mem_nil, or_false] at hr
      rcases hr with h | h | h | h | h <;> norm_num [h]
  · norm_num [fiveOrganEnv]
  · norm_num [fiveOrganEnv]
  · rw [hb]; norm_num [vget]
  · unfold greenIdentity
    rw [hb, hd, hg]; norm_num [vget]

/-- The invariant of C3 at work: the leaf of the five-organ crop after a step with net
assimilate 100. -/
theorem organ_biomass_invariant_witness :
    vget (fc_CropDryMatter_organs fiveOrganEnv 1 100 fiveOrganState).vc_OrganGreenBiomass 1
        = max 0
          (vget (fc_CropDryMatter_organs fiveOrganEnv 1 100 fiveOrganState).vc_OrganBiomass 1
            - vget (fc_CropDryMatter_organs fiveOrganEnv 1 100
                fiveOrganState).vc_OrganDeadBiomass 1)
    ∧ 0 ≤ vget (fc_CropDryMatter_organs fiveOrganEnv 1 100 fiveOrganState).vc_OrganBiomass 1 :=
  ⟨(organ_biomass_invariant fiveOrganEnv 1 100 fiveOrganState
      (by norm_num [fiveOrganEnv, vget]) ⟨rfl, rfl, rfl⟩ 1
      (by decide)).1 (Or.inl (by decide)),
    (organ_biomass_invariant fiveOrganEnv 1 100 fiveOrganState
      (by norm_num [fiveOrganEnv, vget]) ⟨rfl, rfl, rfl⟩ 1
      (by decide)).2
      ⟨rfl, rfl, by decide, by norm_num, by norm_num [fiveOrganEnv],
        by norm_num [fiveOrganEnv], by norm_num [fiveOrganEnv], by norm_num [fiveOrganEnv],
        by norm_num [fiveOrganEnv], by norm_num [fiveOrganEnv],
        by norm_num [fiveOrganEnv, vget], by norm_num [fiveOrganEnv, vget],
        fun j hj => by
          have hj5 : j < 5 := hj
          interval_cases j <;>
            norm_num [interpolatedPartitioningCoeff, stageProgress, fiveOrganEnv, mget, vget,
              bget, sizeSub, sizeRange],
        fun j hj => by
          have hj5 : j < 5 := hj
          interval_cases j <;>
            norm_num [interpolatedSenescenceRate, stageProgress, fiveOrganEnv, mget, vget,
              sizeSub, sizeRange],
        fun j hj => by
          have hj5 : j < 5 := hj
          interval_cases j <;> norm_num [greenIdentity, fiveOrganState, vget]⟩⟩

theorem cutStep_leafAreaIndex (exports : List (Int × ℚ)) (sla : ℚ) (st st' : CutState)
    (p : Int × CuttingValue) (h : cutStep exports sla st p = some st') :
    st'.vc_LeafAreaIndex = st.vc_LeafAreaIndex := by
  unfold cutStep at h
  split at h
  · simp only [Option.some.injEq] at h
    rw [← h]
  · exact absurd h (by simp)

theorem cutLoop_leafAreaIndex (exports : List (Int × ℚ)) (sla : ℚ)
    (l : List (Int × CuttingValue)) (st st' : CutState)
    (h : l.foldlM (cutStep exports sla) st = some st') :
    st'.vc_LeafAreaIndex = st.vc_LeafAreaIndex := by
  induction l generalizing st with
  | nil =>
    simp only [List.foldlM, pure, Option.some.injEq] at h
    rw [← h]
  | cons p t ih =>
    rw [List.foldlM_cons] at h
    cases hp : cutStep exports sla st p with
    | none => rw [hp] at h; exact absurd h (by simp)
    | some s1 =>
      rw [hp] at h
      rw [ih s1 h, cutStep_leafAreaIndex exports sla st s1 p hp]

theorem applyCutting_leafAreaIndex (env : CutEnv) (organs : List (Int × CuttingValue))
    (exports : List (Int × ℚ)) (frac : ℚ) (st st' : CutState)
    (h : applyCutting env organs exports frac st = some st') :
    st'.vc_LeafAreaIndex
      = (if vget st'.vc_OrganGreenBiomass 1 > 0
          then vget st'.vc_OrganGreenBiomass 1
            * (st.vc_LeafAreaIndex / vget st.vc_OrganGreenBiomass 1)
          else st.vc_LeafAreaIndex) := by
  unfold applyCutting at h
  simp only [] at h
  split at h
  · exact absurd h (by simp)
  · next s1 hs1 =>
    have hl := cutLoop_leafAreaIndex _ _ _ _ _ hs1
    simp only [Option.some.injEq] at h
    rw [← h]
    simp only [hl]

/-- Claim C4 as amended (leaf area stays positive). `vc_LeafAreaIndex > 0` holds after
construction and after every `fc_CropGreenArea` update with a stage temperature-sum target
other than 0, for every leaf growth and senescence increment: the update has a value, a value
`≤ 0` is replaced by `0.001`, a positive value is kept. `applyCutting` leaves
`vc_LeafAreaIndex > 0` whenever the leaf area index and the green leaf biomass
`vc_OrganGreenBiomass[1]` were `> 0` before the cut. -/
theorem leaf_area_index_positive (lm : Libm) (pc_NumberOfOrgans : Nat)
    (pc_InitialOrganBiomass pc_SpecificLeafArea : List ℚ) (stage0 : Nat)
    (genv : GreenAreaEnv) (gargs : GreenAreaArgs) (vc_LeafAreaIndex : ℚ)
    (cenv : CutEnv) (organs : List (Int × CuttingValue)) (exports : List (Int × ℚ))
    (cutMaxAssimilationFraction : ℚ) (st st' : CutState) :
    0 < constructorLeafAreaIndex pc_NumberOfOrgans pc_InitialOrganBiomass
        pc_SpecificLeafArea stage0
    ∧ (gargs.d_StageTemperatureSum ≠ 0 →
        fc_CropGreenArea_checked lm genv gargs vc_LeafAreaIndex
          = some (fc_CropGreenArea lm genv gargs vc_LeafAreaIndex)
        ∧ 0 < (fc_CropGreenArea lm genv gargs vc_LeafAreaIndex).1)
    ∧ (0 < st.vc_LeafAreaIndex → 0 < vget st.vc_OrganGreenBiomass 1 →
        applyCutting cenv organs exports cutMaxAssimilationFraction st = some st' →
        0 < st'.vc_LeafAreaIndex) := by
  refine ⟨?_, ?_, ?_⟩
  · simp only [constructorLeafAreaIndex]
    split_ifs with h1 h2 h2
    · norm_num
    · exact not_le.mp h2
    · norm_num
    · exact not_le.mp h2
  · intro htarget
    refine ⟨?_, ?_⟩
    · unfold fc_CropGreenArea_checked checkedDiv fc_CropGreenArea
      rw [if_neg htarget]
      rfl
    · simp only [fc_CropGreenArea]
      split_ifs with h
      · norm_num
      · exact not_le.mp h
  · intro hlai hgreen h
    rw [applyCutting_leafAreaIndex cenv organs exports _ st st' h]
    split_ifs with hg
    · exact mul_pos hg (div_pos hlai hgreen)
    · exact hlai
theorem cutStep_lengths (exports : List (Int × ℚ)) (sla : ℚ) (st st' : CutState)
    (p : Int × CuttingValue) (h : cutStep exports sla st p = some st') :
    st'.vc_OrganBiomass.length = st.vc_OrganBiomass.length
    ∧ st'.vc_OrganDeadBiomass.length = st.vc_OrganDeadBiomass.length := by
  unfold cutStep at h
  split at h
  · simp only [Option.some.injEq] at h
    rw [← h]
    simp
  · exact absurd h (by simp)

theorem cutLoop_isSome (exports : List (Int × ℚ)) (sla : ℚ)
    (l : List (Int × CuttingValue)) (st : CutState)
    (h : ∀ p ∈ l, 0 ≤ p.1 ∧ p.1.toNat < st.vc_OrganBiomass.length
      ∧ p.1.toNat < st.vc_OrganDeadBiomass.length) :
    ∃ st', l.foldlM (cutStep exports sla) st = some st' := by
  induction l generalizing st with
  | nil => exact ⟨st, rfl⟩
  | cons p t ih =>
    obtain ⟨h0, h1, h2⟩ := h p (List.mem_cons_self p t)
    have hstep : ∃ s1, cutStep exports sla st p = some s1 := by
      unfold cutStep vat
      rw [if_pos ⟨h0, h1⟩, if_pos ⟨h0, h2⟩]
      exact ⟨_, rfl⟩
    obtain ⟨s1, hs1⟩ := hstep
    obtain ⟨l1, l2⟩ := cutStep_lengths exports sla st s1 p hs1
    obtain ⟨s2, hs2⟩ := ih s1 (fun q hq => by
      obtain ⟨q0, q1, q2⟩ := h q (List.mem_cons_of_mem p hq)
      exact ⟨q0, by rw [l1]; exact q1, by rw [l2]; exact q2⟩)
    exact ⟨s2, by rw [List.foldlM_cons, hs1]; exact hs2⟩

/-- `applyCutting` returns normally when every organ id of the map is an index of the
biomass vectors. -/
theorem applyCutting_returns (env : CutEnv) (organs : List (Int × CuttingValue))
    (exports : List (Int × ℚ)) (frac : ℚ) (st : CutState)
    (h : ∀ p ∈ cutOrgans env organs, 0 ≤ p.1 ∧ p.1.toNat < st.vc_OrganBiomass.length
      ∧ p.1.toNat < st.vc_OrganDeadBiomass.length) :
    ∃ st', applyCutting env organs exports frac st = some st' := by
  obtain ⟨s1, hs1⟩ := cutLoop_isSome exports
    (st.vc_LeafAreaIndex / vget st.vc_OrganGreenBiomass 1) (cutOrgans env organs)
    { st with sumCutBiomass := 0, sumResidueBiomass := 0 } h
  unfold applyCutting
  simp only [hs1]
  exact ⟨_, rfl⟩

/-- The cut of 90 % of the leaf of the small stand, all of it exported. -/
theorem smallStand_cut :
    ∃ st', applyCutting exampleCutEnv
        [(1, { value := 0.9, unit := CuttingUnit.percentage, cut_or_left := CutOrLeft.cut })]
        [(1, 1)] 1 smallStand = some st'
      ∧ st'.vc_LeafAreaIndex = 1 / 2000 ∧ st'.vc_OrganGreenBiomass = [100, 1, 100] := by
  refine ⟨_, rfl, ?_, ?_⟩ <;>
    norm_num [applyCutting, cutOrgans, cutStep, cutOrgan, cutDeadBiomass, vat, mapFind,
      smallStand, vget, List.foldlM]

/-- Counterexample to C4 as stated: three states with `0 < vc_LeafAreaIndex < 0.001`, and an
update without a value. The constructor computes `0.25 * 0.002 = 0.0005` from a leaf biomass
of 0.25 kg/ha and keeps it, because it replaces only values `≤ 0`. `fc_CropGreenArea` takes
the leaf area index from 0.002 to `0.002 - 0.75 * 0.002 = 0.0005` and keeps it for the same
reason. `applyCutting` has no floor: cutting 90 % of the leaf of a stand with leaf area index
0.005 leaves 0.0005. With a stage temperature-sum target of 0 `fc_CropGreenArea` divides by
zero: the update has no value, and the test `vc_LeafAreaIndex <= 0.0` does not replace a
value that is not a number. -/
theorem leaf_area_floor_counterexample :
    (constructorLeafAreaIndex 3 [100, 0.25, 0] [0.002, 0.002, 0.002] 0 = 1 / 2000
      ∧ (fc_CropGreenArea libmQ plainGreenAreaEnv senescingLeafArgs 0.002).1 = 1 / 2000
      ∧ 0.001 ≤ smallStand.vc_LeafAreaIndex
      ∧ (applyCutting exampleCutEnv
          [(1, { value := 0.9, unit := CuttingUnit.percentage,
                 cut_or_left := CutOrLeft.cut })]
          [(1, 1)] 1 smallStand).map (fun s => s.vc_LeafAreaIndex) = some (1 / 2000))
    ∧ ¬ ((0.001 : ℚ) ≤ 1 / 2000)
    ∧ zeroTargetGreenArgs.d_StageTemperatureSum = 0
    ∧ fc_CropGreenArea_checked libmQ plainGreenAreaEnv zeroTargetGreenArgs 1 = none := by
  refine ⟨⟨?_, ?_, ?_, ?_⟩, ?_, rfl, ?_⟩
  · norm_num [constructorLeafAreaIndex, vget]
  · norm_num [fc_CropGreenArea, TempResponseExpansion, plainGreenAreaEnv, senescingLeafArgs]
  · norm_num [smallStand]
  · obtain ⟨st', h1, h2, _⟩ := smallStand_cut
    rw [h1, Option.map_some', h2]
  · norm_num
  · unfold fc_CropGreenArea_checked checkedDiv
    rw [if_pos (show zeroTargetGreenArgs.d_StageTemperatureSum = 0 from rfl)]
    rfl

/-- Witness of C4 as amended: the constructor and `fc_CropGreenArea` on the inputs above,
where the stage target is 100, and the cut of 90 % of the leaf of the small stand. -/
theorem leaf_area_index_positive_witness :
    0 < constructorLeafAreaIndex 3 [100, 0.25, 0] [0.002, 0.002, 0.002] 0
    ∧ senescingLeafArgs.d_StageTemperatureSum ≠ 0
    ∧ fc_CropGreenArea_checked libmQ plainGreenAreaEnv senescingLeafArgs 0.002
        = some (fc_CropGreenArea libmQ plainGreenAreaEnv senescingLeafArgs 0.002)
    ∧ 0 < (fc_CropGreenArea libmQ plainGreenAreaEnv senescingLeafArgs 0.002).1
    ∧ ∃ st', applyCutting exampleCutEnv
        [(1, { value := 0.9, unit := CuttingUnit.percentage, cut_or_left := CutOrLeft.cut })]
        [(1, 1)] 1 smallStand = some st' ∧ 0 < st'.vc_LeafAreaIndex := by
  obtain ⟨st', h1, _, _⟩ := smallStand_cut
  have h := leaf_area_index_positive libmQ 3 [100, 0.25, 0] [0.002, 0.002, 0.002] 0
    plainGreenAreaEnv senescingLeafArgs 0.002 exampleCutEnv
    [(1, { value := 0.9, unit := CuttingUnit.percentage, cut_or_left := CutOrLeft.cut })]
    [(1, 1)] 1 smallStand st'
  have htarget : senescingLeafArgs.d_StageTemperatureSum ≠ 0 := by
    norm_num [senescingLeafArgs]
  exact ⟨h.1, htarget, (h.2.1 htarget).1, (h.2.1 htarget).2, st', h1,
    h.2.2 (by norm_num [smallStand]) (by norm_num [smallStand, vget]) h1⟩

/-- The floor at work: on a day colder than the minimum assimilation temperature the response
of a C4 crop is 0 and the rate left in `vc_AssimilationRate` is `0.1`. -/
theorem assimilation_floor_cold_day :
    assimilationRateResponse libmQ c4Env coldDay 0 = some 0
    ∧ fc_CropPhotosynthesis_assimilationRate libmQ c4Env coldDay 0 = some 0.1 := by
  have h : assimilationRateResponse libmQ c4Env coldDay 0 = some 0 := by
    norm_num [assimilationRateResponse, WangEngelTemperatureResponse_checked, c4Env, coldDay]
  refine ⟨h, ?_⟩
  simp only [fc_CropPhotosynthesis_assimilationRate, h]
  norm_num [c4Env]

theorem sizeOfInt_of_nonneg (z : Int) (h : 0 ≤ z) : sizeOfInt z = z.toNat := by
  unfold sizeOfInt
  rw [if_neg (not_lt.mpr h)]

/-- Claim C9 (rooting layers). For every rooting depth in metres `≥ 0` and layer thickness
`> 0`, the layer counts computed by `fc_CropDryMatter` satisfy
`vc_RootingDepth ≤ vc_RootingZone ≤ numberOfLayers`. -/
theorem rooting_layers_ordered (vc_RootingDepth_m layerThickness : ℚ) (nols : Nat)
    (hm : 0 ≤ vc_RootingDepth_m) (ht : 0 < layerThickness) :
    (fc_CropDryMatter_rootingLayers vc_RootingDepth_m layerThickness nols).1
      ≤ (fc_CropDryMatter_rootingLayers vc_RootingDepth_m layerThickness nols).2
    ∧ (fc_CropDryMatter_rootingLayers vc_RootingDepth_m layerThickness nols).2 ≤ nols := by
  have hq : 0 ≤ vc_RootingDepth_m / layerThickness := div_nonneg hm (le_of_lt ht)
  have hle : vc_RootingDepth_m / layerThickness ≤ 1.3 * vc_RootingDepth_m / layerThickness := by
    apply div_le_div_of_nonneg_right _ (le_of_lt ht)
    nlinarith
  have hd0 : (0 : Int) ≤ ⌊0.5 + vc_RootingDepth_m / layerThickness⌋ :=
    Int.floor_nonneg.mpr (by linarith)
  have hz0 : (0 : Int) ≤ ⌊0.5 + 1.3 * vc_RootingDepth_m / layerThickness⌋ :=
    Int.floor_nonneg.mpr (by linarith)
  have hmono : ⌊0.5 + vc_RootingDepth_m / layerThickness⌋
      ≤ ⌊0.5 + 1.3 * vc_RootingDepth_m / layerThickness⌋ :=
    Int.floor_mono (by linarith)
  have hnat : sizeOfInt ⌊0.5 + vc_RootingDepth_m / layerThickness⌋
      ≤ sizeOfInt ⌊0.5 + 1.3 * vc_RootingDepth_m / layerThickness⌋ := by
    rw [sizeOfInt_of_nonneg _ hd0, sizeOfInt_of_nonneg _ hz0]
    exact Int.toNat_le_toNat hmono
  simp only [fc_CropDryMatter_rootingLayers]
  constructor
  · split_ifs <;> omega
  · split_ifs <;> omega

/-- Witness of C9: a rooting depth of 0.34 m in layers of 0.1 m gives 3 and 4 layers. -/
theorem rooting_layers_ordered_witness :
    (fc_CropDryMatter_rootingLayers 0.34 0.1 20).1
      ≤ (fc_CropDryMatter_rootingLayers 0.34 0.1 20).2
    ∧ (fc_CropDryMatter_rootingLayers 0.34 0.1 20).2 ≤ 20 :=
  rooting_layers_ordered 0.34 0.1 20 (by norm_num) (by norm_num)

/-- The layer counts of the witness of C9. -/
theorem rooting_layers_example : fc_CropDryMatter_rootingLayers 0.34 0.1 20 = (3, 4) := by
  have h1 : ⌊(0.5 : ℚ) + 0.34 / 0.1⌋ = 3 := by
    rw [Int.floor_eq_iff]; norm_num
  have h2 : ⌊(0.5 : ℚ) + 1.3 * 0.34 / 0.1⌋ = 4 := by
    rw [Int.floor_eq_iff]; norm_num
  simp only [fc_CropDryMatter_rootingLayers, h1, h2]
  norm_num [sizeOfInt]
  exact ⟨rfl, rfl⟩

theorem sumLayers_eq_sum (v : List ℚ) (n : Nat) :
    sumLayers v n = ∑ i in Finset.range n, vget v i := by
  induction n with
  | zero => rfl
  | succ k ih => rw [sumLayers, ih, Finset.sum_range_succ]

theorem length_rootDensityLoop (f : List ℚ) (s l : ℚ) (n : Nat) (rd : List ℚ) :
    (rootDensityLoop f s l n rd).length = rd.length := by
  induction n with
  | zero => rfl
  | succ k ih => simp [rootDensityLoop, ih]

theorem vget_rootDensityLoop (f : List ℚ) (s l : ℚ) (n : Nat) (rd : List ℚ) (i : Nat)
    (hi : i < n) (hn : n ≤ rd.length) :
    vget (rootDensityLoop f s l n rd) i = (vget f i / s) * l := by
  induction n with
  | zero => omega
  | succ k ih =>
    by_cases hik : i = k
    · subst hik
      rw [rootDensityLoop, vget_set_self _ _ _ (by rw [length_rootDensityLoop]; omega)]
    · rw [rootDensityLoop, vget_set_of_ne _ _ _ _ (Ne.symm hik)]
      exact ih (by omega) (by omega)

/-- Claim C10 (root-density conservation). Whenever the sum `S` of the root density factors
returned by `calcRootDensityFactorAndSum` is `> 0`, the normalised factors `factor[i] / S`
over the layers `i < vc_RootingZone` sum to 1, and the per-layer root densities assigned by
`fc_CropDryMatter` to these layers sum to `vc_TotalRootLength`. -/
theorem root_density_conservation (lm : Libm) (env : RootEnv) (vc_TotalRootLength : ℚ)
    (vc_RootDensity : List ℚ)
    (hS : 0 < (calcRootDensityFactorAndSum lm env).2)
    (hlen : env.vc_RootingZone ≤ vc_RootDensity.length) :
    (∑ i in Finset.range env.vc_RootingZone,
        vget (calcRootDensityFactorAndSum lm env).1 i / (calcRootDensityFactorAndSum lm env).2)
      = 1
    ∧ (∑ i in Finset.range env.vc_RootingZone,
        vget (fc_CropDryMatter_rootDensity lm env vc_TotalRootLength vc_RootDensity) i)
      = vc_TotalRootLength := by
  have hsum : (calcRootDensityFactorAndSum lm env).2
      = ∑ i in Finset.range env.vc_RootingZone,
          vget (calcRootDensityFactorAndSum lm env).1 i := by
    simp only [calcRootDensityFactorAndSum]
    exact sumLayers_eq_sum _ _
  have h1 : (∑ i in Finset.range env.vc_RootingZone,
      vget (calcRootDensityFactorAndSum lm env).1 i / (calcRootDensityFactorAndSum lm env).2)
      = 1 := by
    rw [← Finset.sum_div, ← hsum]
    exact div_self (ne_of_gt hS)
  refine ⟨h1, ?_⟩
  have h2 : ∀ i ∈ Finset.range env.vc_RootingZone,
      vget (fc_CropDryMatter_rootDensity lm env vc_TotalRootLength vc_RootDensity) i
        = vget (calcRootDensityFactorAndSum lm env).1 i
            / (calcRootDensityFactorAndSum lm env).2 * vc_TotalRootLength := by
    intro i hi
    simp only [fc_CropDryMatter_rootDensity]
    exact vget_rootDensityLoop _ _ _ _ _ i (Finset.mem_range.mp hi) hlen
  rw [Finset.sum_congr rfl h2, ← Finset.sum_mul, h1, one_mul]

/-- Witness of C10: ten layers with a rooting zone of four layers, every factor 1, the sum 4
and a total root length of 1000. -/
theorem root_density_conservation_witness :
    (∑ i in Finset.range exampleRootEnv.vc_RootingZone,
        vget (calcRootDensityFactorAndSum libmQ exampleRootEnv).1 i
          / (calcRootDensityFactorAndSum libmQ exampleRootEnv).2)
      = 1
    ∧ (∑ i in Finset.range exampleRootEnv.vc_RootingZone,
        vget (fc_CropDryMatter_rootDensity libmQ exampleRootEnv 1000 (List.replicate 10 0)) i)
      = 1000 :=
  root_density_conservation libmQ exampleRootEnv 1000 (List.replicate 10 0)
    (by
      norm_num [calcRootDensityFactorAndSum, sumLayers, rootDensityFactor, exampleRootEnv,
        libmQ, vget, List.range, List.range.loop])
    (by simp [exampleRootEnv])

/-- The root densities of the witness of C10. -/
theorem root_density_example :
    fc_CropDryMatter_rootDensity libmQ exampleRootEnv 1000 (List.replicate 10 0)
      = [250, 250, 250, 250, 0, 0, 0, 0, 0, 0] := by
  norm_num [fc_CropDryMatter_rootDensity, rootDensityLoop, calcRootDensityFactorAndSum,
    sumLayers, rootDensityFactor, exampleRootEnv, libmQ, vget, List.range, List.range.loop,
    List.replicate]

/-! ### Reading and writing a C array -/

theorem aget_aset_self (a : List ℚ) (i : Int) (x : ℚ) (h0 : 0 ≤ i) (h1 : i < a.length) :
    aget (aset a i x) i = x := by
  unfold aget aset
  rw [if_pos h0, if_pos h0]
  apply vget_set_self
  omega

theorem aget_aset_of_ne (a : List ℚ) (i j : Int) (x : ℚ) (hi : 0 ≤ i) (hj : 0 ≤ j)
    (hne : i ≠ j) : aget (aset a i x) j = aget a j := by
  unfold aget aset
  rw [if_pos hj, if_pos hi, if_pos hj]
  apply vget_set_of_ne
  omega

theorem aget_mem_bounds (a : List ℚ) (i : Int) (ha : ∀ x ∈ a, 0 ≤ x ∧ x ≤ 1) :
    0 ≤ aget a i ∧ aget a i ≤ 1 := by
  unfold aget vget
  split_ifs with h
  · by_cases hl : i.toNat < a.length
    · rw [List.getD_eq_getElem _ _ hl]
      exact ha _ (List.getElem_mem hl)
    · rw [List.getD_eq_default _ _ (by omega)]
      norm_num
  · norm_num

theorem length_aset (a : List ℚ) (i : Int) (x : ℚ) : (aset a i x).length = a.length := by
  unfold aset
  split_ifs <;> simp

/-! ### Oxygen deficit -/

theorem tdiv_four_le_one (t : Int) (h : t ≤ 4) : Int.tdiv t 4 ≤ 1 := by
  rcases lt_or_le t 0 with hneg | hpos
  · have h1 : Int.tdiv t 4 = -(Int.tdiv (-t) 4) := by
      rw [Int.neg_tdiv, neg_neg]
    have h2 : 0 ≤ Int.tdiv (-t) 4 := Int.tdiv_nonneg (by omega) (by norm_num)
    omega
  · rw [Int.tdiv_eq_ediv hpos (by norm_num)]
    omega

/-- C13. For every critical oxygen content above zero, every saturation and moisture of the
three top layers, every time step and every time already spent under anoxia,
`fc_OxygenDeficiency` returns a value between 0 and 1. -/
theorem oxygen_deficit_bounded (env : OxygenEnv) (d_CriticalOxygenContent : ℚ)
    (vc_TimeUnderAnoxia : Int) (hcrit : 0 < d_CriticalOxygenContent) :
    0 ≤ (fc_OxygenDeficiency env d_CriticalOxygenContent vc_TimeUnderAnoxia).2
      ∧ (fc_OxygenDeficiency env d_CriticalOxygenContent vc_TimeUnderAnoxia).2 ≤ 1 := by
  simp only [fc_OxygenDeficiency]
  refine ⟨?_, by split_ifs <;> linarith⟩
  by_cases hlow : ((env.vs_Saturation0 + env.vs_Saturation1 + env.vs_Saturation2)
      - (env.vs_SoilMoisture0 + env.vs_SoilMoisture1 + env.vs_SoilMoisture2)) / 3
      < d_CriticalOxygenContent
  · rw [if_pos hlow]
    set a := ((env.vs_Saturation0 + env.vs_Saturation1 + env.vs_Saturation2)
      - (env.vs_SoilMoisture0 + env.vs_SoilMoisture1 + env.vs_SoilMoisture2)) / 3 with ha
    set t2 : Int := if vc_TimeUnderAnoxia + intOfDouble env.vc_TimeStep > 4 then 4
      else vc_TimeUnderAnoxia + intOfDouble env.vc_TimeStep with ht2
    have ht : t2 ≤ 4 := by
      rw [ht2]; split_ifs <;> omega
    have hq : ((Int.tdiv t2 4 : Int) : ℚ) ≤ 1 := by
      exact_mod_cast tdiv_four_le_one t2 ht
    set m := (if a < 0 then 0 else a) / d_CriticalOxygenContent with hm
    have hm0 : 0 ≤ m := by
      rw [hm]; apply div_nonneg _ hcrit.le
      split_ifs <;> linarith
    have hm1 : m ≤ 1 := by
      rw [hm, div_le_one hcrit]
      split_ifs <;> linarith
    show 0 ≤ if 1 - ((Int.tdiv t2 4 : Int) : ℚ) * (1 - m) > 1 then (1 : ℚ)
      else 1 - ((Int.tdiv t2 4 : Int) : ℚ) * (1 - m)
    split_ifs
    · norm_num
    · nlinarith
  · rw [if_neg hlow]
    norm_num

/-- C13, witness: wet soil with a critical oxygen content of 0.08 after three days of anoxia;
the returned value is 1/8. -/
theorem oxygen_deficit_bounded_witness :
    (0 : ℚ) < 0.08 ∧ (fc_OxygenDeficiency wetSoil 0.08 3).2 = 1 / 8
      ∧ 0 ≤ (fc_OxygenDeficiency wetSoil 0.08 3).2
      ∧ (fc_OxygenDeficiency wetSoil 0.08 3).2 ≤ 1 := by
  refine ⟨by norm_num, ?_, oxygen_deficit_bounded wetSoil 0.08 3 (by norm_num)⟩
  norm_num [fc_OxygenDeficiency, wetSoil, intOfDouble]

/-! ### Ozone short-term and long-term factors -/

theorem hourly_O3_reduction_Ac_bounds (O3_up gamma1 gamma2 : ℚ) (h2 : 0 < gamma2) :
    0 ≤ hourly_O3_reduction_Ac O3_up gamma1 gamma2
      ∧ hourly_O3_reduction_Ac O3_up gamma1 gamma2 ≤ 1 := by
  unfold hourly_O3_reduction_Ac
  split_ifs with h h'
  · obtain ⟨ha, hb⟩ := h
    rw [gt_iff_lt, div_lt_iff₀ h2] at ha
    rw [lt_div_iff₀ h2] at hb
    constructor <;> linarith
  · norm_num
  · norm_num

theorem O3_recovery_factor_leaf_age_bounds (reldev : ℚ) :
    0 ≤ O3_recovery_factor_leaf_age reldev ∧ O3_recovery_factor_leaf_age reldev ≤ 1 := by
  simp only [O3_recovery_factor_leaf_age]
  split_ifs with h
  · refine ⟨le_max_left _ _, max_le (by norm_num) ?_⟩
    have : 0 ≤ (reldev - 0.2) / (1 - 0.2) := div_nonneg (by linarith) (by norm_num)
    linarith
  · norm_num

theorem O3_damage_recovery_bounds (fO3s_d fLA : ℚ) (hd : 0 ≤ fO3s_d ∧ fO3s_d ≤ 1)
    (hl : 0 ≤ fLA ∧ fLA ≤ 1) :
    0 ≤ O3_damage_recovery fO3s_d fLA ∧ O3_damage_recovery fO3s_d fLA ≤ 1 := by
  unfold O3_damage_recovery
  constructor <;> nlinarith [hd.1, hd.2, hl.1, hl.2]

theorem aset_mem_bounds (a : List ℚ) (i : Int) (x : ℚ) (ha : ∀ y ∈ a, 0 ≤ y ∧ y ≤ 1)
    (hx : 0 ≤ x ∧ x ≤ 1) : ∀ y ∈ aset a i x, 0 ≤ y ∧ y ≤ 1 := by
  intro y hy
  unfold aset at hy
  split_ifs at hy
  · rcases List.mem_or_eq_of_mem_set hy with h | h
    · exact ha y h
    · rw [h]; exact hx
  · exact ha y hy

theorem cumulative_O3_reduction_Ac_bounds (arr : List ℚ) (rO3s : ℚ) (h : Int)
    (ha : ∀ y ∈ arr, 0 ≤ y ∧ y ≤ 1) (hr : 0 ≤ rO3s ∧ rO3s ≤ 1) :
    0 ≤ cumulative_O3_reduction_Ac arr rO3s h ∧ cumulative_O3_reduction_Ac arr rO3s h ≤ 1 := by
  unfold cumulative_O3_reduction_Ac
  have h1 := aget_mem_bounds arr h ha
  have h2 := aget_mem_bounds arr (h - 1) ha
  split_ifs
  · exact ⟨mul_nonneg h1.1 hr.1, by nlinarith [h1.1, h1.2, hr.1, hr.2]⟩
  · exact ⟨mul_nonneg h1.1 h2.1, by nlinarith [h1.1, h1.2, h2.1, h2.2]⟩

/-- C14. For `gamma2 > 0` and every uptake, `hourly_O3_reduction_Ac` lies between 0 and 1.
Consequently, for an hour `0 ≤ h < 24`, if the previous short-term damage, the leaf-age
recovery factor and all stored hourly factors lie between 0 and 1, then
`cumulative_O3_reduction_Ac` applied to the array with the new hourly factor and to the
recovery value of `O3_damage_recovery` lies between 0 and 1, and so does the `fO3s_d` that
`FvCB_canopy_hourly` returns and stores; the stored hourly factors stay between 0 and 1. -/
theorem ozone_short_term_bounded (lm : Libm) (log10 : ℚ → ℚ) (inp : O3_impact_in)
    (par : O3_impact_params) (g : O3Globals) (fLA : ℚ)
    (hg2 : 0 < par.gamma2) (hh : 0 ≤ inp.h ∧ inp.h < 24) (hlen : g.fO3s_h.length = 24)
    (hprev : 0 ≤ g.fO3s_d ∧ g.fO3s_d ≤ 1) (hfLA : 0 ≤ fLA ∧ fLA ≤ 1)
    (hstored : ∀ y ∈ g.fO3s_h, 0 ≤ y ∧ y ≤ 1) :
    (∀ O3_up : ℚ, 0 ≤ hourly_O3_reduction_Ac O3_up par.gamma1 par.gamma2
        ∧ hourly_O3_reduction_Ac O3_up par.gamma1 par.gamma2 ≤ 1)
      ∧ (∀ O3_up : ℚ,
        0 ≤ cumulative_O3_reduction_Ac
              (aset g.fO3s_h inp.h (hourly_O3_reduction_Ac O3_up par.gamma1 par.gamma2))
              (O3_damage_recovery g.fO3s_d fLA) inp.h
          ∧ cumulative_O3_reduction_Ac
              (aset g.fO3s_h inp.h (hourly_O3_reduction_Ac O3_up par.gamma1 par.gamma2))
              (O3_damage_recovery g.fO3s_d fLA) inp.h ≤ 1)
      ∧ 0 ≤ (FvCB_canopy_hourly lm log10 inp par g).1.fO3s_d
      ∧ (FvCB_canopy_hourly lm log10 inp par g).1.fO3s_d ≤ 1
      ∧ (FvCB_canopy_hourly lm log10 inp par g).2.fO3s_d
          = (FvCB_canopy_hourly lm log10 inp par g).1.fO3s_d
      ∧ (FvCB_canopy_hourly lm log10 inp par g).2.fO3s_h.length = 24
      ∧ ∀ y ∈ (FvCB_canopy_hourly lm log10 inp par g).2.fO3s_h, 0 ≤ y ∧ y ≤ 1 := by
  have hhour := fun u => hourly_O3_reduction_Ac_bounds u par.gamma1 par.gamma2 hg2
  have harr := fun u => aset_mem_bounds g.fO3s_h inp.h _ hstored (hhour u)
  refine ⟨hhour, fun u => cumulative_O3_reduction_Ac_bounds _ _ _ (harr u)
    (O3_damage_recovery_bounds _ _ hprev hfLA), ?_⟩
  by_cases h0 : inp.h = 0
  · simp only [FvCB_canopy_hourly, if_pos h0]
    have hb := cumulative_O3_reduction_Ac_bounds _
      (O3_damage_recovery g.fO3s_d (O3_recovery_factor_leaf_age inp.reldev)) inp.h
      (harr (O3_uptake inp.O3a inp.gs (water_stress_stomatal_closure lm log10
        par.upper_thr_stomatal par.lower_thr_stomatal par.Fshape_stomatal inp.FC inp.WP
        inp.SWC inp.ET0)))
      (O3_damage_recovery_bounds _ _ hprev (O3_recovery_factor_leaf_age_bounds inp.reldev))
    refine ⟨hb.1, hb.2, ?_, ?_, harr _⟩
    · trivial
    · rw [length_aset, hlen]
  · simp only [FvCB_canopy_hourly, if_neg h0]
    have hr : 0 ≤ aget g.fO3s_h (inp.h - 1) ∧ aget g.fO3s_h (inp.h - 1) ≤ 1 :=
      aget_mem_bounds _ _ hstored
    have hc : ∀ u : ℚ, cumulative_O3_reduction_Ac
        (aset g.fO3s_h inp.h (hourly_O3_reduction_Ac u par.gamma1 par.gamma2)) g.rO3s inp.h
        = hourly_O3_reduction_Ac u par.gamma1 par.gamma2 * aget g.fO3s_h (inp.h - 1) := by
      intro u
      unfold cumulative_O3_reduction_Ac
      rw [if_neg h0, aget_aset_self _ _ _ hh.1 (by rw [hlen]; exact_mod_cast hh.2),
        aget_aset_of_ne _ _ _ _ hh.1 (by omega) (by omega)]
    rw [hc]
    refine ⟨mul_nonneg (hhour _).1 hr.1,
      by nlinarith [(hhour (O3_uptake inp.O3a inp.gs g.WS_st_clos)).1,
        (hhour (O3_uptake inp.O3a inp.gs g.WS_st_clos)).2, hr.1, hr.2], ?_, ?_, harr _⟩
    · trivial
    · rw [length_aset, hlen]

/-- C14, witness: hour 1 of the example day from the initial file-scope variables. -/
theorem ozone_short_term_bounded_witness :
    (0 : ℚ) < exampleO3Params.gamma2 ∧ (0 ≤ exampleO3Input.h ∧ exampleO3Input.h < 24)
      ∧ 0 ≤ (FvCB_canopy_hourly libmQ log10Q exampleO3Input exampleO3Params
          O3Globals.initial).1.fO3s_d
      ∧ (FvCB_canopy_hourly libmQ log10Q exampleO3Input exampleO3Params
          O3Globals.initial).1.fO3s_d ≤ 1 := by
  have hg2 : (0 : ℚ) < exampleO3Params.gamma2 := by norm_num [exampleO3Params]
  have hh : 0 ≤ exampleO3Input.h ∧ exampleO3Input.h < 24 := by
    norm_num [exampleO3Input]
  have h := ozone_short_term_bounded libmQ log10Q exampleO3Input exampleO3Params
    O3Globals.initial 1 hg2 hh (by simp [O3Globals.initial])
    (by norm_num [O3Globals.initial]) (by norm_num)
    (by
      intro y hy
      simp only [O3Globals.initial, List.mem_replicate] at hy
      rw [hy.2]; norm_num)
  exact ⟨hg2, hh, h.2.2.1, h.2.2.2.1⟩

/-- C15. `O3_senescence_factor gamma3 u` equals `max 0.5 (1 - gamma3 * u)`; it is at least
0.5 for all `gamma3` and `u`, and at most 1 whenever `gamma3 * u ≥ 0`. -/
theorem ozone_senescence_floor (gamma3 u : ℚ) :
    O3_senescence_factor gamma3 u = max 0.5 (1 - gamma3 * u)
      ∧ 0.5 ≤ O3_senescence_factor gamma3 u
      ∧ (0 ≤ gamma3 * u → O3_senescence_factor gamma3 u ≤ 1) := by
  refine ⟨rfl, le_max_left _ _, fun h => max_le (by norm_num) (by linarith)⟩

/-- C15, witness: `gamma3 = 0.0001` with a cumulative uptake of 2000 gives 0.8, and with a
cumulative uptake of 9000 the floor 0.5. -/
theorem ozone_senescence_floor_witness :
    (0 : ℚ) ≤ 0.0001 * 2000 ∧ O3_senescence_factor 0.0001 2000 = 0.8
      ∧ O3_senescence_factor 0.0001 9000 = 0.5
      ∧ O3_senescence_factor 0.0001 2000 ≤ 1 := by
  refine ⟨by norm_num, ?_, ?_, (ozone_senescence_floor 0.0001 2000).2.2 (by norm_num)⟩
  · norm_num [O3_senescence_factor]
  · norm_num [O3_senescence_factor]

/-! ### The hourly ozone step and the file-scope variables -/

theorem FvCB_canopy_hourly_out_first_hour (lm : Libm) (log10 : ℚ → ℚ) (inp : O3_impact_in)
    (par : O3_impact_params) (g : O3Globals) (h0 : inp.h = 0) (hlen : g.fO3s_h.length = 24) :
    (FvCB_canopy_hourly lm log10 inp par g).1
      = { cum_O3_up := g.cum_O3_up + O3_uptake inp.O3a inp.gs
            (water_stress_stomatal_closure lm log10 par.upper_thr_stomatal
              par.lower_thr_stomatal par.Fshape_stomatal inp.FC inp.WP inp.SWC inp.ET0) * 3.6
          fO3s_d := hourly_O3_reduction_Ac (O3_uptake inp.O3a inp.gs
              (water_stress_stomatal_closure lm log10 par.upper_thr_stomatal
                par.lower_thr_stomatal par.Fshape_stomatal inp.FC inp.WP inp.SWC inp.ET0))
              par.gamma1 par.gamma2
            * O3_damage_recovery g.fO3s_d (O3_recovery_factor_leaf_age inp.reldev)
          fLS := leaf_senescence_reduction_Ac
            (O3_senescence_factor par.gamma3 (g.cum_O3_up + O3_uptake inp.O3a inp.gs
              (water_stress_stomatal_closure lm log10 par.upper_thr_stomatal
                par.lower_thr_stomatal par.Fshape_stomatal inp.FC inp.WP inp.SWC inp.ET0) * 3.6))
            inp.reldev inp.GDD_flo inp.GDD_mat } := by
  simp only [FvCB_canopy_hourly, if_pos h0, cumulative_O3_reduction_Ac]
  rw [aget_aset_self _ _ _ (by omega) (by rw [hlen, h0]; norm_num)]

theorem FvCB_canopy_hourly_out_later_hour (lm : Libm) (log10 : ℚ → ℚ) (inp : O3_impact_in)
    (par : O3_impact_params) (g : O3Globals) (h0 : inp.h ≠ 0)
    (hh : 0 ≤ inp.h ∧ inp.h < 24) (hlen : g.fO3s_h.length = 24) :
    (FvCB_canopy_hourly lm log10 inp par g).1
      = { cum_O3_up := g.cum_O3_up + O3_uptake inp.O3a inp.gs g.WS_st_clos * 3.6
          fO3s_d := hourly_O3_reduction_Ac (O3_uptake inp.O3a inp.gs g.WS_st_clos)
              par.gamma1 par.gamma2 * aget g.fO3s_h (inp.h - 1)
          fLS := leaf_senescence_reduction_Ac
            (O3_senescence_factor par.gamma3
              (g.cum_O3_up + O3_uptake inp.O3a inp.gs g.WS_st_clos * 3.6))
            inp.reldev inp.GDD_flo inp.GDD_mat } := by
  simp only [FvCB_canopy_hourly, if_neg h0, cumulative_O3_reduction_Ac]
  rw [aget_aset_self _ _ _ hh.1 (by rw [hlen]; exact_mod_cast hh.2),
    aget_aset_of_ne _ _ _ _ hh.1 (by omega) (by omega)]

/-- C17, counterexample: two calls of `FvCB_canopy_hourly` with the same input record and the
same parameters, the second directly after the first, return different outputs: the
cumulative uptake is 669.6 after the first call and 1339.2 after the second. -/
theorem ozone_step_not_pure_counterexample :
    (FvCB_canopy_hourly libmQ log10Q exampleO3Input exampleO3Params
        O3Globals.initial).1.cum_O3_up = 669.6
      ∧ (FvCB_canopy_hourly libmQ log10Q exampleO3Input exampleO3Params
          (FvCB_canopy_hourly libmQ log10Q exampleO3Input exampleO3Params
            O3Globals.initial).2).1.cum_O3_up = 1339.2
      ∧ (FvCB_canopy_hourly libmQ log10Q exampleO3Input exampleO3Params
          (FvCB_canopy_hourly libmQ log10Q exampleO3Input exampleO3Params
            O3Globals.initial).2).1
        ≠ (FvCB_canopy_hourly libmQ log10Q exampleO3Input exampleO3Params
            O3Globals.initial).1 := by
  have h1 : (FvCB_canopy_hourly libmQ log10Q exampleO3Input exampleO3Params
      O3Globals.initial).1.cum_O3_up = 669.6 := by
    norm_num [FvCB_canopy_hourly, exampleO3Input, exampleO3Params, O3Globals.initial,
      O3_uptake]
  have h2 : (FvCB_canopy_hourly libmQ log10Q exampleO3Input exampleO3Params
      (FvCB_canopy_hourly libmQ log10Q exampleO3Input exampleO3Params
        O3Globals.initial).2).1.cum_O3_up = 1339.2 := by
    norm_num [FvCB_canopy_hourly, exampleO3Input, exampleO3Params, O3Globals.initial,
      O3_uptake]
  refine ⟨h1, h2, fun h => ?_⟩
  have h3 := congrArg O3_impact_out.cum_O3_up h
  rw [h1, h2] at h3
  norm_num at h3

/-- C17, amended. The outputs of `FvCB_canopy_hourly` are determined by the input record, the
parameters and the carry-over values of the file-scope variables: for an hour
`0 ≤ h < 24`, two calls with the same arguments return the same outputs whenever the
file-scope variables before the two calls agree in `cum_O3_up` and, for `h = 0`, in
`fO3s_d`, for `h ≥ 1`, in `WS_st_clos` and in the stored factor of hour `h - 1`. -/
theorem ozone_step_determined_by_carry_over (lm : Libm) (log10 : ℚ → ℚ)
    (inp : O3_impact_in) (par : O3_impact_params) (g g' : O3Globals)
    (hh : 0 ≤ inp.h ∧ inp.h < 24)
    (hlen : g.fO3s_h.length = 24) (hlen' : g'.fO3s_h.length = 24)
    (hcum : g.cum_O3_up = g'.cum_O3_up)
    (hfirst : inp.h = 0 → g.fO3s_d = g'.fO3s_d)
    (hlater : inp.h ≠ 0 → g.WS_st_clos = g'.WS_st_clos
      ∧ aget g.fO3s_h (inp.h - 1) = aget g'.fO3s_h (inp.h - 1)) :
    (FvCB_canopy_hourly lm log10 inp par g).1 = (FvCB_canopy_hourly lm log10 inp par g').1 := by
  by_cases h0 : inp.h = 0
  · rw [FvCB_canopy_hourly_out_first_hour _ _ _ _ _ h0 hlen,
      FvCB_canopy_hourly_out_first_hour _ _ _ _ _ h0 hlen', hcum, hfirst h0]
  · rw [FvCB_canopy_hourly_out_later_hour _ _ _ _ _ h0 hh hlen,
      FvCB_canopy_hourly_out_later_hour _ _ _ _ _ h0 hh hlen', hcum, (hlater h0).1,
      (hlater h0).2]

/-- C17, witness: at hour 1 the initial file-scope variables and variables that differ from
them in `fLA` and `rO3s` give the same outputs. -/
theorem ozone_step_determined_by_carry_over_witness :
    (0 ≤ exampleO3Input.h ∧ exampleO3Input.h < 24)
      ∧ O3Globals.initial ≠ otherO3Globals
      ∧ (FvCB_canopy_hourly libmQ log10Q exampleO3Input exampleO3Params O3Globals.initial).1
        = (FvCB_canopy_hourly libmQ log10Q exampleO3Input exampleO3Params otherO3Globals).1 := by
  have hh : 0 ≤ exampleO3Input.h ∧ exampleO3Input.h < 24 := by
    norm_num [exampleO3Input]
  refine ⟨hh, ?_, ozone_step_determined_by_carry_over libmQ log10Q exampleO3Input
    exampleO3Params O3Globals.initial otherO3Globals hh (by simp [O3Globals.initial])
    (by simp [otherO3Globals]) rfl (fun _ => rfl) (fun _ => ⟨rfl, rfl⟩)⟩
  intro h
  have h3 := congrArg O3Globals.fLA h
  norm_num [O3Globals.initial, otherO3Globals] at h3

/-! ### Nitrogen reduction -/

theorem fc_CropNitrogen_redux_le_one (lm : Libm) (env : NitrogenEnv)
    (hexp : ∀ x : ℚ, 0 ≤ lm.exp x) : (fc_CropNitrogen lm env).vc_CropNRedux ≤ 1 := by
  simp only [fc_CropNitrogen]
  split_ifs
  · norm_num
  · norm_num
  · have := hexp (env.pc_MinimumNConcentration
      - 5 * ((env.vc_NConcentrationAbovegroundBiomass - env.pc_MinimumNConcentration)
        / (env.pc_NConcentrationPN * (1 + env.pc_NConcentrationB0
            * lm.exp (-0.26 * (env.vc_AbovegroundBiomass + env.vc_BelowgroundBiomass) / 1000))
          / 100 - env.pc_MinimumNConcentration)))
    linarith
  · norm_num

/-- C11, evaluation at the failing input. For a crop with critical concentration 0.05,
minimum concentration 0.005 and a concentration of 0.00501 in the aboveground biomass,
nitrogen response switched on, `fc_CropNitrogen` sets `vc_CropNRedux` below 0, for every
exponential function that is above 1 on the positive numbers. -/
theorem nitrogen_redux_negative (lm : Libm) (hexp : ∀ x : ℚ, 0 < x → 1 < lm.exp x) :
    (fc_CropNitrogen lm lowNitrogenEnv).vc_CriticalNConcentration = 0.05
      ∧ 0 ≤ lowNitrogenEnv.pc_MinimumNConcentration
      ∧ lowNitrogenEnv.pc_MinimumNConcentration
          < (fc_CropNitrogen lm lowNitrogenEnv).vc_CriticalNConcentration
      ∧ (fc_CropNitrogen lm lowNitrogenEnv).vc_CropNRedux = 1 - lm.exp (7 / 1800)
      ∧ (fc_CropNitrogen lm lowNitrogenEnv).vc_CropNRedux < 0 := by
  have hc : (fc_CropNitrogen lm lowNitrogenEnv).vc_CriticalNConcentration = 0.05 := by
    norm_num [fc_CropNitrogen, lowNitrogenEnv]
  have hr : (fc_CropNitrogen lm lowNitrogenEnv).vc_CropNRedux = 1 - lm.exp (7 / 1800) := by
    norm_num [fc_CropNitrogen, lowNitrogenEnv]
  refine ⟨hc, by norm_num [lowNitrogenEnv], ?_, hr, ?_⟩
  · rw [hc]; norm_num [lowNitrogenEnv]
  · rw [hr]
    have := hexp (7 / 1800) (by norm_num)
    linarith

/-- C11, witness: with the rational stand-in `libmQ`, whose exponential is `1 + x`, the value
is `-7/1800`. -/
theorem nitrogen_redux_negative_witness :
    (∀ x : ℚ, 0 < x → 1 < libmQ.exp x)
      ∧ (fc_CropNitrogen libmQ lowNitrogenEnv).vc_CropNRedux = -7 / 1800
      ∧ (fc_CropNitrogen libmQ lowNitrogenEnv).vc_CropNRedux < 0 := by
  have hexp : ∀ x : ℚ, 0 < x → 1 < libmQ.exp x := by
    intro x hx
    simp only [libmQ]
    linarith
  have h := nitrogen_redux_negative libmQ hexp
  refine ⟨hexp, ?_, h.2.2.2.2⟩
  rw [h.2.2.2.1]
  norm_num [libmQ]

/-! ### Emergence and the irregular stage -/

theorem germinationAnnual_keeps_next_sum (e : DevEnv) (a : DevArgs) (s : DevState)
    (hctl : ¬ (e.pc_EmergenceMoistureControlOn = true ∧ e.pc_EmergenceFloodingControlOn = true)) :
    vget (germinationAnnual e a s).vc_CurrentTemperatureSum 1
      = vget s.vc_CurrentTemperatureSum 1 := by
  simp only [germinationAnnual]
  rw [if_neg hctl]
  split_ifs <;> first | rfl | exact vget_vadd_of_ne _ _ _ _ (by decide)

theorem germinationPerennial_keeps_next_sum (a : DevArgs) (s : DevState) :
    vget (germinationPerennial a s).vc_CurrentTemperatureSum 1
      = vget s.vc_CurrentTemperatureSum 1 := by
  simp only [germinationPerennial]
  split_ifs <;> first | rfl | exact vget_vadd_of_ne _ _ _ _ (by decide)

/-- C18, evaluation at the failing inputs. With both emergence controls off, a non-perennial
crop at stage 0 with 45 of 50 degree-days and a soil temperature of 25 moves to stage 1 with
70 degree-days in the accumulator of stage 0, and the accumulator of stage 1 stays 0 instead
of receiving the excess 20; with both controls on the same day gives 20. A perennial crop
moves to stage 1 with 55 degree-days, and the accumulator of stage 1 stays 0 instead of
receiving the excess 5. -/
theorem emergence_excess_dropped :
    (fc_CropDevelopmentalStage libmQ uncontrolledEnv exampleArgs seedState).vc_DevelopmentalStage
        = 1
      ∧ (fc_CropDevelopmentalStage libmQ uncontrolledEnv exampleArgs
          seedState).vc_CurrentTemperatureSum = [70, 0, 0]
      ∧ (fc_CropDevelopmentalStage libmQ warmEnv exampleArgs
          seedState).vc_CurrentTemperatureSum = [70, 20, 0]
      ∧ (fc_CropDevelopmentalStage libmQ exampleEnv perennialSeedArgs
          seedState).vc_DevelopmentalStage = 1
      ∧ (fc_CropDevelopmentalStage libmQ exampleEnv perennialSeedArgs
          seedState).vc_CurrentTemperatureSum = [55, 0, 0] := by
  refine ⟨?_, ?_, ?_, ?_, ?_⟩
  · norm_num [fc_CropDevelopmentalStage, germinationAnnual, uncontrolledEnv, warmEnv,
      exampleEnv, exampleArgs, seedState, vget, vadd]
  · norm_num [fc_CropDevelopmentalStage, germinationAnnual, uncontrolledEnv, warmEnv,
      exampleEnv, exampleArgs, seedState, vget, vadd]
  · norm_num [fc_CropDevelopmentalStage, germinationAnnual, warmEnv,
      exampleEnv, exampleArgs, seedState, vget, vadd]
  · norm_num [fc_CropDevelopmentalStage, germinationPerennial, perennialSeedArgs,
      exampleEnv, exampleArgs, seedState, vget, vadd, sizeSub, sizeRange]
  · norm_num [fc_CropDevelopmentalStage, germinationPerennial, perennialSeedArgs,
      exampleEnv, exampleArgs, seedState, vget, vadd, sizeSub, sizeRange]

theorem fc_CropDevelopmentalStage_error_unchanged (lm : Libm) (e : DevEnv) (a : DevArgs)
    (s : DevState) :
    (fc_CropDevelopmentalStage lm e a s).vc_ErrorStatus = s.vc_ErrorStatus
      ∧ (fc_CropDevelopmentalStage lm e a s).vc_ErrorMessage = s.vc_ErrorMessage := by
  unfold fc_CropDevelopmentalStage
  by_cases h0 : s.vc_DevelopmentalStage = 0
  · rw [if_pos h0]
    by_cases hp : a.pc_Perennial = true
    · rw [if_pos hp]
      simp only [germinationPerennial]
      split_ifs <;> exact ⟨rfl, rfl⟩
    · rw [if_neg hp]
      simp only [germinationAnnual]
      split_ifs <;> exact ⟨rfl, rfl⟩
  · rw [if_neg h0, if_pos (Nat.pos_of_ne_zero h0)]
    simp only [stageTransition, afterThermalIncrement]
    split_ifs <;> exact ⟨rfl, rfl⟩

/-- C19, evaluation at the failing input. For a state whose stage index 3 equals the number
of stages, `fc_CropDevelopmentalStage` leaves `vc_ErrorStatus` false and the message empty,
and adds the increment of the day to the accumulator of index 3 and to the total sum. -/
theorem irregular_stage_not_reported :
    overrunState.vc_DevelopmentalStage = overrunArgs.pc_NumberOfDevelopmentalStages
      ∧ (fc_CropDevelopmentalStage libmQ overrunEnv overrunArgs overrunState).vc_ErrorStatus
          = false
      ∧ (fc_CropDevelopmentalStage libmQ overrunEnv overrunArgs overrunState).vc_ErrorMessage
          = ""
      ∧ (fc_CropDevelopmentalStage libmQ overrunEnv overrunArgs
          overrunState).vc_DevelopmentalStage = 3
      ∧ overrunState.vc_CurrentTemperatureSum = [50, 100, 200, 0]
      ∧ (fc_CropDevelopmentalStage libmQ overrunEnv overrunArgs
          overrunState).vc_CurrentTemperatureSum = [50, 100, 200, 10]
      ∧ (fc_CropDevelopmentalStage libmQ overrunEnv overrunArgs
          overrunState).vc_CurrentTotalTemperatureSum = 310 := by
  refine ⟨rfl, (fc_CropDevelopmentalStage_error_unchanged _ _ _ _).1,
    (fc_CropDevelopmentalStage_error_unchanged _ _ _ _).2, ?_, rfl, ?_, ?_⟩
  · norm_num [fc_CropDevelopmentalStage, stageTransition, afterThermalIncrement,
      stageThermalIncrement, developmentAccelerationByStress, overrunEnv, overrunArgs,
      exampleEnv, exampleArgs, overrunState, vget, vadd, mget, sizeSub, sizeRange]
  · norm_num [fc_CropDevelopmentalStage, stageTransition, afterThermalIncrement,
      stageThermalIncrement, developmentAccelerationByStress, overrunEnv, overrunArgs,
      exampleEnv, exampleArgs, overrunState, vget, vadd, mget, sizeSub, sizeRange]
  · norm_num [fc_CropDevelopmentalStage, stageTransition, afterThermalIncrement,
      stageThermalIncrement, developmentAccelerationByStress, overrunEnv, overrunArgs,
      exampleEnv, exampleArgs, overrunState, vget, vadd, mget, sizeSub, sizeRange]

/-! ### State transfer -/

theorem deserialize_keeps_receiver {State Msg : Type} (source target : State) (msg : Msg) :
    deserialize target (serialize source msg) = target := rfl

/-- C16, evaluation at the failing input. The state of a crop at stage 1 with 95 of 100
degree-days is written with `serialize` and restored with `deserialize` into a module that
holds a crop at stage 0: the receiving module still holds its own state, and after `step`
with the same day the first module is at stage 2 and the receiving module at stage 1. -/
theorem round_trip_keeps_receiver_state :
    deserialize seedState (serialize exampleState ()) = seedState
      ∧ step_DevelopmentalStage libmQ exampleEnv exampleArgs exampleState = 2
      ∧ step_DevelopmentalStage libmQ exampleEnv exampleArgs
          (deserialize seedState (serialize exampleState ())) = 1 := by
  refine ⟨rfl, ?_, ?_⟩
  · norm_num [step_DevelopmentalStage, fc_CropDevelopmentalStage, stageTransition,
      afterThermalIncrement, stageThermalIncrement, developmentAccelerationByStress,
      exampleEnv, exampleArgs, exampleState, vget, vadd, mget, sizeSub, sizeRange]
  · norm_num [step_DevelopmentalStage, deserialize, serialize, fc_CropDevelopmentalStage,
      germinationAnnual, exampleEnv, exampleArgs, seedState, vget, vadd]

/-! ### The constructor -/

theorem constructorStageLoop_vectors (p : CropParameterSet) (k : Nat) (m : CropModuleMembers) :
    (constructorStageLoop p k m).vc_OrganBiomass = m.vc_OrganBiomass
      ∧ (constructorStageLoop p k m).vc_OrganDeadBiomass = m.vc_OrganDeadBiomass
      ∧ (constructorStageLoop p k m).vc_CurrentTemperatureSum = m.vc_CurrentTemperatureSum := by
  induction k with
  | zero => exact ⟨rfl, rfl, rfl⟩
  | succ k ih => exact ih

theorem constructorOrganLoop_frame (p : CropParameterSet) (n : Nat) (m : CropModuleMembers) :
    (constructorOrganLoop p n m).vc_OrganDeadBiomass = m.vc_OrganDeadBiomass
      ∧ (constructorOrganLoop p n m).vc_CurrentTemperatureSum = m.vc_CurrentTemperatureSum
      ∧ (constructorOrganLoop p n m).vc_OrganBiomass.length = m.vc_OrganBiomass.length := by
  induction n with
  | zero => exact ⟨rfl, rfl, rfl⟩
  | succ n ih =>
    refine ⟨ih.1, ih.2.1, ?_⟩
    show ((constructorOrganLoop p n m).vc_OrganBiomass.set n _).length = _
    rw [List.length_set, ih.2.2]

theorem constructorOrganLoop_biomass (p : CropParameterSet) (n : Nat) (m : CropModuleMembers)
    (i : Nat) (hi : i < n) (hn : n ≤ m.vc_OrganBiomass.length) :
    vget (constructorOrganLoop p n m).vc_OrganBiomass i = vget p.pc_InitialOrganBiomass i := by
  induction n with
  | zero => omega
  | succ n ih =>
    show vget ((constructorOrganLoop p n m).vc_OrganBiomass.set n _) i = _
    by_cases h : i = n
    · subst h
      apply vget_set_self
      rw [(constructorOrganLoop_frame p i m).2.2]
      omega
    · rw [vget_set_of_ne _ _ _ _ (fun h' => h h'.symm)]
      exact ih (by omega) (by omega)

/-- C20, counterexample: a parameter set that declares three organs and three stages and
whose arrays `pc_InitialOrganBiomass` and `pc_StageTemperatureSum` have four entries is not
rejected; the constructor produces a crop state with the organ biomass 10, 20 and 30. -/
theorem inconsistent_parameters_accepted_counterexample :
    longArrayParameters.pc_InitialOrganBiomass.length ≠ longArrayParameters.pc_NumberOfOrgans
      ∧ longArrayParameters.pc_StageTemperatureSum.length
          ≠ longArrayParameters.pc_NumberOfDevelopmentalStages
      ∧ ∃ m, CropModule_constructor longArrayParameters zeroMembers = Except.ok m
          ∧ m.vc_OrganBiomass = [10, 20, 30]
          ∧ m.vc_CurrentTemperatureSum = [0, 0, 0]
          ∧ m.vc_TotalBiomass = 60 := by
  refine ⟨by decide, by decide, _, rfl, ?_, ?_, ?_⟩
  · norm_num [constructorOrganLoop, constructorOrganStep, constructorStageLoop,
      constructorStageStep, constructorBody, constructorInitialisers, longArrayParameters,
      zeroMembers, vget, bget, sizeSub, sizeRange, List.replicate]
  · norm_num [constructorOrganLoop, constructorOrganStep, constructorStageLoop,
      constructorStageStep, constructorBody, constructorInitialisers, longArrayParameters,
      zeroMembers, vget, bget, sizeSub, sizeRange, List.replicate]
  · norm_num [constructorOrganLoop, constructorOrganStep, constructorStageLoop,
      constructorStageStep, constructorBody, constructorInitialisers, longArrayParameters,
      zeroMembers, vget, bget, sizeSub, sizeRange, List.replicate]

theorem constructorOrganLoop_after_stages (p : CropParameterSet) (m0 m1 : CropModuleMembers)
    (f : Nat) (h1 : m1.vc_OrganBiomass = m0.vc_OrganBiomass)
    (h2 : m1.vc_OrganDeadBiomass = m0.vc_OrganDeadBiomass)
    (h3 : m1.vc_CurrentTemperatureSum = m0.vc_CurrentTemperatureSum) :
    (constructorOrganLoop p p.pc_NumberOfOrgans
        { m1 with vc_FinalDevelopmentalStage := f }).vc_CurrentTemperatureSum
        = m0.vc_CurrentTemperatureSum
      ∧ (constructorOrganLoop p p.pc_NumberOfOrgans
        { m1 with vc_FinalDevelopmentalStage := f }).vc_OrganDeadBiomass
        = m0.vc_OrganDeadBiomass
      ∧ (constructorOrganLoop p p.pc_NumberOfOrgans
        { m1 with vc_FinalDevelopmentalStage := f }).vc_OrganBiomass.length
        = m0.vc_OrganBiomass.length
      ∧ (p.pc_NumberOfOrgans ≤ m0.vc_OrganBiomass.length → ∀ i, i < p.pc_NumberOfOrgans →
          vget (constructorOrganLoop p p.pc_NumberOfOrgans
            { m1 with vc_FinalDevelopmentalStage := f }).vc_OrganBiomass i
            = vget p.pc_InitialOrganBiomass i) := by
  have g := constructorOrganLoop_frame p p.pc_NumberOfOrgans
    { m1 with vc_FinalDevelopmentalStage := f }
  refine ⟨g.2.1.trans h3, g.1.trans h2, g.2.2.trans (congrArg List.length h1), ?_⟩
  intro hn i hi
  exact constructorOrganLoop_biomass p p.pc_NumberOfOrgans
    { m1 with vc_FinalDevelopmentalStage := f } i hi
    (le_of_le_of_eq hn (congrArg List.length h1).symm)

theorem constructorBody_vectors (p : CropParameterSet) (m0 : CropModuleMembers) :
    (constructorBody p m0).vc_CurrentTemperatureSum = m0.vc_CurrentTemperatureSum
      ∧ (constructorBody p m0).vc_OrganDeadBiomass = m0.vc_OrganDeadBiomass
      ∧ (constructorBody p m0).vc_OrganBiomass.length = m0.vc_OrganBiomass.length
      ∧ (p.pc_NumberOfOrgans ≤ m0.vc_OrganBiomass.length → ∀ i, i < p.pc_NumberOfOrgans →
          vget (constructorBody p m0).vc_OrganBiomass i = vget p.pc_InitialOrganBiomass i) := by
  simp only [constructorBody]
  generalize sizeSub p.pc_NumberOfDevelopmentalStages 1 - 1 = k
  generalize sizeSub p.pc_NumberOfDevelopmentalStages 1 = f
  obtain ⟨h1, h2, h3⟩ := constructorStageLoop_vectors p k m0
  generalize constructorStageLoop p k m0 = m1 at h1 h2 h3
  exact constructorOrganLoop_after_stages p m0 m1 f h1 h2 h3

theorem constructorBody_green (p : CropParameterSet) (m0 : CropModuleMembers) :
    (constructorBody p m0).vc_OrganGreenBiomass = (constructorBody p m0).vc_OrganBiomass := by
  simp only [constructorBody]
theorem constructorInitialisers_vectors (p : CropParameterSet) (init : CropModuleMembers) :
    (constructorInitialisers p init).vc_CurrentTemperatureSum
        = List.replicate p.pc_NumberOfDevelopmentalStages 0
      ∧ (constructorInitialisers p init).vc_OrganDeadBiomass
        = List.replicate p.pc_NumberOfOrgans 0
      ∧ (constructorInitialisers p init).vc_OrganBiomass.length = p.pc_NumberOfOrgans := by
  simp only [constructorInitialisers, List.length_replicate, and_self]

theorem vget_eq_get (v : List ℚ) (i : Nat) (h : i < v.length) : vget v i = v.get ⟨i, h⟩ := by
  unfold vget
  rw [List.getD_eq_getElem _ _ h]
  rfl

/-- C20, amended. The constructor checks no array length. For every parameter set whose
per-organ and per-stage arrays have at least as many entries as the declared numbers of
organs and stages, equal or longer, it produces a crop state: the thermal sums are
`pc_NumberOfDevelopmentalStages` zeros, the dead biomass is `pc_NumberOfOrgans` zeros, the
organ biomass has `pc_NumberOfOrgans` entries, entry `i` being `pc_InitialOrganBiomass[i]`,
and the green biomass equals the organ biomass; the entries of the arrays beyond the declared
numbers are not read. -/
theorem constructor_checks_no_lengths (p : CropParameterSet) (init : CropModuleMembers)
    (hlen : p.pc_NumberOfOrgans ≤ p.pc_InitialOrganBiomass.length
      ∧ p.pc_NumberOfOrgans ≤ p.pc_AbovegroundOrgan.length
      ∧ p.pc_NumberOfOrgans ≤ p.pc_StorageOrgan.length
      ∧ p.pc_NumberOfDevelopmentalStages ≤ p.pc_StageTemperatureSum.length) :
    ∃ m, CropModule_constructor p init = Except.ok m
      ∧ m.vc_CurrentTemperatureSum = List.replicate p.pc_NumberOfDevelopmentalStages 0
      ∧ m.vc_OrganDeadBiomass = List.replicate p.pc_NumberOfOrgans 0
      ∧ m.vc_OrganBiomass.length = p.pc_NumberOfOrgans
      ∧ (∀ i (hi : i < p.pc_NumberOfOrgans), vget m.vc_OrganBiomass i
          = p.pc_InitialOrganBiomass.get ⟨i, lt_of_lt_of_le hi hlen.1⟩)
      ∧ m.vc_OrganGreenBiomass = m.vc_OrganBiomass := by
  obtain ⟨i1, i2, i3⟩ := constructorInitialisers_vectors p init
  obtain ⟨b1, b2, b3, b4⟩ := constructorBody_vectors p (constructorInitialisers p init)
  have hg := constructorBody_green p (constructorInitialisers p init)
  have hc : CropModule_constructor p init
      = Except.ok (constructorBody p (constructorInitialisers p init)) := by
    unfold CropModule_constructor
    rfl
  generalize constructorBody p (constructorInitialisers p init) = m at b1 b2 b3 b4 hg hc
  refine ⟨m, hc, b1.trans i1, b2.trans i2, b3.trans i3, ?_, hg⟩
  intro i hi
  rw [b4 (le_of_eq i3.symm) i hi]
  exact vget_eq_get _ _ _

/-- C20, witness: the parameter set whose arrays all have the declared three entries. -/
theorem constructor_checks_no_lengths_witness :
    (consistentParameters.pc_NumberOfOrgans ≤ consistentParameters.pc_InitialOrganBiomass.length
      ∧ consistentParameters.pc_NumberOfOrgans ≤ consistentParameters.pc_AbovegroundOrgan.length
      ∧ consistentParameters.pc_NumberOfOrgans ≤ consistentParameters.pc_StorageOrgan.length
      ∧ consistentParameters.pc_NumberOfDevelopmentalStages
          ≤ consistentParameters.pc_StageTemperatureSum.length)
    ∧ ∃ m, CropModule_constructor consistentParameters zeroMembers = Except.ok m
      ∧ m.vc_CurrentTemperatureSum = [0, 0, 0]
      ∧ m.vc_OrganDeadBiomass = [0, 0, 0]
      ∧ m.vc_OrganBiomass.length = 3
      ∧ m.vc_OrganGreenBiomass = m.vc_OrganBiomass := by
  obtain ⟨m, h1, h2, h3, h4, -, h6⟩ :=
    constructor_checks_no_lengths consistentParameters zeroMembers (by decide)
  exact ⟨by decide, m, h1, h2, h3, h4, h6⟩

/-! ### Water uptake -/

theorem fc_VernalisationFactor_nonneg (t dt req days : ℚ) :
    0 ≤ (fc_VernalisationFactor t dt req days).1 := by
  simp only [fc_VernalisationFactor]
  split_ifs <;> simp only [] <;> linarith

theorem fc_VernalisationFactor_le_one (t dt req days : ℚ)
    (h : days + effectiveVernalisation t * dt ≤ req) :
    (fc_VernalisationFactor t dt req days).1 ≤ 1 := by
  simp only [fc_VernalisationFactor]
  split_ifs with h0 h1 h2
  · exact le_refl _
  · norm_num
  · have hthr : min req 9 - 1 ≤ req - 1 := by
      have := min_le_left req 9
      linarith
    show (days + effectiveVernalisation t * dt - (min req 9 - 1)) / (req - (min req 9 - 1)) ≤ 1
    rw [div_le_one (by linarith)]
    linarith
  · exact le_refl _

/-- C21, evaluation at the failing input. With a vernalisation requirement of 50 days and 60
accumulated vernalisation days, on a day with mean air temperature 20 and time step 1,
`fc_VernalisationFactor` returns the factor `(60 - 8) / (50 - 8) = 26/21`, above 1; the
accumulated days stay 60. -/
theorem vernalisation_factor_above_one :
    (fc_VernalisationFactor 20 1 50 60).1 = 26 / 21
      ∧ 1 < (fc_VernalisationFactor 20 1 50 60).1
      ∧ (fc_VernalisationFactor 20 1 50 60).2 = 60 := by
  have h : fc_VernalisationFactor 20 1 50 60 = (26 / 21, 60) := by
    norm_num [fc_VernalisationFactor, effectiveVernalisation]
  rw [h]
  norm_num

/-! ### Stage reset and fruit harvest -/

theorem setStageLoop_spec (newStage : Nat) (t : ℚ) (v : List ℚ) (k : Nat)
    (hk : k ≤ v.length) :
    (setStageLoop newStage k (t, v)).2.length = v.length
      ∧ (∀ j, vget (setStageLoop newStage k (t, v)).2 j
          = if newStage ≤ j ∧ j < k then 0 else vget v j)
      ∧ (setStageLoop newStage k (t, v)).1
          = t + ∑ j in Finset.range (min k newStage), vget v j := by
  induction k with
  | zero =>
    refine ⟨rfl, fun j => ?_, ?_⟩
    · rw [if_neg (by omega)]; rfl
    · simp [setStageLoop]
  | succ k ih =>
    obtain ⟨h1, h2, h3⟩ := ih (by omega)
    simp only [setStageLoop]
    by_cases hlt : k < newStage
    · rw [if_pos hlt]
      refine ⟨h1, fun j => ?_, ?_⟩
      · rw [h2 j]
        by_cases hj : newStage ≤ j ∧ j < k
        · rw [if_pos hj, if_pos ⟨hj.1, by omega⟩]
        · rw [if_neg hj, if_neg (by omega)]
      · show (setStageLoop newStage k (t, v)).1 + vget (setStageLoop newStage k (t, v)).2 k = _
        rw [h3, h2 k, if_neg (by omega)]
        have e1 : min k newStage = k := by omega
        have e2 : min (k + 1) newStage = k + 1 := by omega
        rw [e1, e2, Finset.sum_range_succ]
        ring
    · rw [if_neg hlt]
      refine ⟨?_, fun j => ?_, ?_⟩
      · show ((setStageLoop newStage k (t, v)).2.set k 0).length = _
        rw [List.length_set, h1]
      · show vget ((setStageLoop newStage k (t, v)).2.set k 0) j = _
        by_cases hjk : j = k
        · subst hjk
          rw [vget_set_self _ _ _ (by rw [h1]; omega), if_pos ⟨by omega, by omega⟩]
        · rw [vget_set_of_ne _ _ _ _ (fun h => hjk h.symm), h2 j]
          by_cases hj : newStage ≤ j ∧ j < k
          · rw [if_pos hj, if_pos ⟨hj.1, by omega⟩]
          · rw [if_neg hj, if_neg (by omega)]
      · show (setStageLoop newStage k (t, v)).1 = _
        rw [h3]
        have e1 : min k newStage = newStage := by omega
        have e2 : min (k + 1) newStage = newStage := by omega
        rw [e1, e2]

/-- C22. For every `n ≤ numStages` and a vector of accumulators with one entry per stage,
`setStage n` leaves the accumulator of every stage below `n` unchanged, sets the accumulator
of every stage from `n` on to 0, sets the developmental stage to `n`, and sets
`vc_CurrentTotalTemperatureSum` to the sum of the accumulators of the stages below `n`. -/
theorem stage_reset (pc_NumberOfDevelopmentalStages n : Nat) (s : DevState)
    (hn : n ≤ pc_NumberOfDevelopmentalStages)
    (hlen : s.vc_CurrentTemperatureSum.length = pc_NumberOfDevelopmentalStages) :
    (∀ j, j < n →
        vget (setStage pc_NumberOfDevelopmentalStages n s).vc_CurrentTemperatureSum j
          = vget s.vc_CurrentTemperatureSum j)
      ∧ (∀ j, n ≤ j → j < pc_NumberOfDevelopmentalStages →
        vget (setStage pc_NumberOfDevelopmentalStages n s).vc_CurrentTemperatureSum j = 0)
      ∧ (setStage pc_NumberOfDevelopmentalStages n s).vc_CurrentTemperatureSum.length
          = pc_NumberOfDevelopmentalStages
      ∧ (setStage pc_NumberOfDevelopmentalStages n s).vc_DevelopmentalStage = n
      ∧ (setStage pc_NumberOfDevelopmentalStages n s).vc_CurrentTotalTemperatureSum
          = ∑ j in Finset.range n, vget s.vc_CurrentTemperatureSum j := by
  obtain ⟨h1, h2, h3⟩ := setStageLoop_spec n 0 s.vc_CurrentTemperatureSum
    pc_NumberOfDevelopmentalStages (le_of_eq hlen.symm)
  refine ⟨fun j hj => ?_, fun j hj1 hj2 => ?_, ?_, rfl, ?_⟩
  · show vget (setStageLoop n pc_NumberOfDevelopmentalStages
      (0, s.vc_CurrentTemperatureSum)).2 j = _
    rw [h2 j, if_neg (by omega)]
  · show vget (setStageLoop n pc_NumberOfDevelopmentalStages
      (0, s.vc_CurrentTemperatureSum)).2 j = _
    rw [h2 j, if_pos ⟨hj1, hj2⟩]
  · show (setStageLoop n pc_NumberOfDevelopmentalStages
      (0, s.vc_CurrentTemperatureSum)).2.length = _
    rw [h1, hlen]
  · show (setStageLoop n pc_NumberOfDevelopmentalStages
      (0, s.vc_CurrentTemperatureSum)).1 = _
    rw [h3, zero_add, min_eq_right hn]

/-- C22, witness: the crop at stage 2 with accumulators 50, 100 and 150 is set back to stage
1; the accumulators become 50, 0 and 0 and the total sum 50. -/
theorem stage_reset_witness :
    (1 ≤ 3 ∧ lateState.vc_CurrentTemperatureSum.length = 3)
      ∧ (setStage 3 1 lateState).vc_CurrentTemperatureSum = [50, 0, 0]
      ∧ (setStage 3 1 lateState).vc_DevelopmentalStage = 1
      ∧ (setStage 3 1 lateState).vc_CurrentTotalTemperatureSum
          = ∑ j in Finset.range 1, vget lateState.vc_CurrentTemperatureSum j
      ∧ (setStage 3 1 lateState).vc_CurrentTotalTemperatureSum = 50 := by
  have h := stage_reset 3 1 lateState (by decide) rfl
  refine ⟨⟨by decide, rfl⟩, ?_, h.2.2.2.1, h.2.2.2.2, ?_⟩
  · norm_num [setStage, setStageLoop, lateState, vget]
  · rw [h.2.2.2.2]
    norm_num [lateState, vget]

theorem applyFruitHarvest_length (n : Nat) (p : ℚ) (s : HarvestState)
    (h : 4 ≤ s.vc_OrganBiomass.length) :
    ∃ s', applyFruitHarvest n p s = some s' ∧ s'.vc_OrganBiomass.length = 1 := by
  have hv : vat s.vc_OrganBiomass 3 = some (vget s.vc_OrganBiomass 3) := by
    unfold vat
    rw [if_pos ⟨by norm_num, by simpa using (by omega : 3 < s.vc_OrganBiomass.length)⟩]
    rfl
  unfold applyFruitHarvest
  rw [hv]
  exact ⟨_, rfl, rfl⟩

/-- C23, evaluation at the failing input. For a crop with the four organ biomasses 10, 20, 30
and 40, `applyFruitHarvest` with a yield fraction of one half returns, and afterwards
`vc_OrganBiomass` is the vector with the single entry 20: its length is 1 instead of 4. -/
theorem fruit_harvest_shrinks_organ_biomass :
    fruitCrop.vc_OrganBiomass.length = 4
      ∧ ∃ s', applyFruitHarvest 3 (1 / 2) fruitCrop = some s'
        ∧ s'.vc_OrganBiomass = [20]
        ∧ s'.vc_OrganBiomass.length = 1
        ∧ s'.vc_DevelopmentalStage = 0 := by
  refine ⟨rfl, ?_⟩
  have hv : vat fruitCrop.vc_OrganBiomass 3 = some 40 := by
    norm_num [vat, fruitCrop, vget]
    rfl
  unfold applyFruitHarvest
  rw [hv]
  refine ⟨_, rfl, ?_, rfl, rfl⟩
  norm_num

/-! ### Daily thermal increment and stress acceleration -/

theorem stageThermalIncrement_eq_spec (lm : Libm) (e : DevEnv) (a : DevArgs) (stage : Nat)
    (hwe : e.enable_Phenology_WangEngelTemperatureResponse = false)
    (hopt : vget a.pc_BaseTemperature stage ≤ vget a.pc_OptimumTemperature stage) :
    stageThermalIncrement lm e a stage = specThermalIncrement e a stage := by
  simp only [stageThermalIncrement, specThermalIncrement, hwe, Bool.false_eq_true, if_false]
  by_cases hb : a.vw_MeanAirTemperature > vget a.pc_BaseTemperature stage
  · rw [if_pos hb]
    by_cases ho : a.vw_MeanAirTemperature > vget a.pc_OptimumTemperature stage
    · rw [if_pos ho, min_eq_right (le_of_lt ho), max_eq_right (by linarith)]
    · rw [if_neg ho, min_eq_left (not_lt.mp ho), max_eq_right (by linarith)]
  · rw [if_neg hb]
    have hmin : min a.vw_MeanAirTemperature (vget a.pc_OptimumTemperature stage)
        ≤ vget a.pc_BaseTemperature stage :=
      le_trans (min_le_left _ _) (not_lt.mp hb)
    rw [max_eq_left (by linarith)]
    ring

theorem stageTransition_current_sum (a : DevArgs) (s : DevState)
    (h : ¬ (vget s.vc_CurrentTemperatureSum s.vc_DevelopmentalStage
          ≥ vget a.pc_StageTemperatureSum s.vc_DevelopmentalStage
        ∧ ¬ s.vc_DevelopmentalStage < sizeSub a.pc_NumberOfDevelopmentalStages 1
        ∧ s.vc_DevelopmentalStage = sizeSub a.pc_NumberOfDevelopmentalStages 1
        ∧ a.pc_Perennial = true ∧ a.vc_GrowthCycleEnded = true)) :
    vget (stageTransition a s).vc_CurrentTemperatureSum s.vc_DevelopmentalStage
      = vget s.vc_CurrentTemperatureSum s.vc_DevelopmentalStage := by
  simp only [stageTransition]
  split_ifs with h1 h2 h3 h4
  · exact vget_vadd_of_ne _ _ _ _ (by omega)
  · exact absurd ⟨h1, h2, h3, h4.1, h4.2⟩ h
  · rfl
  · rfl
  · rfl

/-- C24, counterexample. With the Wang-Engel response off and a crop at stage 1 on a day with
mean temperature 10: for an optimum temperature 3 below the base temperature 5 the
specification's formula gives the increment 0, and the call takes 2 off the accumulator of
stage 1 and off the total sum (95 to 93); for a perennial crop at its final stage that
completes its growth cycle the formula gives 10, and the call sets the accumulator and the
total sum to 0. -/
theorem daily_thermal_increment_counterexample :
    specThermalIncrement exampleEnv lowOptimumArgs 1 = 0
      ∧ vget exampleState.vc_CurrentTemperatureSum 1 = 95
      ∧ vget (fc_CropDevelopmentalStage libmQ exampleEnv lowOptimumArgs
          exampleState).vc_CurrentTemperatureSum 1 = 93
      ∧ (fc_CropDevelopmentalStage libmQ exampleEnv lowOptimumArgs
          exampleState).vc_CurrentTotalTemperatureSum = 93
      ∧ specThermalIncrement exampleEnv perennialArgs 2 = 10
      ∧ vget finalStageState.vc_CurrentTemperatureSum 2 = 195
      ∧ vget (fc_CropDevelopmentalStage libmQ exampleEnv perennialArgs
          finalStageState).vc_CurrentTemperatureSum 2 = 0
      ∧ (fc_CropDevelopmentalStage libmQ exampleEnv perennialArgs
          finalStageState).vc_CurrentTotalTemperatureSum = 0 := by
  refine ⟨?_, ?_, ?_, ?_, ?_, ?_, ?_, ?_⟩
  · norm_num [specThermalIncrement, developmentAccelerationByStress, lowOptimumArgs,
      exampleArgs, exampleEnv, vget, mget]
  · norm_num [exampleState, vget]
  · norm_num [fc_CropDevelopmentalStage, stageTransition, afterThermalIncrement,
      stageThermalIncrement, developmentAccelerationByStress, exampleEnv, lowOptimumArgs,
      exampleArgs, exampleState, vget, vadd, mget, sizeSub, sizeRange]
  · norm_num [fc_CropDevelopmentalStage, stageTransition, afterThermalIncrement,
      stageThermalIncrement, developmentAccelerationByStress, exampleEnv, lowOptimumArgs,
      exampleArgs, exampleState, vget, vadd, mget, sizeSub, sizeRange]
  · norm_num [specThermalIncrement, developmentAccelerationByStress, perennialArgs,
      exampleArgs, exampleEnv, vget, mget]
  · norm_num [finalStageState, vget]
  · norm_num [fc_CropDevelopmentalStage, stageTransition, afterThermalIncrement,
      stageThermalIncrement, developmentAccelerationByStress, exampleEnv, perennialArgs,
      exampleArgs, finalStageState, vget, vadd, mget, sizeSub, sizeRange, zeroStages]
  · norm_num [fc_CropDevelopmentalStage, stageTransition, afterThermalIncrement,
      stageThermalIncrement, developmentAccelerationByStress, exampleEnv, perennialArgs,
      exampleArgs, finalStageState, vget, vadd, mget, sizeSub, sizeRange, zeroStages]

/-- C24, amended. With the Wang-Engel response off, at every stage `≥ 1` whose optimum
temperature is not below its base temperature, a call of `fc_CropDevelopmentalStage` that
does not perform the perennial reset adds to both the accumulator of the current stage and
`vc_CurrentTotalTemperatureSum` exactly
`max(0, min(T, Topt[stage]) - Tbase[stage]) * vernFactor * daylenFactor * accelerationFactor
* timeStep`, for every mean temperature and for every value of the cutting-delay days. -/
theorem daily_thermal_increment (lm : Libm) (e : DevEnv) (a : DevArgs) (s : DevState)
    (hstage : 1 ≤ s.vc_DevelopmentalStage)
    (hlen : s.vc_DevelopmentalStage < s.vc_CurrentTemperatureSum.length)
    (hwe : e.enable_Phenology_WangEngelTemperatureResponse = false)
    (hopt : vget a.pc_BaseTemperature s.vc_DevelopmentalStage
      ≤ vget a.pc_OptimumTemperature s.vc_DevelopmentalStage)
    (hno : ¬ perennialResetFires lm e a s) :
    vget (fc_CropDevelopmentalStage lm e a s).vc_CurrentTemperatureSum s.vc_DevelopmentalStage
        = vget s.vc_CurrentTemperatureSum s.vc_DevelopmentalStage
          + specThermalIncrement e a s.vc_DevelopmentalStage
      ∧ (fc_CropDevelopmentalStage lm e a s).vc_CurrentTotalTemperatureSum
        = s.vc_CurrentTotalTemperatureSum
          + specThermalIncrement e a s.vc_DevelopmentalStage := by
  have hst := afterThermalIncrement_stage lm e a s
  have hsum := afterThermalIncrement_sum lm e a s
  have htot := afterThermalIncrement_total lm e a s
  have hinc := stageThermalIncrement_eq_spec lm e a s.vc_DevelopmentalStage hwe hopt
  have hcond : ¬ (vget (afterThermalIncrement lm e a s).vc_CurrentTemperatureSum
        (afterThermalIncrement lm e a s).vc_DevelopmentalStage
          ≥ vget a.pc_StageTemperatureSum (afterThermalIncrement lm e a s).vc_DevelopmentalStage
        ∧ ¬ (afterThermalIncrement lm e a s).vc_DevelopmentalStage
            < sizeSub a.pc_NumberOfDevelopmentalStages 1
        ∧ (afterThermalIncrement lm e a s).vc_DevelopmentalStage
            = sizeSub a.pc_NumberOfDevelopmentalStages 1
        ∧ a.pc_Perennial = true ∧ a.vc_GrowthCycleEnded = true) := by
    rw [hst]
    intro h
    exact hno ⟨by omega, h.1, h.2.1, h.2.2.1, h.2.2.2.1, h.2.2.2.2⟩
  have hfc : fc_CropDevelopmentalStage lm e a s
      = stageTransition a (afterThermalIncrement lm e a s) := by
    unfold fc_CropDevelopmentalStage
    rw [if_neg (by omega), if_pos (by omega)]
  rw [hfc]
  constructor
  · have h1 := stageTransition_current_sum a (afterThermalIncrement lm e a s) hcond
    rw [hst] at h1
    rw [h1, hsum, vget_vadd_self _ _ _ hlen, hinc]
  · rw [stageTransition_total a (afterThermalIncrement lm e a s) hcond, htot, hinc]

/-- C24, witness: the scenario of the specification, 95 degree-days at stage 1 and a day with
mean temperature 10, with three pending cutting-delay days. -/
theorem daily_thermal_increment_witness :
    specThermalIncrement { exampleEnv with vc_CuttingDelayDays := 3 } exampleArgs 1 = 10
      ∧ vget (fc_CropDevelopmentalStage libmQ { exampleEnv with vc_CuttingDelayDays := 3 }
          exampleArgs exampleState).vc_CurrentTemperatureSum exampleState.vc_DevelopmentalStage
        = vget exampleState.vc_CurrentTemperatureSum exampleState.vc_DevelopmentalStage
          + specThermalIncrement { exampleEnv with vc_CuttingDelayDays := 3 } exampleArgs
              exampleState.vc_DevelopmentalStage
      ∧ (fc_CropDevelopmentalStage libmQ { exampleEnv with vc_CuttingDelayDays := 3 }
          exampleArgs exampleState).vc_CurrentTotalTemperatureSum
        = exampleState.vc_CurrentTotalTemperatureSum
          + specThermalIncrement { exampleEnv with vc_CuttingDelayDays := 3 } exampleArgs
              exampleState.vc_DevelopmentalStage := by
  refine ⟨?_, daily_thermal_increment libmQ { exampleEnv with vc_CuttingDelayDays := 3 }
    exampleArgs exampleState (by decide) (by decide) rfl
    (by norm_num [exampleArgs, exampleState, vget]) ?_⟩
  · norm_num [specThermalIncrement, developmentAccelerationByStress, exampleArgs,
      exampleEnv, vget, mget]
  · intro h
    have h3 := h.2.2.1
    norm_num [exampleState, exampleArgs, sizeSub, sizeRange] at h3

/-- C25, counterexample. At stage 1 the storage organ has the partitioning coefficient 1,
above 0.9, and `vc_CropNRedux` is 1/2; the acceleration by nitrogen stress is switched off
and the transpiration deficit 1 is not below the drought threshold. The factor of the
source is 1, the formula of the specification gives 5/4. -/
theorem stress_acceleration_counterexample :
    mget storageEnv.pc_AssimilatePartitioningCoeff 1 storageEnv.vc_StorageOrgan = 1
      ∧ developmentAccelerationByStress storageEnv nitrogenStressArgs 1 = 1
      ∧ specAccelerationFactor storageEnv nitrogenStressArgs 1 = 5 / 4 := by
  refine ⟨?_, ?_, ?_⟩
  · norm_num [storageEnv, exampleEnv, mget, vget]
  · norm_num [developmentAccelerationByStress, storageEnv, nitrogenStressArgs, exampleEnv,
      exampleArgs, mget, vget]
  · norm_num [specAccelerationFactor, storageEnv, nitrogenStressArgs, exampleEnv,
      exampleArgs, mget, vget]

/-- C25, amended. The acceleration factor used by `fc_CropDevelopmentalStage` at a stage
`≥ 1` equals 1 whenever the partitioning coefficient of the storage organ at the stage is
`≤ 0.9`. Whenever the coefficient exceeds 0.9 it equals `max(n, w)`, where `n` is
`1 + (1 - vc_CropNRedux)^2` if `pc_DevelopmentAccelerationByNitrogenStress = 1` and 1
otherwise, and `w` is `1 + (1 - vc_TranspirationDeficit)^2` if `vc_TranspirationDeficit` is
below the drought threshold of the stage and `vc_OxygenDeficit ≥ 1`, and 1 otherwise; with
the nitrogen switch on, a deficit below the threshold and `vc_OxygenDeficit ≥ 1` this is
the formula of the specification. -/
theorem stress_acceleration (e : DevEnv) (a : DevArgs) (stage : Nat) :
    (mget e.pc_AssimilatePartitioningCoeff stage e.vc_StorageOrgan ≤ 0.9 →
        developmentAccelerationByStress e a stage = 1)
      ∧ (mget e.pc_AssimilatePartitioningCoeff stage e.vc_StorageOrgan > 0.9 →
        developmentAccelerationByStress e a stage
          = max (if e.pc_DevelopmentAccelerationByNitrogenStress = 1
                then 1 + (1 - a.vc_CropNRedux) ^ 2 else 1)
              (if e.vc_TranspirationDeficit < vget e.pc_DroughtStressThreshold stage
                  ∧ 1 ≤ e.vc_OxygenDeficit
                then 1 + (1 - e.vc_TranspirationDeficit) ^ 2 else 1))
      ∧ (mget e.pc_AssimilatePartitioningCoeff stage e.vc_StorageOrgan > 0.9 →
        e.pc_DevelopmentAccelerationByNitrogenStress = 1 →
        e.vc_TranspirationDeficit < vget e.pc_DroughtStressThreshold stage →
        1 ≤ e.vc_OxygenDeficit →
        developmentAccelerationByStress e a stage = specAccelerationFactor e a stage) := by
  refine ⟨fun h => ?_, fun h => ?_, fun h hn hw ho => ?_⟩
  · simp only [developmentAccelerationByStress]
    rw [if_neg (fun hh => absurd hh.2 (not_lt.mpr h)),
      if_neg (fun hh => absurd hh.2 (not_lt.mpr h))]
    exact max_self 1
  · simp only [developmentAccelerationByStress]
    congr 1
    · by_cases hn : e.pc_DevelopmentAccelerationByNitrogenStress = 1
      · rw [if_pos ⟨hn, h⟩, if_pos hn]; ring
      · rw [if_neg (fun hh => hn hh.1), if_neg hn]
    · by_cases hw : e.vc_TranspirationDeficit < vget e.pc_DroughtStressThreshold stage
      · rw [if_pos ⟨hw, h⟩]
        by_cases ho : e.vc_OxygenDeficit < 1
        · rw [if_pos ho, if_neg (fun hh => absurd ho (not_lt.mpr hh.2))]
        · rw [if_neg ho, if_pos ⟨hw, not_lt.mp ho⟩]; ring
      · rw [if_neg (fun hh => hw hh.1), if_neg (fun hh => hw hh.1)]
  · simp only [developmentAccelerationByStress, specAccelerationFactor]
    rw [if_pos ⟨hn, h⟩, if_pos ⟨hw, h⟩, if_neg (not_lt.mpr ho), if_pos h]
    congr 1 <;> ring

/-- C25, witness: with the nitrogen switch on, `vc_CropNRedux = 1/2` and a transpiration
deficit of 1/2 below the threshold 1, the factor is 5/4, the value of the specification's
formula. -/
theorem stress_acceleration_witness :
    mget stressedStorageEnv.pc_AssimilatePartitioningCoeff 1 stressedStorageEnv.vc_StorageOrgan
        > 0.9
      ∧ developmentAccelerationByStress stressedStorageEnv nitrogenStressArgs 1
        = specAccelerationFactor stressedStorageEnv nitrogenStressArgs 1
      ∧ specAccelerationFactor stressedStorageEnv nitrogenStressArgs 1 = 5 / 4 := by
  have hc : mget stressedStorageEnv.pc_AssimilatePartitioningCoeff 1
      stressedStorageEnv.vc_StorageOrgan > 0.9 := by
    norm_num [stressedStorageEnv, storageEnv, exampleEnv, mget, vget]
  refine ⟨hc, (stress_acceleration stressedStorageEnv nitrogenStressArgs 1).2.2 hc rfl
    (by norm_num [stressedStorageEnv, storageEnv, exampleEnv, vget])
    (by norm_num [stressedStorageEnv, storageEnv, exampleEnv]), ?_⟩
  norm_num [specAccelerationFactor, stressedStorageEnv, storageEnv, nitrogenStressArgs,
    exampleEnv, exampleArgs, mget, vget]

/-! ### Root-density taper -/

/-- C26, the taper of the source. For every layer `i` with
`vc_RootingDepth ≤ i < vc_RootingZone` the quotient
`(i - vc_RootingDepth) / (vc_RootingZone - vc_RootingDepth)` of unsigned integers is 0, so
the factor computed by `calcRootDensityFactorAndSum` is the exponential value without any
taper, while the specification's factor is the exponential value times
`1 - (i - rootingDepth) / (rootingZone - rootingDepth)`. -/
theorem root_taper_integer_division (lm : Libm) (env : RootEnv) (i : Nat)
    (h1 : env.vc_RootingDepth ≤ i) (h2 : i < env.vc_RootingZone) (h3 : i < env.nols) :
    rootDensityFactor lm env i = lm.exp (-env.pc_RootFormFactor * (i * env.layerThickness))
      ∧ vget (calcRootDensityFactorAndSum lm env).1 i
          = lm.exp (-env.pc_RootFormFactor * (i * env.layerThickness))
      ∧ specRootDensityFactor lm env i
          = lm.exp (-env.pc_RootFormFactor * (i * env.layerThickness))
            * (1 - ((i : ℚ) - env.vc_RootingDepth)
                / ((env.vc_RootingZone : ℚ) - env.vc_RootingDepth)) := by
  have hq : (i - env.vc_RootingDepth) / (env.vc_RootingZone - env.vc_RootingDepth) = 0 :=
    Nat.div_eq_of_lt (by omega)
  have hf : rootDensityFactor lm env i
      = lm.exp (-env.pc_RootFormFactor * (i * env.layerThickness)) := by
    unfold rootDensityFactor
    rw [if_neg (by omega), if_pos h2, hq]
    norm_num
  refine ⟨hf, ?_, rfl⟩
  rw [← hf]
  simp [calcRootDensityFactorAndSum, vget, h3]

/-- C26, evaluation at the failing input, and witness. With rooting depth 2, rooting zone 4
and root form factor 0, the factor of layer 3 is the exponential value `exp 0`, which is 1
with the rational stand-in, and the specification's factor is one half of it. -/
theorem root_taper_integer_division_witness :
    (taperRootEnv.vc_RootingDepth ≤ 3 ∧ 3 < taperRootEnv.vc_RootingZone)
      ∧ rootDensityFactor libmQ taperRootEnv 3 = 1
      ∧ specRootDensityFactor libmQ taperRootEnv 3 = 1 / 2 := by
  have h := root_taper_integer_division libmQ taperRootEnv 3 (by decide) (by decide)
    (by decide)
  refine ⟨⟨by decide, by decide⟩, ?_, ?_⟩
  · rw [h.1]
    norm_num [libmQ, taperRootEnv]
  · rw [h.2.2]
    norm_num [libmQ, taperRootEnv]

/-! ### Division by the thermal-sum target of the stage -/

theorem fc_KcFactor_isSome (stage : Nat) (target cur init k1 k0 : ℚ) :
    ∃ kc, fc_KcFactor stage target cur init k1 k0 = some kc := by
  unfold fc_KcFactor checkedDiv
  by_cases h : target = 0
  · simp only [if_pos h]
    split_ifs <;> exact ⟨_, rfl⟩
  · simp only [if_neg h]
    split_ifs <;> exact ⟨_, rfl⟩

theorem fc_CropGreenArea_checked_eq (lm : Libm) (env : GreenAreaEnv) (a : GreenAreaArgs)
    (lai : ℚ) (h : a.d_StageTemperatureSum ≠ 0) :
    fc_CropGreenArea_checked lm env a lai = some (fc_CropGreenArea lm env a lai) := by
  unfold fc_CropGreenArea_checked checkedDiv fc_CropGreenArea
  rw [if_neg h]
  rfl

theorem stageProgress_checked_eq (env : DryMatterEnv) (stage : Nat)
    (h : vget env.pc_StageTemperatureSum stage ≠ 0) :
    stageProgress_checked env stage = some (stageProgress env stage) := by
  unfold stageProgress_checked checkedDiv stageProgress
  rw [if_neg h]

/-- C27, the three computations at a stage target of 0. `fc_KcFactor` branches around the
division and returns the Kc factor of the relative development 0. `fc_CropGreenArea` and the
organ loop of `fc_CropDryMatter` have no such branch: with the division as a partial
operation they divide by the target and have no value. -/
theorem zero_stage_target_division (lm : Libm) (genv : GreenAreaEnv) (a : GreenAreaArgs)
    (vc_LeafAreaIndex : ℚ) (denv : DryMatterEnv) (stage : Nat)
    (d_CurrentTemperatureSum pc_InitialKcFactor d_StageKcFactor d_EarlierStageKcFactor : ℚ)
    (hstage : 1 ≤ stage)
    (hgreen : a.d_StageTemperatureSum = 0)
    (hdry : vget denv.pc_StageTemperatureSum stage = 0) :
    fc_KcFactor stage 0 d_CurrentTemperatureSum pc_InitialKcFactor d_StageKcFactor
        d_EarlierStageKcFactor = some d_EarlierStageKcFactor
      ∧ fc_CropGreenArea_checked lm genv a vc_LeafAreaIndex = none
      ∧ stageProgress_checked denv stage = none := by
  refine ⟨?_, ?_, ?_⟩
  · unfold fc_KcFactor
    simp only [if_pos rfl]
    have h0 : ¬ ((0 : ℚ) > 1) := by norm_num
    have hs : stage ≠ 0 := by omega
    simp [h0, hs]
  · unfold fc_CropGreenArea_checked checkedDiv
    rw [if_pos hgreen]
    rfl
  · unfold stageProgress_checked checkedDiv
    rw [if_pos hdry]

/-- C27, witness: a crop at stage 1 with 10 degree-days accumulated against a target of 0. -/
theorem zero_stage_target_division_witness :
    (zeroTargetGreenArgs.d_StageTemperatureSum = 0
        ∧ vget zeroTargetDryMatterEnv.pc_StageTemperatureSum 1 = 0)
      ∧ fc_KcFactor 1 0 10 0.4 1.1 0.6 = some 0.6
      ∧ fc_CropGreenArea_checked libmQ plainGreenAreaEnv zeroTargetGreenArgs 1 = none
      ∧ stageProgress_checked zeroTargetDryMatterEnv 1 = none :=
  ⟨⟨rfl, by norm_num [zeroTargetDryMatterEnv, vget]⟩,
    zero_stage_target_division libmQ plainGreenAreaEnv zeroTargetGreenArgs 1
      zeroTargetDryMatterEnv 1 10 0.4 1.1 0.6 (by decide) rfl
      (by norm_num [zeroTargetDryMatterEnv, vget])⟩

/-! ### Growth respiration -/

/-- C28. For every value `A > 0` of the assimilate pool after maintenance respiration, the
pool after photo and dark growth respiration is `≥ 0` and `vc_GrowthRespirationAS` equals `A`
minus that pool; for `A ≤ 0` no growth respiration is charged: `vc_GrowthRespirationAS` is 0
and the pool stays `A`. -/
theorem growth_respiration_capped (lm : Libm) (env : RespirationEnv) (A : ℚ) :
    (0 < A →
        0 ≤ (fc_CropPhotosynthesis_growthRespiration lm env A).vc_Assimilates
          ∧ vc_GrowthRespirationAS (fc_CropPhotosynthesis_growthRespiration lm env A)
            = A - (fc_CropPhotosynthesis_growthRespiration lm env A).vc_Assimilates)
      ∧ (A ≤ 0 →
        vc_GrowthRespirationAS (fc_CropPhotosynthesis_growthRespiration lm env A) = 0
          ∧ (fc_CropPhotosynthesis_growthRespiration lm env A).vc_Assimilates = A) := by
  constructor
  · intro hA
    simp only [fc_CropPhotosynthesis_growthRespiration, vc_GrowthRespirationAS,
      if_pos (show A > 0 from hA)]
    generalize growthRespirationSumLoop env A env.pc_NumberOfOrgans
      * lm.pow 2 (env.pc_GrowthRespirationParameter_1
        * (env.vc_PhotoTemperature - env.pc_GrowthRespirationParameter_2))
      * (2 - env.vc_NormalisedDayLength) = p
    generalize growthRespirationSumLoop env A env.pc_NumberOfOrgans
      * lm.pow 2 (env.pc_GrowthRespirationParameter_1
        * (env.vc_PhotoTemperature - env.pc_GrowthRespirationParameter_2))
      * env.vc_NormalisedDayLength = d
    by_cases hp : A > p
    · simp only [if_pos hp, if_pos (show A - p > 0 by linarith)]
      by_cases hd : A - p > d
      · simp only [if_pos hd]
        constructor <;> linarith
      · simp only [if_neg hd]
        constructor <;> linarith
    · simp only [if_neg hp, if_neg (show ¬ (0 : ℚ) > 0 by norm_num)]
      constructor <;> linarith
  · intro hA
    simp only [fc_CropPhotosynthesis_growthRespiration, vc_GrowthRespirationAS,
      if_neg (show ¬ A > 0 from not_lt.mpr hA)]
    constructor <;> norm_num

/-- C28, witness: a pool of 100 with a growth respiration sum of 35; photo and dark growth
respiration take 35 each, the pool ends at 30 and `vc_GrowthRespirationAS` is 70. -/
theorem growth_respiration_capped_witness :
    (0 : ℚ) < 100
      ∧ (fc_CropPhotosynthesis_growthRespiration libmQ exampleRespirationEnv 100).vc_Assimilates
        = 30
      ∧ 0 ≤ (fc_CropPhotosynthesis_growthRespiration libmQ exampleRespirationEnv
          100).vc_Assimilates
      ∧ vc_GrowthRespirationAS
          (fc_CropPhotosynthesis_growthRespiration libmQ exampleRespirationEnv 100)
        = 100 - (fc_CropPhotosynthesis_growthRespiration libmQ exampleRespirationEnv
            100).vc_Assimilates := by
  refine ⟨by norm_num, ?_,
    (growth_respiration_capped libmQ exampleRespirationEnv 100).1 (by norm_num)⟩
  norm_num [fc_CropPhotosynthesis_growthRespiration, growthRespirationSumLoop,
    exampleRespirationEnv, libmQ, mget, vget]

/-! ### Negative net assimilate -/

theorem fabs_eq_abs (x : ℚ) : fabs x = |x| := by
  unfold fabs
  split_ifs with h
  · exact (abs_of_neg h).symm
  · exact (abs_of_nonneg (not_lt.mp h)).symm

/-- C29. In the organ loop of `fc_CropDryMatter`, when the net assimilate `N` is `< 0` and the
thermal progress of the stage, the quotient of the accumulator by a target other than 0, is
`≤ 1`, the growth increment of the leaf organ and of the shoot organ, with biomass `B ≥ 0`,
is `0.05 * N` if `|0.05 * N| ≤ B` and `-B` otherwise, so that `B` plus the increment is
`≥ 0`; the growth increment of every other organ is 0. -/
theorem negative_assimilate_growth (env : DryMatterEnv) (stage : Nat) (N mob : ℚ) (i : Nat)
    (st : OrganState) (hN : N < 0)
    (htarget : vget env.pc_StageTemperatureSum stage ≠ 0)
    (hp : stageProgress env stage ≤ 1)
    (hlen : i < st.vc_OrganGrowthIncrement.length) (hB : 0 ≤ vget st.vc_OrganBiomass i) :
    ((i = env.LEAF ∨ i = env.SHOOT) →
        vget (organIncrements env stage N mob i st).vc_OrganGrowthIncrement i
          = if |0.05 * N| ≤ vget st.vc_OrganBiomass i then 0.05 * N
            else -vget st.vc_OrganBiomass i)
      ∧ (i ≠ env.LEAF → i ≠ env.SHOOT →
        vget (organIncrements env stage N mob i st).vc_OrganGrowthIncrement i = 0)
      ∧ 0 ≤ vget st.vc_OrganBiomass i
          + vget (organIncrements env stage N mob i st).vc_OrganGrowthIncrement i := by
  have _ := htarget
  have hval : vget (organIncrements env stage N mob i st).vc_OrganGrowthIncrement i
      = organGrowthIncrement env stage N mob i st := by
    unfold organIncrements
    rw [if_neg (not_lt.mpr hp)]
    exact vget_set_self _ _ _ hlen
  have hcap : 0 ≤ vget st.vc_OrganBiomass i
      + (if |0.05 * N| ≤ vget st.vc_OrganBiomass i then 0.05 * N
          else -vget st.vc_OrganBiomass i) := by
    split_ifs with h
    · have := neg_abs_le (0.05 * N)
      linarith
    · linarith
  have hleaf : (i = env.LEAF ∨ i = env.SHOOT) → organGrowthIncrement env stage N mob i st
      = if |0.05 * N| ≤ vget st.vc_OrganBiomass i then 0.05 * N
        else -vget st.vc_OrganBiomass i := by
    intro h
    simp only [organGrowthIncrement, if_pos hN, fabs_eq_abs]
    by_cases hl : i = env.LEAF
    · rw [if_pos hl]
      split_ifs <;> ring
    · rw [if_neg hl, if_pos (h.resolve_left hl)]
      split_ifs <;> ring
  have hother : i ≠ env.LEAF → i ≠ env.SHOOT → organGrowthIncrement env stage N mob i st = 0 := by
    intro h1 h2
    simp only [organGrowthIncrement, if_pos hN]
    rw [if_neg h1, if_neg h2]
  refine ⟨fun h => by rw [hval, hleaf h], fun h1 h2 => by rw [hval, hother h1 h2], ?_⟩
  rw [hval]
  by_cases h : i = env.LEAF ∨ i = env.SHOOT
  · rw [hleaf h]; exact hcap
  · rw [hother (fun hh => h (Or.inl hh)) (fun hh => h (Or.inr hh))]
    linarith

/-- C29, witness: the five-organ crop with a net assimilate of -400. The leaf with biomass 10
loses its whole biomass, since `|0.05 * -400| = 20 > 10`; the shoot with biomass 100 loses
20; the root gets the increment 0. -/
theorem negative_assimilate_growth_witness :
    vget (organIncrements fiveOrganEnv 1 (-400) 0 1 fiveOrganState).vc_OrganGrowthIncrement 1
        = -10
      ∧ vget (organIncrements fiveOrganEnv 1 (-400) 0 2 fiveOrganState).vc_OrganGrowthIncrement 2
        = -20
      ∧ vget (organIncrements fiveOrganEnv 1 (-400) 0 0 fiveOrganState).vc_OrganGrowthIncrement 0
        = 0
      ∧ 0 ≤ vget fiveOrganState.vc_OrganBiomass 1
          + vget (organIncrements fiveOrganEnv 1 (-400) 0 1
              fiveOrganState).vc_OrganGrowthIncrement 1 := by
  have hp : stageProgress fiveOrganEnv 1 ≤ 1 := by
    norm_num [stageProgress, fiveOrganEnv, vget]
  have ht : vget fiveOrganEnv.pc_StageTemperatureSum 1 ≠ 0 := by
    norm_num [fiveOrganEnv, vget]
  have h1 := negative_assimilate_growth fiveOrganEnv 1 (-400) 0 1 fiveOrganState
    (by norm_num) ht hp (by simp [fiveOrganState]) (by norm_num [fiveOrganState, vget])
  have h2 := negative_assimilate_growth fiveOrganEnv 1 (-400) 0 2 fiveOrganState
    (by norm_num) ht hp (by simp [fiveOrganState]) (by norm_num [fiveOrganState, vget])
  have h0 := negative_assimilate_growth fiveOrganEnv 1 (-400) 0 0 fiveOrganState
    (by norm_num) ht hp (by simp [fiveOrganState]) (by norm_num [fiveOrganState, vget])
  refine ⟨?_, ?_, ?_, h1.2.2⟩
  · rw [h1.1 (Or.inl rfl)]
    norm_num [fiveOrganState, vget, abs_of_nonneg]
  · rw [h2.1 (Or.inr rfl)]
    norm_num [fiveOrganState, vget, abs_of_nonneg]
  · exact h0.2.1 (by decide) (by decide)

/-! ### Evapotranspiration cap and interception split -/

theorem fc_CropWaterUptake_interception (env : WaterEnv) (cov : ℚ) (zone gw : Nat)
    (et0 precip : ℚ) (s : WaterState) :
    (fc_CropWaterUptake env cov zone gw et0 precip s).vc_InterceptionStorage
        = (interception env cov et0 precip s.vc_InterceptionStorage).1
      ∧ (fc_CropWaterUptake env cov zone gw et0 precip s).vc_NetPrecipitation
        = (interception env cov et0 precip s.vc_InterceptionStorage).2.1
      ∧ (fc_CropWaterUptake env cov zone gw et0 precip s).vc_RemainingEvapotranspiration
        = (interception env cov et0 precip s.vc_InterceptionStorage).2.2.1
      ∧ (fc_CropWaterUptake env cov zone gw et0 precip s).vc_EvaporatedFromIntercept
        = (interception env cov et0 precip s.vc_InterceptionStorage).2.2.2 := by
  by_cases h : env.vc_DevelopmentalStage < env.vc_FinalDevelopmentalStage
  · simp only [fc_CropWaterUptake, if_pos h]
    exact ⟨trivial, trivial, trivial, trivial⟩
  · simp only [fc_CropWaterUptake, if_neg h]
    exact ⟨trivial, trivial, trivial, trivial⟩

theorem interception_split (env : WaterEnv) (cov et0 precip storage : ℚ)
    (hP : 0 ≤ min (et0 * env.vc_KcFactor) 6.5) (hprecip : 0 ≤ precip)
    (hstorage : 0 ≤ storage) :
    (interception env cov et0 precip storage).2.2.2
        + (interception env cov et0 precip storage).2.2.1 = min (et0 * env.vc_KcFactor) 6.5
      ∧ 0 ≤ (interception env cov et0 precip storage).2.2.2
      ∧ 0 ≤ (interception env cov et0 precip storage).2.2.1
      ∧ 0 ≤ (interception env cov et0 precip storage).1 := by
  have hmin : min (et0 * env.vc_KcFactor) 6.5
      = if et0 * env.vc_KcFactor > 6.5 then 6.5 else et0 * env.vc_KcFactor := by
    split_ifs with h
    · exact min_eq_right (le_of_lt h)
    · exact min_eq_left (not_lt.mp h)
  rw [hmin] at hP ⊢
  simp only [interception]
  generalize et0 * env.vc_KcFactor = p at hP ⊢
  generalize 2.5 * env.vc_CropHeight * cov - storage = c
  split_ifs at hP ⊢ <;> simp only [] <;> refine ⟨?_, ?_, ?_, ?_⟩ <;> linarith

/-- C30. In `fc_CropWaterUptake` the potential evapotranspiration is
`P = min (ET0 * Kc) 6.5`. For `P ≥ 0`, gross precipitation `≥ 0` and interception storage
`≥ 0` before the call, `vc_EvaporatedFromIntercept + vc_RemainingEvapotranspiration = P` with
both parts `≥ 0`, and the interception storage after the call is `≥ 0`. -/
theorem evapotranspiration_split (env : WaterEnv) (vc_SoilCoverage : ℚ)
    (vc_RootingZone vc_GroundwaterTable : Nat)
    (vc_ReferenceEvapotranspiration vw_GrossPrecipitation : ℚ) (s : WaterState)
    (hP : 0 ≤ min (vc_ReferenceEvapotranspiration * env.vc_KcFactor) 6.5)
    (hprecip : 0 ≤ vw_GrossPrecipitation) (hstorage : 0 ≤ s.vc_InterceptionStorage) :
    (fc_CropWaterUptake env vc_SoilCoverage vc_RootingZone vc_GroundwaterTable
          vc_ReferenceEvapotranspiration vw_GrossPrecipitation s).vc_EvaporatedFromIntercept
        + (fc_CropWaterUptake env vc_SoilCoverage vc_RootingZone vc_GroundwaterTable
          vc_ReferenceEvapotranspiration vw_GrossPrecipitation s).vc_RemainingEvapotranspiration
        = min (vc_ReferenceEvapotranspiration * env.vc_KcFactor) 6.5
      ∧ 0 ≤ (fc_CropWaterUptake env vc_SoilCoverage vc_RootingZone vc_GroundwaterTable
          vc_ReferenceEvapotranspiration vw_GrossPrecipitation s).vc_EvaporatedFromIntercept
      ∧ 0 ≤ (fc_CropWaterUptake env vc_SoilCoverage vc_RootingZone vc_GroundwaterTable
          vc_ReferenceEvapotranspiration vw_GrossPrecipitation s).vc_RemainingEvapotranspiration
      ∧ 0 ≤ (fc_CropWaterUptake env vc_SoilCoverage vc_RootingZone vc_GroundwaterTable
          vc_ReferenceEvapotranspiration vw_GrossPrecipitation s).vc_InterceptionStorage := by
  obtain ⟨h1, -, h3, h4⟩ := fc_CropWaterUptake_interception env vc_SoilCoverage vc_RootingZone
    vc_GroundwaterTable vc_ReferenceEvapotranspiration vw_GrossPrecipitation s
  rw [h1, h3, h4]
  exact interception_split env vc_SoilCoverage vc_ReferenceEvapotranspiration
    vw_GrossPrecipitation s.vc_InterceptionStorage hP hprecip hstorage

/-- C30, witness: a day with a reference evapotranspiration of 8 (capped to 6.5) and 2 mm of
rain on the example crop: 1 mm is intercepted and evaporates, 5.5 mm remain. -/
theorem evapotranspiration_split_witness :
    (0 : ℚ) ≤ min (8 * exampleWaterEnv.vc_KcFactor) 6.5
      ∧ (fc_CropWaterUptake exampleWaterEnv 0.8 3 10 8 2
          exampleWaterState).vc_EvaporatedFromIntercept = 1
      ∧ (fc_CropWaterUptake exampleWaterEnv 0.8 3 10 8 2
          exampleWaterState).vc_RemainingEvapotranspiration = 5.5
      ∧ (fc_CropWaterUptake exampleWaterEnv 0.8 3 10 8 2
          exampleWaterState).vc_EvaporatedFromIntercept
        + (fc_CropWaterUptake exampleWaterEnv 0.8 3 10 8 2
          exampleWaterState).vc_RemainingEvapotranspiration
        = min (8 * exampleWaterEnv.vc_KcFactor) 6.5 := by
  have hP : (0 : ℚ) ≤ min (8 * exampleWaterEnv.vc_KcFactor) 6.5 := by
    norm_num [exampleWaterEnv]
  have h := evapotranspiration_split exampleWaterEnv 0.8 3 10 8 2 exampleWaterState hP
    (by norm_num) (by norm_num [exampleWaterState])
  obtain ⟨g1, -, g3, g4⟩ := fc_CropWaterUptake_interception exampleWaterEnv 0.8 3 10 8 2
    exampleWaterState
  refine ⟨hP, ?_, ?_, h.1⟩
  · rw [g4]
    norm_num [interception, exampleWaterEnv, exampleWaterState]
  · rw [g3]
    norm_num [interception, exampleWaterEnv, exampleWaterState]

theorem layerTranspirationRedux_eq (env : WaterEnv) (i : Nat) :
    layerTranspirationRedux env i = transpirationReduxOfWater (availableWaterQuotient env i) :=
  rfl

theorem layerRootEffectivity_eq (env : WaterEnv) (gw i : Nat) :
    layerRootEffectivity env gw i
      = (if ((i + 1 : Nat) : ℚ) * env.layerThickness ≥ env.vs_MaxEffectiveRootingDepth then 0
          else if i > gw then 0
          else if i = gw then 0.5
          else rootEffectivityOfWater (availableWaterQuotient env i)) :=
  rfl

/-- The five segments of the transpiration-reduction curve in closed form. -/
theorem transpirationReduxOfWater_cases (a : ℚ) :
    (a < 0 ∧ transpirationReduxOfWater a = 0)
    ∨ (0 ≤ a ∧ a < 3 / 20 ∧ transpirationReduxOfWater a = 3 * a)
    ∨ (3 / 20 ≤ a ∧ a < 3 / 10 ∧ transpirationReduxOfWater a = 1 / 5 + 5 / 3 * a)
    ∨ (3 / 10 ≤ a ∧ a < 1 / 2 ∧ transpirationReduxOfWater a = 23 / 80 + 11 / 8 * a)
    ∨ (1 / 2 ≤ a ∧ a < 3 / 4 ∧ transpirationReduxOfWater a = 37 / 40 + 1 / 10 * a)
    ∨ (3 / 4 ≤ a ∧ transpirationReduxOfWater a = 1) := by
  rcases lt_or_le a 0 with h0 | h0
  · left
    refine ⟨h0, ?_⟩
    simp only [transpirationReduxOfWater, if_pos h0]
    norm_num
  have e : (if a < 0 then (0 : ℚ) else a) = a := if_neg (not_lt.mpr h0)
  simp only [transpirationReduxOfWater, e]
  rcases lt_or_le a (3 / 20) with h1 | h1
  · right; left
    refine ⟨h0, h1, ?_⟩
    have c1 : a < 0.15 := by norm_num; exact h1
    simp only [if_pos c1]
    rw [if_neg (by linarith)]; ring
  have c1 : ¬ a < 0.15 := by norm_num; exact h1
  simp only [if_neg c1]
  rcases lt_or_le a (3 / 10) with h2 | h2
  · right; right; left
    refine ⟨h1, h2, ?_⟩
    have c2 : a < 0.3 := by norm_num; exact h2
    simp only [if_pos c2]
    rw [if_neg (by norm_num; linarith)]; ring
  have c2 : ¬ a < 0.3 := by norm_num; exact h2
  simp only [if_neg c2]
  rcases lt_or_le a (1 / 2) with h3 | h3
  · right; right; right; left
    refine ⟨h2, h3, ?_⟩
    have c3 : a < 0.5 := by norm_num; exact h3
    simp only [if_pos c3]
    rw [if_neg (by norm_num; linarith)]; ring
  have c3 : ¬ a < 0.5 := by norm_num; exact h3
  simp only [if_neg c3]
  rcases lt_or_le a (3 / 4) with h4 | h4
  · right; right; right; right; left
    refine ⟨h3, h4, ?_⟩
    have c4 : a < 0.75 := by norm_num; exact h4
    simp only [if_pos c4]
    rw [if_neg (by norm_num; linarith)]; ring
  · right; right; right; right; right
    refine ⟨h4, ?_⟩
    have c4 : ¬ a < 0.75 := by norm_num; exact h4
    simp only [if_neg c4]
    norm_num

/-- The segments of the root-effectivity curve in closed form. -/
theorem rootEffectivityOfWater_cases (a : ℚ) :
    (a < 0 ∧ rootEffectivityOfWater a = 3 / 20)
    ∨ (0 ≤ a ∧ a < 3 / 20 ∧ rootEffectivityOfWater a = 3 / 20 + 3 * a)
    ∨ (3 / 20 ≤ a ∧ a < 3 / 10 ∧ rootEffectivityOfWater a = 2 / 5 + 4 / 3 * a)
    ∨ (3 / 10 ≤ a ∧ a < 1 / 2 ∧ rootEffectivityOfWater a = 1 / 2 + a)
    ∨ (1 / 2 ≤ a ∧ rootEffectivityOfWater a = 1) := by
  rcases lt_or_le a 0 with h0 | h0
  · left
    refine ⟨h0, ?_⟩
    simp only [rootEffectivityOfWater, if_pos h0]
    norm_num
  have e : (if a < 0 then (0 : ℚ) else a) = a := if_neg (not_lt.mpr h0)
  simp only [rootEffectivityOfWater, e]
  rcases lt_or_le a (3 / 20) with h1 | h1
  · right; left
    refine ⟨h0, h1, ?_⟩
    have c1 : a < 0.15 := by norm_num; exact h1
    simp only [if_pos c1]
    rw [if_neg (by norm_num; linarith)]; ring
  have c1 : ¬ a < 0.15 := by norm_num; exact h1
  simp only [if_neg c1]
  rcases lt_or_le a (3 / 10) with h2 | h2
  · right; right; left
    refine ⟨h1, h2, ?_⟩
    have c2 : a < 0.3 := by norm_num; exact h2
    simp only [if_pos c2]
    rw [if_neg (by norm_num; linarith)]; ring
  have c2 : ¬ a < 0.3 := by norm_num; exact h2
  simp only [if_neg c2]
  rcases lt_or_le a (1 / 2) with h3 | h3
  · right; right; right; left
    refine ⟨h2, h3, ?_⟩
    have c3 : a < 0.5 := by norm_num; exact h3
    simp only [if_pos c3]
    rw [if_neg (by norm_num; linarith)]; ring
  · right; right; right; right
    refine ⟨h3, ?_⟩
    have c3 : ¬ a < 0.5 := by norm_num; exact h3
    simp only [if_neg c3]
    norm_num

theorem transpirationReduxOfWater_mono (a b : ℚ) (h : a ≤ b) :
    transpirationReduxOfWater a ≤ transpirationReduxOfWater b := by
  rcases transpirationReduxOfWater_cases a with
    ⟨a1, ea⟩ | ⟨a1, a2, ea⟩ | ⟨a1, a2, ea⟩ | ⟨a1, a2, ea⟩ | ⟨a1, a2, ea⟩ | ⟨a1, ea⟩ <;>
  rcases transpirationReduxOfWater_cases b with
    ⟨b1, eb⟩ | ⟨b1, b2, eb⟩ | ⟨b1, b2, eb⟩ | ⟨b1, b2, eb⟩ | ⟨b1, b2, eb⟩ | ⟨b1, eb⟩ <;>
  rw [ea, eb] <;> linarith

theorem rootEffectivityOfWater_mono (a b : ℚ) (h : a ≤ b) :
    rootEffectivityOfWater a ≤ rootEffectivityOfWater b := by
  rcases rootEffectivityOfWater_cases a with
    ⟨a1, ea⟩ | ⟨a1, a2, ea⟩ | ⟨a1, a2, ea⟩ | ⟨a1, a2, ea⟩ | ⟨a1, ea⟩ <;>
  rcases rootEffectivityOfWater_cases b with
    ⟨b1, eb⟩ | ⟨b1, b2, eb⟩ | ⟨b1, b2, eb⟩ | ⟨b1, b2, eb⟩ | ⟨b1, eb⟩ <;>
  rw [ea, eb] <;> linarith

theorem transpirationReduxOfWater_bounds (a : ℚ) :
    0 ≤ transpirationReduxOfWater a ∧ transpirationReduxOfWater a ≤ 1 := by
  rcases transpirationReduxOfWater_cases a with
    ⟨a1, ea⟩ | ⟨a1, a2, ea⟩ | ⟨a1, a2, ea⟩ | ⟨a1, a2, ea⟩ | ⟨a1, a2, ea⟩ | ⟨a1, ea⟩ <;>
  rw [ea] <;> constructor <;> linarith

theorem rootEffectivityOfWater_bounds (a : ℚ) :
    0 ≤ rootEffectivityOfWater a ∧ rootEffectivityOfWater a ≤ 1 := by
  rcases rootEffectivityOfWater_cases a with
    ⟨a1, ea⟩ | ⟨a1, a2, ea⟩ | ⟨a1, a2, ea⟩ | ⟨a1, a2, ea⟩ | ⟨a1, ea⟩ <;>
  rw [ea] <;> constructor <;> linarith

/-- Claim C31 (water-availability response curves). As functions of the available-water
quotient `a` of a layer, the transpiration-reduction factor and the root effectivity that
`fc_CropWaterUptake` computes before the groundwater and maximum-effective-depth tests are
non-decreasing over all rational `a`, take values in `[0, 1]`, and are both 1 for every
`a ≥ 0.75`. -/
theorem water_response_curves (a b : ℚ) :
    (a ≤ b → transpirationReduxOfWater a ≤ transpirationReduxOfWater b
      ∧ rootEffectivityOfWater a ≤ rootEffectivityOfWater b)
    ∧ (0 ≤ transpirationReduxOfWater a ∧ transpirationReduxOfWater a ≤ 1)
    ∧ (0 ≤ rootEffectivityOfWater a ∧ rootEffectivityOfWater a ≤ 1)
    ∧ (0.75 ≤ a → transpirationReduxOfWater a = 1 ∧ rootEffectivityOfWater a = 1) := by
  refine ⟨fun h => ⟨transpirationReduxOfWater_mono a b h, rootEffectivityOfWater_mono a b h⟩,
    transpirationReduxOfWater_bounds a, rootEffectivityOfWater_bounds a, ?_⟩
  intro h
  have h' : (3 / 4 : ℚ) ≤ a := by norm_num at h ⊢; exact h
  constructor
  · rcases transpirationReduxOfWater_cases a with
      ⟨a1, ea⟩ | ⟨a1, a2, ea⟩ | ⟨a1, a2, ea⟩ | ⟨a1, a2, ea⟩ | ⟨a1, a2, ea⟩ | ⟨a1, ea⟩ <;>
    first
      | exact ea
      | exact absurd h' (by linarith)
  · rcases rootEffectivityOfWater_cases a with
      ⟨a1, ea⟩ | ⟨a1, a2, ea⟩ | ⟨a1, a2, ea⟩ | ⟨a1, a2, ea⟩ | ⟨a1, ea⟩ <;>
    first
      | exact ea
      | exact absurd h' (by linarith)

/-- Claim C31, witness: the quotients 1/5 and 4/5. The transpiration reduction rises from
8/15 to 1 and the root effectivity from 2/3 to 1, and both are 1 at 4/5. -/
theorem water_response_curves_witness :
    transpirationReduxOfWater (1 / 5) ≤ transpirationReduxOfWater (4 / 5)
    ∧ rootEffectivityOfWater (1 / 5) ≤ rootEffectivityOfWater (4 / 5)
    ∧ transpirationReduxOfWater (1 / 5) = 8 / 15
    ∧ rootEffectivityOfWater (1 / 5) = 2 / 3
    ∧ transpirationReduxOfWater (4 / 5) = 1
    ∧ rootEffectivityOfWater (4 / 5) = 1 := by
  have h := (water_response_curves (1 / 5) (4 / 5)).1 (by norm_num)
  have h1 := (water_response_curves (4 / 5) (4 / 5)).2.2.2 (by norm_num)
  refine ⟨h.1, h.2, ?_, ?_, h1.1, h1.2⟩
  · norm_num [transpirationReduxOfWater]
  · norm_num [rootEffectivityOfWater]
theorem tdiv_four_nonpos (t : Int) (h : t < 4) : Int.tdiv t 4 ≤ 0 := by
  rcases lt_or_le t 0 with hneg | hpos
  · have h1 : Int.tdiv t 4 = -(Int.tdiv (-t) 4) := by
      rw [Int.neg_tdiv, neg_neg]
    have h2 : 0 ≤ Int.tdiv (-t) 4 := Int.tdiv_nonneg (by omega) (by norm_num)
    omega
  · rw [Int.tdiv_eq_ediv hpos (by norm_num)]
    omega

theorem intOfDouble_one : intOfDouble 1 = 1 := by
  norm_num [intOfDouble]

/-- On a soil whose air-filled pore volume is below the critical content, with a time step of
one day, `fc_OxygenDeficiency` counts one day more, up to 4, and returns 1 while the counter
is below 4 and the ratio of pore volume to critical content, floored at 0, at 4. -/
theorem fc_OxygenDeficiency_anoxic (env : OxygenEnv) (crit : ℚ) (t : Int)
    (hts : env.vc_TimeStep = 1) (hc : 0 < crit) (hlow : airFilledPoreVolume env < crit) :
    fc_OxygenDeficiency env crit t
      = (if t + 1 > 4 then 4 else t + 1,
         if (if t + 1 > 4 then 4 else t + 1) < 4 then 1
         else max 0 (airFilledPoreVolume env) / crit) := by
  unfold airFilledPoreVolume at hlow
  simp only [fc_OxygenDeficiency, airFilledPoreVolume, if_pos hlow, hts, intOfDouble_one]
  generalize ((env.vs_Saturation0 + env.vs_Saturation1 + env.vs_Saturation2)
      - (env.vs_SoilMoisture0 + env.vs_SoilMoisture1 + env.vs_SoilMoisture2)) / 3 = a at hlow ⊢
  have hmax : (if a < 0 then 0 else a) = max 0 a := by
    rcases lt_or_le a 0 with h | h
    · rw [if_pos h, max_eq_left h.le]
    · rw [if_neg (not_lt.mpr h), max_eq_right h]
  rw [hmax]
  have hm1 : max 0 a / crit < 1 := by
    rw [div_lt_one hc]
    exact max_lt hc hlow
  generalize max 0 a / crit = m at hm1 ⊢
  have ht2 : (if t + 1 > 4 then 4 else t + 1) ≤ 4 := by split_ifs <;> omega
  generalize (if t + 1 > 4 then (4 : Int) else t + 1) = t2 at ht2 ⊢
  congr 1
  by_cases h4 : t2 < 4
  · rw [if_pos h4]
    have hq : ((Int.tdiv t2 4 : Int) : ℚ) ≤ 0 := by exact_mod_cast tdiv_four_nonpos t2 h4
    split_ifs with h
    · rfl
    · have h' : 1 - ((Int.tdiv t2 4 : Int) : ℚ) * (1 - m) ≤ 1 := not_lt.mp h
      have h'' : 1 ≤ 1 - ((Int.tdiv t2 4 : Int) : ℚ) * (1 - m) := by nlinarith
      exact le_antisymm h' h''
  · rw [if_neg h4]
    have e4 : t2 = 4 := by omega
    subst e4
    have hq : Int.tdiv 4 4 = 1 := by decide
    rw [hq]
    rw [if_neg (by push_cast; linarith)]
    push_cast; ring

/-- On a soil whose air-filled pore volume is not below the critical content
`fc_OxygenDeficiency` resets the counter and returns 1. -/
theorem fc_OxygenDeficiency_aerated (env : OxygenEnv) (crit : ℚ) (t : Int)
    (hhigh : ¬ airFilledPoreVolume env < crit) :
    fc_OxygenDeficiency env crit t = (0, 1) := by
  unfold airFilledPoreVolume at hhigh
  simp only [fc_OxygenDeficiency, if_neg hhigh]
  norm_num

theorem oxygenDeficiencyDays_counter (env : OxygenEnv) (crit : ℚ)
    (hts : env.vc_TimeStep = 1) (hc : 0 < crit) (hlow : airFilledPoreVolume env < crit)
    (n : Nat) : (oxygenDeficiencyDays env crit n 0).1 = ((min n 4 : Nat) : Int) := by
  induction n with
  | zero => rfl
  | succ k ih =>
    show (fc_OxygenDeficiency env crit (oxygenDeficiencyDays env crit k 0).1).1 = _
    rw [fc_OxygenDeficiency_anoxic env crit _ hts hc hlow, ih]
    show (if ((min k 4 : Nat) : Int) + 1 > 4 then (4 : Int) else ((min k 4 : Nat) : Int) + 1)
      = ((min (k + 1) 4 : Nat) : Int)
    split_ifs <;> omega

/-- Claim C36 (anoxia needs four consecutive days). With a time step of 1 and a critical
oxygen content above 0, `fc_OxygenDeficiency` returns exactly 1 on every call after which the
counter `vc_TimeUnderAnoxia` is below 4, whatever the air-filled pore volume, and returns
`max(0, airFilledPoreVolume) / criticalOxygenContent` on every call after which the counter
is 4. On a soil that stays below the critical content the counter after the `n`-th
consecutive call, starting from 0, is `min(n, 4)`: the first three calls return 1 and every
call from the fourth on returns the quotient. -/
theorem anoxia_needs_four_days (env : OxygenEnv) (crit : ℚ) (t : Int) (n : Nat)
    (hts : env.vc_TimeStep = 1) (hc : 0 < crit) :
    ((fc_OxygenDeficiency env crit t).1 < 4 → (fc_OxygenDeficiency env crit t).2 = 1)
    ∧ (4 ≤ (fc_OxygenDeficiency env crit t).1 →
        (fc_OxygenDeficiency env crit t).2 = max 0 (airFilledPoreVolume env) / crit)
    ∧ (airFilledPoreVolume env < crit → 1 ≤ n →
        (oxygenDeficiencyDays env crit n 0).1 = ((min n 4 : Nat) : Int)
        ∧ (oxygenDeficiencyDays env crit n 0).2
            = if n < 4 then 1 else max 0 (airFilledPoreVolume env) / crit) := by
  refine ⟨?_, ?_, ?_⟩
  · by_cases hlow : airFilledPoreVolume env < crit
    · rw [fc_OxygenDeficiency_anoxic env crit t hts hc hlow]
      intro h
      exact if_pos h
    · rw [fc_OxygenDeficiency_aerated env crit t hlow]
      intro _; rfl
  · by_cases hlow : airFilledPoreVolume env < crit
    · rw [fc_OxygenDeficiency_anoxic env crit t hts hc hlow]
      intro h
      exact if_neg (not_lt.mpr h)
    · rw [fc_OxygenDeficiency_aerated env crit t hlow]
      intro h
      exact absurd h (by norm_num)
  · intro hlow hn
    refine ⟨oxygenDeficiencyDays_counter env crit hts hc hlow n, ?_⟩
    obtain ⟨k, rfl⟩ : ∃ k, n = k + 1 := ⟨n - 1, by omega⟩
    show (fc_OxygenDeficiency env crit (oxygenDeficiencyDays env crit k 0).1).2 = _
    rw [fc_OxygenDeficiency_anoxic env crit _ hts hc hlow,
      oxygenDeficiencyDays_counter env crit hts hc hlow k]
    show (if (if ((min k 4 : Nat) : Int) + 1 > 4 then (4 : Int)
        else ((min k 4 : Nat) : Int) + 1) < 4 then (1 : ℚ)
      else max 0 (airFilledPoreVolume env) / crit) = _
    by_cases hk : k + 1 < 4
    · rw [if_pos hk, if_pos (by split_ifs <;> omega)]
    · rw [if_neg hk, if_neg (by split_ifs <;> omega)]

/-- Claim C36, witness: wet soil (air-filled pore volume 0.01) with a critical content of 0.08.
The call that moves the counter from 1 to 2 returns 1, the call that moves it from 3 to 4
returns 1/8, and so does the fifth consecutive call from a counter of 0. -/
theorem anoxia_needs_four_days_witness :
    (fc_OxygenDeficiency wetSoil 0.08 1).2 = 1
    ∧ (fc_OxygenDeficiency wetSoil 0.08 3).2 = max 0 (airFilledPoreVolume wetSoil) / 0.08
    ∧ max 0 (airFilledPoreVolume wetSoil) / 0.08 = 1 / 8
    ∧ (oxygenDeficiencyDays wetSoil 0.08 5 0).1 = 4
    ∧ (oxygenDeficiencyDays wetSoil 0.08 5 0).2 = 1 / 8 := by
  have h := anoxia_needs_four_days wetSoil 0.08 1 5 rfl (by norm_num)
  have h3 := anoxia_needs_four_days wetSoil 0.08 3 5 rfl (by norm_num)
  have hv : airFilledPoreVolume wetSoil = 1 / 100 := by
    norm_num [airFilledPoreVolume, wetSoil]
  have hlow : airFilledPoreVolume wetSoil < 0.08 := by rw [hv]; norm_num
  have e1 : (fc_OxygenDeficiency wetSoil 0.08 1).1 = 2 := by
    rw [fc_OxygenDeficiency_anoxic wetSoil 0.08 1 rfl (by norm_num) hlow]; rfl
  have e3 : (fc_OxygenDeficiency wetSoil 0.08 3).1 = 4 := by
    rw [fc_OxygenDeficiency_anoxic wetSoil 0.08 3 rfl (by norm_num) hlow]; rfl
  have hq : max 0 (airFilledPoreVolume wetSoil) / 0.08 = 1 / 8 := by
    rw [hv]; norm_num
  obtain ⟨hc, hr⟩ := h.2.2 hlow (by norm_num)
  refine ⟨h.1 (by rw [e1]; norm_num), h3.2.1 (by rw [e3]), hq, ?_, ?_⟩
  · rw [hc]; rfl
  · rw [hr, if_neg (by norm_num), hq]
theorem hourly_O3_reduction_Ac_eq (u gamma1 gamma2 : ℚ) (h2 : 0 < gamma2) :
    hourly_O3_reduction_Ac u gamma1 gamma2
      = if gamma1 < u * gamma2 ∧ u * gamma2 < 1 + gamma1 then 1 + gamma1 - gamma2 * u
        else if 1 + gamma1 < u * gamma2 then 0 else 1 := by
  unfold hourly_O3_reduction_Ac
  simp only [gt_iff_lt, div_lt_iff₀ h2, lt_div_iff₀ h2]

/-- Away from the upper threshold `(1 + gamma1) / gamma2` the hourly ozone factor does not
increase with the uptake: for `u ≤ u'` with `u'` different from that threshold the factor at
`u'` is at most the factor at `u`. -/
theorem hourly_O3_reduction_Ac_antitone_off_threshold (u u' gamma1 gamma2 : ℚ)
    (h2 : 0 < gamma2) (hu : u ≤ u') (hne : u' ≠ (1 + gamma1) / gamma2) :
    hourly_O3_reduction_Ac u' gamma1 gamma2 ≤ hourly_O3_reduction_Ac u gamma1 gamma2 := by
  have hm : u * gamma2 ≤ u' * gamma2 := mul_le_mul_of_nonneg_right hu h2.le
  have hne' : u' * gamma2 ≠ 1 + gamma1 := by
    intro h
    exact hne ((eq_div_iff h2.ne').mpr h)
  rw [hourly_O3_reduction_Ac_eq u' gamma1 gamma2 h2, hourly_O3_reduction_Ac_eq u gamma1 gamma2 h2]
  by_cases c1 : gamma1 < u' * gamma2 ∧ u' * gamma2 < 1 + gamma1
  · rw [if_pos c1]
    obtain ⟨c1a, c1b⟩ := c1
    split_ifs with d1 d2
    · linarith
    · linarith
    · linarith
  · rw [if_neg c1]
    by_cases c2 : 1 + gamma1 < u' * gamma2
    · rw [if_pos c2]
      split_ifs with d1 d2
      · linarith [d1.2]
      · exact le_refl _
      · norm_num
    · rw [if_neg c2]
      have c3 : u' * gamma2 < 1 + gamma1 := lt_of_le_of_ne (not_lt.mp c2) hne'
      have c4 : u' * gamma2 ≤ gamma1 := by
        by_contra hcon
        exact c1 ⟨not_le.mp hcon, c3⟩
      rw [if_neg (fun d => absurd d.1 (by linarith)), if_neg (by linarith)]

/-- Claim C37 (more ozone never means less damage) fails at the upper threshold. With
`gamma1 = 0` and `gamma2 = 1` the threshold `(1 + gamma1) / gamma2` is 1. At the uptake 1/2
the factor is `1 + 0 - 1 * 1/2 = 1/2`; at the uptake 1 neither `O3_up < 1` nor `O3_up > 1`
holds, so the initial value 1 is returned: the larger uptake has the larger factor. -/
theorem ozone_factor_rises_at_upper_threshold :
    hourly_O3_reduction_Ac (1 / 2) 0 1 = 1 / 2
    ∧ hourly_O3_reduction_Ac 1 0 1 = 1
    ∧ ¬ (hourly_O3_reduction_Ac 1 0 1 ≤ hourly_O3_reduction_Ac (1 / 2) 0 1) := by
  have e1 : hourly_O3_reduction_Ac (1 / 2) 0 1 = 1 / 2 := by
    norm_num [hourly_O3_reduction_Ac]
  have e2 : hourly_O3_reduction_Ac 1 0 1 = 1 := by
    norm_num [hourly_O3_reduction_Ac]
  refine ⟨e1, e2, ?_⟩
  rw [e1, e2]
  norm_num

/-- The factor at the upper threshold itself is 1 for all parameters, while it is below 1
everywhere between the two thresholds. -/
theorem hourly_O3_reduction_Ac_at_upper_threshold (gamma1 gamma2 : ℚ) (h2 : 0 < gamma2) :
    hourly_O3_reduction_Ac ((1 + gamma1) / gamma2) gamma1 gamma2 = 1 := by
  rw [hourly_O3_reduction_Ac_eq _ gamma1 gamma2 h2, div_mul_cancel₀ _ h2.ne']
  rw [if_neg (fun d => absurd d.2 (lt_irrefl _)), if_neg (lt_irrefl _)]

/-- The soil-water depletion fraction of `water_stress_stomatal_closure` does not change when
field capacity, wilting point and water content are multiplied by the same `k > 0`. -/
theorem depletion_scale (k FC WP SWC : ℚ) (hk : 0 < k) :
    (if k * SWC ≥ k * FC then (0 : ℚ) else if k * SWC ≤ k * WP then 1
      else 1 - (k * SWC - k * WP) / (k * FC - k * WP))
    = (if SWC ≥ FC then 0 else if SWC ≤ WP then 1 else 1 - (SWC - WP) / (FC - WP)) := by
  have e1 : (k * SWC ≥ k * FC) ↔ (SWC ≥ FC) := mul_le_mul_left hk
  have e2 : (k * SWC ≤ k * WP) ↔ (SWC ≤ WP) := mul_le_mul_left hk
  have e3 : (k * SWC - k * WP) / (k * FC - k * WP) = (SWC - WP) / (FC - WP) := by
    rw [← mul_sub, ← mul_sub, mul_div_mul_left _ _ hk.ne']
  simp only [e1, e2, e3]

theorem water_stress_stomatal_closure_scale (lm : Libm) (log10 : ℚ → ℚ)
    (upper_thr lower_thr Fshape FC WP SWC ET0 k : ℚ) (hk : 0 < k) :
    water_stress_stomatal_closure lm log10 upper_thr lower_thr Fshape (k * FC) (k * WP)
        (k * SWC) ET0
      = water_stress_stomatal_closure lm log10 upper_thr lower_thr Fshape FC WP SWC ET0 := by
  simp only [water_stress_stomatal_closure, depletion_scale k FC WP SWC hk]

/-- Claim C38 (stomatal closure depends only on relative soil water). For every `k > 0`,
`water_stress_stomatal_closure` has the same value at `k*FC, k*WP, k*SWC` as at `FC, WP, SWC`.
Hence the closure factor at the inputs that `fc_CropPhotosynthesis` builds, the sums of the
`root_depth ≥ 1` rooted layers divided by `root_depth + 1`, equals the factor at the sums
divided by `root_depth`. -/
theorem stomatal_closure_scale_invariant (lm : Libm) (log10 : ℚ → ℚ)
    (upper_thr lower_thr Fshape FC WP SWC ET0 k : ℚ)
    (vs_FieldCapacity vs_PermanentWiltingPoint vs_SoilMoisture_m3 : List ℚ) (root_depth : Nat)
    (hk : 0 < k) (hroot : 1 ≤ root_depth) :
    water_stress_stomatal_closure lm log10 upper_thr lower_thr Fshape (k * FC) (k * WP)
        (k * SWC) ET0
      = water_stress_stomatal_closure lm log10 upper_thr lower_thr Fshape FC WP SWC ET0
    ∧ water_stress_stomatal_closure lm log10 upper_thr lower_thr Fshape
        (rootedZoneInputs vs_FieldCapacity vs_PermanentWiltingPoint vs_SoilMoisture_m3
          root_depth).1
        (rootedZoneInputs vs_FieldCapacity vs_PermanentWiltingPoint vs_SoilMoisture_m3
          root_depth).2.1
        (rootedZoneInputs vs_FieldCapacity vs_PermanentWiltingPoint vs_SoilMoisture_m3
          root_depth).2.2 ET0
      = water_stress_stomatal_closure lm log10 upper_thr lower_thr Fshape
        ((rootedZoneSums vs_FieldCapacity vs_PermanentWiltingPoint vs_SoilMoisture_m3
          root_depth).1 / root_depth)
        ((rootedZoneSums vs_FieldCapacity vs_PermanentWiltingPoint vs_SoilMoisture_m3
          root_depth).2.1 / root_depth)
        ((rootedZoneSums vs_FieldCapacity vs_PermanentWiltingPoint vs_SoilMoisture_m3
          root_depth).2.2 / root_depth) ET0 := by
  refine ⟨water_stress_stomatal_closure_scale lm log10 upper_thr lower_thr Fshape FC WP SWC
    ET0 k hk, ?_⟩
  have hr : (0 : ℚ) < root_depth := by exact_mod_cast hroot
  have hr1 : (0 : ℚ) < (root_depth : ℚ) + 1 := by linarith
  have hq : ∀ s : ℚ, s / ((root_depth : ℚ) + 1)
      = ((root_depth : ℚ) / ((root_depth : ℚ) + 1)) * (s / root_depth) := by
    intro s
    field_simp
    ring
  have e : rootedZoneInputs vs_FieldCapacity vs_PermanentWiltingPoint vs_SoilMoisture_m3
      root_depth
      = ((root_depth : ℚ) / ((root_depth : ℚ) + 1)
          * ((rootedZoneSums vs_FieldCapacity vs_PermanentWiltingPoint vs_SoilMoisture_m3
            root_depth).1 / root_depth),
        (root_depth : ℚ) / ((root_depth : ℚ) + 1)
          * ((rootedZoneSums vs_FieldCapacity vs_PermanentWiltingPoint vs_SoilMoisture_m3
            root_depth).2.1 / root_depth),
        (root_depth : ℚ) / ((root_depth : ℚ) + 1)
          * ((rootedZoneSums vs_FieldCapacity vs_PermanentWiltingPoint vs_SoilMoisture_m3
            root_depth).2.2 / root_depth)) := by
    simp only [rootedZoneInputs]
    rw [← hq, ← hq, ← hq]
  rw [e]
  exact water_stress_stomatal_closure_scale lm log10 upper_thr lower_thr Fshape
    ((rootedZoneSums vs_FieldCapacity vs_PermanentWiltingPoint vs_SoilMoisture_m3
      root_depth).1 / root_depth)
    ((rootedZoneSums vs_FieldCapacity vs_PermanentWiltingPoint vs_SoilMoisture_m3
      root_depth).2.1 / root_depth)
    ((rootedZoneSums vs_FieldCapacity vs_PermanentWiltingPoint vs_SoilMoisture_m3
      root_depth).2.2 / root_depth) ET0
    ((root_depth : ℚ) / ((root_depth : ℚ) + 1)) (div_pos hr hr1)

/-- Claim C38, witness: a soil with field capacity 0.3, wilting point 0.1 and moisture 0.2
in two rooted layers, scaled by `k = 2/3`; both sides of the second equation are evaluated
with the rational stand-ins of the C library. -/
theorem stomatal_closure_scale_invariant_witness :
    water_stress_stomatal_closure libmQ log10Q 0.4 0.9 2 (2 / 3 * 0.3) (2 / 3 * 0.1)
        (2 / 3 * 0.2) 5
      = water_stress_stomatal_closure libmQ log10Q 0.4 0.9 2 0.3 0.1 0.2 5
    ∧ water_stress_stomatal_closure libmQ log10Q 0.4 0.9 2 0.3 0.1 0.2 5 = 4 / 5
    ∧ rootedZoneInputs [0.3, 0.3] [0.1, 0.1] [0.2, 0.2] 2 = (1 / 5, 1 / 15, 2 / 15)
    ∧ water_stress_stomatal_closure libmQ log10Q 0.4 0.9 2 (1 / 5) (1 / 15) (2 / 15) 5
        = 4 / 5 := by
  have h := stomatal_closure_scale_invariant libmQ log10Q 0.4 0.9 2 0.3 0.1 0.2 5 (2 / 3)
    [0.3, 0.3] [0.1, 0.1] [0.2, 0.2] 2 (by norm_num) (by norm_num)
  refine ⟨h.1, ?_, ?_, ?_⟩
  · norm_num [water_stress_stomatal_closure, libmQ, log10Q]
  · norm_num [rootedZoneInputs, rootedZoneSums, vget]
  · norm_num [water_stress_stomatal_closure, libmQ, log10Q]

/-- Claim C35 (the growth-cycle flag is cleared by the perennial reset) does not hold for the
code. Whenever the call of `fc_CropDevelopmentalStage` inside `step` performs the perennial
reset, the copy of the flag held by the parameter is `false` when the function returns and
the stage is 0, so `step` does not call `fc_CropDryMatter`; the member `vc_GrowthCycleEnded`
of the crop state, which was `true` for the reset to happen, is still `true` after
`step`. -/
theorem growth_cycle_flag_survives_reset (lm : Libm) (e : DevEnv) (a : DevArgs) (s : DevState)
    (member : Bool) (denv : DryMatterEnv) (vc_Assimilates : ℚ) (ost : OrganState)
    (h : perennialResetFires lm e { a with vc_GrowthCycleEnded := member } s) :
    member = true
    ∧ fc_CropDevelopmentalStage_parameterGrowthCycleEnded lm e
        { a with vc_GrowthCycleEnded := member } s = false
    ∧ (fc_CropDevelopmentalStage lm e
        { a with vc_GrowthCycleEnded := member } s).vc_DevelopmentalStage = 0
    ∧ step_GrowthCycleEnded lm e a s member denv vc_Assimilates ost = true := by
  have hm : member = true := h.2.2.2.2.2
  have hs := perennialResetFires_resets lm e { a with vc_GrowthCycleEnded := member } s h
  refine ⟨hm, ?_, ?_, ?_⟩
  · unfold fc_CropDevelopmentalStage_parameterGrowthCycleEnded
    rw [if_pos h]
  · rw [hs]
  · unfold step_GrowthCycleEnded
    simp only [hs]
    rw [if_neg (by omega)]
    exact hm

/-- Claim C35, failing input: the perennial three-stage crop at its final stage 2 with
accumulator 195, a daily increment of 10 and the target 200, the member
`vc_GrowthCycleEnded` being `true`. The development step resets the stage to 0 and the
member is `true` after `step`. -/
theorem growth_cycle_flag_survives_reset_witness :
    perennialResetFires libmQ exampleEnv
        { perennialArgs with vc_GrowthCycleEnded := true } finalStageState
    ∧ (fc_CropDevelopmentalStage libmQ exampleEnv
        { perennialArgs with vc_GrowthCycleEnded := true }
        finalStageState).vc_DevelopmentalStage = 0
    ∧ step_GrowthCycleEnded libmQ exampleEnv perennialArgs finalStageState true fiveOrganEnv 0
        fiveOrganState = true := by
  have hf : perennialResetFires libmQ exampleEnv
      { perennialArgs with vc_GrowthCycleEnded := true } finalStageState := by
    refine ⟨by decide, ?_, by decide, by decide, rfl, rfl⟩
    norm_num [afterThermalIncrement, stageThermalIncrement,
      developmentAccelerationByStress, exampleEnv, perennialArgs, exampleArgs,
      finalStageState, vget, vadd, mget]
  have h := growth_cycle_flag_survives_reset libmQ exampleEnv perennialArgs finalStageState
    true fiveOrganEnv 0 fiveOrganState hf
  exact ⟨hf, h.2.2.1, h.2.2.2⟩
theorem organIncrements_growth (env : DryMatterEnv) (stage : Nat) (np mob : ℚ) (i : Nat)
    (st : OrganState) :
    (organIncrements env stage np mob i st).vc_OrganGrowthIncrement
      = st.vc_OrganGrowthIncrement.set i (stepGrowth env stage np mob i st) := by
  unfold organIncrements stepGrowth
  split_ifs <;> rfl

theorem organBiomassUpdate_growth (env : DryMatterEnv) (i : Nat) (st : OrganState) :
    (organBiomassUpdate env i st).vc_OrganGrowthIncrement = st.vc_OrganGrowthIncrement := by
  simp only [organBiomassUpdate]
  split_ifs <;> rfl

theorem organGreenUpdate_growth (i : Nat) (st : OrganState) :
    (organGreenUpdate i st).vc_OrganGrowthIncrement = st.vc_OrganGrowthIncrement := by
  simp only [organGreenUpdate]
  split_ifs <;> rfl

theorem organTotalsUpdate_growth (env : DryMatterEnv) (i : Nat) (st : OrganState) :
    (organTotalsUpdate env i st).vc_OrganGrowthIncrement = st.vc_OrganGrowthIncrement := by
  simp only [organTotalsUpdate]
  split_ifs <;> rfl

theorem organStep_growth (env : DryMatterEnv) (stage : Nat) (np mob : ℚ) (i : Nat)
    (st : OrganState) :
    (organStep env stage np mob i st).vc_OrganGrowthIncrement
      = st.vc_OrganGrowthIncrement.set i (stepGrowth env stage np mob i st) := by
  unfold organStep
  rw [organTotalsUpdate_growth, organGreenUpdate_growth, organBiomassUpdate_growth,
    organIncrements_growth]

/-- With a non-negative net assimilate and a stage that is not completed, the growth
increment of organ `i` does not depend on the state of the loop. -/
theorem stepGrowth_of_nonneg (env : DryMatterEnv) (stage : Nat) (np mob : ℚ) (i : Nat)
    (st : OrganState) (hN : 0 ≤ np) (hp : stageProgress env stage ≤ 1) :
    stepGrowth env stage np mob i st
      = (np + mob) * interpolatedPartitioningCoeff env stage i * env.vc_CropNRedux
        - (if i = env.vc_StorageOrgan then mob * env.vc_CropNRedux else 0) := by
  unfold stepGrowth organGrowthIncrement
  rw [if_neg (not_lt.mpr hp)]
  simp only []
  rw [if_neg (not_lt.mpr hN)]
  by_cases hi : i = env.vc_StorageOrgan
  · rw [if_neg (not_not.mpr hi), if_pos hi]; ring
  · rw [if_pos hi, if_neg hi]; ring

theorem organLoop_growth (env : DryMatterEnv) (stage : Nat) (np mob : ℚ) (st : OrganState)
    (hN : 0 ≤ np) (hp : stageProgress env stage ≤ 1) (k : Nat) :
    (organLoop env stage np mob k st).vc_OrganGrowthIncrement.length
        = st.vc_OrganGrowthIncrement.length
    ∧ ∀ i, i < k → k ≤ st.vc_OrganGrowthIncrement.length →
      vget (organLoop env stage np mob k st).vc_OrganGrowthIncrement i
        = (np + mob) * interpolatedPartitioningCoeff env stage i * env.vc_CropNRedux
          - (if i = env.vc_StorageOrgan then mob * env.vc_CropNRedux else 0) := by
  induction k with
  | zero => exact ⟨rfl, fun i hi => absurd hi (Nat.not_lt_zero i)⟩
  | succ n ih =>
    obtain ⟨hl, hv⟩ := ih
    have e : (organLoop env stage np mob (n + 1) st).vc_OrganGrowthIncrement
        = (organLoop env stage np mob n st).vc_OrganGrowthIncrement.set n
          (stepGrowth env stage np mob n (organLoop env stage np mob n st)) := by
      show (organStep env stage np mob n (organLoop env stage np mob n st)).vc_OrganGrowthIncrement
        = _
      exact organStep_growth env stage np mob n _
    rw [e]
    refine ⟨by rw [List.length_set]; exact hl, ?_⟩
    intro i hi hk
    by_cases hin : i = n
    · subst hin
      rw [vget_set_self _ _ _ (by rw [hl]; omega)]
      exact stepGrowth_of_nonneg env stage np mob i _ hN hp
    · rw [vget_set_of_ne _ _ _ _ (fun h => hin h.symm)]
      exact hv i (by omega) (by omega)

/-- Claim C33 (storage mobilisation creates no mass). With a net assimilate `N ≥ 0`, a thermal
progress of the stage `≤ 1`, the quotient of the accumulator by a target other than 0, and
the storage organ `vc_StorageOrgan` among the organs of the crop, the growth increments that the organ loop of `fc_CropDryMatter` writes add up to
`vc_CropNRedux * ((N + M) * C - M)`, where `M` is the mass mobilised from storage and `C` the
sum over the organs of the interpolated partitioning coefficients; when `C = 1` the sum is
`N * vc_CropNRedux`. -/
theorem storage_mobilisation_creates_no_mass (env : DryMatterEnv) (stage : Nat) (N : ℚ)
    (st : OrganState) (hN : 0 ≤ N)
    (htarget : vget env.pc_StageTemperatureSum stage ≠ 0)
    (hp : stageProgress env stage ≤ 1)
    (hs : env.vc_StorageOrgan < env.pc_NumberOfOrgans)
    (hlen : st.vc_OrganGrowthIncrement.length = env.pc_NumberOfOrgans) :
    (∑ i in Finset.range env.pc_NumberOfOrgans,
        vget (fc_CropDryMatter_organs env stage N st).vc_OrganGrowthIncrement i)
      = env.vc_CropNRedux
        * ((N + vget st.vc_OrganBiomass env.vc_StorageOrgan
              * vget env.pc_StageMobilFromStorageCoeff stage * env.vc_KTkc)
            * (∑ i in Finset.range env.pc_NumberOfOrgans,
                interpolatedPartitioningCoeff env stage i)
          - vget st.vc_OrganBiomass env.vc_StorageOrgan
              * vget env.pc_StageMobilFromStorageCoeff stage * env.vc_KTkc)
    ∧ ((∑ i in Finset.range env.pc_NumberOfOrgans,
          interpolatedPartitioningCoeff env stage i) = 1 →
        (∑ i in Finset.range env.pc_NumberOfOrgans,
          vget (fc_CropDryMatter_organs env stage N st).vc_OrganGrowthIncrement i)
        = N * env.vc_CropNRedux) := by
  have _ := htarget
  have hsum : (∑ i in Finset.range env.pc_NumberOfOrgans,
        vget (fc_CropDryMatter_organs env stage N st).vc_OrganGrowthIncrement i)
      = env.vc_CropNRedux
        * ((N + vget st.vc_OrganBiomass env.vc_StorageOrgan
              * vget env.pc_StageMobilFromStorageCoeff stage * env.vc_KTkc)
            * (∑ i in Finset.range env.pc_NumberOfOrgans,
                interpolatedPartitioningCoeff env stage i)
          - vget st.vc_OrganBiomass env.vc_StorageOrgan
              * vget env.pc_StageMobilFromStorageCoeff stage * env.vc_KTkc) := by
    simp only [fc_CropDryMatter_organs]
    generalize vget st.vc_OrganBiomass env.vc_StorageOrgan
      * vget env.pc_StageMobilFromStorageCoeff stage * env.vc_KTkc = M
    have hloop := (organLoop_growth env stage N M
      { st with
        vc_AbovegroundBiomass := 0
        vc_BelowgroundBiomass := 0
        vc_TotalBiomass := 0
        dailyDeadBiomassIncrement := List.replicate env.pc_NumberOfOrgans 0 } hN hp
      env.pc_NumberOfOrgans).2
    rw [Finset.sum_congr rfl (fun i hi => hloop i (Finset.mem_range.mp hi) (le_of_eq hlen.symm))]
    rw [Finset.sum_sub_distrib, ← Finset.sum_mul, ← Finset.mul_sum,
      Finset.sum_ite_eq' (Finset.range env.pc_NumberOfOrgans) env.vc_StorageOrgan,
      if_pos (Finset.mem_range.mpr hs)]
    ring
  refine ⟨hsum, fun hC => ?_⟩
  rw [hsum, hC]
  ring

/-- Claim C33, witness: the five-organ crop half-way through stage 1 with a net assimilate of
100 and 30 % of the storage organ mobilised. The coefficients add up to `0.35 + 0.35 + 0.1 +
0.1 + 0.1 = 1` and the five increments to 100. -/
theorem storage_mobilisation_creates_no_mass_witness :
    (∑ i in Finset.range 5,
        interpolatedPartitioningCoeff
          { fiveOrganEnv with pc_StageMobilFromStorageCoeff := [0, 3 / 10] } 1 i) = 1
    ∧ (∑ i in Finset.range 5,
        vget (fc_CropDryMatter_organs
          { fiveOrganEnv with pc_StageMobilFromStorageCoeff := [0, 3 / 10] } 1 100
          fiveOrganState).vc_OrganGrowthIncrement i) = 100 := by
  have hC : (∑ i in Finset.range
        ({ fiveOrganEnv with pc_StageMobilFromStorageCoeff := [0, 3 / 10] }
          : DryMatterEnv).pc_NumberOfOrgans,
        interpolatedPartitioningCoeff
          { fiveOrganEnv with pc_StageMobilFromStorageCoeff := [0, 3 / 10] } 1 i) = 1 := by
    have e : sizeSub 1 1 = 0 := sizeSub_one 1 (le_refl 1) (by unfold sizeRange; omega)
    show (∑ i in Finset.range 5, _) = 1
    norm_num [Finset.sum_range_succ, interpolatedPartitioningCoeff, stageProgress,
      fiveOrganEnv, mget, vget, bget, e]
  have h := (storage_mobilisation_creates_no_mass
    { fiveOrganEnv with pc_StageMobilFromStorageCoeff := [0, 3 / 10] } 1 100 fiveOrganState
    (by norm_num) (by norm_num [fiveOrganEnv, vget])
    (by norm_num [stageProgress, fiveOrganEnv, vget]) (by decide) rfl).2 hC
  refine ⟨hC, ?_⟩
  have h' : (∑ i in Finset.range 5,
        vget (fc_CropDryMatter_organs
          { fiveOrganEnv with pc_StageMobilFromStorageCoeff := [0, 3 / 10] } 1 100
          fiveOrganState).vc_OrganGrowthIncrement i)
      = 100 * ({ fiveOrganEnv with pc_StageMobilFromStorageCoeff := [0, 3 / 10] }
          : DryMatterEnv).vc_CropNRedux := h
  rw [h']
  norm_num [fiveOrganEnv]

/-- In the modes `cut` and `left` the new biomass and the cut biomass of an organ add up to
its old biomass, for each of the three units. -/
theorem cutOrgan_conserves (spec : CuttingValue) (old dead lai sla : ℚ)
    (hmode : spec.cut_or_left = CutOrLeft.cut ∨ spec.cut_or_left = CutOrLeft.left) :
    (cutOrgan spec old dead lai sla).1 + (cutOrgan spec old dead lai sla).2.1 = old := by
  cases hu : spec.unit
  · rcases hmode with h | h <;> simp only [cutOrgan, hu, h] <;> ring
  · rcases hmode with h | h <;> simp only [cutOrgan, hu, h] <;> ring
  · simp only [cutOrgan, hu]
    split_ifs
    · show old - dead + dead = old
      ring
    · show min (spec.value / sla) (old - dead) + (old - min (spec.value / sla) (old - dead))
        = old
      ring

theorem cutStep_eq (exports : List (Int × ℚ)) (sla : ℚ) (st : CutState)
    (p : Int × CuttingValue) (h0 : 0 ≤ p.1) (h1 : p.1.toNat < st.vc_OrganBiomass.length)
    (h2 : p.1.toNat < st.vc_OrganDeadBiomass.length) :
    ∃ st', cutStep exports sla st p = some st'
      ∧ st'.vc_OrganBiomass = st.vc_OrganBiomass.set p.1.toNat
          (cutOrgan p.2 (vget st.vc_OrganBiomass p.1.toNat)
            (vget st.vc_OrganDeadBiomass p.1.toNat) st.vc_LeafAreaIndex sla).1
      ∧ st'.vc_OrganDeadBiomass = st.vc_OrganDeadBiomass.set p.1.toNat
          (cutOrgan p.2 (vget st.vc_OrganBiomass p.1.toNat)
            (vget st.vc_OrganDeadBiomass p.1.toNat) st.vc_LeafAreaIndex sla).2.2
      ∧ st'.vc_LeafAreaIndex = st.vc_LeafAreaIndex
      ∧ st'.sumCutBiomass = st.sumCutBiomass + cutOrganBiomass sla st p
      ∧ st'.vc_AbovegroundBiomass = st.vc_AbovegroundBiomass - cutOrganBiomass sla st p := by
  unfold cutStep vat
  rw [if_pos ⟨h0, h1⟩, if_pos ⟨h0, h2⟩]
  exact ⟨_, rfl, rfl, rfl, rfl, rfl, rfl⟩

theorem cutLoop_conserves (exports : List (Int × ℚ)) (sla : ℚ)
    (l : List (Int × CuttingValue)) (st : CutState)
    (hnd : (l.map (fun p => p.1.toNat)).Nodup)
    (hrange : ∀ p ∈ l, 0 ≤ p.1 ∧ p.1.toNat < st.vc_OrganBiomass.length
      ∧ p.1.toNat < st.vc_OrganDeadBiomass.length)
    (hmode : ∀ p ∈ l, p.2.cut_or_left = CutOrLeft.cut ∨ p.2.cut_or_left = CutOrLeft.left) :
    ∃ st', l.foldlM (cutStep exports sla) st = some st'
      ∧ st'.vc_LeafAreaIndex = st.vc_LeafAreaIndex
      ∧ (∀ j : Nat, (∀ p ∈ l, p.1.toNat ≠ j) →
          vget st'.vc_OrganBiomass j = vget st.vc_OrganBiomass j
          ∧ vget st'.vc_OrganDeadBiomass j = vget st.vc_OrganDeadBiomass j)
      ∧ (∀ p ∈ l, vget st'.vc_OrganBiomass p.1.toNat + cutOrganBiomass sla st p
          = vget st.vc_OrganBiomass p.1.toNat)
      ∧ st'.sumCutBiomass = st.sumCutBiomass + (l.map (cutOrganBiomass sla st)).sum
      ∧ st'.vc_AbovegroundBiomass
          = st.vc_AbovegroundBiomass - (l.map (cutOrganBiomass sla st)).sum := by
  induction l generalizing st with
  | nil =>
    refine ⟨st, rfl, rfl, fun j _ => ⟨rfl, rfl⟩, fun p hp => absurd hp (List.not_mem_nil p),
      ?_, ?_⟩ <;> simp
  | cons p t ih =>
    obtain ⟨h0, h1, h2⟩ := hrange p (List.mem_cons_self p t)
    obtain ⟨s1, hs1, eb, ed, el, ec, ea⟩ := cutStep_eq exports sla st p h0 h1 h2
    rw [List.map_cons, List.nodup_cons] at hnd
    obtain ⟨hp, hnd'⟩ := hnd
    have hne : ∀ q ∈ t, q.1.toNat ≠ p.1.toNat := by
      intro q hq heq
      exact hp (heq ▸ List.mem_map_of_mem (fun p => p.1.toNat) hq)
    have hcut : ∀ q ∈ t, cutOrganBiomass sla s1 q = cutOrganBiomass sla st q := by
      intro q hq
      unfold cutOrganBiomass
      rw [eb, ed, el, vget_set_of_ne _ _ _ _ (fun h => hne q hq h.symm),
        vget_set_of_ne _ _ _ _ (fun h => hne q hq h.symm)]
    have hmap : t.map (cutOrganBiomass sla s1) = t.map (cutOrganBiomass sla st) :=
      List.map_congr_left hcut
    obtain ⟨s2, hs2, l2, f2, c2, sc2, a2⟩ := ih s1 hnd'
      (fun q hq => by
        obtain ⟨q0, q1, q2⟩ := hrange q (List.mem_cons_of_mem p hq)
        refine ⟨q0, ?_, ?_⟩
        · rw [eb, List.length_set]; exact q1
        · rw [ed, List.length_set]; exact q2)
      (fun q hq => hmode q (List.mem_cons_of_mem p hq))
    refine ⟨s2, by rw [List.foldlM_cons, hs1]; exact hs2, by rw [l2, el], ?_, ?_, ?_, ?_⟩
    · intro j hj
      have hjp : p.1.toNat ≠ j := hj p (List.mem_cons_self p t)
      obtain ⟨fb, fd⟩ := f2 j (fun q hq => hj q (List.mem_cons_of_mem p hq))
      rw [fb, fd, eb, ed, vget_set_of_ne _ _ _ _ hjp, vget_set_of_ne _ _ _ _ hjp]
      exact ⟨rfl, rfl⟩
    · intro q hq
      rcases List.mem_cons.mp hq with rfl | hqt
      · rw [(f2 q.1.toNat (fun r hr => hne r hr)).1, eb, vget_set_self _ _ _ h1]
        exact cutOrgan_conserves q.2 _ _ _ _ (hmode q (List.mem_cons_self q t))
      · rw [← hcut q hqt, c2 q hqt, eb, vget_set_of_ne _ _ _ _ (fun h => hne q hqt h.symm)]
    · rw [sc2, ec, hmap, List.map_cons, List.sum_cons]; ring
    · rw [a2, ea, hmap, List.map_cons, List.sum_cons]; ring

theorem toNat_nodup_of_keys (l : List (Int × CuttingValue))
    (hkeys : (l.map Prod.fst).Nodup) (hpos : ∀ p ∈ l, 0 ≤ p.1) :
    (l.map (fun p => p.1.toNat)).Nodup := by
  have e : l.map (fun p => p.1.toNat) = (l.map Prod.fst).map Int.toNat := by
    rw [List.map_map]; rfl
  rw [e]
  refine List.Nodup.map_on ?_ hkeys
  intro x hx y hy hxy
  obtain ⟨p, hp, rfl⟩ := List.mem_map.mp hx
  obtain ⟨q, hq, rfl⟩ := List.mem_map.mp hy
  have h1 := Int.toNat_of_nonneg (hpos p hp)
  have h2 := Int.toNat_of_nonneg (hpos q hq)
  omega

/-- Claim C40 (cutting conserves biomass). `organs` is a map, so its keys are pairwise
different. When every organ id of the map is an index of the biomass vectors and every entry
has the mode `cut` or `left`, `applyCutting` returns, and for every organ of the map, with
unit biomass, percentage or LAI, the new organ biomass plus the cut biomass is the old organ
biomass; `vc_exportedCutBiomass + vc_residueCutBiomass` is the total cut biomass, which is
the amount by which `vc_AbovegroundBiomass` decreases. -/
theorem cutting_conserves_biomass (env : CutEnv) (organs : List (Int × CuttingValue))
    (exports : List (Int × ℚ)) (frac : ℚ) (st : CutState)
    (hkeys : ((cutOrgans env organs).map Prod.fst).Nodup)
    (hrange : ∀ p ∈ cutOrgans env organs, 0 ≤ p.1 ∧ p.1.toNat < st.vc_OrganBiomass.length
      ∧ p.1.toNat < st.vc_OrganDeadBiomass.length)
    (hmode : ∀ p ∈ cutOrgans env organs,
      p.2.cut_or_left = CutOrLeft.cut ∨ p.2.cut_or_left = CutOrLeft.left) :
    ∃ st', applyCutting env organs exports frac st = some st'
      ∧ (∀ p ∈ cutOrgans env organs,
          vget st'.vc_OrganBiomass p.1.toNat
            + cutOrganBiomass (st.vc_LeafAreaIndex / vget st.vc_OrganGreenBiomass 1) st p
          = vget st.vc_OrganBiomass p.1.toNat)
      ∧ st'.vc_exportedCutBiomass + st'.vc_residueCutBiomass
          = ((cutOrgans env organs).map
              (cutOrganBiomass (st.vc_LeafAreaIndex / vget st.vc_OrganGreenBiomass 1) st)).sum
      ∧ st.vc_AbovegroundBiomass - st'.vc_AbovegroundBiomass
          = ((cutOrgans env organs).map
              (cutOrganBiomass (st.vc_LeafAreaIndex / vget st.vc_OrganGreenBiomass 1) st)).sum
      := by
  obtain ⟨s1, hs1, _, _, c1, sc1, a1⟩ := cutLoop_conserves exports
    (st.vc_LeafAreaIndex / vget st.vc_OrganGreenBiomass 1) (cutOrgans env organs)
    { st with sumCutBiomass := 0, sumResidueBiomass := 0 }
    (toNat_nodup_of_keys _ hkeys (fun p hp => (hrange p hp).1)) hrange hmode
  have hc : ∀ p, cutOrganBiomass (st.vc_LeafAreaIndex / vget st.vc_OrganGreenBiomass 1)
      { st with sumCutBiomass := 0, sumResidueBiomass := 0 } p
      = cutOrganBiomass (st.vc_LeafAreaIndex / vget st.vc_OrganGreenBiomass 1) st p :=
    fun _ => rfl
  have hm : (cutOrgans env organs).map
      (cutOrganBiomass (st.vc_LeafAreaIndex / vget st.vc_OrganGreenBiomass 1)
        { st with sumCutBiomass := 0, sumResidueBiomass := 0 })
      = (cutOrgans env organs).map
        (cutOrganBiomass (st.vc_LeafAreaIndex / vget st.vc_OrganGreenBiomass 1) st) :=
    List.map_congr_left (fun p _ => hc p)
  rw [hm] at sc1 a1
  unfold applyCutting
  simp only [hs1]
  refine ⟨_, rfl, ?_, ?_, ?_⟩
  · intro p hp
    have := c1 p hp
    rw [hc p] at this
    exact this
  · show s1.sumCutBiomass - s1.sumResidueBiomass + s1.sumResidueBiomass = _
    rw [sc1]
    show (0 : ℚ) + _ - s1.sumResidueBiomass + s1.sumResidueBiomass = _
    ring
  · show st.vc_AbovegroundBiomass - s1.vc_AbovegroundBiomass = _
    rw [a1]
    show st.vc_AbovegroundBiomass - (st.vc_AbovegroundBiomass - _) = _
    ring

/-- Claim C40, witness: the small stand with 90 % of the leaf cut and 30 kg/ha of the third
organ left. The cut biomasses are 9 and 70: the leaf goes from 10 to 1, the third organ from
100 to 30, and the aboveground biomass from 110 to 31. -/
theorem cutting_conserves_biomass_witness :
    ∃ st', applyCutting exampleCutEnv exampleCutMap [(1, 1)] 1 smallStand = some st'
      ∧ vget st'.vc_OrganBiomass 1 + 9 = 10
      ∧ vget st'.vc_OrganBiomass 2 + 70 = 100
      ∧ st'.vc_exportedCutBiomass + st'.vc_residueCutBiomass = 79
      ∧ smallStand.vc_AbovegroundBiomass - st'.vc_AbovegroundBiomass = 79 := by
  have hmap : cutOrgans exampleCutEnv exampleCutMap = exampleCutMap := rfl
  obtain ⟨st', h, hp, he, ha⟩ := cutting_conserves_biomass exampleCutEnv exampleCutMap
    [(1, 1)] 1 smallStand
    (by rw [hmap]; decide)
    (by
      rw [hmap]
      intro p hp
      simp only [exampleCutMap, List.mem_cons, List.mem_singleton, List.not_mem_nil,
        or_false] at hp
      rcases hp with rfl | rfl <;> simp [smallStand])
    (by
      rw [hmap]
      intro p hp
      simp only [exampleCutMap, List.mem_cons, List.mem_singleton, List.not_mem_nil,
        or_false] at hp
      rcases hp with rfl | rfl <;> simp)
  rw [hmap] at hp he ha
  have t2 : Int.toNat 2 = 2 := rfl
  have h1 := hp (exampleCutMap.get ⟨0, by decide⟩) (List.get_mem _ _ _)
  have h2 := hp (exampleCutMap.get ⟨1, by decide⟩) (List.get_mem _ _ _)
  have c1 : cutOrganBiomass (smallStand.vc_LeafAreaIndex / vget smallStand.vc_OrganGreenBiomass 1)
      smallStand (exampleCutMap.get ⟨0, by decide⟩) = 9 := by
    norm_num [cutOrganBiomass, cutOrgan, smallStand, vget, exampleCutMap]
  have c2 : cutOrganBiomass (smallStand.vc_LeafAreaIndex / vget smallStand.vc_OrganGreenBiomass 1)
      smallStand (exampleCutMap.get ⟨1, by decide⟩) = 70 := by
    norm_num [cutOrganBiomass, cutOrgan, smallStand, vget, exampleCutMap, t2]
  have hs : (exampleCutMap.map
      (cutOrganBiomass (smallStand.vc_LeafAreaIndex / vget smallStand.vc_OrganGreenBiomass 1)
        smallStand)).sum = 79 := by
    have e : exampleCutMap = [exampleCutMap.get ⟨0, by decide⟩,
      exampleCutMap.get ⟨1, by decide⟩] := rfl
    rw [e, List.map_cons, List.map_cons, List.map_nil, List.sum_cons, List.sum_cons,
      List.sum_nil, c1, c2]
    norm_num
  rw [c1] at h1
  rw [c2] at h2
  rw [hs] at he ha
  have e1 : vget smallStand.vc_OrganBiomass (exampleCutMap.get ⟨0, by decide⟩).1.toNat = 10 := by
    norm_num [smallStand, vget, exampleCutMap]
  have e2 : vget smallStand.vc_OrganBiomass (exampleCutMap.get ⟨1, by decide⟩).1.toNat
      = 100 := by
    norm_num [smallStand, vget, exampleCutMap, t2]
  rw [e1] at h1
  rw [e2] at h2
  exact ⟨st', h, h1, h2, he, ha⟩

theorem rootingDepth_cap_le (m2 max3 eff B : ℚ) (h : max3 ≤ B) :
    (if (if m2 > max3 then max3 else m2) > eff then eff
      else (if m2 > max3 then max3 else m2)) ≤ B := by
  split_ifs with h1 h2 h2 <;> linarith

theorem maxRootingDepth_cap_le (max1 B imp : ℚ) :
    (if imp > 0 then min (if max1 > B then B else max1) imp
      else (if max1 > B then B else max1)) ≤ B := by
  have h : (if max1 > B then B else max1) ≤ B := by
    split_ifs with h1
    · exact le_refl _
    · exact not_lt.mp h1
  generalize (if max1 > B then B else max1) = x at h ⊢
  split_ifs
  · exact le_trans (min_le_left _ _) h
  · exact h

/-- After the rooting-depth part of `fc_CropDryMatter` the rooting depth in metres is at most
the depth of the upper edge of the last layer, `(nols - 1) * layerThickness`. -/
theorem fc_CropDryMatter_rootingDepth_m_le (env : RootingEnv) (s : RootingState) :
    (fc_CropDryMatter_rootingDepth env s).vc_RootingDepth_m
      ≤ ((sizeSub env.nols 1 : Nat) : ℚ) * env.layerThickness :=
  rootingDepth_cap_le _ _ _ _ (maxRootingDepth_cap_le _ _ _)

theorem fc_CropDryMatter_rootingLayers_le (m t : ℚ) (nols : Nat) (h1 : 1 ≤ nols)
    (ht : 0 < t) (hm0 : 0 ≤ m) (hm : m ≤ ((nols - 1 : Nat) : ℚ) * t) :
    (fc_CropDryMatter_rootingLayers m t nols).1 ≤ nols - 1 := by
  have hq0 : 0 ≤ m / t := div_nonneg hm0 ht.le
  have hq1 : m / t ≤ ((nols - 1 : Nat) : ℚ) := (div_le_iff₀ ht).mpr hm
  have hf0 : 0 ≤ ⌊(0.5 : ℚ) + m / t⌋ := Int.floor_nonneg.mpr (by linarith)
  have hf1 : ⌊(0.5 : ℚ) + m / t⌋ < ((nols : Nat) : Int) := by
    rw [Int.floor_lt]
    have hc : ((nols - 1 : Nat) : ℚ) = (nols : ℚ) - 1 := by
      rw [Nat.cast_sub h1]; simp
    rw [hc] at hq1
    push_cast
    norm_num
    linarith
  have hd : sizeOfInt ⌊(0.5 : ℚ) + m / t⌋ ≤ nols - 1 := by
    unfold sizeOfInt
    rw [if_neg (by omega)]
    omega
  simp only [fc_CropDryMatter_rootingLayers]
  rw [if_neg (by omega)]
  exact hd

/-- Claim C34 (the rooting-depth layer index stays a valid soil-layer index). With at least
one soil layer, a layer thickness above 0 and a resulting rooting depth in metres that is not
negative, the rooting-depth part of `fc_CropDryMatter` leaves `vc_RootingDepth ≤ nols - 1`;
with one clay content per layer the index of the lookup of the next call is in range. -/
theorem rooting_depth_layer_in_range (env : RootingEnv) (s : RootingState)
    (h1 : 1 ≤ env.nols) (hsize : env.nols < sizeRange) (ht : 0 < env.layerThickness)
    (hm : 0 ≤ (fc_CropDryMatter_rootingDepth env s).vc_RootingDepth_m) :
    (fc_CropDryMatter_rootingDepth env s).vc_RootingDepth ≤ env.nols - 1
    ∧ (env.vs_SoilClayContent.length = env.nols →
        (fc_CropDryMatter_rootingDepth env s).vc_RootingDepth
          < env.vs_SoilClayContent.length) := by
  have hle := fc_CropDryMatter_rootingDepth_m_le env s
  rw [sizeSub_one env.nols h1 hsize] at hle
  have hd : (fc_CropDryMatter_rootingDepth env s).vc_RootingDepth
      = (fc_CropDryMatter_rootingLayers (fc_CropDryMatter_rootingDepth env s).vc_RootingDepth_m
          env.layerThickness env.nols).1 := rfl
  have h := fc_CropDryMatter_rootingLayers_le _ env.layerThickness env.nols h1 ht hm hle
  rw [← hd] at h
  refine ⟨h, fun hl => ?_⟩
  rw [hl]
  omega

/-- Claim C34, witness: roots at 1.9 m in a soil of 20 layers of 0.1 m. The day adds
`15 * (1/3 + 0.5/0.06 * 0.05) * 0.0012` m, the maximum rooting depth is cut from 2.5 m to
`19 * 0.1 = 1.9` m and holds the rooting depth there: the layer index is 19. -/
theorem rooting_depth_layer_in_range_witness :
    (fc_CropDryMatter_rootingDepth exampleRootingEnv deepRootState).vc_RootingDepth_m = 19 / 10
    ∧ (fc_CropDryMatter_rootingDepth exampleRootingEnv deepRootState).vc_RootingDepth = 19
    ∧ (fc_CropDryMatter_rootingDepth exampleRootingEnv deepRootState).vc_RootingDepth
        ≤ exampleRootingEnv.nols - 1
    ∧ (fc_CropDryMatter_rootingDepth exampleRootingEnv deepRootState).vc_RootingDepth
        < exampleRootingEnv.vs_SoilClayContent.length := by
  have e : sizeSub 20 1 = 19 := sizeSub_one 20 (by norm_num) (by unfold sizeRange; omega)
  have e6 : sizeSub 6 1 = 5 := sizeSub_one 6 (by norm_num) (by unfold sizeRange; omega)
  have hv : (fc_CropDryMatter_rootingDepth exampleRootingEnv deepRootState).vc_RootingDepth_m
      = 19 / 10 := by
    norm_num [fc_CropDryMatter_rootingDepth, exampleRootingEnv, deepRootState, vget, e, e6]
  have h := rooting_depth_layer_in_range exampleRootingEnv deepRootState (by decide)
    (by unfold sizeRange; decide) (by norm_num [exampleRootingEnv]) (by rw [hv]; norm_num)
  have hd : (fc_CropDryMatter_rootingDepth exampleRootingEnv deepRootState).vc_RootingDepth
      = (fc_CropDryMatter_rootingLayers
          (fc_CropDryMatter_rootingDepth exampleRootingEnv deepRootState).vc_RootingDepth_m
          exampleRootingEnv.layerThickness exampleRootingEnv.nols).1 := rfl
  refine ⟨hv, ?_, h.1, h.2 rfl⟩
  rw [hd, hv]
  have hfl : ⌊(0.5 : ℚ) + 19 / 10 / 0.1⌋ = 19 := by
    rw [Int.floor_eq_iff]; norm_num
  simp only [fc_CropDryMatter_rootingLayers, exampleRootingEnv, hfl]
  decide
theorem calculateCropYield_loop_isSome (ycs : List YieldComponent) (bmv : List ℚ) (y0 : ℚ)
    (hids : ∀ yc ∈ ycs, 1 ≤ yc.organId ∧ yc.organId ≤ bmv.length) :
    ∃ y, ycs.foldlM (fun yield yc =>
      match vat bmv (yc.organId - 1) with
      | some b => some (yield + b * yc.yieldPercentage)
      | Option.none => Option.none) y0 = some y := by
  induction ycs generalizing y0 with
  | nil => exact ⟨y0, rfl⟩
  | cons yc t ih =>
    obtain ⟨h1, h2⟩ := hids yc (List.mem_cons_self yc t)
    have hv : vat bmv (yc.organId - 1) = some (vget bmv (yc.organId - 1).toNat) := by
      unfold vat
      rw [if_pos ⟨by omega, by omega⟩]
    obtain ⟨y, hy⟩ := ih (y0 + vget bmv (yc.organId - 1).toNat * yc.yieldPercentage)
      (fun q hq => hids q (List.mem_cons_of_mem yc hq))
    refine ⟨y, ?_⟩
    rw [List.foldlM_cons]
    simp only [hv]
    exact hy

/-- `calculateCropYield` returns when every component names an organ of the biomass
vector. -/
theorem calculateCropYield_isSome (ycs : List YieldComponent) (bmv : List ℚ)
    (hids : ∀ yc ∈ ycs, 1 ≤ yc.organId ∧ yc.organId ≤ bmv.length) :
    ∃ y, calculateCropYield ycs bmv = some y :=
  calculateCropYield_loop_isSome ycs bmv 0 hids

/-- Claim C39 (nitrogen is partitioned without loss between yield and residues). When every
primary-yield component names an organ of the crop, `pc_ResidueNRatio` is not 0 and the two
denominators of the concentration getters are not 0, the getters return and
`get_PrimaryYieldNContent() + get_ResiduesNContent(false)` is
`vc_TotalBiomassNContent - rootBiomass * rootNConcentration`, for every organ biomass vector
and primary-yield component list. -/
theorem nitrogen_partitioned_without_loss (m : YieldEnv)
    (hids : ∀ yc ∈ m.pc_OrganIdsForPrimaryYield,
      1 ≤ yc.organId ∧ yc.organId ≤ m.vc_OrganBiomass.length)
    (hr : m.pc_ResidueNRatio ≠ 0)
    (hden : ∀ y, get_PrimaryCropYield m = some y →
      (y / m.pc_ResidueNRatio) + (m.vc_TotalBiomass - get_OrganBiomass m 0 - y) ≠ 0
      ∧ y + (m.pc_ResidueNRatio * (m.vc_TotalBiomass - get_OrganBiomass m 0 - y)) ≠ 0) :
    ∃ yieldN residueN, get_PrimaryYieldNContent m = some yieldN
      ∧ get_ResiduesNContent m false = some residueN
      ∧ yieldN + residueN
          = m.vc_TotalBiomassNContent - get_OrganBiomass m 0 * get_RootNConcentration m := by
  obtain ⟨y, hy⟩ : ∃ y, get_PrimaryCropYield m = some y :=
    calculateCropYield_isSome _ _ hids
  obtain ⟨hd1, hd2⟩ := hden y hy
  refine ⟨y * ((m.vc_TotalBiomassNContent - (get_OrganBiomass m 0 * get_RootNConcentration m))
      / (y + (m.pc_ResidueNRatio * (m.vc_TotalBiomass - get_OrganBiomass m 0 - y)))),
    (m.vc_TotalBiomass - get_OrganBiomass m 0 - y - 0)
      * ((m.vc_TotalBiomassNContent - (get_OrganBiomass m 0 * get_RootNConcentration m))
        / ((y / m.pc_ResidueNRatio) + (m.vc_TotalBiomass - get_OrganBiomass m 0 - y))),
    ?_, ?_, ?_⟩
  · simp only [get_PrimaryYieldNContent, get_PrimaryYieldNConcentration, hy]
  · simp only [get_ResiduesNContent, get_ResidueBiomass, get_ResiduesNConcentration, hy,
      Bool.false_eq_true, if_false]
  · generalize m.vc_TotalBiomassNContent - get_OrganBiomass m 0 * get_RootNConcentration m
      = A
    generalize m.vc_TotalBiomass - get_OrganBiomass m 0 = T at hd1 hd2 ⊢
    generalize m.pc_ResidueNRatio = r at hr hd1 hd2 ⊢
    have e1 : y / r + (T - y) = (y + r * (T - y)) / r := by
      field_simp
      ring
    rw [e1]
    have e2 : (T - y - 0) * (A / ((y + r * (T - y)) / r))
        = r * (T - y) * A / (y + r * (T - y)) := by
      field_simp
      ring
    rw [e2, mul_div_assoc', ← add_div, div_eq_iff hd2]
    ring

/-- Claim C39, witness: the example crop. The primary yield is `4000 * 0.8 = 3200`, the
residues are `10000 - 2000 - 3200 = 4800`, the nitrogen outside the root is
`150 - 2000 * 0.01 = 130`, of which `3200 * 130 / 5600` is in the yield and
`4800 * 130 / 11200` in the residues. -/
theorem nitrogen_partitioned_without_loss_witness :
    get_PrimaryYieldNContent exampleYieldEnv = some (520 / 7)
    ∧ get_ResiduesNContent exampleYieldEnv false = some (390 / 7)
    ∧ ∃ yieldN residueN, get_PrimaryYieldNContent exampleYieldEnv = some yieldN
      ∧ get_ResiduesNContent exampleYieldEnv false = some residueN
      ∧ yieldN + residueN
          = exampleYieldEnv.vc_TotalBiomassNContent
            - get_OrganBiomass exampleYieldEnv 0 * get_RootNConcentration exampleYieldEnv := by
  have hy : get_PrimaryCropYield exampleYieldEnv = some 3200 := by
    have t3 : Int.toNat 3 = 3 := rfl
    norm_num [get_PrimaryCropYield, calculateCropYield, exampleYieldEnv, vat, vget,
      List.foldlM, t3]
  have hroot : get_OrganBiomass exampleYieldEnv 0 = 2000 := by
    norm_num [get_OrganBiomass, exampleYieldEnv, vget]
  refine ⟨?_, ?_, nitrogen_partitioned_without_loss exampleYieldEnv ?_ ?_ ?_⟩
  · simp only [get_PrimaryYieldNContent, get_PrimaryYieldNConcentration, hy, hroot]
    norm_num [exampleYieldEnv, get_RootNConcentration]
  · simp only [get_ResiduesNContent, get_ResidueBiomass, get_ResiduesNConcentration, hy, hroot,
      Bool.false_eq_true, if_false]
    norm_num [exampleYieldEnv, get_RootNConcentration]
  · intro yc hyc
    simp only [exampleYieldEnv, List.mem_singleton] at hyc
    subst hyc
    exact ⟨by norm_num, by norm_num [exampleYieldEnv]⟩
  · norm_num [exampleYieldEnv]
  · intro y h
    rw [hy] at h
    simp only [Option.some.injEq] at h
    subst h
    rw [hroot]
    norm_num [exampleYieldEnv]

/-- The legume with demand `D = 10` kg N/ha, for every C library: the layer loops of
`fc_CropNUptake` give the soil uptake `U = 4` kg N/ha and the function sets `vc_FixedN` to 5,
which is not `0.5 * (10 - 4)`. -/
theorem legume_fixation_values (lm : Libm) :
    legumeEnv.vc_DevelopmentalStage < legumeEnv.vc_FinalDevelopmentalStage
    ∧ (fc_CropNUptake_totals lm legumeEnv 1 10).1 = 4
    ∧ (fc_CropNUptake_totals lm legumeEnv 1 10).1 < legumeEnv.vc_CropNDemand * 10000
    ∧ (fc_CropNUptake_totals lm legumeEnv 1 10).2.1 = 5
    ∧ (fc_CropNUptake_totals lm legumeEnv 1 10).2.1
        ≠ legumeEnv.pc_PartBiologicalNFixation
          * (legumeEnv.vc_CropNDemand * 10000 - (fc_CropNUptake_totals lm legumeEnv 1 10).1) := by
  have hc : convectiveNUptakeFromLayer legumeEnv 0 = 1 / 2500 := by
    norm_num [convectiveNUptakeFromLayer, legumeEnv, vget]
  have hd : diffusiveNUptakeFromLayer lm legumeEnv 0 = 0 := by
    norm_num [diffusiveNUptakeFromLayer, legumeEnv, vget]
  have hu : layerNUptake lm legumeEnv (1 / 2500) 0 0 = 1 / 2500 := by
    simp only [layerNUptake, hc, hd]
    norm_num [legumeEnv, vget]
  have hU : (fc_CropNUptake_totals lm legumeEnv 1 10).1 = 4 := by
    simp only [fc_CropNUptake_totals]
    rw [if_pos (by decide)]
    have hn : min 1 10 = 1 := rfl
    simp only [hn, layerSum, hc, hd, zero_add, hu]
    split_ifs <;> norm_num
  have hF : (fc_CropNUptake_totals lm legumeEnv 1 10).2.1 = 5 := by
    simp only [fc_CropNUptake_totals]
    rw [if_pos (by decide)]
    have hn : min 1 10 = 1 := rfl
    simp only [hn, layerSum, hc, hd, zero_add, hu]
    norm_num [legumeEnv]
  refine ⟨by decide, hU, ?_, hF, ?_⟩
  · rw [hU]; norm_num [legumeEnv]
  · rw [hF, hU]; norm_num [legumeEnv]

/-- Counterexample to C32 as stated: the legume with demand `D = 10` kg N/ha and soil uptake
`U = 4` kg N/ha. `U < D`, and `fc_CropNUptake` sets `vc_FixedN` to `0.5 * 10 = 5`, the fixed
fraction of the demand, which the unmet demand 6 does not cap; the fixed fraction of the unmet
demand is `0.5 * (10 - 4) = 3`. -/
theorem fixed_fraction_of_unmet_demand_counterexample :
    legumeEnv.vc_DevelopmentalStage < legumeEnv.vc_FinalDevelopmentalStage
    ∧ (fc_CropNUptake_totals libmQ legumeEnv 1 10).1 = 4
    ∧ (fc_CropNUptake_totals libmQ legumeEnv 1 10).1 < legumeEnv.vc_CropNDemand * 10000
    ∧ (fc_CropNUptake_totals libmQ legumeEnv 1 10).2.1 = 5
    ∧ (fc_CropNUptake_totals libmQ legumeEnv 1 10).2.1
        ≠ legumeEnv.pc_PartBiologicalNFixation
          * (legumeEnv.vc_CropNDemand * 10000
            - (fc_CropNUptake_totals libmQ legumeEnv 1 10).1) :=
  legume_fixation_values libmQ

/-- Claim C32 as amended (biological fixation). For a crop that has not matured
`fc_CropNUptake` sets `vc_FixedN` to `min(pc_PartBiologicalNFixation * D, D - U)`, where
`D = vc_CropNDemand * 10000` is the crop N demand and `U = vc_TotalNUptake` the total soil N
uptake, both in kg N/ha, in particular whenever `U` is below `D`; `vc_TotalNInput` is then
`U + vc_FixedN`. -/
theorem biological_fixation (lm : Libm) (env : NUptakeEnv)
    (vc_RootingZone vc_GroundwaterTable : Nat)
    (hstage : env.vc_DevelopmentalStage < env.vc_FinalDevelopmentalStage) :
    (fc_CropNUptake_totals lm env vc_RootingZone vc_GroundwaterTable).2.1
      = min (env.pc_PartBiologicalNFixation * (env.vc_CropNDemand * 10000))
          (env.vc_CropNDemand * 10000
            - (fc_CropNUptake_totals lm env vc_RootingZone vc_GroundwaterTable).1)
    ∧ (fc_CropNUptake_totals lm env vc_RootingZone vc_GroundwaterTable).2.2
      = (fc_CropNUptake_totals lm env vc_RootingZone vc_GroundwaterTable).1
        + (fc_CropNUptake_totals lm env vc_RootingZone vc_GroundwaterTable).2.1 := by
  simp only [fc_CropNUptake_totals]
  rw [if_pos hstage]
  generalize layerSum (fun i => layerNUptake lm env
    (layerSum (convectiveNUptakeFromLayer env) (min vc_RootingZone vc_GroundwaterTable))
    (layerSum (diffusiveNUptakeFromLayer lm env) (min vc_RootingZone vc_GroundwaterTable))
    i * 10000) (min vc_RootingZone vc_GroundwaterTable) = U
  have e : env.pc_PartBiologicalNFixation * env.vc_CropNDemand * 10000
      = env.pc_PartBiologicalNFixation * (env.vc_CropNDemand * 10000) := by ring
  rw [e]
  generalize env.pc_PartBiologicalNFixation * (env.vc_CropNDemand * 10000) = F
  generalize env.vc_CropNDemand * 10000 = D
  by_cases h : D - U < F
  · rw [if_pos h]
    refine ⟨(min_eq_right h.le).symm, ?_⟩
    show D = U + (D - U)
    ring
  · rw [if_neg h]
    exact ⟨(min_eq_left (not_lt.mp h)).symm, rfl⟩

/-- Claim C32 as amended, witness: the legume with `D = 10` and `U = 4`; `vc_FixedN` is
`min(5, 6) = 5` and `vc_TotalNInput` is 9. -/
theorem biological_fixation_witness :
    (fc_CropNUptake_totals libmQ legumeEnv 1 10).2.1
      = min (legumeEnv.pc_PartBiologicalNFixation * (legumeEnv.vc_CropNDemand * 10000))
          (legumeEnv.vc_CropNDemand * 10000 - (fc_CropNUptake_totals libmQ legumeEnv 1 10).1)
    ∧ (fc_CropNUptake_totals libmQ legumeEnv 1 10).2.2
      = (fc_CropNUptake_totals libmQ legumeEnv 1 10).1
        + (fc_CropNUptake_totals libmQ legumeEnv 1 10).2.1
    ∧ min (legumeEnv.pc_PartBiologicalNFixation * (legumeEnv.vc_CropNDemand * 10000))
        (legumeEnv.vc_CropNDemand * 10000 - 4) = 5 := by
  have h := biological_fixation libmQ legumeEnv 1 10 (by decide)
  refine ⟨h.1, h.2, ?_⟩
  norm_num [legumeEnv]

end Monica
